import Mathlib

/-!
# Double-buffered ray tracing: scene table, uploads, render passes and device objects

A shallow embedding of `src/ray/src/Ray.cpp` (and of `ray::Call` of `main.cpp`).

Conventions of the embedding.

* A C array `T a[N]` is a function `Fin N → T` (`Arr T N`); `Arr.get` and `Arr.set`
  are `a[i]` as an rvalue and as an assignment target.
* `int` is `Int`, and sizes of `std::vector`s are `Nat`.  Signed overflow, an
  access outside an array and a call through a null pointer are undefined in
  C++; the definitions with the plain names of the source follow the executions
  in which none of them happens, and keep exact integers, the default element
  and the unchanged matrix there.  Conversions that C++ defines (the narrowing
  `(unsigned int)` of a vector size, `++` on an `unsigned int`) are written out
  with `% 2 ^ 32`.
* The definitions under `machine.` are the constructor and `Ray::Update` as the
  compiled program runs them: an `int` has 32 bits and wraps around (`int32`),
  and the call of line 107 through a null pointer ends the process (`none`).
  `machine_Ray_eq` and `machine_Update_eq` show that they are the definitions
  over exact integers whenever no `int` computation leaves the range of `int`
  (`Ray.inRange`, `Ray.Update.inRange`) and every live object has an update
  function (`Table.hasUpdateFns`).
* A `float` is kept as the four bytes of its object representation.  The code of
  the constructor and of the uploads only copies floats; the arithmetic of the
  per-frame helpers is the parameter `FloatOps`.
* `POINTS_PER_UNIT` comes from `constant.h`, and the plane tables from `Unit.h`;
  neither header is part of the sources, so the constant and the descriptor
  array of the constructor are parameters.
* OpenGL calls are recorded, in program order, as a list of `GLCall`; what the
  driver answers to `glGetError` is a parameter.  The effect of the buffer calls
  on the data stores (`GLCall.exec`), the render passes that a list of calls
  amounts to (`renders`) and the depth test at a pixel (`Pixel.step`) follow the
  OpenGL specification.
* `Ray::Initialize` and `Ray::Release` run against a mock device (`Mock`) that
  keeps account of the objects in use and answers the queries of the code; the
  names it hands out, the link and completeness status, the files and the image
  are parameters (`Backend`, `Inputs`).  `PIXELS_W` and `PIXELS_H` come from
  `constant.h` and are parameters too.
* A `for` loop with a `break` is a recursion on the number of iterations left;
  a `for` loop over a fixed range is a fold over `List.range`.
-/

set_option linter.dupNamespace false

namespace ray

/-! ## Constants (Ray.cpp 23-27) -/

abbrev MAXUNITBUFFSIZE : Nat := 20
abbrev MAXPLANEBUFFSIZE : Nat := 200
abbrev MAXOBJECTSIZE : Nat := 5
abbrev MAXUNITSIZE : Nat := 3

/-! ## C arrays -/

/-- The C array type `T a[N]`. -/
abbrev Arr (α : Type) (N : Nat) : Type := Fin N → α

/-- The rvalue `a[i]`. -/
def Arr.get {α : Type} [Inhabited α] {N : Nat} (a : Arr α N) (i : Nat) : α :=
  if h : i < N then a ⟨i, h⟩ else default

/-- The assignment `a[i] = v`. -/
def Arr.set {α : Type} {N : Nat} (a : Arr α N) (i : Nat) (v : α) : Arr α N :=
  fun k => if k.val = i then v else a k

/-! ## Floats and matrices -/

abbrev byte : Type := Fin 256

/-- A C `float`: the four bytes of its object representation, in memory order. -/
structure float where
  b0 : byte
  b1 : byte
  b2 : byte
  b3 : byte
deriving DecidableEq, Repr

/-- The value `0.0f` (all bits clear). -/
def float.zero : float := ⟨0, 0, 0, 0⟩

/-- The value `1.0f` (IEEE-754 binary32 `0x3F800000`, little-endian host). -/
def float.one : float := ⟨0x00, 0x00, 0x80, 0x3F⟩

instance : Inhabited float := ⟨float.zero⟩

def float.bytes (x : float) : List byte := [x.b0, x.b1, x.b2, x.b3]

/-- The C type `float[4][4]`. -/
abbrev Mat4 : Type := Arr (Arr float 4) 4

/-- A value-initialised `float[4][4] = {}`. -/
def Mat4.zero : Mat4 := fun _ _ => float.zero

/-- The loop `for (i < 16) dst[i / 4][i % 4] = src[i / 4][i % 4]` that the source
uses for every matrix copy (lines 287, 470, 1143, 1240, 1247, 1348). -/
def copymat4 (dst src : Mat4) : Mat4 :=
  (List.range 16).foldl
    (fun d i => Arr.set d (i / 4) (Arr.set (Arr.get d (i / 4)) (i % 4) (Arr.get (Arr.get src (i / 4)) (i % 4))))
    dst

/-- The sixteen floats of a `float[4][4]` in memory order (row-major). -/
def Mat4.floats (m : Mat4) : List float :=
  (List.range 16).map (fun i => Arr.get (Arr.get m (i / 4)) (i % 4))

/-- Object representation of a `float[4][4]`: 64 bytes. -/
def Mat4.bytes (m : Mat4) : List byte :=
  m.floats.flatMap float.bytes

/-! ## The table (Ray.cpp 33-60) -/

/-- The C++ `struct Unit` (line 33). -/
structure Unit where
  plstart : Int := 0
  plsize : Int := 0
deriving DecidableEq, Repr, Inhabited

/-- A value of the pointer type `void(*)(float[4][4])`: null, or one of the two
functions of that type defined in Ray.cpp (lines 1232 and 1236). -/
inductive UpdateFn where
  | nullptr
  | updatemat4_default
  | updatemat4
deriving DecidableEq, Repr, Inhabited

/-- The C++ `struct Object` (line 41). -/
structure Object where
  updatemat4 : UpdateFn := UpdateFn.nullptr
  modelmat4 : Mat4 := Mat4.zero
  unitstart : Int := 0
  unitsize : Int := 0
  unit : Arr Unit MAXUNITSIZE := fun _ => {}

instance : Inhabited Object := ⟨{}⟩

/-- The C++ `struct Ray::Table` (line 54). -/
structure Table where
  objectsize : Int := 0
  object : Arr Object MAXOBJECTSIZE := fun _ => {}

instance : Inhabited Table := ⟨{}⟩

/-- The C++ `struct data::Unit` (line 166): one record of the unit buffer. -/
structure data.Unit where
  modelmat4 : Mat4 := Mat4.zero
  texscale : Arr float 2 := fun _ => float.one
  padding : Arr float 2 := fun _ => float.zero

instance : Inhabited data.Unit := ⟨{}⟩

/-- The value of `sizeof(data::Unit)`: twenty floats. -/
abbrev sizeof_data_Unit : Nat := 80

/-- The value of `sizeof(data::Unit::modelmat4)`. -/
abbrev sizeof_modelmat4 : Nat := 64

/-- The value of `sizeof(float)`. -/
abbrev sizeof_float : Nat := 4

/-- Object representation of a `data::Unit`: matrix, texture scale, padding. -/
def data.Unit.bytes (u : data.Unit) : List byte :=
  Mat4.bytes u.modelmat4
    ++ (List.range 2).flatMap (fun i => (Arr.get u.texscale i).bytes)
    ++ (List.range 2).flatMap (fun i => (Arr.get u.padding i).bytes)

/-! ## File-level statics of Ray.cpp -/

/-- Every `static` variable of Ray.cpp that the embedded functions read or write
(lines 443-460, 493, 1112, 1121, 1125, 1214, 1223, 1257, 1263), and the two
function-local statics whose value outlives a call: `texindex` of
`GL_LoadCamRay` (line 998), `none` until its initialiser has run, and `id` of
`GL_UnLoadFbo` (line 948).  The other function-local statics are written on
every pass before they are read. -/
structure Statics where
  dummyvao : Nat := 0
  imgtex : Nat := 0
  camraypostex : Nat := 0
  camraydirtex : Nat := 0
  ray2fbo : Nat := 0
  selectfbo : Nat := 0
  ubounitbuff : Nat := 0
  uboplbuff : Nat := 0
  ray2initprgm : Nat := 0
  ray2prgm : Nat := 0
  selectprgm : Nat := 0
  drawprgm : Nat := 0
  ubomodelmat4 : Mat4 := Mat4.zero
  ubooffset : Int := 0
  ubounitstartindex : Int := 0
  ray2offset : Int := 0
  ray2unitstartindex : Int := 0
  frame : Nat := 0
  firstupderror : Bool := true
  viewmat4 : Mat4 := Mat4.zero
  plbuffindex : Int := 0
  unitbuffindex : Int := 0
  uboindex : Int := 0
  textindex : Int := 0
  texindex : Option Int := none
  id : Nat := 0

/-- Line 1216. -/
def getplbuffindex (st : Statics) : Int := st.plbuffindex

/-- Line 1218, over exact integers; `machine.setnewplbuffindex` is the sum in a
32-bit `int`. -/
def setnewplbuffindex (st : Statics) (increase : Int) : Statics :=
  { st with plbuffindex := st.plbuffindex + increase }

/-- Line 1225. -/
def getunitbuffindex (st : Statics) : Int := st.unitbuffindex

/-- Line 1227, over exact integers; `machine.setunitbuffindex` is the sum in a
32-bit `int`. -/
def setunitbuffindex (st : Statics) (increase : Int) : Statics :=
  { st with unitbuffindex := st.unitbuffindex + increase }

/-! ## OpenGL calls -/

/-- The OpenGL enumerants and bit masks that the embedded functions pass. -/
inductive GLenum where
  | GL_UNIFORM_BUFFER
  | GL_FRAMEBUFFER
  | GL_TRIANGLES
  | GL_ALWAYS
  | GL_GEQUAL
  | GL_LESS
  | GL_DEPTH_BUFFER_BIT
  | GL_COLOR_BUFFER_BIT
  | GL_DEPTH_TEST
  | GL_VERTEX_SHADER
  | GL_GEOMETRY_SHADER
  | GL_FRAGMENT_SHADER
  | GL_LINK_STATUS
  | GL_DYNAMIC_DRAW
  | GL_TEXTURE_2D
  | GL_TEXTURE_2D_ARRAY
  | GL_TEXTURE_MAX_LEVEL
  | GL_TEXTURE_MIN_FILTER
  | GL_TEXTURE_MAG_FILTER
  | GL_DEPTH_ATTACHMENT
  | GL_COLOR_ATTACHMENT0
  | GL_FRAMEBUFFER_ATTACHMENT_OBJECT_NAME
  | GL_DEPTH_COMPONENT32F
  | GL_DEPTH_COMPONENT
  | GL_FLOAT
  | GL_RG16F
  | GL_RG
  | GL_HALF_FLOAT
  | GL_RGBA32F
  | GL_RGBA
  | GL_RGB
  | GL_UNSIGNED_BYTE
deriving DecidableEq, Repr

set_option maxHeartbeats 4000000 in
/-- One OpenGL call with its arguments.  A pointer argument that is read is
recorded as the host memory it points to, one that is written or null is left
out; `glUniform*` calls record the program and the name given to
`glGetUniformLocation` in place of the location, `glUniformBlockBinding` those
given to `glGetUniformBlockIndex`, and `glActiveTexture` the index `i` of
`GL_TEXTURE0 + i`. -/
inductive GLCall where
  | glBindBuffer (target : GLenum) (buffer : Nat)
  | glBufferSubData (target : GLenum) (offset : Int) (size : Int) (data : List byte)
  | glBindFramebuffer (target : GLenum) (framebuffer : Nat)
  | glBindVertexArray (array : Nat)
  | glClearDepth (depth : float)
  | glClear (mask : List GLenum)
  | glDepthFunc (func : GLenum)
  | glUseProgram (program : Nat)
  | glUniform1i (program : Nat) (name : String) (v0 : Int)
  | glUniformMatrix4fv (program : Nat) (name : String) (count : Int) (transpose : Bool)
      (value : List float)
  | glDrawArrays (mode : GLenum) (first : Int) (count : Int)
  | glGetError
  | glEnable (cap : GLenum)
  | glCreateProgram
  | glCreateShader (type : GLenum)
  | glAttachShader (program : Nat) (shader : Nat)
  | glShaderSource (shader : Nat) (count : Int) (string : String)
  | glCompileShader (shader : Nat)
  | glLinkProgram (program : Nat)
  | glGetProgramiv (program : Nat) (pname : GLenum)
  | glGetProgramInfoLog (program : Nat) (maxLength : Int)
  | glGetAttachedShaders (program : Nat) (maxCount : Int)
  | glDeleteShader (shader : Nat)
  | glDeleteProgram (program : Nat)
  | glGenBuffers (n : Int)
  | glBindBufferBase (target : GLenum) (index : Int) (buffer : Nat)
  | glBufferData (target : GLenum) (size : Int) (usage : GLenum)
  | glUniformBlockBinding (program : Nat) (name : String) (binding : Int)
  | glDeleteBuffers (n : Int) (buffers : List Nat)
  | glGenFramebuffers (n : Int)
  | glDrawBuffers (n : Int) (bufs : List GLenum)
  | glCheckFramebufferStatus (target : GLenum)
  | glGetFramebufferAttachmentParameteriv (target : GLenum) (attachment : GLenum)
      (pname : GLenum)
  | glDeleteFramebuffers (n : Int) (framebuffers : List Nat)
  | glActiveTexture (unit : Int)
  | glGenTextures (n : Int)
  | glBindTexture (target : GLenum) (texture : Nat)
  | glFramebufferTexture (target : GLenum) (attachment : GLenum) (texture : Nat) (level : Int)
  | glTexImage3D (target : GLenum) (level : Int) (internalformat : GLenum) (width : Int)
      (height : Int) (depth : Int) (border : Int) (format : GLenum) (type : GLenum)
  | glTexImage2D (target : GLenum) (level : Int) (internalformat : GLenum) (width : Int)
      (height : Int) (border : Int) (format : GLenum) (type : GLenum) (pixels : List byte)
  | glTexParameteri (target : GLenum) (pname : GLenum) (param : Int)
  | glDeleteTextures (n : Int) (textures : List Nat)
  | glUniform1iv (program : Nat) (name : String) (count : Int) (value : List Int)
  | glGenVertexArrays (n : Int)
  | glClearColor (red : float) (green : float) (blue : float) (alpha : float)
  | glDeleteVertexArrays (n : Int) (arrays : List Nat)
deriving DecidableEq, Repr

/-- Lines 1147-1155.  `pending` is the number of error flags the driver holds
when the check starts: each `glGetError` returns and clears one of them, and the
loop ends on the first `GL_NO_ERROR`. -/
def GL_CheckError (pending : Nat) : Bool × List GLCall :=
  (decide (0 < pending), List.replicate (pending + 1) GLCall.glGetError)

/-- Lines 624-634. -/
def GL_PlaneBuffer_Reset (POINTS_PER_UNIT : Nat) (st : Statics) (plbuff : List float)
    (plbufflines : Nat) : List GLCall :=
  [ GLCall.glBindBuffer GLenum.GL_UNIFORM_BUFFER st.uboplbuff,
    GLCall.glBufferSubData GLenum.GL_UNIFORM_BUFFER 0
      ((sizeof_float * POINTS_PER_UNIT * plbufflines : Nat) : Int) (plbuff.flatMap float.bytes),
    GLCall.glBindBuffer GLenum.GL_UNIFORM_BUFFER 0 ]

/-- Lines 636-646: the overload `GL_UnitBuffer_Reset(const data::Unit*, unsigned int)`. -/
def GL_UnitBuffer_Reset_unitbuff (st : Statics) (unitbuff : List data.Unit)
    (unitbuffsize : Nat) : List GLCall :=
  [ GLCall.glBindBuffer GLenum.GL_UNIFORM_BUFFER st.ubounitbuff,
    GLCall.glBufferSubData GLenum.GL_UNIFORM_BUFFER 0
      ((sizeof_data_Unit * unitbuffsize : Nat) : Int) (unitbuff.flatMap data.Unit.bytes),
    GLCall.glBindBuffer GLenum.GL_UNIFORM_BUFFER 0 ]

/-! ## The constructor `Ray::Ray` (Ray.cpp 194-317) -/

/-- The constructor-local `struct Unit` (line 202).  `buff` is the memory behind
the pointer: `buff i` is `((float*)buff)[i]`. -/
structure Ray.Unit where
  linesize : Int := 0
  buff : Nat → float := fun _ => float.zero
  att : data.Unit := {}

instance : Inhabited Ray.Unit := ⟨{}⟩

/-- The constructor-local `struct Object` (line 207). -/
structure Ray.Object where
  unit : Arr Ray.Unit MAXUNITSIZE := fun _ => {}
  modelmat : Mat4 := Mat4.zero
  updatemat4 : UpdateFn := UpdateFn.nullptr

instance : Inhabited Ray.Object := ⟨{}⟩

/-- The assignment target `table->object[n]`. -/
def Table.modifyObject (t : Table) (n : Nat) (f : Object → Object) : Table :=
  { t with object := Arr.set t.object n (f (Arr.get t.object n)) }

/-- The assignment target `object.unit[m]`. -/
def Object.modifyUnit (o : Object) (m : Nat) (f : Unit → Unit) : Object :=
  { o with unit := Arr.set o.unit m (f (Arr.get o.unit m)) }

/-- The variables live inside the body of the object loop (lines 251-252),
with the table and the statics. -/
structure Ray.Inner where
  table : Table
  st : Statics
  unitsize : Int
  tmpunitbuff : List data.Unit
  tmpplbuff : List float

/-- The variables live across the object loop (lines 239-240), with the table
and the statics. -/
structure Ray.Outer where
  table : Table
  st : Statics
  objectsize : Int
  plbuff : List float
  unitbuff : List data.Unit

/-- Line 267: push `POINTS_PER_UNIT * linesize` floats read through `buff`, the
product taken over exact integers; `machine.Ray.pushplane` takes it in a 32-bit
`int`. -/
def Ray.pushplane (POINTS_PER_UNIT : Nat) (u : Ray.Unit) (tmpplbuff : List float) : List float :=
  (List.range ((POINTS_PER_UNIT : Int) * u.linesize).toNat).foldl
    (fun v i => v ++ [u.buff i]) tmpplbuff

/-- Lines 260-271: the body of the unit loop after the sentinel test. -/
def Ray.unitBody (POINTS_PER_UNIT : Nat) (u : Ray.Unit) (n m : Nat) (s : Ray.Inner) : Ray.Inner :=
  let t1 := s.table.modifyObject n (fun o => o.modifyUnit m (fun x => { x with plsize := u.linesize }))
  let t2 := t1.modifyObject n (fun o => o.modifyUnit m (fun x => { x with plstart := getplbuffindex s.st }))
  { table := t2
    st := setnewplbuffindex s.st u.linesize
    unitsize := s.unitsize + 1
    tmpunitbuff := s.tmpunitbuff ++ [u.att]
    tmpplbuff := Ray.pushplane POINTS_PER_UNIT u s.tmpplbuff }

/-- Lines 256-273: `for (m; m < MAXUNITSIZE; ++m)`, entered at `m` with
`k = MAXUNITSIZE - m` iterations left. -/
def Ray.unitLoop (POINTS_PER_UNIT : Nat) (o : Ray.Object) (n : Nat) :
    Nat → Nat → Ray.Inner → Ray.Inner
  | 0, _, s => s
  | k + 1, m, s =>
    if (Arr.get o.unit m).linesize = 0 then s
    else Ray.unitLoop POINTS_PER_UNIT o n k (m + 1)
      (Ray.unitBody POINTS_PER_UNIT (Arr.get o.unit m) n m s)

/-- Lines 251-292: the body of the object loop after the sentinel test. -/
def Ray.objectBody (POINTS_PER_UNIT : Nat) (o : Ray.Object) (n : Nat) (s : Ray.Outer) : Ray.Outer :=
  let i := Ray.unitLoop POINTS_PER_UNIT o n MAXUNITSIZE 0
    { table := s.table, st := s.st, unitsize := 0, tmpunitbuff := [], tmpplbuff := [] }
  let t1 := i.table.modifyObject n (fun x => { x with unitsize := i.unitsize })
  let t2 := t1.modifyObject n (fun x => { x with unitstart := getunitbuffindex i.st })
  let t3 := t2.modifyObject n (fun x => { x with modelmat4 := copymat4 x.modelmat4 o.modelmat })
  let t4 := t3.modifyObject n (fun x => { x with updatemat4 := o.updatemat4 })
  { table := t4
    st := setunitbuffindex i.st i.unitsize
    objectsize := s.objectsize + 1
    plbuff := i.tmpplbuff.foldl (fun v elm => v ++ [elm]) s.plbuff
    unitbuff := i.tmpunitbuff.foldl (fun v elm => v ++ [elm]) s.unitbuff }

/-- Lines 246-294: `for (n; n < MAXOBJECTSIZE; ++n)`, entered at `n` with
`k = MAXOBJECTSIZE - n` iterations left. -/
def Ray.objectLoop (POINTS_PER_UNIT : Nat) (object : Arr Ray.Object MAXOBJECTSIZE) :
    Nat → Nat → Ray.Outer → Ray.Outer
  | 0, _, s => s
  | k + 1, n, s =>
    if (Arr.get (Arr.get object n).unit 0).linesize = 0 then s
    else Ray.objectLoop POINTS_PER_UNIT object k (n + 1)
      (Ray.objectBody POINTS_PER_UNIT (Arr.get object n) n s)

/-- What the constructor leaves behind: the new table, the statics, the two
assembled host arrays, the text sent to `std::cout`, the OpenGL calls, and the
two count arguments of the upload helpers. -/
structure Ray.Result where
  table : Table
  st : Statics
  plbuff : List float
  unitbuff : List data.Unit
  plbufflines : Nat
  unitbuffsize : Nat
  cout : List String
  gl : List GLCall

/-- The constructor (lines 194-317) run on the descriptor array `object`, from
the statics `st`; `pending` is the number of OpenGL error flags set when
line 315 polls them. -/
def Ray.Ray (POINTS_PER_UNIT : Nat) (object : Arr Ray.Object MAXOBJECTSIZE) (st : Statics)
    (pending : Nat) : Ray.Result :=
  let s := Ray.objectLoop POINTS_PER_UNIT object MAXOBJECTSIZE 0
    { table := {}, st := st, objectsize := 0, plbuff := [], unitbuff := [] }
  let table : Table := { s.table with objectsize := s.objectsize }
  let plbufflines := s.plbuff.length % 2 ^ 32 / POINTS_PER_UNIT
  let unitbuffsize := s.unitbuff.length % 2 ^ 32
  let err := GL_CheckError pending
  { table := table
    st := s.st
    plbuff := s.plbuff
    unitbuff := s.unitbuff
    plbufflines := plbufflines
    unitbuffsize := unitbuffsize
    cout :=
      (if s.plbuff.length > POINTS_PER_UNIT * MAXPLANEBUFFSIZE
        then ["Error: Plane buffer size error.\n"] else [])
      ++ (if s.unitbuff.length > MAXUNITBUFFSIZE
        then ["Error: Ray unit buffer size error.\n"] else [])
      ++ (if err.1 then ["Error: Error has been confirmed in constructor.\n."] else [])
    gl := GL_PlaneBuffer_Reset POINTS_PER_UNIT s.st s.plbuff plbufflines
      ++ GL_UnitBuffer_Reset_unitbuff s.st s.unitbuff unitbuffsize
      ++ err.2 }

/-! ## Closed forms of the constructor loops

Auxiliary functions in which the lemmas below describe what the loops of the
constructor compute. -/

/-- The floats of one unit, in the order line 267 reads them. -/
def Ray.plane (POINTS_PER_UNIT : Nat) (u : Ray.Unit) : List float :=
  (List.range ((POINTS_PER_UNIT : Int) * u.linesize).toNat).map u.buff

/-- The number of units the loop of lines 256-273 accepts when entered at `m`
with `k` iterations left. -/
def Ray.nunits (o : Ray.Object) : Nat → Nat → Nat
  | 0, _ => 0
  | k + 1, m => if (Arr.get o.unit m).linesize = 0 then 0 else Ray.nunits o k (m + 1) + 1

/-- The unit array that the loop of lines 256-273 leaves in `table->object[n]`
when it starts from the array `old` at index `m` with plane counter `p`
and accepts `c` units. -/
def Ray.unitsAfter (o : Ray.Object) (m c : Nat) (p : Int) (old : Arr ray.Unit MAXUNITSIZE) :
    Arr ray.Unit MAXUNITSIZE :=
  fun i =>
    if m ≤ i.val ∧ i.val < m + c then
      { plstart := p + ∑ j in Finset.range (i.val - m), (Arr.get o.unit (m + j)).linesize
        plsize := (Arr.get o.unit i.val).linesize }
    else old i

/-- The number of units the constructor accepts for a descriptor object. -/
def Ray.unitcount (o : Ray.Object) : Nat := Ray.nunits o MAXUNITSIZE 0

/-- The sum of the line counts of the accepted units of a descriptor object. -/
def Ray.linetotal (o : Ray.Object) : Int :=
  ∑ j in Finset.range (Ray.unitcount o), (Arr.get o.unit j).linesize

/-- The floats one descriptor object contributes to `plbuff`. -/
def Ray.objplane (POINTS_PER_UNIT : Nat) (o : Ray.Object) : List float :=
  (List.range (Ray.unitcount o)).flatMap (fun j => Ray.plane POINTS_PER_UNIT (Arr.get o.unit j))

/-- The records one descriptor object contributes to `unitbuff`. -/
def Ray.objatts (o : Ray.Object) : List data.Unit :=
  (List.range (Ray.unitcount o)).map (fun j => (Arr.get o.unit j).att)

/-- The number of objects the loop of lines 246-294 accepts when entered at
`n` with `k` iterations left. -/
def Ray.nobjects (object : Arr Ray.Object MAXOBJECTSIZE) : Nat → Nat → Nat
  | 0, _ => 0
  | k + 1, n =>
    if (Arr.get (Arr.get object n).unit 0).linesize = 0 then 0
    else Ray.nobjects object k (n + 1) + 1

/-- Both counters advanced. -/
def Statics.advance (st : Statics) (a b : Int) : Statics :=
  { st with plbuffindex := st.plbuffindex + a, unitbuffindex := st.unitbuffindex + b }

/-- The table entry that lines 251-289 leave for descriptor object `o`, when
the counters stand at `p` and `u` and the entry was `old`. -/
def Ray.objectAfter (o : Ray.Object) (p u : Int) (old : ray.Object) : ray.Object :=
  { updatemat4 := o.updatemat4
    modelmat4 := o.modelmat
    unitstart := u
    unitsize := Ray.unitcount o
    unit := Ray.unitsAfter o 0 (Ray.unitcount o) p old.unit }

/-- The object array that the loop of lines 246-294 leaves when it starts from
`old` at index `n` with the counters at `p` and `u` and accepts `c` objects. -/
def Ray.objectsAfter (object : Arr Ray.Object MAXOBJECTSIZE) (n c : Nat) (p u : Int)
    (old : Arr ray.Object MAXOBJECTSIZE) : Arr ray.Object MAXOBJECTSIZE :=
  fun i =>
    if n ≤ i.val ∧ i.val < n + c then
      Ray.objectAfter (Arr.get object i.val)
        (p + ∑ j in Finset.range (i.val - n), Ray.linetotal (Arr.get object (n + j)))
        (u + ∑ j in Finset.range (i.val - n), (Ray.unitcount (Arr.get object (n + j)) : Int))
        (old i)
    else old i

/-- The number of objects the constructor accepts. -/
def Ray.objectcount (object : Arr Ray.Object MAXOBJECTSIZE) : Nat :=
  Ray.nobjects object MAXOBJECTSIZE 0

/-- Unit `m` of object `n` of a table. -/
def Table.unitAt (t : Table) (n m : Nat) : ray.Unit := Arr.get (Arr.get t.object n).unit m

/-- Unit `m` of object `n` is live: `n < objectsize` and `m < object[n].unitsize`,
the bounds of the loops of `Ray::Update`. -/
def Table.live (t : Table) (n m : Nat) : Prop :=
  (n : Int) < t.objectsize ∧ (m : Int) < (Arr.get t.object n).unitsize

instance (t : Table) (n m : Nat) : Decidable (t.live n m) := by
  unfold Table.live; infer_instance

/-- The line count written in the descriptor for unit `m` of object `n`. -/
def Ray.linesizeAt (object : Arr Ray.Object MAXOBJECTSIZE) (n m : Nat) : Int :=
  (Arr.get (Arr.get object n).unit m).linesize

/-! ## Sample inputs and vocabulary of the statements -/

/-- A float with first byte `n`, to tell sample values apart. -/
def sample.fl (n : Nat) : float := ⟨Fin.ofNat n, 0, 0, 0⟩

/-- A sample descriptor unit of `ls` lines whose floats are `tag, tag + 1, ...`
and whose texture scale is `(tag, tag + 1)`. -/
def sample.unit (ls : Int) (tag : Nat) : Ray.Unit :=
  { linesize := ls
    buff := fun i => sample.fl (tag + i)
    att := { texscale := ![sample.fl tag, sample.fl (tag + 1)] } }

/-- A sample descriptor array: two objects of two units each, then empty slots. -/
def sample.objects : Arr Ray.Object MAXOBJECTSIZE :=
  ![{ unit := ![sample.unit 2 10, sample.unit 1 20, {}], updatemat4 := UpdateFn.updatemat4 },
    { unit := ![sample.unit 1 30, sample.unit 3 40, {}], updatemat4 := UpdateFn.updatemat4_default },
    {}, {}, {}]

/-- The sum of `plsize` over the live units of the live objects of a table. -/
def Table.plsizeSum (t : Table) : Int :=
  ((List.range t.objectsize.toNat).map (fun n =>
    ((List.range (Arr.get t.object n).unitsize.toNat).map (fun m => (t.unitAt n m).plsize)).sum)).sum

/-- A descriptor array with one object whose second unit has a negative line count. -/
def sample.negative : Arr Ray.Object MAXOBJECTSIZE :=
  ![{ unit := ![sample.unit 2 10, sample.unit (-1) 20, sample.unit 2 30],
      updatemat4 := UpdateFn.updatemat4 },
    {}, {}, {}, {}]

/-- A descriptor array with one object of three units of 150000000 lines each:
with twelve floats per line every `int` of the constructor stays in range
(`12 * 150000000 < 2 ^ 31`), and the assembled array has 5400000000 floats. -/
def sample.huge : Arr Ray.Object MAXOBJECTSIZE :=
  ![{ unit := ![sample.unit 150000000 0, sample.unit 150000000 0, sample.unit 150000000 0],
      updatemat4 := UpdateFn.updatemat4_default },
    {}, {}, {}, {}]

/-- A descriptor array with the same two objects as `sample.objects`, an empty
slot whose later units are not empty, and two further non-empty slots. -/
def sample.objectsTail : Arr Ray.Object MAXOBJECTSIZE :=
  ![{ unit := ![sample.unit 2 10, sample.unit 1 20, {}], updatemat4 := UpdateFn.updatemat4 },
    { unit := ![sample.unit 1 30, sample.unit 3 40, {}], updatemat4 := UpdateFn.updatemat4_default },
    { unit := ![{}, sample.unit 5 50, sample.unit 6 60] },
    { unit := ![sample.unit 7 70, {}, {}], updatemat4 := UpdateFn.updatemat4 },
    { unit := ![sample.unit 8 80, sample.unit 9 90, {}] }]

/-- The units the constructor accepts, read off the descriptor array: slots
`0..n` all start with a unit of non-zero line count and units `0..m` of slot `n`
all have a non-zero line count. -/
def Ray.accepted (object : Arr Ray.Object MAXOBJECTSIZE) (n m : Nat) : Prop :=
  n < MAXOBJECTSIZE ∧ m < MAXUNITSIZE
    ∧ (∀ j : Nat, j ≤ n → Ray.linesizeAt object j 0 ≠ 0)
    ∧ (∀ q : Nat, q ≤ m → Ray.linesizeAt object n q ≠ 0)

instance (object : Arr Ray.Object MAXOBJECTSIZE) (n m : Nat) : Decidable (Ray.accepted object n m) := by
  unfold Ray.accepted; infer_instance

/-- The float arithmetic of the C++ implementation and of `<cmath>`, and the
values of the float literals used by the embedded functions.  It is a
parameter: nothing below depends on what the operations compute. -/
structure FloatOps where
  add : float → float → float
  mul : float → float → float
  div : float → float → float
  neg : float → float
  cos : float → float
  sin : float → float
  ofUnsigned : Nat → float
  lit_16_6667 : float
  lit_800 : float
  theta_start : float

/-- Line 1114: `frame * 16.6667f`. -/
def GetFrame (F : FloatOps) (st : Statics) : float :=
  F.mul (F.ofUnsigned st.frame) F.lit_16_6667

/-- Line 1119: `++frame` on an `unsigned int`. -/
def SetNewFrame (st : Statics) : Statics :=
  { st with frame := (st.frame + 1) % 2 ^ 32 }

/-- Line 1123: returns the latch and clears it. -/
def IsFirstUpdError (st : Statics) : Bool × Statics :=
  (st.firstupderror, { st with firstupderror := false })

/-- Line 1127: the matrix behind the returned pointer. -/
def GetViewmat4 (st : Statics) : Mat4 := st.viewmat4

/-- Line 1269. -/
def dot3 (F : FloatOps) (x y : Arr float 3) : float :=
  (List.range 3).foldl (fun res i => F.add res (F.mul (Arr.get y i) (Arr.get x i))) float.zero

/-- Lines 1328-1350. -/
def makeviewmat4 (F : FloatOps) (outviewmat4 : Mat4) (theta pos : Arr float 3) : Mat4 :=
  let t0 := F.add (Arr.get theta 0) F.theta_start
  let t2 := Arr.get theta 2
  let rot : Arr (Arr float 3) 3 :=
    ![![F.cos t2, F.sin t2, float.zero],
      ![F.mul (F.neg (F.cos t0)) (F.sin t2), F.mul (F.cos t0) (F.cos t2), F.sin t0],
      ![F.mul (F.sin t0) (F.sin t2), F.mul (F.neg (F.sin t0)) (F.cos t2), F.cos t0]]
  let tmp1 : Mat4 := (List.range 3).foldl
    (fun t i => Arr.set t i (Arr.set (Arr.get t i) 3 (F.neg (dot3 F pos (Arr.get rot i)))))
    Mat4.zero
  let tmp2 : Mat4 := (List.range 9).foldl
    (fun t i => Arr.set t (i / 3)
      (Arr.set (Arr.get t (i / 3)) (i % 3) (Arr.get (Arr.get rot (i / 3)) (i % 3))))
    tmp1
  copymat4 outviewmat4 tmp2

/-- The statics `pos` and `theta` of main.cpp (line 189), which `ray::Call` reads. -/
structure Camera where
  pos : Arr float 3 := fun _ => float.zero
  theta : Arr float 3 := fun _ => float.zero

/-- The function `ray::Call` of main.cpp (lines 199-207): the pair `(outpos, outtheta)`. -/
def Call (cam : Camera) (outpos outtheta : Arr float 3) : Arr float 3 × Arr float 3 :=
  let outtheta := Arr.set outtheta 0 (Arr.get cam.theta 0)
  let outtheta := Arr.set outtheta 1 (Arr.get cam.theta 1)
  let outtheta := Arr.set outtheta 2 (Arr.get cam.theta 2)
  let outpos := Arr.set outpos 0 (Arr.get cam.pos 0)
  let outpos := Arr.set outpos 1 (Arr.get cam.pos 1)
  let outpos := Arr.set outpos 2 (Arr.get cam.pos 2)
  (outpos, outtheta)

/-- Lines 1134-1145. -/
def SetViewmat4 (F : FloatOps) (cam : Camera) (st : Statics) : Statics :=
  let c := Call cam (fun _ => float.zero) (fun _ => float.zero)
  let tmpmat4 := makeviewmat4 F Mat4.zero c.2 c.1
  { st with viewmat4 := copymat4 st.viewmat4 tmpmat4 }

/-- Line 1232. -/
def updatemat4_default (modelmat4 : Mat4) : Mat4 := modelmat4

/-- Lines 1236-1249. -/
def updatemat4 (F : FloatOps) (st : Statics) (modelmat4 : Mat4) : Mat4 :=
  let tmpmat4 := copymat4 Mat4.zero modelmat4
  let time := GetFrame F st
  let a := F.div (F.neg time) F.lit_800
  let tmpmat4 := Arr.set tmpmat4 0 (Arr.set (Arr.get tmpmat4 0) 0 (F.cos a))
  let tmpmat4 := Arr.set tmpmat4 0 (Arr.set (Arr.get tmpmat4 0) 1 (F.neg (F.sin a)))
  let tmpmat4 := Arr.set tmpmat4 1 (Arr.set (Arr.get tmpmat4 1) 0 (F.sin a))
  let tmpmat4 := Arr.set tmpmat4 1 (Arr.set (Arr.get tmpmat4 1) 1 (F.cos a))
  copymat4 modelmat4 tmpmat4

/-- The call `fn(modelmat4)` of line 107 in a run that returns.  A call through
`nullptr` is undefined in C++ and ends the process on the machine
(`machine.UpdateFn.call`); here it leaves the matrix as it is. -/
def UpdateFn.call (F : FloatOps) (st : Statics) (fn : UpdateFn) (modelmat4 : Mat4) : Mat4 :=
  match fn with
  | UpdateFn.nullptr => modelmat4
  | UpdateFn.updatemat4_default => ray.updatemat4_default modelmat4
  | UpdateFn.updatemat4 => ray.updatemat4 F st modelmat4

/-! ## `Ray::Update` and its helpers (Ray.cpp 93-154, 463-622) -/

/-- The statics together with the OpenGL calls issued so far. -/
structure Gpu where
  st : Statics
  gl : List GLCall := []

/-- Issue OpenGL calls. -/
def Gpu.emit (g : Gpu) (calls : List GLCall) : Gpu := { g with gl := g.gl ++ calls }

/-- Lines 463-472: the overload `GL_UnitBuffer_Reset(int, const float[4][4])`. -/
def GL_UnitBuffer_Reset (unitstartindex : Int) (modelmat4 : Mat4) (g : Gpu) : Gpu :=
  { g with st := { g.st with
      ubounitstartindex := unitstartindex
      ubooffset := 0
      ubomodelmat4 := copymat4 g.st.ubomodelmat4 modelmat4 } }

/-- Lines 474-491, over exact integers; `machine.GL_UnitBuffer_Update` has the
sums in a 32-bit `int`. -/
def GL_UnitBuffer_Update (g : Gpu) : Gpu :=
  let g1 := g.emit
    [ GLCall.glBindBuffer GLenum.GL_UNIFORM_BUFFER g.st.ubounitbuff,
      GLCall.glBufferSubData GLenum.GL_UNIFORM_BUFFER
        ((sizeof_data_Unit : Int) * (g.st.ubooffset + g.st.ubounitstartindex))
        (sizeof_modelmat4 : Int) (Mat4.bytes g.st.ubomodelmat4),
      GLCall.glBindBuffer GLenum.GL_UNIFORM_BUFFER 0 ]
  { g1 with st := { g1.st with ubooffset := g1.st.ubooffset + 1 } }

/-- Lines 496-510. -/
def GL_Ray2Buffer_Initialize (unitstartindex : Int) (g : Gpu) : Gpu :=
  let g1 := g.emit
    [ GLCall.glBindFramebuffer GLenum.GL_FRAMEBUFFER g.st.ray2fbo,
      GLCall.glBindVertexArray g.st.dummyvao,
      GLCall.glClearDepth float.one,
      GLCall.glClear [GLenum.GL_DEPTH_BUFFER_BIT, GLenum.GL_COLOR_BUFFER_BIT] ]
  { g1 with st := { g1.st with ray2unitstartindex := unitstartindex, ray2offset := 0 } }

/-- Lines 514-559, over exact integers; `machine.GL_Ray2Buffer_Update` has the
sums and the product `6 * unit->plsize` in a 32-bit `int`. -/
def GL_Ray2Buffer_Update (unit : Unit) (g : Gpu) : Gpu :=
  let g1 := g.emit
    [ GLCall.glDepthFunc GLenum.GL_ALWAYS,
      GLCall.glUseProgram g.st.ray2initprgm,
      GLCall.glUniform1i g.st.ray2initprgm "unitsegment" g.st.ray2offset,
      GLCall.glDrawArrays GLenum.GL_TRIANGLES 0 6,
      GLCall.glUseProgram 0 ]
  let uniform : List (Int × String) :=
    [ (unit.plstart, "plstart"),
      (g.st.ray2offset + g.st.ray2unitstartindex, "unitindex"),
      (g.st.ray2offset, "unitsegment") ]
  let g2 := g1.emit
    ([ GLCall.glDepthFunc GLenum.GL_GEQUAL,
       GLCall.glUseProgram g.st.ray2prgm ]
     ++ uniform.map (fun u => GLCall.glUniform1i g.st.ray2prgm u.2 u.1)
     ++ [ GLCall.glUniformMatrix4fv g.st.ray2prgm "viewmat4" 1 true (GetViewmat4 g.st).floats,
          GLCall.glDrawArrays GLenum.GL_TRIANGLES 0 (6 * unit.plsize),
          GLCall.glUseProgram 0 ])
  { g2 with st := { g2.st with ray2offset := g2.st.ray2offset + 1 } }

/-- Lines 561-564. -/
def GL_Ray2Buffer_Release (g : Gpu) : Gpu :=
  g.emit [ GLCall.glBindVertexArray 0, GLCall.glBindFramebuffer GLenum.GL_FRAMEBUFFER 0 ]

/-- Lines 566-580. -/
def GL_SelectionBuffer_Reset (g : Gpu) : Gpu :=
  g.emit
    [ GLCall.glBindFramebuffer GLenum.GL_FRAMEBUFFER g.st.selectfbo,
      GLCall.glBindVertexArray g.st.dummyvao,
      GLCall.glClearDepth float.one,
      GLCall.glClear [GLenum.GL_DEPTH_BUFFER_BIT, GLenum.GL_COLOR_BUFFER_BIT],
      GLCall.glBindVertexArray 0,
      GLCall.glBindFramebuffer GLenum.GL_FRAMEBUFFER 0 ]

/-- Lines 582-600. -/
def GL_SelectionBuffer_Update (g : Gpu) : Gpu :=
  g.emit
    [ GLCall.glBindFramebuffer GLenum.GL_FRAMEBUFFER g.st.selectfbo,
      GLCall.glBindVertexArray g.st.dummyvao,
      GLCall.glDepthFunc GLenum.GL_LESS,
      GLCall.glUseProgram g.st.selectprgm,
      GLCall.glDrawArrays GLenum.GL_TRIANGLES 0 6,
      GLCall.glUseProgram 0,
      GLCall.glBindVertexArray 0,
      GLCall.glBindFramebuffer GLenum.GL_FRAMEBUFFER 0 ]

/-- Lines 602-622. -/
def GL_DrawBuffer_Update (g : Gpu) : Gpu :=
  g.emit
    [ GLCall.glBindVertexArray g.st.dummyvao,
      GLCall.glUseProgram g.st.drawprgm,
      GLCall.glClearDepth float.one,
      GLCall.glClear [GLenum.GL_DEPTH_BUFFER_BIT, GLenum.GL_COLOR_BUFFER_BIT],
      GLCall.glDepthFunc GLenum.GL_ALWAYS,
      GLCall.glUniformMatrix4fv g.st.drawprgm "viewmat4" 1 true (GetViewmat4 g.st).floats,
      GLCall.glDrawArrays GLenum.GL_TRIANGLES 0 6,
      GLCall.glUseProgram 0,
      GLCall.glBindVertexArray 0 ]

/-- Lines 105-109: every live object's update function applied to its matrix. -/
def Ray.Update.movements (F : FloatOps) (st : Statics) (table : Table) : Table :=
  (List.range table.objectsize.toNat).foldl
    (fun t n => t.modifyObject n
      (fun o => { o with modelmat4 := UpdateFn.call F st o.updatemat4 o.modelmat4 }))
    table

/-- Lines 113-123: the model matrices uploaded, object by object, unit by unit. -/
def Ray.Update.upload (table : Table) (g : Gpu) : Gpu :=
  (List.range table.objectsize.toNat).foldl
    (fun g n =>
      (List.range (Arr.get table.object n).unitsize.toNat).foldl
        (fun g _ => GL_UnitBuffer_Update g)
        (GL_UnitBuffer_Reset (Arr.get table.object n).unitstart
          (Arr.get table.object n).modelmat4 g))
    g

/-- Lines 131-145: the Ray2 passes of every unit and the Selection pass of
every object. -/
def Ray.Update.passes (table : Table) (g : Gpu) : Gpu :=
  (List.range table.objectsize.toNat).foldl
    (fun g n =>
      GL_SelectionBuffer_Update (GL_Ray2Buffer_Release
        ((List.range (Arr.get table.object n).unitsize.toNat).foldl
          (fun g m => GL_Ray2Buffer_Update (Arr.get (Arr.get table.object n).unit m) g)
          (GL_Ray2Buffer_Initialize (Arr.get table.object n).unitstart g))))
    g

/-- What one call of `Ray::Update` leaves behind. -/
structure Ray.Frame where
  table : Table
  st : Statics
  cout : List String
  gl : List GLCall

/-- The method `Ray::Update` (lines 93-154) on the table `table`, from the
statics `st`, with the camera state `cam`; `pending` is the number of OpenGL
error flags set when line 152 polls them. -/
def Ray.Update (F : FloatOps) (cam : Camera) (table : Table) (st : Statics) (pending : Nat) :
    Ray.Frame :=
  let st1 := SetViewmat4 F cam (SetNewFrame st)
  let table1 := Ray.Update.movements F st1 table
  let g1 := Ray.Update.upload table1 { st := st1 }
  let g2 := GL_SelectionBuffer_Reset g1
  let g3 := Ray.Update.passes table1 g2
  let g4 := GL_DrawBuffer_Update g3
  let err := GL_CheckError pending
  let g5 := g4.emit err.2
  let first := if err.1 then IsFirstUpdError g5.st else (false, g5.st)
  { table := table1
    st := first.2
    cout := if err.1 && first.1
      then ["\rError: Error has been confirmed in update process.\n."] else []
    gl := g5.gl }

/-- The `glBufferSubData` calls of a list of OpenGL calls, in order, each as
`(offset, size, data)`. -/
def uploads (gl : List GLCall) : List (Int × Int × List byte) :=
  gl.filterMap (fun c =>
    match c with
    | GLCall.glBufferSubData _ offset size data => some (offset, size, data)
    | _ => none)

/-- A sample float arithmetic: every operation returns a tagged value. -/
def sample.F : FloatOps :=
  { add := fun a _ => a
    mul := fun a _ => a
    div := fun a _ => a
    neg := fun a => a
    cos := fun _ => sample.fl 1
    sin := fun _ => sample.fl 2
    ofUnsigned := fun n => sample.fl n
    lit_16_6667 := sample.fl 16
    lit_800 := sample.fl 80
    theta_start := sample.fl 0 }

/-! ## The effect of buffer calls on the device (OpenGL 4.1, section 2.9) -/

/-- The part of the OpenGL state that buffer uploads act on: the buffer object
bound to `GL_UNIFORM_BUFFER`, and the data store of every buffer object name
(`none` for a name without a data store). -/
structure GLBuffers where
  binding : Nat := 0
  store : Nat → Option (List byte) := fun _ => none

/-- Bytes `[offset, offset + size)` of a data store replaced by the first `size`
bytes of `data`. -/
def GLBuffers.splice (buf : List byte) (offset size : Nat) (data : List byte) : List byte :=
  buf.take offset ++ data.take size ++ buf.drop (offset + size)

/-- The effect of one OpenGL call on the buffer state.  `glBufferSubData`
raises `GL_INVALID_OPERATION` when no buffer is bound to the target and
`GL_INVALID_VALUE` when `offset` or `size` is negative or `offset + size` exceeds
the size of the data store; a call that raises an error changes nothing. -/
def GLCall.exec (b : GLBuffers) : GLCall → GLBuffers
  | GLCall.glBindBuffer GLenum.GL_UNIFORM_BUFFER buffer => { b with binding := buffer }
  | GLCall.glBufferSubData GLenum.GL_UNIFORM_BUFFER offset size data =>
    match b.store b.binding with
    | some buf =>
      if b.binding ≠ 0 ∧ 0 ≤ offset ∧ 0 ≤ size ∧ offset + size ≤ buf.length then
        { b with store := (Function.update b.store b.binding
            (some (GLBuffers.splice buf offset.toNat size.toNat data))) }
      else b
    | none => b
  | _ => b

/-- Line 802: the size `GL_LoadUbo` gives to the data store of the unit buffer. -/
def GL_LoadUbo.unitdatasize : Nat := sizeof_data_Unit * MAXUNITBUFFSIZE

/-- A unit buffer with no name collision: buffer name 5 has a data store of
`GL_LoadUbo.unitdatasize` zero bytes. -/
def sample.buffers : GLBuffers :=
  { binding := 0
    store := fun name => if name = 5 then some (List.replicate GL_LoadUbo.unitdatasize 0) else none }

/-- Statics in which the unit buffer is named 5 and the next upload goes to
record `1 + 2`. -/
def sample.statics : Statics := { ubounitbuff := 5, ubooffset := 1, ubounitstartindex := 2 }

/-! ## Render passes: what a clear or a draw call acts on -/

/-- The part of the OpenGL context that decides what a clear or a draw call
does: the frame buffer bound to `GL_FRAMEBUFFER`, the program in use, the
depth function, the clear depth, and the uniforms given to the program in use
since `glUseProgram` made it current. -/
structure GLContext where
  framebuffer : Nat := 0
  program : Nat := 0
  depthFunc : GLenum := GLenum.GL_LESS
  clearDepth : float := float.one
  ints : List (String × Int) := []
  mats : List (String × List float) := []

/-- A clear or a draw call together with the context it runs in. -/
inductive Pass where
  | clear (framebuffer : Nat) (mask : List GLenum) (clearDepth : float)
  | draw (framebuffer : Nat) (program : Nat) (depthFunc : GLenum) (count : Int)
      (ints : List (String × Int)) (mats : List (String × List float))
deriving DecidableEq, Repr

/-- The context after one OpenGL call.  A `glUniform*` call acts on the program
in use; its location was looked up in `program`. -/
def GLContext.step (c : GLContext) : GLCall → GLContext
  | GLCall.glBindFramebuffer GLenum.GL_FRAMEBUFFER framebuffer => { c with framebuffer := framebuffer }
  | GLCall.glUseProgram program => { c with program := program, ints := [], mats := [] }
  | GLCall.glDepthFunc func => { c with depthFunc := func }
  | GLCall.glClearDepth depth => { c with clearDepth := depth }
  | GLCall.glUniform1i program name v0 =>
    if program = c.program then { c with ints := c.ints ++ [(name, v0)] } else c
  | GLCall.glUniformMatrix4fv program name _ _ value =>
    if program = c.program then { c with mats := c.mats ++ [(name, value)] } else c
  | _ => c

/-- The pass, if any, that one OpenGL call performs in a context. -/
def GLContext.pass (c : GLContext) : GLCall → List Pass
  | GLCall.glClear mask => [Pass.clear c.framebuffer mask c.clearDepth]
  | GLCall.glDrawArrays _ _ count =>
    [Pass.draw c.framebuffer c.program c.depthFunc count c.ints c.mats]
  | _ => []

/-- The context after a list of OpenGL calls. -/
def GLContext.after (c : GLContext) : List GLCall → GLContext
  | [] => c
  | call :: rest => GLContext.after (c.step call) rest

/-- The clears and draws of a list of OpenGL calls issued from the context `c`,
in order. -/
def renders (c : GLContext) : List GLCall → List Pass
  | [] => []
  | call :: rest => c.pass call ++ renders (c.step call) rest

/-- The clear of the Selection frame buffer (lines 570-574). -/
def Pass.selectionReset (st : Statics) : Pass :=
  Pass.clear st.selectfbo [GLenum.GL_DEPTH_BUFFER_BIT, GLenum.GL_COLOR_BUFFER_BIT] float.one

/-- The clear of the Ray2 frame buffer (lines 500-505). -/
def Pass.ray2Clear (st : Statics) : Pass :=
  Pass.clear st.ray2fbo [GLenum.GL_DEPTH_BUFFER_BIT, GLenum.GL_COLOR_BUFFER_BIT] float.one

/-- Phase A, the init draw of lines 526-533, for layer slot `m`. -/
def Pass.phaseA (st : Statics) (m : Nat) : Pass :=
  Pass.draw st.ray2fbo st.ray2initprgm GLenum.GL_ALWAYS 6 [("unitsegment", (m : Int))] []

/-- Phase B, the intersect draw of lines 538-554, for unit `m` of object `o`. -/
def Pass.phaseB (st : Statics) (o : Object) (m : Nat) : Pass :=
  Pass.draw st.ray2fbo st.ray2prgm GLenum.GL_GEQUAL (6 * (Arr.get o.unit m).plsize)
    [ ("plstart", (Arr.get o.unit m).plstart),
      ("unitindex", (m : Int) + o.unitstart),
      ("unitsegment", (m : Int)) ]
    [ ("viewmat4", st.viewmat4.floats) ]

/-- The Selection pass of lines 586-592. -/
def Pass.selection (st : Statics) : Pass :=
  Pass.draw st.selectfbo st.selectprgm GLenum.GL_LESS 6 [] []

/-- The clear of the visible frame buffer in the final pass (lines 609-610). -/
def Pass.finalClear : Pass :=
  Pass.clear 0 [GLenum.GL_DEPTH_BUFFER_BIT, GLenum.GL_COLOR_BUFFER_BIT] float.one

/-- The draw of the final pass (lines 612-616). -/
def Pass.finalDraw (st : Statics) : Pass :=
  Pass.draw 0 st.drawprgm GLenum.GL_ALWAYS 6 [] [("viewmat4", st.viewmat4.floats)]

/-- The statics that only carry values from one helper call to the next within
a frame, set to their initial values. -/
def Statics.scrub (st : Statics) : Statics :=
  { st with
    ubomodelmat4 := Mat4.zero, ubooffset := 0, ubounitstartindex := 0,
    ray2offset := 0, ray2unitstartindex := 0 }

/-- The passes of one object: the Ray2 clear, Phase A and Phase B of each of
its units, and its Selection pass. -/
def Pass.ofObject (st : Statics) (o : Object) : List Pass :=
  [Pass.ray2Clear st]
    ++ (List.range o.unitsize.toNat).flatMap (fun (m : Nat) => [Pass.phaseA st m, Pass.phaseB st o m])
    ++ [Pass.selection st]

/-- The count and the integer uniforms of a draw. -/
def Pass.drawArgs : Pass → Option (Int × List (String × Int))
  | Pass.draw _ _ _ count ints _ => some (count, ints)
  | Pass.clear _ _ _ => none

/-- The program and the depth function of a draw. -/
def Pass.drawDepthFunc : Pass → Option (Nat × GLenum)
  | Pass.draw _ program depthFunc _ _ _ => some (program, depthFunc)
  | Pass.clear _ _ _ => none

/-- The program and the matrix uniforms of a draw. -/
def Pass.drawMats : Pass → Option (Nat × List (String × List float))
  | Pass.draw _ program _ _ _ mats => some (program, mats)
  | Pass.clear _ _ _ => none

/-- Statics with four distinct program handles and two distinct frame buffers. -/
def sample.handles : Statics :=
  { ray2initprgm := 1, ray2prgm := 2, selectprgm := 3, drawprgm := 4, ray2fbo := 1,
    selectfbo := 2 }

/-! ## The frame loop -/

/-- The loop of main.cpp (lines 65-69): `ray.Update()` called once per frame.
Each frame comes with the camera state of that frame and the number of OpenGL
error flags set when its line 152 polls them; the table and the statics are
handed from one call to the next. -/
def Ray.run (F : FloatOps) : List (Camera × Nat) → Table → Statics → List Ray.Frame
  | [], _, _ => []
  | (cam, pending) :: rest, table, st =>
    Ray.Update F cam table st pending
      :: Ray.run F rest (Ray.Update F cam table st pending).table
          (Ray.Update F cam table st pending).st

/-! ## The depth test at one pixel of a frame buffer (OpenGL 4.1, section 4.1.5) -/

/-- The comparisons of depth values on the device: `lt incoming stored` is the
test of `GL_LESS`, `ge incoming stored` the test of `GL_GEQUAL`. -/
structure DepthOps where
  lt : float → float → Bool
  ge : float → float → Bool

/-- The depth test: whether a fragment of depth `incoming` passes against the
depth `stored` in the depth buffer, under a depth function. -/
def depthTest (D : DepthOps) : GLenum → float → float → Bool
  | GLenum.GL_ALWAYS, _, _ => true
  | GLenum.GL_LESS, incoming, stored => D.lt incoming stored
  | GLenum.GL_GEQUAL, incoming, stored => D.ge incoming stored
  | _, _, _ => false

/-- One pixel of a frame buffer: the depth stored in its depth attachment and
what the color attachment holds, `some k` when the `k`-th draw into this frame
buffer wrote it last and `none` when it holds the clear color. -/
structure Pixel where
  depth : float
  owner : Option Nat
deriving DecidableEq, Repr

/-- The frame buffer a pass acts on. -/
def Pass.framebuffer : Pass → Nat
  | Pass.clear framebuffer _ _ => framebuffer
  | Pass.draw framebuffer _ _ _ _ _ => framebuffer

/-- The effect of one pass on the pixel of frame buffer `fbo`, with the depth
test and depth writes enabled (`Ray::Initialize`, line 350, enables the test).
The state is the pixel and the number of draws into `fbo` so far; `frag k` is
the depth of the fragment that the `k`-th draw into `fbo` makes at this pixel,
`none` when it makes no fragment there.  A clear stores the clear depth and the
clear color; a fragment that passes the depth test is written to both
attachments, one that fails is dropped. -/
def Pixel.step (D : DepthOps) (fbo : Nat) (frag : Nat → Option float) (s : Pixel × Nat) :
    Pass → Pixel × Nat
  | Pass.clear framebuffer mask clearDepth =>
    if framebuffer = fbo then
      ({ depth := if GLenum.GL_DEPTH_BUFFER_BIT ∈ mask then clearDepth else s.1.depth
         owner := if GLenum.GL_COLOR_BUFFER_BIT ∈ mask then none else s.1.owner }, s.2)
    else s
  | Pass.draw framebuffer _ depthFunc _ _ _ =>
    if framebuffer = fbo then
      match frag s.2 with
      | some d =>
        if depthTest D depthFunc d s.1.depth then ({ depth := d, owner := some s.2 }, s.2 + 1)
        else (s.1, s.2 + 1)
      | none => (s.1, s.2 + 1)
    else s

/-- The pixel of frame buffer `fbo` after a list of passes, from the pixel `p`. -/
def Pixel.run (D : DepthOps) (fbo : Nat) (frag : Nat → Option float) (passes : List Pass)
    (p : Pixel) : Pixel :=
  (passes.foldl (Pixel.step D fbo frag) (p, 0)).1

/-- A coarse comparison of non-negative floats: by their most significant byte. -/
def sample.D : DepthOps :=
  { lt := fun x y => decide (x.b3 < y.b3)
    ge := fun x y => decide (y.b3 ≤ x.b3) }

/-! ## A mock device that keeps account of live objects -/

/-- What the device decides on its own: the name that a `glGen*` or `glCreate*`
call returns, given the names of that kind in use; whether a program links and
its information log; whether a frame buffer is complete. -/
structure Backend where
  gen : List Nat → Nat
  linked : Nat → Bool
  infoLog : Nat → String
  complete : Nat → Bool

/-- The objects of a mock device, kind by kind: the names in use, the shaders
attached to each program in the order of attachment, the shaders flagged for
deletion, the frame buffer bound to `GL_FRAMEBUFFER`, and the texture attached
to each attachment point of each frame buffer (0 for none). -/
structure Mock where
  programs : List Nat := []
  shaders : List Nat := []
  attached : Nat → List Nat := fun _ => []
  flagged : List Nat := []
  buffers : List Nat := []
  framebuffers : List Nat := []
  framebuffer : Nat := 0
  attachment : Nat → GLenum → Nat := fun _ _ => 0
  textures : List Nat := []
  vertexArrays : List Nat := []

/-- The names of `live` that a `glDelete*` call on `names` leaves in use: the
name 0 in `names` is ignored. -/
def Mock.delete (live : List Nat) (names : List Nat) : List Nat :=
  live.filter (fun x => decide (x = 0 ∨ x ∉ names))

/-- The effect of one OpenGL call on the objects of the mock device (OpenGL 4.1,
sections 2.9, 2.10, 2.11, 3.8 and 4.4).  A `glGen*` call for one name and a
`glCreate*` call put a new name in use.  `glDeleteShader` on a shader attached to
a program flags it, and the shader is deleted when the last program it is
attached to is deleted.  Deleting a texture detaches it from the frame buffer
that is bound; deleting the frame buffer that is bound binds 0.  A program is
deleted at once: the device does not follow which program is in use, and every
function of Ray.cpp that calls `glUseProgram` ends on `glUseProgram(NULL)`.  A
call that raises an error changes nothing. -/
def Mock.exec (B : Backend) (m : Mock) : GLCall → Mock
  | GLCall.glCreateProgram =>
    { m with
      programs := B.gen m.programs :: m.programs
      attached := Function.update m.attached (B.gen m.programs) [] }
  | GLCall.glCreateShader _ => { m with shaders := B.gen m.shaders :: m.shaders }
  | GLCall.glAttachShader program shader =>
    if program ∈ m.programs ∧ shader ∈ m.shaders ∧ shader ∉ m.attached program then
      { m with attached := Function.update m.attached program (m.attached program ++ [shader]) }
    else m
  | GLCall.glDeleteShader shader =>
    if shader ≠ 0 ∧ shader ∈ m.shaders then
      if ∃ q ∈ m.programs, shader ∈ m.attached q then { m with flagged := shader :: m.flagged }
      else { m with
             shaders := Mock.delete m.shaders [shader]
             flagged := Mock.delete m.flagged [shader] }
    else m
  | GLCall.glDeleteProgram program =>
    if program ≠ 0 ∧ program ∈ m.programs then
      { m with
        programs := Mock.delete m.programs [program]
        attached := Function.update m.attached program []
        shaders := (m.shaders.filter (fun s => decide (¬ (s ∈ m.attached program ∧ s ∈ m.flagged
          ∧ ¬ ∃ q ∈ Mock.delete m.programs [program], s ∈ m.attached q))))
        flagged := (m.flagged.filter (fun s => decide (¬ (s ∈ m.attached program ∧ s ∈ m.flagged
          ∧ ¬ ∃ q ∈ Mock.delete m.programs [program], s ∈ m.attached q)))) }
    else m
  | GLCall.glGenBuffers n =>
    if n = 1 then { m with buffers := B.gen m.buffers :: m.buffers } else m
  | GLCall.glDeleteBuffers _ buffers => { m with buffers := Mock.delete m.buffers buffers }
  | GLCall.glGenFramebuffers n =>
    if n = 1 then
      { m with
        framebuffers := B.gen m.framebuffers :: m.framebuffers
        attachment := Function.update m.attachment (B.gen m.framebuffers) (fun _ => 0) }
    else m
  | GLCall.glBindFramebuffer GLenum.GL_FRAMEBUFFER framebuffer =>
    if framebuffer = 0 ∨ framebuffer ∈ m.framebuffers then { m with framebuffer := framebuffer }
    else m
  | GLCall.glFramebufferTexture GLenum.GL_FRAMEBUFFER attachment texture _ =>
    if m.framebuffer ≠ 0 ∧ (texture = 0 ∨ texture ∈ m.textures) then
      { m with attachment := (Function.update m.attachment m.framebuffer
          (Function.update (m.attachment m.framebuffer) attachment texture)) }
    else m
  | GLCall.glDeleteFramebuffers _ framebuffers =>
    { m with
      framebuffers := Mock.delete m.framebuffers framebuffers
      framebuffer := if m.framebuffer ∈ framebuffers then 0 else m.framebuffer }
  | GLCall.glGenTextures n =>
    if n = 1 then { m with textures := B.gen m.textures :: m.textures } else m
  | GLCall.glDeleteTextures _ textures =>
    { m with
      textures := Mock.delete m.textures textures
      attachment :=
        (if m.framebuffer = 0 then m.attachment
         else Function.update m.attachment m.framebuffer
          (fun a => if m.attachment m.framebuffer a ∈ textures then 0
            else m.attachment m.framebuffer a)) }
  | GLCall.glGenVertexArrays n =>
    if n = 1 then { m with vertexArrays := B.gen m.vertexArrays :: m.vertexArrays } else m
  | GLCall.glDeleteVertexArrays _ arrays =>
    { m with vertexArrays := Mock.delete m.vertexArrays arrays }
  | _ => m

/-- What `glGetAttachedShaders` writes: the first `maxCount` shaders attached to
the program, or nothing (`GL_INVALID_VALUE`) when the name is not a program. -/
def Mock.attachedShaders (m : Mock) (program : Nat) (maxCount : Nat) : Option (List Nat) :=
  if program ∈ m.programs then some ((m.attached program).take maxCount) else none

/-- What `glGetFramebufferAttachmentParameteriv` writes for
`GL_FRAMEBUFFER_ATTACHMENT_OBJECT_NAME` at a color or depth attachment point:
the attached texture (0 for none), or nothing (an error) when the default frame
buffer is bound, which has no such attachment point. -/
def Mock.attachmentName (m : Mock) (attachment : GLenum) : Option Nat :=
  if m.framebuffer = 0 then none else some (m.attachment m.framebuffer attachment)

/-- The statics, the mock device, the OpenGL calls issued so far and what was
written to `std::cout`. -/
structure Host where
  st : Statics := {}
  dev : Mock := {}
  gl : List GLCall := []
  cout : List String := []

/-- Issue one OpenGL call. -/
def Host.call (B : Backend) (h : Host) (c : GLCall) : Host :=
  { h with gl := h.gl ++ [c], dev := h.dev.exec B c }

/-- Write to `std::cout`. -/
def Host.print (h : Host) (s : List String) : Host := { h with cout := h.cout ++ s }

/-- The twelve device-handle variables (lines 443-455), as targets of the
`GLuint*` pointers kept in the lists of the load and unload functions. -/
inductive Handle where
  | dummyvao | imgtex | camraypostex | camraydirtex | ray2fbo | selectfbo
  | ubounitbuff | uboplbuff | ray2initprgm | ray2prgm | selectprgm | drawprgm
deriving DecidableEq, Repr

/-- The rvalue `*p`. -/
def Statics.deref (st : Statics) : Handle → Nat
  | Handle.dummyvao => st.dummyvao
  | Handle.imgtex => st.imgtex
  | Handle.camraypostex => st.camraypostex
  | Handle.camraydirtex => st.camraydirtex
  | Handle.ray2fbo => st.ray2fbo
  | Handle.selectfbo => st.selectfbo
  | Handle.ubounitbuff => st.ubounitbuff
  | Handle.uboplbuff => st.uboplbuff
  | Handle.ray2initprgm => st.ray2initprgm
  | Handle.ray2prgm => st.ray2prgm
  | Handle.selectprgm => st.selectprgm
  | Handle.drawprgm => st.drawprgm

/-- The assignment `*p = v`. -/
def Statics.assign (st : Statics) (p : Handle) (v : Nat) : Statics :=
  match p with
  | Handle.dummyvao => { st with dummyvao := v }
  | Handle.imgtex => { st with imgtex := v }
  | Handle.camraypostex => { st with camraypostex := v }
  | Handle.camraydirtex => { st with camraydirtex := v }
  | Handle.ray2fbo => { st with ray2fbo := v }
  | Handle.selectfbo => { st with selectfbo := v }
  | Handle.ubounitbuff => { st with ubounitbuff := v }
  | Handle.uboplbuff => { st with uboplbuff := v }
  | Handle.ray2initprgm => { st with ray2initprgm := v }
  | Handle.ray2prgm => { st with ray2prgm := v }
  | Handle.selectprgm => { st with selectprgm := v }
  | Handle.drawprgm => { st with drawprgm := v }

/-! ## `Ray::Initialize` and `Ray::Release` (Ray.cpp 344-433, 676-1110) -/

/-- Write the statics. -/
def Host.store (h : Host) (st : Statics) : Host := { h with st := st }

abbrev MAXSHADERTYPE : Nat := 3
abbrev PROGRAMSIZE : Nat := 4
abbrev MAXCHARSIZE : Nat := 32
abbrev RAYSIDELEN : Nat := 2

/-- The value of the enumerant `GL_LINEAR`, passed as an `int` parameter. -/
def GL_LINEAR : Int := 0x2601

/-- The `struct Image` (lines 1047-1055). -/
structure Image where
  buff : List byte := []
  channels : Int := 0
  height : Int := 0
  width : Int := 0

/-- What `Ray::Initialize` takes from outside Ray.cpp: the constants of
`constant.h`, the text files and the image that the file system and
`SOIL_load_image` deliver (`none` when a file cannot be opened or decoded), and
the two arrays of `PIXELS_H * PIXELS_W * 4` floats that `makecamray`
(lines 1274-1326) fills. -/
structure Inputs where
  POINTS_PER_UNIT : Nat
  PIXELS_W : Nat
  PIXELS_H : Nat
  files : String → Option String
  images : String → Option Image
  screenraypos : List float
  screenraydir : List float

/-- The constructor `FileRead::FileRead(const char*)` (lines 1169-1189): the
text of the file and what is written to `std::cout`. -/
def FileRead (files : String → Option String) (file : String) : String × List String :=
  match files file with
  | some str => (str, [])
  | none => ("", ["CompileShader Error: cannot open file. (\"" ++ file ++ "\")\n"])

/-- The constructor `Image::Image(const char*)` (lines 1193-1210). -/
def Image.load (images : String → Option Image) (file : String) : Image × List String :=
  match images file with
  | some img => (img, [])
  | none => ({}, ["Error: Soil failed to load texture.\n"])

/-- Line 1259. -/
def getuboindex (st : Statics) : Int := st.uboindex

/-- Line 1261. -/
def setnewuboindex (st : Statics) : Statics := { st with uboindex := st.uboindex + 1 }

/-- Line 1265. -/
def gettextindex (st : Statics) : Int := st.textindex

/-- Line 1267. -/
def setnewtextindex (st : Statics) : Statics := { st with textindex := st.textindex + 1 }

/-- `glCreateProgram()` and the name it returns. -/
def Host.glCreateProgram (B : Backend) (h : Host) : Nat × Host :=
  (B.gen h.dev.programs, h.call B GLCall.glCreateProgram)

/-- `glCreateShader(type)` and the name it returns. -/
def Host.glCreateShader (B : Backend) (type : GLenum) (h : Host) : Nat × Host :=
  (B.gen h.dev.shaders, h.call B (GLCall.glCreateShader type))

/-- `glGenBuffers(1, &id)` and the name it writes. -/
def Host.glGenBuffers (B : Backend) (h : Host) : Nat × Host :=
  (B.gen h.dev.buffers, h.call B (GLCall.glGenBuffers 1))

/-- `glGenFramebuffers(1, &id)` and the name it writes. -/
def Host.glGenFramebuffers (B : Backend) (h : Host) : Nat × Host :=
  (B.gen h.dev.framebuffers, h.call B (GLCall.glGenFramebuffers 1))

/-- `glGenTextures(1, &id)` and the name it writes. -/
def Host.glGenTextures (B : Backend) (h : Host) : Nat × Host :=
  (B.gen h.dev.textures, h.call B (GLCall.glGenTextures 1))

/-- `glGenVertexArrays(1, &id)` and the name it writes. -/
def Host.glGenVertexArrays (B : Backend) (h : Host) : Nat × Host :=
  (B.gen h.dev.vertexArrays, h.call B (GLCall.glGenVertexArrays 1))

/-- Lines 1157-1160. -/
def GL_CheckLinkError (B : Backend) (id : Nat) (h : Host) : Bool × Host :=
  (!B.linked id, h.call B (GLCall.glGetProgramiv id GLenum.GL_LINK_STATUS))

/-- The local `struct Shader` of `GL_LoadShader` (line 685). -/
structure GL_LoadShader.Shader where
  id : Handle
  file : List String

/-- Lines 692-697. -/
def GL_LoadShader.prgmlist : List GL_LoadShader.Shader :=
  [ ⟨Handle.ray2initprgm, ["src/sh/common.vert", "src/sh/ray2init.geom", "src/sh/ray2init.frag"]⟩,
    ⟨Handle.ray2prgm, ["src/sh/common.vert", "src/sh/ray2.geom", "src/sh/ray2.frag"]⟩,
    ⟨Handle.selectprgm, ["src/sh/common.vert", "src/sh/common.geom", "src/sh/select.frag"]⟩,
    ⟨Handle.drawprgm, ["src/sh/common.vert", "src/sh/common.geom", "src/sh/draw.frag"]⟩ ]

/-- Line 689. -/
def GL_LoadShader.shadertype : List GLenum :=
  [GLenum.GL_VERTEX_SHADER, GLenum.GL_GEOMETRY_SHADER, GLenum.GL_FRAGMENT_SHADER]

/-- Lines 707-712: one pass of the loop that creates and attaches the
shaders of the program `prgmid`; the state carries the array `shidlist`. -/
def GL_LoadShader.create (B : Backend) (prgmid : Nat) (acc : List Nat × Host) (type : GLenum) :
    List Nat × Host :=
  let r := acc.2.glCreateShader B type
  (acc.1 ++ [r.1], r.2.call B (GLCall.glAttachShader prgmid r.1))

/-- Lines 715-717: one pass of the loop that reads the files; the state
carries the array `frlist`. -/
def GL_LoadShader.read (files : String → Option String) (acc : List String × Host)
    (file : String) : List String × Host :=
  (acc.1 ++ [(FileRead files file).1], acc.2.print (FileRead files file).2)

/-- Lines 719-723: one pass of the loop that compiles the shaders. -/
def GL_LoadShader.compile (B : Backend) (shidlist : List Nat) (frlist : List String) (h : Host)
    (j : Nat) : Host :=
  (h.call B (GLCall.glShaderSource (shidlist.getD j 0) 1 (frlist.getD j ""))).call B
    (GLCall.glCompileShader (shidlist.getD j 0))

/-- Lines 727-747: the report of a link error.  The strings made by `snprintf`
keep at most `MAXCHARSIZE` characters, the information log at most 511. -/
def GL_LoadShader.report (B : Backend) (prgmid : Nat) (file : List String) (h : Host) : Host :=
  let check := GL_CheckLinkError B prgmid h
  if check.1 then
    let shlist := String.join (file.map (fun file => (" " ++ file).take MAXCHARSIZE))
    let h := check.2.call B (GLCall.glGetProgramInfoLog prgmid (512 - 1))
    h.print ["Shader Link Error:" ++ shlist ++ ":\n" ++ (B.infoLog prgmid).take (512 - 1) ++ "\n"]
  else check.2

/-- Lines 701-749: one pass of the loop over the programs. -/
def GL_LoadShader.body (B : Backend) (files : String → Option String) (h : Host)
    (prgm : GL_LoadShader.Shader) : Host :=
  let r := h.glCreateProgram B
  let prgmid := r.1
  let h := r.2.store (r.2.st.assign prgm.id prgmid)
  let created := GL_LoadShader.shadertype.foldl (GL_LoadShader.create B prgmid) ([], h)
  let shidlist := created.1
  let read := prgm.file.foldl (GL_LoadShader.read files) ([], created.2)
  let frlist := read.1
  let h := (List.range MAXSHADERTYPE).foldl (GL_LoadShader.compile B shidlist frlist) read.2
  let h := h.call B (GLCall.glLinkProgram prgmid)
  GL_LoadShader.report B prgmid prgm.file h

/-- Lines 676-755. -/
def GL_LoadShader (B : Backend) (files : String → Option String) (h : Host) : Host :=
  GL_LoadShader.prgmlist.foldl (GL_LoadShader.body B files) h

/-- Lines 766-774: one pass of the loop of `GL_UnLoadShader`.  `attlen` and
`att` keep their initial values when `glGetAttachedShaders` raises an error. -/
def GL_UnLoadShader.body (B : Backend) (h : Host) (prgm : Handle) : Host :=
  let att := (h.dev.attachedShaders (h.st.deref prgm) MAXSHADERTYPE).getD []
  let h := h.call B (GLCall.glGetAttachedShaders (h.st.deref prgm) MAXSHADERTYPE)
  let h := att.foldl (fun h shader => h.call B (GLCall.glDeleteShader shader)) h
  let h := h.call B (GLCall.glDeleteProgram (h.st.deref prgm))
  h.store (h.st.assign prgm 0)

/-- Lines 757-777. -/
def GL_UnLoadShader (B : Backend) (h : Host) : Host :=
  [Handle.ray2initprgm, Handle.ray2prgm, Handle.selectprgm, Handle.drawprgm].foldl
    (GL_UnLoadShader.body B) h

/-- The local `struct Ubo` of `GL_LoadUbo` (line 795). -/
structure GL_LoadUbo.Ubo where
  id : Handle
  datasize : Int
  name : String

/-- Lines 801-804. -/
def GL_LoadUbo.ubolist (POINTS_PER_UNIT : Nat) : List GL_LoadUbo.Ubo :=
  [ ⟨Handle.ubounitbuff, ((sizeof_data_Unit * MAXUNITBUFFSIZE : Nat) : Int), "UboUnitBuffer"⟩,
    ⟨Handle.uboplbuff, ((sizeof_float * POINTS_PER_UNIT * MAXPLANEBUFFSIZE : Nat) : Int),
      "UboPlaneBuffer"⟩ ]

/-- Lines 808-826: one pass of the loop of `GL_LoadUbo`. -/
def GL_LoadUbo.body (B : Backend) (h : Host) (ubo : GL_LoadUbo.Ubo) : Host :=
  let r := h.glGenBuffers B
  let id := r.1
  let h := r.2.store (r.2.st.assign ubo.id id)
  let h := h.call B (GLCall.glBindBuffer GLenum.GL_UNIFORM_BUFFER id)
  let h := h.store (setnewuboindex h.st)
  let h := h.call B (GLCall.glBindBufferBase GLenum.GL_UNIFORM_BUFFER (getuboindex h.st) id)
  let h := h.call B (GLCall.glBufferData GLenum.GL_UNIFORM_BUFFER ubo.datasize
    GLenum.GL_DYNAMIC_DRAW)
  let bindshader := [h.st.ray2prgm, h.st.drawprgm]
  let h := bindshader.foldl
    (fun h shader => h.call B (GLCall.glUniformBlockBinding shader ubo.name (getuboindex h.st)))
    h
  h.call B (GLCall.glBindBuffer GLenum.GL_UNIFORM_BUFFER 0)

/-- Lines 787-828. -/
def GL_LoadUbo (B : Backend) (POINTS_PER_UNIT : Nat) (h : Host) : Host :=
  (GL_LoadUbo.ubolist POINTS_PER_UNIT).foldl (GL_LoadUbo.body B) h

/-- Lines 830-840. -/
def GL_UnLoadUbo (B : Backend) (h : Host) : Host :=
  [Handle.ubounitbuff, Handle.uboplbuff].foldl
    (fun h ubo =>
      let h := h.call B (GLCall.glDeleteBuffers 1 [h.st.deref ubo])
      h.store (h.st.assign ubo 0))
    h

/-- The local `struct Fbo` of `GL_LoadFbo` (line 859). -/
structure GL_LoadFbo.Fbo where
  id : Handle
  passshader : Nat
  layersize : Int

/-- The local `struct Texture` of `GL_LoadFbo` (line 864). -/
structure GL_LoadFbo.Texture where
  attachment : GLenum
  internalformat : GLenum
  format : GLenum
  type : GLenum
  name : String

/-- Lines 871-874. -/
def GL_LoadFbo.texdeflist : List GL_LoadFbo.Texture :=
  [ ⟨GLenum.GL_DEPTH_ATTACHMENT, GLenum.GL_DEPTH_COMPONENT32F, GLenum.GL_DEPTH_COMPONENT,
      GLenum.GL_FLOAT, "depthbuffer"⟩,
    ⟨GLenum.GL_COLOR_ATTACHMENT0, GLenum.GL_RG16F, GLenum.GL_RG, GLenum.GL_HALF_FLOAT,
      "indexbuffer"⟩ ]

/-- Lines 877-880: the list is made from the handles as they are when
`GL_LoadFbo` starts. -/
def GL_LoadFbo.fbolist (st : Statics) : List GL_LoadFbo.Fbo :=
  [ ⟨Handle.ray2fbo, st.selectprgm, ((RAYSIDELEN * MAXUNITSIZE : Nat) : Int)⟩,
    ⟨Handle.selectfbo, st.drawprgm, 1⟩ ]

/-- Lines 895-917: one pass of the loop over the textures of a frame buffer. -/
def GL_LoadFbo.texture (B : Backend) (PIXELS_W PIXELS_H : Nat) (tmppassshader : Nat)
    (tmplayersize : Int) (h : Host) (tex : GL_LoadFbo.Texture) : Host :=
  let h := h.store (setnewtextindex h.st)
  let h := h.call B (GLCall.glActiveTexture (gettextindex h.st))
  let r := h.glGenTextures B
  let texID := r.1
  let h := r.2.call B (GLCall.glBindTexture GLenum.GL_TEXTURE_2D_ARRAY texID)
  let h := h.call B (GLCall.glFramebufferTexture GLenum.GL_FRAMEBUFFER tex.attachment texID 0)
  let h := h.call B (GLCall.glTexImage3D GLenum.GL_TEXTURE_2D_ARRAY 0 tex.internalformat
    PIXELS_W PIXELS_H tmplayersize 0 tex.format tex.type)
  let h := h.call B (GLCall.glTexParameteri GLenum.GL_TEXTURE_2D_ARRAY
    GLenum.GL_TEXTURE_MAX_LEVEL 0)
  let h := h.call B (GLCall.glUseProgram tmppassshader)
  let h := h.call B (GLCall.glUniform1i tmppassshader tex.name (gettextindex h.st))
  h.call B (GLCall.glUseProgram 0)

/-- Lines 884-927: one pass of the loop over the frame buffers. -/
def GL_LoadFbo.body (B : Backend) (PIXELS_W PIXELS_H : Nat) (h : Host) (fbo : GL_LoadFbo.Fbo) :
    Host :=
  let r := h.glGenFramebuffers B
  let id := r.1
  let h := r.2.store (r.2.st.assign fbo.id id)
  let h := h.call B (GLCall.glBindFramebuffer GLenum.GL_FRAMEBUFFER id)
  let h := h.call B (GLCall.glDrawBuffers 1 [GLenum.GL_COLOR_ATTACHMENT0])
  let h := GL_LoadFbo.texdeflist.foldl
    (GL_LoadFbo.texture B PIXELS_W PIXELS_H fbo.passshader fbo.layersize) h
  let complete := B.complete h.dev.framebuffer
  let h := h.call B (GLCall.glCheckFramebufferStatus GLenum.GL_FRAMEBUFFER)
  let h := if complete then h else h.print ["Error: FBO frame buffer initialize error.\n"]
  h.call B (GLCall.glBindFramebuffer GLenum.GL_FRAMEBUFFER 0)

/-- Lines 851-929. -/
def GL_LoadFbo (B : Backend) (PIXELS_W PIXELS_H : Nat) (h : Host) : Host :=
  (GL_LoadFbo.fbolist h.st).foldl (GL_LoadFbo.body B PIXELS_W PIXELS_H) h

/-- Lines 946-951: one pass of the loop over the attachment points.  The
static `id` keeps its value when the query raises an error. -/
def GL_UnLoadFbo.texture (B : Backend) (h : Host) (att : GLenum) : Host :=
  let id := (h.dev.attachmentName att).getD h.st.id
  let h := h.call B (GLCall.glGetFramebufferAttachmentParameteriv GLenum.GL_FRAMEBUFFER att
    GLenum.GL_FRAMEBUFFER_ATTACHMENT_OBJECT_NAME)
  let h := h.store { h.st with id := id }
  h.call B (GLCall.glDeleteTextures 1 [id])

/-- Lines 942-958: one pass of the loop over the frame buffers. -/
def GL_UnLoadFbo.body (B : Backend) (h : Host) (fbo : Handle) : Host :=
  let h := h.call B (GLCall.glBindFramebuffer GLenum.GL_FRAMEBUFFER (h.st.deref fbo))
  let h := [GLenum.GL_DEPTH_ATTACHMENT, GLenum.GL_COLOR_ATTACHMENT0].foldl
    (GL_UnLoadFbo.texture B) h
  let h := h.call B (GLCall.glDeleteFramebuffers 1 [h.st.deref fbo])
  let h := h.store (h.st.assign fbo 0)
  h.call B (GLCall.glBindFramebuffer GLenum.GL_FRAMEBUFFER 0)

/-- Lines 931-960. -/
def GL_UnLoadFbo (B : Backend) (h : Host) : Host :=
  [Handle.ray2fbo, Handle.selectfbo].foldl (GL_UnLoadFbo.body B) h

/-- Lines 995-1011: one pass of the first loop of `GL_LoadCamRay`, for the
handle `id` and the array `screen`; the state carries the array `raytexindex`.
The initialiser of the static `texindex` runs on the first pass of the first
call only. -/
def GL_LoadCamRay.texture (B : Backend) (PIXELS_W PIXELS_H : Nat)
    (acc : List Int × Host) (tex : Handle × List float) : List Int × Host :=
  let h := acc.2
  let h := h.store (setnewtextindex h.st)
  let texindex := h.st.texindex.getD (gettextindex h.st)
  let h := h.store { h.st with texindex := some texindex }
  let h := h.call B (GLCall.glActiveTexture texindex)
  let r := h.glGenTextures B
  let id := r.1
  let h := r.2.store (r.2.st.assign tex.1 id)
  let h := h.call B (GLCall.glBindTexture GLenum.GL_TEXTURE_2D id)
  let h := h.call B (GLCall.glTexImage2D GLenum.GL_TEXTURE_2D 0 GLenum.GL_RGBA32F PIXELS_W
    PIXELS_H 0 GLenum.GL_RGBA GLenum.GL_FLOAT (tex.2.flatMap float.bytes))
  let h := h.call B (GLCall.glTexParameteri GLenum.GL_TEXTURE_2D GLenum.GL_TEXTURE_MAX_LEVEL 0)
  (acc.1 ++ [texindex], h)

/-- Lines 968-1034. -/
def GL_LoadCamRay (B : Backend) (PIXELS_W PIXELS_H : Nat) (screenraypos screenraydir : List float)
    (h : Host) : Host :=
  let raybuffname := ["raybuffer[0]", "raybuffer[1]"]
  let texlist := [(Handle.camraypostex, screenraypos), (Handle.camraydirtex, screenraydir)]
  let made := texlist.foldl (GL_LoadCamRay.texture B PIXELS_W PIXELS_H) ([], h)
  let raytexindex := made.1
  let raytexbindshader := [made.2.st.ray2prgm, made.2.st.drawprgm]
  raytexbindshader.foldl
    (fun h shader =>
      let h := h.call B (GLCall.glUseProgram shader)
      let h := (List.range 2).foldl
        (fun h m => h.call B
          (GLCall.glUniform1iv shader (raybuffname.getD m "") 1 [raytexindex.getD m 0]))
        h
      h.call B (GLCall.glUseProgram 0))
    made.2

/-- Lines 1036-1044. -/
def GL_UnLoadCamRay (B : Backend) (h : Host) : Host :=
  [Handle.camraypostex, Handle.camraydirtex].foldl
    (fun h tex =>
      let h := h.call B (GLCall.glDeleteTextures 1 [h.st.deref tex])
      h.store (h.st.assign tex 0))
    h

/-- Lines 1058-1088. -/
def GL_LoadImgData (B : Backend) (images : String → Option Image) (h : Host) : Host :=
  let h := h.store (setnewtextindex h.st)
  let h := h.call B (GLCall.glActiveTexture (gettextindex h.st))
  let r := h.glGenTextures B
  let id := r.1
  let h := r.2.store { r.2.st with imgtex := id }
  let h := h.call B (GLCall.glBindTexture GLenum.GL_TEXTURE_2D id)
  let img := Image.load images "src/pic3.png"
  let h := h.print img.2
  let h := h.call B (GLCall.glTexImage2D GLenum.GL_TEXTURE_2D 0 GLenum.GL_RGB img.1.width
    img.1.height 0 (if img.1.channels = 4 then GLenum.GL_RGBA else GLenum.GL_RGB)
    GLenum.GL_UNSIGNED_BYTE img.1.buff)
  let h := [GLenum.GL_TEXTURE_MIN_FILTER, GLenum.GL_TEXTURE_MAG_FILTER].foldl
    (fun h filter => h.call B (GLCall.glTexParameteri GLenum.GL_TEXTURE_2D filter GL_LINEAR))
    h
  let h := h.call B (GLCall.glUseProgram h.st.drawprgm)
  let h := h.call B (GLCall.glUniform1i h.st.drawprgm "img" (gettextindex h.st))
  h.call B (GLCall.glUseProgram 0)

/-- Lines 1090-1093. -/
def GL_UnLoadImgData (B : Backend) (h : Host) : Host :=
  let h := h.call B (GLCall.glDeleteTextures 1 [h.st.imgtex])
  h.store { h.st with imgtex := 0 }

/-- Lines 1096-1105. -/
def GL_LoadScreenRender (B : Backend) (h : Host) : Host :=
  let r := h.glGenVertexArrays B
  let id := r.1
  let h := r.2.store { r.2.st with dummyvao := id }
  h.call B (GLCall.glClearColor float.zero float.zero float.zero float.zero)

/-- Lines 1107-1110. -/
def GL_UnLoadScreenRender (B : Backend) (h : Host) : Host :=
  let h := h.call B (GLCall.glDeleteVertexArrays 1 [h.st.dummyvao])
  h.store { h.st with dummyvao := 0 }

/-- The check that ends `Ray::Initialize` and `Ray::Release`: `GL_CheckError`
and the message written when it finds an error. -/
def Host.check (B : Backend) (pending : Nat) (message : String) (h : Host) : Host :=
  let h := (GL_CheckError pending).2.foldl (Host.call B) h
  if (GL_CheckError pending).1 then h.print [message] else h

/-- The function `Ray::Initialize` (lines 344-380); `pending` is the number of
OpenGL error flags set when line 378 polls them. -/
def Ray.Initialize (B : Backend) (I : Inputs) (pending : Nat) (h : Host) : Host :=
  let h := h.call B (GLCall.glEnable GLenum.GL_DEPTH_TEST)
  let h := GL_LoadShader B I.files h
  let h := GL_LoadUbo B I.POINTS_PER_UNIT h
  let h := GL_LoadFbo B I.PIXELS_W I.PIXELS_H h
  let h := GL_LoadCamRay B I.PIXELS_W I.PIXELS_H I.screenraypos I.screenraydir h
  let h := GL_LoadImgData B I.images h
  let h := GL_LoadScreenRender B h
  h.check B pending "Error: Error has been confirmed in initialization process.\n."

/-- The function `Ray::Release` (lines 400-433); `pending` is the number of
OpenGL error flags set when line 431 polls them. -/
def Ray.Release (B : Backend) (pending : Nat) (h : Host) : Host :=
  let h := GL_UnLoadScreenRender B h
  let h := GL_UnLoadImgData B h
  let h := GL_UnLoadCamRay B h
  let h := GL_UnLoadFbo B h
  let h := GL_UnLoadUbo B h
  let h := GL_UnLoadShader B h
  h.check B pending "Error: Error has been confirmed in release process.\n."

/-- The names are chosen among those not in use, and are not 0. -/
def Backend.fresh (B : Backend) : Prop := ∀ l : List Nat, B.gen l ∉ l ∧ B.gen l ≠ 0

/-- The names in use after `k` more names have been generated. -/
def Backend.names (B : Backend) (live : List Nat) : Nat → List Nat
  | 0 => live
  | k + 1 => B.gen (B.names live k) :: B.names live k

/-- The `k`-th name generated from the names `live` in use, counting from 0. -/
def Backend.name (B : Backend) (live : List Nat) (k : Nat) : Nat := B.gen (B.names live k)

/-- The program named by the handle `k` is in use and is not 0, at most three
shaders are attached to it, and each of them is in use, is not 0 and is
attached to no other program in use. -/
def Host.owns (h : Host) (k : Handle) : Prop :=
  h.st.deref k ≠ 0 ∧ h.st.deref k ∈ h.dev.programs
  ∧ (h.dev.attached (h.st.deref k)).length ≤ MAXSHADERTYPE
  ∧ ∀ s ∈ h.dev.attached (h.st.deref k), s ≠ 0 ∧ s ∈ h.dev.shaders
      ∧ ∀ q ∈ h.dev.programs, q ≠ h.st.deref k → s ∉ h.dev.attached q

/-- The shaders attached to the programs in use are in use. -/
def Mock.wf (m : Mock) : Prop := ∀ q ∈ m.programs, ∀ s ∈ m.attached q, s ∈ m.shaders

/-- The shaders attached to each program once `Ray::Initialize` has run on the
mock device `m`. -/
def Mock.attachedAfter (B : Backend) (m : Mock) : Nat → List Nat :=
  Function.update (Function.update (Function.update (Function.update m.attached
    (B.name m.programs 0) [B.name m.shaders 0, B.name m.shaders 1, B.name m.shaders 2])
    (B.name m.programs 1) [B.name m.shaders 3, B.name m.shaders 4, B.name m.shaders 5])
    (B.name m.programs 2) [B.name m.shaders 6, B.name m.shaders 7, B.name m.shaders 8])
    (B.name m.programs 3) [B.name m.shaders 9, B.name m.shaders 10, B.name m.shaders 11]

/-! ## Texture units and sampler uniforms in a list of calls -/

/-- The textures bound in a list of OpenGL calls, in order, each with the
texture unit that is active when `glBindTexture` binds it and with the target;
`active` is the unit active before the first call. -/
def textureBindings (active : Int) : List GLCall → List (Int × GLenum × Nat)
  | [] => []
  | GLCall.glActiveTexture unit :: rest => textureBindings unit rest
  | GLCall.glBindTexture target texture :: rest =>
    (active, target, texture) :: textureBindings active rest
  | _ :: rest => textureBindings active rest

/-- The integer uniforms set in a list of OpenGL calls, in order, each as
`(program, name, value)`. -/
def intUniforms : List GLCall → List (Nat × String × Int)
  | [] => []
  | GLCall.glUniform1i program name v0 :: rest => (program, name, v0) :: intUniforms rest
  | GLCall.glUniform1iv program name _ value :: rest =>
    value.map (fun v => (program, name, v)) ++ intUniforms rest
  | _ :: rest => intUniforms rest

/-- A mock device that names the objects of each kind 1, 2, 3, ... when none
is in use, links every program and completes every frame buffer. -/
def sample.B : Backend :=
  { gen := fun l => l.foldl max 0 + 1
    linked := fun _ => true
    infoLog := fun _ => ""
    complete := fun _ => true }

/-- Sample inputs: a screen of 4 by 2 pixels, empty shader files, no image. -/
def sample.I : Inputs :=
  { POINTS_PER_UNIT := 2
    PIXELS_W := 4
    PIXELS_H := 2
    files := fun _ => some ""
    images := fun _ => none
    screenraypos := []
    screenraydir := [] }

/-- The angle `-time / 800.0f` of line 1243 at frame counter `frame`. -/
def updatemat4.angle (F : FloatOps) (frame : Nat) : float :=
  F.div (F.neg (F.mul (F.ofUnsigned frame) F.lit_16_6667)) F.lit_800

/-- A descriptor array whose first object has a unit of four lines after its
first unit of line count 0. -/
def sample.unitsTail : Arr Ray.Object MAXOBJECTSIZE :=
  ![{ unit := ![sample.unit 2 10, {}, sample.unit 4 70], updatemat4 := UpdateFn.updatemat4 },
    { unit := ![sample.unit 1 30, sample.unit 3 40, {}], updatemat4 := UpdateFn.updatemat4_default },
    {}, {}, {}]

/-- The descriptor array `sample.unitsTail` without the unit after the first
unit of line count 0. -/
def sample.unitsCut : Arr Ray.Object MAXOBJECTSIZE :=
  ![{ unit := ![sample.unit 2 10, {}, {}], updatemat4 := UpdateFn.updatemat4 },
    { unit := ![sample.unit 1 30, sample.unit 3 40, {}], updatemat4 := UpdateFn.updatemat4_default },
    {}, {}, {}]

/-- The two allocator counters, `plbuffindex` of line 1214 and `unitbuffindex`
of line 1223, as a pair. -/
def Statics.counters (st : Statics) : Int × Int := (st.plbuffindex, st.unitbuffindex)

/-- The destructor (line 324): `delete table;` releases the table, and no
static variable is read or written. -/
def Ray.destructor (table : Option Table) (st : Statics) : Option Table × Statics :=
  (table.bind (fun _ => none), st)

/-- The sum of `unitsize` over the live objects of a table. -/
def Table.unitsizeSum (t : Table) : Int :=
  ((List.range t.objectsize.toNat).map (fun n => (Arr.get t.object n).unitsize)).sum

/-! ## The constructor on the machine
The functions of the constructor with the arithmetic of the compiled program:
an `int` holds 32 bits, and a sum or product that leaves `[-2 ^ 31, 2 ^ 31)`
comes back wrapped into that range. -/

/-- The value that an `int` computation with the exact result `x` leaves in a
32-bit `int`. -/
def int32 (x : Int) : Int := (x + 2 ^ 31) % 2 ^ 32 - 2 ^ 31

/-- The exact result `x` of an `int` computation fits a 32-bit `int`. -/
def int32.inRange (x : Int) : Prop := -2 ^ 31 ≤ x ∧ x < 2 ^ 31

instance (x : Int) : Decidable (int32.inRange x) := by
  unfold int32.inRange; infer_instance

/-- Line 1218 on the machine: `plbuffindex += increase` on an `int`. -/
def machine.setnewplbuffindex (st : Statics) (increase : Int) : Statics :=
  { st with plbuffindex := int32 (st.plbuffindex + increase) }

/-- Line 1227 on the machine: `unitbuffindex += increase` on an `int`. -/
def machine.setunitbuffindex (st : Statics) (increase : Int) : Statics :=
  { st with unitbuffindex := int32 (st.unitbuffindex + increase) }

/-- Line 267 on the machine: `i` runs below the `int` product
`POINTS_PER_UNIT * linesize`. -/
def machine.Ray.pushplane (POINTS_PER_UNIT : Nat) (u : Ray.Unit) (tmpplbuff : List float) :
    List float :=
  (List.range (int32 ((POINTS_PER_UNIT : Int) * u.linesize)).toNat).foldl
    (fun v i => v ++ [u.buff i]) tmpplbuff

/-- Lines 260-271 on the machine; `++unitsize` stays below `MAXUNITSIZE`. -/
def machine.Ray.unitBody (POINTS_PER_UNIT : Nat) (u : Ray.Unit) (n m : Nat) (s : Ray.Inner) :
    Ray.Inner :=
  let t1 := s.table.modifyObject n (fun o => o.modifyUnit m (fun x => { x with plsize := u.linesize }))
  let t2 := t1.modifyObject n (fun o => o.modifyUnit m (fun x => { x with plstart := getplbuffindex s.st }))
  { table := t2
    st := machine.setnewplbuffindex s.st u.linesize
    unitsize := s.unitsize + 1
    tmpunitbuff := s.tmpunitbuff ++ [u.att]
    tmpplbuff := machine.Ray.pushplane POINTS_PER_UNIT u s.tmpplbuff }

/-- Lines 256-273 on the machine, entered at `m` with `k` iterations left. -/
def machine.Ray.unitLoop (POINTS_PER_UNIT : Nat) (o : Ray.Object) (n : Nat) :
    Nat → Nat → Ray.Inner → Ray.Inner
  | 0, _, s => s
  | k + 1, m, s =>
    if (Arr.get o.unit m).linesize = 0 then s
    else machine.Ray.unitLoop POINTS_PER_UNIT o n k (m + 1)
      (machine.Ray.unitBody POINTS_PER_UNIT (Arr.get o.unit m) n m s)

/-- Lines 251-292 on the machine; `++objectsize` stays below `MAXOBJECTSIZE`. -/
def machine.Ray.objectBody (POINTS_PER_UNIT : Nat) (o : Ray.Object) (n : Nat) (s : Ray.Outer) :
    Ray.Outer :=
  let i := machine.Ray.unitLoop POINTS_PER_UNIT o n MAXUNITSIZE 0
    { table := s.table, st := s.st, unitsize := 0, tmpunitbuff := [], tmpplbuff := [] }
  let t1 := i.table.modifyObject n (fun x => { x with unitsize := i.unitsize })
  let t2 := t1.modifyObject n (fun x => { x with unitstart := getunitbuffindex i.st })
  let t3 := t2.modifyObject n (fun x => { x with modelmat4 := copymat4 x.modelmat4 o.modelmat })
  let t4 := t3.modifyObject n (fun x => { x with updatemat4 := o.updatemat4 })
  { table := t4
    st := machine.setunitbuffindex i.st i.unitsize
    objectsize := s.objectsize + 1
    plbuff := i.tmpplbuff.foldl (fun v elm => v ++ [elm]) s.plbuff
    unitbuff := i.tmpunitbuff.foldl (fun v elm => v ++ [elm]) s.unitbuff }

/-- Lines 246-294 on the machine, entered at `n` with `k` iterations left. -/
def machine.Ray.objectLoop (POINTS_PER_UNIT : Nat) (object : Arr Ray.Object MAXOBJECTSIZE) :
    Nat → Nat → Ray.Outer → Ray.Outer
  | 0, _, s => s
  | k + 1, n, s =>
    if (Arr.get (Arr.get object n).unit 0).linesize = 0 then s
    else machine.Ray.objectLoop POINTS_PER_UNIT object k (n + 1)
      (machine.Ray.objectBody POINTS_PER_UNIT (Arr.get object n) n s)

/-- The constructor (lines 194-317) on the machine, run on the descriptor array
`object` from the statics `st`; `pending` is the number of OpenGL error flags
set when line 315 polls them. -/
def machine.Ray.Ray (POINTS_PER_UNIT : Nat) (object : Arr Ray.Object MAXOBJECTSIZE)
    (st : Statics) (pending : Nat) : Ray.Result :=
  let s := machine.Ray.objectLoop POINTS_PER_UNIT object MAXOBJECTSIZE 0
    { table := {}, st := st, objectsize := 0, plbuff := [], unitbuff := [] }
  let table : Table := { s.table with objectsize := s.objectsize }
  let plbufflines := s.plbuff.length % 2 ^ 32 / POINTS_PER_UNIT
  let unitbuffsize := s.unitbuff.length % 2 ^ 32
  let err := GL_CheckError pending
  { table := table
    st := s.st
    plbuff := s.plbuff
    unitbuff := s.unitbuff
    plbufflines := plbufflines
    unitbuffsize := unitbuffsize
    cout :=
      (if s.plbuff.length > POINTS_PER_UNIT * MAXPLANEBUFFSIZE
        then ["Error: Plane buffer size error.\n"] else [])
      ++ (if s.unitbuff.length > MAXUNITBUFFSIZE
        then ["Error: Ray unit buffer size error.\n"] else [])
      ++ (if err.1 then ["Error: Error has been confirmed in constructor.\n."] else [])
    gl := GL_PlaneBuffer_Reset POINTS_PER_UNIT s.st s.plbuff plbufflines
      ++ GL_UnitBuffer_Reset_unitbuff s.st s.unitbuff unitbuffsize
      ++ err.2 }

/-- No `int` computation of the constructor, run on `object` from `st`, leaves
the range of `int`: for every accepted slot `n` the unit counter after line 279,
and for every accepted unit `m` of it the plane counter after line 264 and the
product of line 267. -/
def Ray.inRange (POINTS_PER_UNIT : Nat) (object : Arr Ray.Object MAXOBJECTSIZE)
    (st : Statics) : Prop :=
  ∀ n : Nat, n < Ray.objectcount object →
    int32.inRange (st.unitbuffindex
      + ∑ j in Finset.range (n + 1), (Ray.unitcount (Arr.get object j) : Int))
    ∧ ∀ m : Nat, m < Ray.unitcount (Arr.get object n) →
        int32.inRange (st.plbuffindex + ∑ j in Finset.range n, Ray.linetotal (Arr.get object j)
          + ∑ q in Finset.range (m + 1), Ray.linesizeAt object n q)
        ∧ int32.inRange ((POINTS_PER_UNIT : Int) * Ray.linesizeAt object n m)

instance (P : Nat) (object : Arr Ray.Object MAXOBJECTSIZE) (st : Statics) :
    Decidable (Ray.inRange P object st) := by
  unfold Ray.inRange; infer_instance

/-! ## `Ray::Update` on the machine
The per-frame functions with the behaviour of the compiled program: `int`
sums and products wrap, and the call of line 107 through a null pointer ends
the process, so that `Ray::Update` does not return. -/

/-- The call `fn(modelmat4)` of line 107 on the machine: `none` when `fn` is the
null pointer and the process ends there. -/
def machine.UpdateFn.call (F : FloatOps) (st : Statics) (fn : UpdateFn) (modelmat4 : Mat4) :
    Option Mat4 :=
  match fn with
  | UpdateFn.nullptr => none
  | UpdateFn.updatemat4_default => some (ray.updatemat4_default modelmat4)
  | UpdateFn.updatemat4 => some (ray.updatemat4 F st modelmat4)

/-- Lines 474-491 on the machine: the `int` sum `ubooffset + ubounitstartindex`
and `++ubooffset`. -/
def machine.GL_UnitBuffer_Update (g : Gpu) : Gpu :=
  let g1 := g.emit
    [ GLCall.glBindBuffer GLenum.GL_UNIFORM_BUFFER g.st.ubounitbuff,
      GLCall.glBufferSubData GLenum.GL_UNIFORM_BUFFER
        ((sizeof_data_Unit : Int) * int32 (g.st.ubooffset + g.st.ubounitstartindex))
        (sizeof_modelmat4 : Int) (Mat4.bytes g.st.ubomodelmat4),
      GLCall.glBindBuffer GLenum.GL_UNIFORM_BUFFER 0 ]
  { g1 with st := { g1.st with ubooffset := int32 (g1.st.ubooffset + 1) } }

/-- Lines 514-559 on the machine: the `int` sum `ray2offset + ray2unitstartindex`,
the `int` product `6 * unit->plsize` and `++ray2offset`. -/
def machine.GL_Ray2Buffer_Update (unit : Unit) (g : Gpu) : Gpu :=
  let g1 := g.emit
    [ GLCall.glDepthFunc GLenum.GL_ALWAYS,
      GLCall.glUseProgram g.st.ray2initprgm,
      GLCall.glUniform1i g.st.ray2initprgm "unitsegment" g.st.ray2offset,
      GLCall.glDrawArrays GLenum.GL_TRIANGLES 0 6,
      GLCall.glUseProgram 0 ]
  let uniform : List (Int × String) :=
    [ (unit.plstart, "plstart"),
      (int32 (g.st.ray2offset + g.st.ray2unitstartindex), "unitindex"),
      (g.st.ray2offset, "unitsegment") ]
  let g2 := g1.emit
    ([ GLCall.glDepthFunc GLenum.GL_GEQUAL,
       GLCall.glUseProgram g.st.ray2prgm ]
     ++ uniform.map (fun u => GLCall.glUniform1i g.st.ray2prgm u.2 u.1)
     ++ [ GLCall.glUniformMatrix4fv g.st.ray2prgm "viewmat4" 1 true (GetViewmat4 g.st).floats,
          GLCall.glDrawArrays GLenum.GL_TRIANGLES 0 (int32 (6 * unit.plsize)),
          GLCall.glUseProgram 0 ])
  { g2 with st := { g2.st with ray2offset := int32 (g2.st.ray2offset + 1) } }

/-- Lines 105-109 on the machine: `none` when the process ends at line 107. -/
def machine.Ray.Update.movements (F : FloatOps) (st : Statics) (table : Table) : Option Table :=
  (List.range table.objectsize.toNat).foldl
    (fun t n => t.bind (fun t =>
      (machine.UpdateFn.call F st (Arr.get t.object n).updatemat4
          (Arr.get t.object n).modelmat4).map
        (fun M => t.modifyObject n (fun o => { o with modelmat4 := M }))))
    (some table)

/-- Lines 113-123 on the machine. -/
def machine.Ray.Update.upload (table : Table) (g : Gpu) : Gpu :=
  (List.range table.objectsize.toNat).foldl
    (fun g n =>
      (List.range (Arr.get table.object n).unitsize.toNat).foldl
        (fun g _ => machine.GL_UnitBuffer_Update g)
        (GL_UnitBuffer_Reset (Arr.get table.object n).unitstart
          (Arr.get table.object n).modelmat4 g))
    g

/-- Lines 131-145 on the machine. -/
def machine.Ray.Update.passes (table : Table) (g : Gpu) : Gpu :=
  (List.range table.objectsize.toNat).foldl
    (fun g n =>
      GL_SelectionBuffer_Update (GL_Ray2Buffer_Release
        ((List.range (Arr.get table.object n).unitsize.toNat).foldl
          (fun g m => machine.GL_Ray2Buffer_Update (Arr.get (Arr.get table.object n).unit m) g)
          (GL_Ray2Buffer_Initialize (Arr.get table.object n).unitstart g))))
    g

/-- The method `Ray::Update` (lines 93-154) on the machine: `none` when the
process ends at line 107, which is before the first OpenGL call of the frame;
otherwise what the call leaves behind. -/
def machine.Ray.Update (F : FloatOps) (cam : Camera) (table : Table) (st : Statics)
    (pending : Nat) : Option Ray.Frame :=
  let st1 := SetViewmat4 F cam (SetNewFrame st)
  (machine.Ray.Update.movements F st1 table).map (fun table1 =>
    let g1 := machine.Ray.Update.upload table1 { st := st1 }
    let g2 := GL_SelectionBuffer_Reset g1
    let g3 := machine.Ray.Update.passes table1 g2
    let g4 := GL_DrawBuffer_Update g3
    let err := GL_CheckError pending
    let g5 := g4.emit err.2
    let first := if err.1 then IsFirstUpdError g5.st else (false, g5.st)
    { table := table1
      st := first.2
      cout := if err.1 && first.1
        then ["\rError: Error has been confirmed in update process.\n."] else []
      gl := g5.gl })

/-- The OpenGL calls that one `Ray::Update` issues on the machine, whether it
returns or not: the loop of lines 105-109 comes before every OpenGL call of
the method, so a call that ends at line 107 has issued none. -/
def machine.Ray.Update.issued (F : FloatOps) (cam : Camera) (table : Table) (st : Statics)
    (pending : Nat) : List GLCall :=
  match machine.Ray.Update F cam table st pending with
  | some frame => frame.gl
  | none => []

/-- No `int` computation of `Ray::Update` on `table` leaves the range of `int`:
for every unit `m < unitsize` of every object `n < objectsize`, the sums
`m + unitstart` of lines 480 and 543, the increments of lines 489 and 557, and
the product `6 * plsize` of line 552. -/
def Ray.Update.inRange (table : Table) : Prop :=
  ∀ n : Nat, n < table.objectsize.toNat →
    ∀ m : Nat, m < (Arr.get table.object n).unitsize.toNat →
      int32.inRange ((m : Int) + (Arr.get table.object n).unitstart)
      ∧ int32.inRange ((m : Int) + 1)
      ∧ int32.inRange (6 * (table.unitAt n m).plsize)

instance (table : Table) : Decidable (Ray.Update.inRange table) := by
  unfold Ray.Update.inRange; infer_instance

/-- Every object `n < objectsize` has an update function. -/
def Table.hasUpdateFns (table : Table) : Prop :=
  ∀ n : Nat, n < table.objectsize.toNat → (Arr.get table.object n).updatemat4 ≠ UpdateFn.nullptr

instance (table : Table) : Decidable table.hasUpdateFns := by
  unfold Table.hasUpdateFns; infer_instance

/-- A descriptor array whose only object is left without an update function:
its `updatemat4` keeps the default `nullptr` of line 209. -/
def sample.noUpdate : Arr Ray.Object MAXOBJECTSIZE :=
  ![{ unit := ![sample.unit 2 10, {}, {}] }, {}, {}, {}, {}]

/-- A table with one object of one unit of 400000000 planes. -/
def sample.wide : Table :=
  { objectsize := 1
    object := ![{ updatemat4 := UpdateFn.updatemat4_default, unitsize := 1,
                  unit := ![{ plstart := 0, plsize := 400000000 }, {}, {}] },
                {}, {}, {}, {}] }

/-! # Lemmas and theorems -/

theorem Arr.set_set {α : Type} {N : Nat} (a : Arr α N) (i : Nat) (v w : α) :
    Arr.set (Arr.set a i v) i w = Arr.set a i w := by
  funext k; simp only [Arr.set]; split <;> rfl

theorem Arr.get_set_self {α : Type} [Inhabited α] {N : Nat} (a : Arr α N) (i : Nat) (v : α)
    (h : i < N) : Arr.get (Arr.set a i v) i = v := by
  simp [Arr.get, Arr.set, h]

theorem Arr.get_set_of_ne {α : Type} [Inhabited α] {N : Nat} (a : Arr α N) (i j : Nat) (v : α)
    (h : j ≠ i) : Arr.get (Arr.set a i v) j = Arr.get a j := by
  simp only [Arr.get, Arr.set]; split
  · simp [h]
  · rfl

theorem Arr.set_of_le {α : Type} {N : Nat} (a : Arr α N) (i : Nat) (v : α) (h : N ≤ i) :
    Arr.set a i v = a := by
  funext k; have := k.isLt; simp only [Arr.set]; split
  · omega
  · rfl

theorem Arr.get_fin {α : Type} [Inhabited α] {N : Nat} (a : Arr α N) (k : Fin N) :
    Arr.get a k.val = a k := by
  simp [Arr.get]

theorem copymat4_eq (dst src : Mat4) : copymat4 dst src = src := by
  funext i j
  fin_cases i <;> fin_cases j <;> rfl

theorem foldl_push {α β : Type} (f : β → α) (l : List β) (acc : List α) :
    l.foldl (fun v i => v ++ [f i]) acc = acc ++ l.map f := by
  induction l generalizing acc with
  | nil => simp
  | cons x xs ih => simp [ih]

theorem Ray.pushplane_eq (P : Nat) (u : Ray.Unit) (v : List float) :
    Ray.pushplane P u v = v ++ Ray.plane P u := by
  simp [Ray.pushplane, Ray.plane, foldl_push]

theorem Ray.unitLoop_unitsize (P : Nat) (o : Ray.Object) (n k m : Nat) (s : Ray.Inner) :
    (Ray.unitLoop P o n k m s).unitsize = s.unitsize + Ray.nunits o k m := by
  induction k generalizing m s with
  | zero => simp [Ray.unitLoop, Ray.nunits]
  | succ k ih =>
    simp only [Ray.unitLoop, Ray.nunits]
    split
    · simp
    · rw [ih]; simp [Ray.unitBody]; omega

theorem setnewplbuffindex_zero (st : Statics) : setnewplbuffindex st 0 = st := by
  cases st; simp [setnewplbuffindex]

theorem setnewplbuffindex_add (st : Statics) (a b : Int) :
    setnewplbuffindex (setnewplbuffindex st a) b = setnewplbuffindex st (a + b) := by
  simp [setnewplbuffindex, add_assoc]

theorem Ray.unitLoop_st (P : Nat) (o : Ray.Object) (n k m : Nat) (s : Ray.Inner) :
    (Ray.unitLoop P o n k m s).st
      = setnewplbuffindex s.st
          (∑ j in Finset.range (Ray.nunits o k m), (Arr.get o.unit (m + j)).linesize) := by
  induction k generalizing m s with
  | zero => simp [Ray.unitLoop, Ray.nunits, setnewplbuffindex_zero]
  | succ k ih =>
    simp only [Ray.unitLoop, Ray.nunits]
    split
    · simp [setnewplbuffindex_zero]
    · rw [ih, Finset.sum_range_succ']
      simp only [Ray.unitBody, setnewplbuffindex_add, add_zero]
      congr 1
      rw [add_comm]
      congr 1
      apply Finset.sum_congr rfl
      intro j _
      congr 2
      omega

theorem Ray.unitLoop_tmpplbuff (P : Nat) (o : Ray.Object) (n k m : Nat) (s : Ray.Inner) :
    (Ray.unitLoop P o n k m s).tmpplbuff
      = s.tmpplbuff ++ (List.range (Ray.nunits o k m)).flatMap
          (fun j => Ray.plane P (Arr.get o.unit (m + j))) := by
  induction k generalizing m s with
  | zero => simp [Ray.unitLoop, Ray.nunits]
  | succ k ih =>
    simp only [Ray.unitLoop, Ray.nunits]
    split
    · simp
    · rw [ih, List.range_succ_eq_map]
      simp only [Ray.unitBody, Ray.pushplane_eq, List.flatMap_cons, List.append_assoc, add_zero]
      congr 2
      simp only [List.flatMap, List.map_map]
      congr 2
      funext j
      simp only [Function.comp, Nat.succ_eq_add_one]
      congr 2
      omega

theorem Ray.unitLoop_tmpunitbuff (P : Nat) (o : Ray.Object) (n k m : Nat) (s : Ray.Inner) :
    (Ray.unitLoop P o n k m s).tmpunitbuff
      = s.tmpunitbuff ++ (List.range (Ray.nunits o k m)).map
          (fun j => (Arr.get o.unit (m + j)).att) := by
  induction k generalizing m s with
  | zero => simp [Ray.unitLoop, Ray.nunits]
  | succ k ih =>
    simp only [Ray.unitLoop, Ray.nunits]
    split
    · simp
    · rw [ih, List.range_succ_eq_map]
      simp only [Ray.unitBody, List.map_cons, List.append_assoc, add_zero, List.map_map]
      congr 2
      simp only [List.singleton_append, List.cons.injEq, true_and]
      congr 1
      funext j
      simp only [Function.comp, Nat.succ_eq_add_one]
      congr 2
      omega

theorem Arr.set_get {α : Type} [Inhabited α] {N : Nat} (a : Arr α N) (i : Nat) :
    Arr.set a i (Arr.get a i) = a := by
  funext k
  simp only [Arr.set, Arr.get]
  split
  · next h => subst h; simp
  · rfl

theorem Table.modifyObject_id (t : Table) (n : Nat) : t.modifyObject n (fun x => x) = t := by
  simp [Table.modifyObject, Arr.set_get]

theorem Table.modifyObject_comp (t : Table) (n : Nat) (f g : Object → Object) :
    (t.modifyObject n f).modifyObject n g = t.modifyObject n (fun x => g (f x)) := by
  simp only [Table.modifyObject]
  by_cases h : n < MAXOBJECTSIZE
  · rw [Arr.get_set_self _ _ _ h, Arr.set_set]
  · rw [Arr.set_of_le _ _ _ (by omega), Arr.set_of_le _ _ _ (by omega), Arr.set_of_le _ _ _ (by omega)]

theorem Ray.unitsAfter_zero (o : Ray.Object) (m : Nat) (p : Int) (old : Arr ray.Unit MAXUNITSIZE) :
    Ray.unitsAfter o m 0 p old = old := by
  funext i
  unfold Ray.unitsAfter
  rw [if_neg (by omega)]

theorem Ray.unitLoop_table (P : Nat) (o : Ray.Object) (n k m : Nat) (s : Ray.Inner) :
    (Ray.unitLoop P o n k m s).table
      = s.table.modifyObject n (fun x =>
          { x with unit := Ray.unitsAfter o m (Ray.nunits o k m) s.st.plbuffindex x.unit }) := by
  induction k generalizing m s with
  | zero =>
    simp only [Ray.unitLoop, Ray.nunits, Ray.unitsAfter_zero]
    exact (Table.modifyObject_id _ _).symm
  | succ k ih =>
    simp only [Ray.unitLoop, Ray.nunits]
    split
    · simp only [Ray.unitsAfter_zero]
      exact (Table.modifyObject_id _ _).symm
    · rw [ih]
      simp only [Ray.unitBody, Table.modifyObject_comp]
      congr 1
      funext x
      simp only [Object.modifyUnit, setnewplbuffindex, getplbuffindex, Arr.set_set]
      congr 1
      funext i
      simp only [Ray.unitsAfter]
      by_cases h1 : i.val = m
      · have h2 : ¬ (m + 1 ≤ i.val ∧ i.val < m + 1 + Ray.nunits o k (m + 1)) := by omega
        have h3 : m ≤ i.val ∧ i.val < m + (Ray.nunits o k (m + 1) + 1) := by omega
        have h4 : m < MAXUNITSIZE := by have := i.isLt; omega
        rw [if_neg h2, if_pos h3]
        simp only [Arr.set, h1, if_true, Nat.sub_self, Finset.range_zero, Finset.sum_empty, add_zero,
          Arr.get_set_self _ _ _ h4]
      · by_cases h5 : m + 1 ≤ i.val ∧ i.val < m + 1 + Ray.nunits o k (m + 1)
        · have h3 : m ≤ i.val ∧ i.val < m + (Ray.nunits o k (m + 1) + 1) := by omega
          rw [if_pos h5, if_pos h3]
          have h6 : i.val - m = (i.val - (m + 1)) + 1 := by omega
          rw [h6, Finset.sum_range_succ']
          congr 1
          simp only [add_zero]
          rw [add_assoc]
          congr 1
          rw [add_comm]
          congr 1
          apply Finset.sum_congr rfl
          intro j _
          congr 2
          omega
        · have h3 : ¬ (m ≤ i.val ∧ i.val < m + (Ray.nunits o k (m + 1) + 1)) := by omega
          rw [if_neg h5, if_neg h3]
          simp [Arr.set, h1]

theorem Statics.advance_zero (st : Statics) : st.advance 0 0 = st := by
  cases st; simp [Statics.advance]

theorem Statics.advance_advance (st : Statics) (a b c d : Int) :
    (st.advance a b).advance c d = st.advance (a + c) (b + d) := by
  simp [Statics.advance, add_assoc]

theorem Ray.objectBody_eq (P : Nat) (o : Ray.Object) (n : Nat) (s : Ray.Outer) :
    Ray.objectBody P o n s =
      { table := s.table.modifyObject n (Ray.objectAfter o s.st.plbuffindex s.st.unitbuffindex)
        st := s.st.advance (Ray.linetotal o) (Ray.unitcount o)
        objectsize := s.objectsize + 1
        plbuff := s.plbuff ++ Ray.objplane P o
        unitbuff := s.unitbuff ++ Ray.objatts o } := by
  simp only [Ray.objectBody, Ray.unitLoop_table, Ray.unitLoop_st, Ray.unitLoop_unitsize,
    Ray.unitLoop_tmpplbuff, Ray.unitLoop_tmpunitbuff, Table.modifyObject_comp, foldl_push,
    List.map_id', copymat4_eq, zero_add, List.nil_append, getunitbuffindex,
    setnewplbuffindex, setunitbuffindex, Statics.advance, Ray.linetotal,
    Ray.unitcount, Ray.objplane, Ray.objatts]
  rfl

theorem Ray.objectsAfter_zero (object : Arr Ray.Object MAXOBJECTSIZE) (n : Nat) (p u : Int)
    (old : Arr ray.Object MAXOBJECTSIZE) : Ray.objectsAfter object n 0 p u old = old := by
  funext i
  unfold Ray.objectsAfter
  rw [if_neg (by omega)]

theorem Ray.objectsAfter_succ (object : Arr Ray.Object MAXOBJECTSIZE) (n c : Nat) (p u : Int)
    (old : Arr ray.Object MAXOBJECTSIZE) :
    Ray.objectsAfter object (n + 1) c
        (p + Ray.linetotal (Arr.get object n)) (u + Ray.unitcount (Arr.get object n))
        (Arr.set old n (Ray.objectAfter (Arr.get object n) p u (Arr.get old n)))
      = Ray.objectsAfter object n (c + 1) p u old := by
  funext i
  simp only [Ray.objectsAfter]
  by_cases h1 : i.val = n
  · have h2 : ¬ (n + 1 ≤ i.val ∧ i.val < n + 1 + c) := by omega
    have h3 : n ≤ i.val ∧ i.val < n + (c + 1) := by omega
    rw [if_neg h2, if_pos h3]
    simp only [Arr.set, h1, if_true, Nat.sub_self, Finset.range_zero, Finset.sum_empty, add_zero]
    rw [← h1, Arr.get_fin, Arr.get_fin]
  · by_cases h5 : n + 1 ≤ i.val ∧ i.val < n + 1 + c
    · have h3 : n ≤ i.val ∧ i.val < n + (c + 1) := by omega
      rw [if_pos h5, if_pos h3]
      have h6 : i.val - n = (i.val - (n + 1)) + 1 := by omega
      have e1 : ∀ j : Nat, n + 1 + j = n + (j + 1) := by intro j; omega
      rw [h6, Finset.sum_range_succ', Finset.sum_range_succ']
      simp only [add_zero, e1, Arr.set, h1, if_false]
      congr 1 <;> ring
    · have h3 : ¬ (n ≤ i.val ∧ i.val < n + (c + 1)) := by omega
      rw [if_neg h5, if_neg h3]
      simp [Arr.set, h1]

theorem Ray.objectLoop_eq (P : Nat) (object : Arr Ray.Object MAXOBJECTSIZE) (k n : Nat)
    (s : Ray.Outer) :
    Ray.objectLoop P object k n s =
      { table := { s.table with object :=
          (Ray.objectsAfter object n (Ray.nobjects object k n) s.st.plbuffindex
            s.st.unitbuffindex s.table.object) }
        st := s.st.advance
          (∑ j in Finset.range (Ray.nobjects object k n), Ray.linetotal (Arr.get object (n + j)))
          (∑ j in Finset.range (Ray.nobjects object k n),
            (Ray.unitcount (Arr.get object (n + j)) : Int))
        objectsize := s.objectsize + Ray.nobjects object k n
        plbuff := s.plbuff ++ (List.range (Ray.nobjects object k n)).flatMap
          (fun j => Ray.objplane P (Arr.get object (n + j)))
        unitbuff := s.unitbuff ++ (List.range (Ray.nobjects object k n)).flatMap
          (fun j => Ray.objatts (Arr.get object (n + j))) } := by
  induction k generalizing n s with
  | zero =>
    cases s
    simp [Ray.objectLoop, Ray.nobjects, Ray.objectsAfter_zero, Statics.advance_zero]
  | succ k ih =>
    simp only [Ray.objectLoop, Ray.nobjects]
    split
    · cases s
      simp [Ray.objectsAfter_zero, Statics.advance_zero]
    · rw [ih, Ray.objectBody_eq]
      have e1 : ∀ j : Nat, n + 1 + j = n + (j + 1) := by intro j; omega
      simp only [Statics.advance_advance, Finset.sum_range_succ', List.range_succ_eq_map,
        List.flatMap_cons, List.append_assoc, add_zero, e1, Table.modifyObject]
      congr 1
      · congr 1
        exact Ray.objectsAfter_succ object n _ _ _ _
      · congr 1 <;> ring
      · push_cast; ring
      · congr 2
        simp only [List.flatMap, List.map_map]
        rfl
      · congr 2
        simp only [List.flatMap, List.map_map]
        rfl

theorem Ray.Ray_table (P : Nat) (object : Arr Ray.Object MAXOBJECTSIZE) (st : Statics)
    (pending : Nat) :
    (Ray.Ray P object st pending).table =
      { objectsize := Ray.objectcount object
        object := Ray.objectsAfter object 0 (Ray.objectcount object) st.plbuffindex
          st.unitbuffindex (fun _ => {}) } := by
  simp [Ray.Ray, Ray.objectLoop_eq, Ray.objectcount]

theorem Ray.Ray_st (P : Nat) (object : Arr Ray.Object MAXOBJECTSIZE) (st : Statics)
    (pending : Nat) :
    (Ray.Ray P object st pending).st = st.advance
      (∑ j in Finset.range (Ray.objectcount object), Ray.linetotal (Arr.get object j))
      (∑ j in Finset.range (Ray.objectcount object), (Ray.unitcount (Arr.get object j) : Int)) := by
  simp [Ray.Ray, Ray.objectLoop_eq, Ray.objectcount]

theorem Ray.Ray_plbuff (P : Nat) (object : Arr Ray.Object MAXOBJECTSIZE) (st : Statics)
    (pending : Nat) :
    (Ray.Ray P object st pending).plbuff =
      (List.range (Ray.objectcount object)).flatMap (fun j => Ray.objplane P (Arr.get object j)) := by
  simp [Ray.Ray, Ray.objectLoop_eq, Ray.objectcount]

theorem Ray.Ray_unitbuff (P : Nat) (object : Arr Ray.Object MAXOBJECTSIZE) (st : Statics)
    (pending : Nat) :
    (Ray.Ray P object st pending).unitbuff =
      (List.range (Ray.objectcount object)).flatMap (fun j => Ray.objatts (Arr.get object j)) := by
  simp [Ray.Ray, Ray.objectLoop_eq, Ray.objectcount]

theorem Ray.nunits_le (o : Ray.Object) (k m : Nat) : Ray.nunits o k m ≤ k := by
  induction k generalizing m with
  | zero => simp [Ray.nunits]
  | succ k ih =>
    simp only [Ray.nunits]
    split
    · omega
    · have := ih (m + 1); omega

theorem Ray.nunits_ne (o : Ray.Object) (k m j : Nat) (h : j < Ray.nunits o k m) :
    (Arr.get o.unit (m + j)).linesize ≠ 0 := by
  induction k generalizing m j with
  | zero => simp [Ray.nunits] at h
  | succ k ih =>
    simp only [Ray.nunits] at h
    split at h
    · omega
    · next hne =>
      cases j with
      | zero => simpa using hne
      | succ j =>
        have := ih (m + 1) j (by omega)
        rwa [show m + 1 + j = m + (j + 1) by omega] at this

theorem Ray.nunits_stop (o : Ray.Object) (k m : Nat) (h : Ray.nunits o k m < k) :
    (Arr.get o.unit (m + Ray.nunits o k m)).linesize = 0 := by
  induction k generalizing m with
  | zero => omega
  | succ k ih =>
    simp only [Ray.nunits] at h ⊢
    split
    · next h0 => simpa using h0
    · next hne =>
      rw [if_neg hne] at h
      have := ih (m + 1) (by omega)
      rwa [show m + 1 + Ray.nunits o k (m + 1) = m + (Ray.nunits o k (m + 1) + 1) by omega] at this

theorem Ray.nobjects_le (object : Arr Ray.Object MAXOBJECTSIZE) (k n : Nat) :
    Ray.nobjects object k n ≤ k := by
  induction k generalizing n with
  | zero => simp [Ray.nobjects]
  | succ k ih =>
    simp only [Ray.nobjects]
    split
    · omega
    · have := ih (n + 1); omega

theorem Ray.nobjects_ne (object : Arr Ray.Object MAXOBJECTSIZE) (k n j : Nat)
    (h : j < Ray.nobjects object k n) :
    (Arr.get (Arr.get object (n + j)).unit 0).linesize ≠ 0 := by
  induction k generalizing n j with
  | zero => simp [Ray.nobjects] at h
  | succ k ih =>
    simp only [Ray.nobjects] at h
    split at h
    · omega
    · next hne =>
      cases j with
      | zero => simpa using hne
      | succ j =>
        have := ih (n + 1) j (by omega)
        rwa [show n + 1 + j = n + (j + 1) by omega] at this

theorem Ray.nobjects_stop (object : Arr Ray.Object MAXOBJECTSIZE) (k n : Nat)
    (h : Ray.nobjects object k n < k) :
    (Arr.get (Arr.get object (n + Ray.nobjects object k n)).unit 0).linesize = 0 := by
  induction k generalizing n with
  | zero => omega
  | succ k ih =>
    simp only [Ray.nobjects] at h ⊢
    split
    · next h0 => simpa using h0
    · next hne =>
      rw [if_neg hne] at h
      have := ih (n + 1) (by omega)
      rwa [show n + 1 + Ray.nobjects object k (n + 1)
        = n + (Ray.nobjects object k (n + 1) + 1) by omega] at this

theorem Ray.objectcount_le (object : Arr Ray.Object MAXOBJECTSIZE) :
    Ray.objectcount object ≤ MAXOBJECTSIZE := Ray.nobjects_le object _ _

theorem Ray.unitcount_le (o : Ray.Object) : Ray.unitcount o ≤ MAXUNITSIZE := Ray.nunits_le o _ _

theorem Ray.unitcount_pos (o : Ray.Object) (h : (Arr.get o.unit 0).linesize ≠ 0) :
    0 < Ray.unitcount o := by
  simp [Ray.unitcount, Ray.nunits, h]

theorem Ray.lt_nunits (o : Ray.Object) (k m c : Nat) (hc : c < k)
    (h : ∀ q, q ≤ c → (Arr.get o.unit (m + q)).linesize ≠ 0) : c < Ray.nunits o k m := by
  by_contra hle
  have hlt : Ray.nunits o k m < k := by omega
  exact h (Ray.nunits o k m) (by omega) (Ray.nunits_stop o k m hlt)

theorem Ray.lt_nobjects (object : Arr Ray.Object MAXOBJECTSIZE) (k n c : Nat) (hc : c < k)
    (h : ∀ q, q ≤ c → (Arr.get (Arr.get object (n + q)).unit 0).linesize ≠ 0) :
    c < Ray.nobjects object k n := by
  by_contra hle
  have hlt : Ray.nobjects object k n < k := by omega
  exact h (Ray.nobjects object k n) (by omega) (Ray.nobjects_stop object k n hlt)

theorem Ray.accepted_iff (object : Arr Ray.Object MAXOBJECTSIZE) (n m : Nat) :
    Ray.accepted object n m ↔
      n < Ray.objectcount object ∧ m < Ray.unitcount (Arr.get object n) := by
  constructor
  · rintro ⟨hn, hm, ho, hu⟩
    refine ⟨Ray.lt_nobjects object MAXOBJECTSIZE 0 n hn ?_, Ray.lt_nunits _ MAXUNITSIZE 0 m hm ?_⟩
    · intro q hq
      simpa [Ray.linesizeAt] using ho q hq
    · intro q hq
      simpa [Ray.linesizeAt] using hu q hq
  · rintro ⟨hn, hm⟩
    refine ⟨lt_of_lt_of_le hn (Ray.objectcount_le _), lt_of_lt_of_le hm (Ray.unitcount_le _), ?_, ?_⟩
    · intro j hj
      have := Ray.nobjects_ne object MAXOBJECTSIZE 0 j (lt_of_le_of_lt hj hn)
      simpa [Ray.linesizeAt] using this
    · intro q hq
      have := Ray.nunits_ne (Arr.get object n) MAXUNITSIZE 0 q (lt_of_le_of_lt hq hm)
      simpa [Ray.linesizeAt] using this

theorem Ray.Ray_objectsize (P : Nat) (object : Arr Ray.Object MAXOBJECTSIZE) (st : Statics)
    (pending : Nat) :
    (Ray.Ray P object st pending).table.objectsize = Ray.objectcount object := by
  rw [Ray.Ray_table]

theorem Ray.Ray_object_of_lt (P : Nat) (object : Arr Ray.Object MAXOBJECTSIZE) (st : Statics)
    (pending : Nat) (n : Nat) (h : n < Ray.objectcount object) :
    Arr.get (Ray.Ray P object st pending).table.object n =
      Ray.objectAfter (Arr.get object n)
        (st.plbuffindex + ∑ j in Finset.range n, Ray.linetotal (Arr.get object j))
        (st.unitbuffindex + ∑ j in Finset.range n, (Ray.unitcount (Arr.get object j) : Int))
        {} := by
  have h5 : n < MAXOBJECTSIZE := lt_of_lt_of_le h (Ray.objectcount_le object)
  rw [Ray.Ray_table]
  simp only [Arr.get, h5, dif_pos, Ray.objectsAfter, Nat.zero_le, true_and, zero_add, h, if_true,
    Nat.sub_zero]

theorem Ray.Ray_object_of_ge (P : Nat) (object : Arr Ray.Object MAXOBJECTSIZE) (st : Statics)
    (pending : Nat) (n : Nat) (h : Ray.objectcount object ≤ n) :
    Arr.get (Ray.Ray P object st pending).table.object n = {} := by
  rw [Ray.Ray_table]
  simp only [Arr.get]
  split
  · simp only [Ray.objectsAfter, zero_add]
    rw [if_neg (by omega)]
  · rfl

theorem Ray.unitsAfter_get_of_lt (o : Ray.Object) (c : Nat) (p : Int)
    (old : Arr ray.Unit MAXUNITSIZE) (m : Nat) (h : m < c) (h3 : m < MAXUNITSIZE) :
    Arr.get (Ray.unitsAfter o 0 c p old) m =
      { plstart := p + ∑ j in Finset.range m, (Arr.get o.unit j).linesize
        plsize := (Arr.get o.unit m).linesize } := by
  simp only [Arr.get, h3, dif_pos, Ray.unitsAfter, Nat.zero_le, true_and, zero_add, h, if_true,
    Nat.sub_zero]

theorem Ray.Ray_live_iff (P : Nat) (object : Arr Ray.Object MAXOBJECTSIZE) (st : Statics)
    (pending : Nat) (n m : Nat) :
    (Ray.Ray P object st pending).table.live n m ↔
      n < Ray.objectcount object ∧ m < Ray.unitcount (Arr.get object n) := by
  unfold Table.live
  rw [Ray.Ray_objectsize]
  by_cases h : n < Ray.objectcount object
  · rw [Ray.Ray_object_of_lt P object st pending n h]
    simp [Ray.objectAfter, h]
  · rw [Ray.Ray_object_of_ge P object st pending n (by omega)]
    simp [h]

theorem Ray.Ray_unitAt (P : Nat) (object : Arr Ray.Object MAXOBJECTSIZE) (st : Statics)
    (pending : Nat) (n m : Nat) (hn : n < Ray.objectcount object)
    (hm : m < Ray.unitcount (Arr.get object n)) :
    (Ray.Ray P object st pending).table.unitAt n m =
      { plstart := st.plbuffindex + ∑ j in Finset.range n, Ray.linetotal (Arr.get object j)
          + ∑ j in Finset.range m, Ray.linesizeAt object n j
        plsize := Ray.linesizeAt object n m } := by
  unfold Table.unitAt
  rw [Ray.Ray_object_of_lt P object st pending n hn]
  simp only [Ray.objectAfter]
  rw [Ray.unitsAfter_get_of_lt _ _ _ _ m hm (lt_of_lt_of_le hm (Ray.unitcount_le _))]
  rfl

theorem Ray.linetotal_eq (object : Arr Ray.Object MAXOBJECTSIZE) (n : Nat) :
    Ray.linetotal (Arr.get object n)
      = ∑ j in Finset.range (Ray.unitcount (Arr.get object n)), Ray.linesizeAt object n j := rfl

theorem Ray.linetotal_nonneg (object : Arr Ray.Object MAXOBJECTSIZE) (n : Nat)
    (h : ∀ m, m < Ray.unitcount (Arr.get object n) → 0 ≤ Ray.linesizeAt object n m) :
    0 ≤ Ray.linetotal (Arr.get object n) := by
  rw [Ray.linetotal_eq]
  exact Finset.sum_nonneg (fun j hj => h j (Finset.mem_range.mp hj))

/-- With non-negative accepted line counts, a live unit ends no later than any
live unit after it in descriptor order starts. -/
theorem Ray.Ray_range_le (P : Nat) (object : Arr Ray.Object MAXOBJECTSIZE) (st : Statics)
    (pending : Nat)
    (h0 : ∀ n m, n < Ray.objectcount object → m < Ray.unitcount (Arr.get object n)
      → 0 ≤ Ray.linesizeAt object n m)
    (n m n' m' : Nat)
    (hn : n < Ray.objectcount object) (hm : m < Ray.unitcount (Arr.get object n))
    (hn' : n' < Ray.objectcount object) (hm' : m' < Ray.unitcount (Arr.get object n'))
    (hlt : n < n' ∨ (n = n' ∧ m < m')) :
    ((Ray.Ray P object st pending).table.unitAt n m).plstart
        + ((Ray.Ray P object st pending).table.unitAt n m).plsize
      ≤ ((Ray.Ray P object st pending).table.unitAt n' m').plstart := by
  rw [Ray.Ray_unitAt P object st pending n m hn hm, Ray.Ray_unitAt P object st pending n' m' hn' hm']
  simp only
  have hsucc : ∑ j in Finset.range m, Ray.linesizeAt object n j + Ray.linesizeAt object n m
      = ∑ j in Finset.range (m + 1), Ray.linesizeAt object n j := by
    rw [Finset.sum_range_succ]
  rcases hlt with hlt | ⟨rfl, hlt⟩
  · have a1 : ∑ j in Finset.range (m + 1), Ray.linesizeAt object n j
        ≤ Ray.linetotal (Arr.get object n) := by
      rw [Ray.linetotal_eq]
      apply Finset.sum_le_sum_of_subset_of_nonneg
      · intro j hj
        simp only [Finset.mem_range] at hj ⊢
        omega
      · intro j hj _
        exact h0 n j hn (Finset.mem_range.mp hj)
    have a2 : ∑ j in Finset.range (n + 1), Ray.linetotal (Arr.get object j)
        ≤ ∑ j in Finset.range n', Ray.linetotal (Arr.get object j) := by
      apply Finset.sum_le_sum_of_subset_of_nonneg
      · intro j hj
        simp only [Finset.mem_range] at hj ⊢
        omega
      · intro j hj _
        have hj' : j < Ray.objectcount object := by
          have := Finset.mem_range.mp hj; omega
        exact Ray.linetotal_nonneg object j (fun q hq => h0 j q hj' hq)
    have a3 : 0 ≤ ∑ j in Finset.range m', Ray.linesizeAt object n' j := by
      apply Finset.sum_nonneg
      intro j hj
      exact h0 n' j hn' (by have := Finset.mem_range.mp hj; omega)
    rw [Finset.sum_range_succ] at a2
    linarith
  · have a1 : ∑ j in Finset.range (m + 1), Ray.linesizeAt object n j
        ≤ ∑ j in Finset.range m', Ray.linesizeAt object n j := by
      apply Finset.sum_le_sum_of_subset_of_nonneg
      · intro j hj
        simp only [Finset.mem_range] at hj ⊢
        omega
      · intro j hj _
        exact h0 n j hn (by have := Finset.mem_range.mp hj; omega)
    linarith

/-- Over exact integers: for a descriptor array whose accepted units all have a
positive line count, the plane ranges of the constructed table are contiguous
in descriptor order and pairwise disjoint. -/
theorem Ray.Ray_plane_ranges (P : Nat) (object : Arr Ray.Object MAXOBJECTSIZE)
    (st : Statics) (pending : Nat)
    (hpos : ∀ n m : Nat, Ray.accepted object n m → 0 < Ray.linesizeAt object n m) :
    ((Ray.Ray P object st pending).table.live 0 0 →
        ((Ray.Ray P object st pending).table.unitAt 0 0).plstart = getplbuffindex st)
    ∧ (∀ n m : Nat, (Ray.Ray P object st pending).table.live n (m + 1) →
        ((Ray.Ray P object st pending).table.unitAt n (m + 1)).plstart
          = ((Ray.Ray P object st pending).table.unitAt n m).plstart
            + ((Ray.Ray P object st pending).table.unitAt n m).plsize)
    ∧ (∀ n m : Nat, (Ray.Ray P object st pending).table.live (n + 1) 0 →
        (m : Int) + 1 = (Arr.get (Ray.Ray P object st pending).table.object n).unitsize →
        ((Ray.Ray P object st pending).table.unitAt (n + 1) 0).plstart
          = ((Ray.Ray P object st pending).table.unitAt n m).plstart
            + ((Ray.Ray P object st pending).table.unitAt n m).plsize)
    ∧ (∀ n m n' m' : Nat, (Ray.Ray P object st pending).table.live n m →
        (Ray.Ray P object st pending).table.live n' m' → (n ≠ n' ∨ m ≠ m') →
        ∀ x : Int,
          ¬ ((((Ray.Ray P object st pending).table.unitAt n m).plstart ≤ x
              ∧ x < ((Ray.Ray P object st pending).table.unitAt n m).plstart
                    + ((Ray.Ray P object st pending).table.unitAt n m).plsize)
            ∧ (((Ray.Ray P object st pending).table.unitAt n' m').plstart ≤ x
              ∧ x < ((Ray.Ray P object st pending).table.unitAt n' m').plstart
                    + ((Ray.Ray P object st pending).table.unitAt n' m').plsize))) := by
  have h0 : ∀ n m, n < Ray.objectcount object → m < Ray.unitcount (Arr.get object n)
      → 0 ≤ Ray.linesizeAt object n m := fun n m hn hm =>
    le_of_lt (hpos n m ((Ray.accepted_iff object n m).mpr ⟨hn, hm⟩))
  refine ⟨?_, ?_, ?_, ?_⟩
  · intro hl
    obtain ⟨hn, hm⟩ := (Ray.Ray_live_iff P object st pending 0 0).mp hl
    rw [Ray.Ray_unitAt P object st pending 0 0 hn hm]
    simp [getplbuffindex]
  · intro n m hl
    obtain ⟨hn, hm⟩ := (Ray.Ray_live_iff P object st pending n (m + 1)).mp hl
    rw [Ray.Ray_unitAt P object st pending n (m + 1) hn hm,
      Ray.Ray_unitAt P object st pending n m hn (by omega)]
    simp only [Finset.sum_range_succ]
    ring
  · intro n m hl hlast
    obtain ⟨hn, hm⟩ := (Ray.Ray_live_iff P object st pending (n + 1) 0).mp hl
    have hn0 : n < Ray.objectcount object := by omega
    rw [Ray.Ray_object_of_lt P object st pending n hn0] at hlast
    simp only [Ray.objectAfter] at hlast
    have hc : Ray.unitcount (Arr.get object n) = m + 1 := by exact_mod_cast hlast.symm
    rw [Ray.Ray_unitAt P object st pending (n + 1) 0 hn hm,
      Ray.Ray_unitAt P object st pending n m hn0 (by omega)]
    simp only [Finset.sum_range_succ, Finset.range_zero, Finset.sum_empty, add_zero,
      Ray.linetotal_eq, hc]
    ring
  · intro n m n' m' hl hl' hne x ⟨⟨a1, a2⟩, ⟨b1, b2⟩⟩
    obtain ⟨hn, hm⟩ := (Ray.Ray_live_iff P object st pending n m).mp hl
    obtain ⟨hn', hm'⟩ := (Ray.Ray_live_iff P object st pending n' m').mp hl'
    have hcases : (n < n' ∨ (n = n' ∧ m < m')) ∨ (n' < n ∨ (n' = n ∧ m' < m)) := by omega
    rcases hcases with hlt | hlt
    · have := Ray.Ray_range_le P object st pending h0 n m n' m' hn hm hn' hm' hlt
      omega
    · have := Ray.Ray_range_le P object st pending h0 n' m' n m hn' hm' hn hm hlt
      omega

/-- The live units of the constructed table are the accepted units of the
descriptor array. -/
theorem Ray.Ray_live_iff_accepted (P : Nat) (object : Arr Ray.Object MAXOBJECTSIZE)
    (st : Statics) (pending : Nat) (n m : Nat) :
    (Ray.Ray P object st pending).table.live n m ↔ Ray.accepted object n m := by
  rw [Ray.Ray_live_iff, Ray.accepted_iff]

theorem sample.objects_pos :
    ∀ n m : Nat, Ray.accepted sample.objects n m → 0 < Ray.linesizeAt sample.objects n m := by
  intro n m h
  have hn5 : n < 5 := h.1
  have hm3 : m < 3 := h.2.1
  interval_cases n <;> interval_cases m <;> revert h <;> decide

theorem sum_map_range (f : Nat → Int) (c : Nat) :
    ((List.range c).map f).sum = ∑ j in Finset.range c, f j := by
  induction c with
  | zero => simp
  | succ c ih => simp [List.range_succ, Finset.sum_range_succ, ih]

theorem length_flatMap_range {α : Type} (f : Nat → List α) (c : Nat) :
    ((List.range c).flatMap f).length = ∑ j in Finset.range c, (f j).length := by
  induction c with
  | zero => simp
  | succ c ih => simp [List.range_succ, Finset.sum_range_succ, ih]

theorem Ray.plane_length (P : Nat) (u : Ray.Unit) :
    (Ray.plane P u).length = ((P : Int) * u.linesize).toNat := by
  simp [Ray.plane]

theorem Ray.Ray_plbuff_length (P : Nat) (object : Arr Ray.Object MAXOBJECTSIZE) (st : Statics)
    (pending : Nat) :
    (Ray.Ray P object st pending).plbuff.length =
      ∑ n in Finset.range (Ray.objectcount object),
        ∑ m in Finset.range (Ray.unitcount (Arr.get object n)),
          ((P : Int) * Ray.linesizeAt object n m).toNat := by
  rw [Ray.Ray_plbuff, length_flatMap_range]
  apply Finset.sum_congr rfl
  intro n _
  rw [Ray.objplane, length_flatMap_range]
  apply Finset.sum_congr rfl
  intro m _
  rw [Ray.plane_length]
  rfl

theorem Ray.Ray_plsizeSum (P : Nat) (object : Arr Ray.Object MAXOBJECTSIZE) (st : Statics)
    (pending : Nat) :
    (Ray.Ray P object st pending).table.plsizeSum =
      ∑ n in Finset.range (Ray.objectcount object),
        ∑ m in Finset.range (Ray.unitcount (Arr.get object n)), Ray.linesizeAt object n m := by
  unfold Table.plsizeSum
  rw [sum_map_range, Ray.Ray_objectsize, Int.toNat_ofNat]
  apply Finset.sum_congr rfl
  intro n hn
  have hn' := Finset.mem_range.mp hn
  rw [sum_map_range, Ray.Ray_object_of_lt P object st pending n hn']
  simp only [Ray.objectAfter, Int.toNat_ofNat]
  apply Finset.sum_congr rfl
  intro m hm
  rw [Ray.Ray_unitAt P object st pending n m hn' (Finset.mem_range.mp hm)]

/-- Over exact integers: when every accepted unit has a positive line count and
the assembled plane array holds fewer than `2 ^ 32` floats, the line count
passed to `GL_PlaneBuffer_Reset` is the sum of `plsize` over the live units. -/
theorem Ray.Ray_upload_lines (P : Nat) (object : Arr Ray.Object MAXOBJECTSIZE)
    (st : Statics) (pending : Nat) (hP : 0 < P)
    (hpos : ∀ n m : Nat, Ray.accepted object n m → 0 < Ray.linesizeAt object n m)
    (hsmall : (Ray.Ray P object st pending).plbuff.length < 2 ^ 32) :
    (Ray.Ray P object st pending).gl =
        GL_PlaneBuffer_Reset P (Ray.Ray P object st pending).st
          (Ray.Ray P object st pending).plbuff (Ray.Ray P object st pending).plbufflines
        ++ GL_UnitBuffer_Reset_unitbuff (Ray.Ray P object st pending).st
          (Ray.Ray P object st pending).unitbuff (Ray.Ray P object st pending).unitbuffsize
        ++ (GL_CheckError pending).2
    ∧ ((Ray.Ray P object st pending).plbufflines : Int)
      = (Ray.Ray P object st pending).table.plsizeSum := by
  refine ⟨rfl, ?_⟩
  have hlen : ((Ray.Ray P object st pending).plbuff.length : Int)
      = (P : Int) * (Ray.Ray P object st pending).table.plsizeSum := by
    rw [Ray.Ray_plbuff_length, Ray.Ray_plsizeSum, Finset.mul_sum]
    push_cast
    apply Finset.sum_congr rfl
    intro n hn
    rw [Finset.mul_sum]
    apply Finset.sum_congr rfl
    intro m hm
    have h := hpos n m ((Ray.accepted_iff object n m).mpr
      ⟨Finset.mem_range.mp hn, Finset.mem_range.mp hm⟩)
    have hP' : (0 : Int) ≤ (P : Int) := Int.ofNat_nonneg P
    exact Int.toNat_of_nonneg (mul_nonneg hP' (le_of_lt h))
  have hlines : (Ray.Ray P object st pending).plbufflines
      = (Ray.Ray P object st pending).plbuff.length / P := by
    show (Ray.Ray P object st pending).plbuff.length % 2 ^ 32 / P = _
    rw [Nat.mod_eq_of_lt hsmall]
  rw [hlines]
  push_cast
  rw [hlen]
  exact Int.mul_ediv_cancel_left _ (by exact_mod_cast hP.ne')

theorem sample.huge_plbuff_length (st : Statics) (pending : Nat) :
    (Ray.Ray 12 sample.huge st pending).plbuff.length = 5400000000 := by
  rw [Ray.Ray_plbuff_length]
  have h1 : Ray.objectcount sample.huge = 1 := by decide
  have h2 : Ray.unitcount (Arr.get sample.huge 0) = 3 := by decide
  have h3 : ∀ m, m < 3 → Ray.linesizeAt sample.huge 0 m = 150000000 := by decide
  rw [h1, Finset.sum_range_one, h2]
  simp only [Finset.sum_range_succ, Finset.range_zero, Finset.sum_empty, zero_add]
  rw [h3 0 (by omega), h3 1 (by omega), h3 2 (by omega)]
  have h4 : (((12 : Nat) : Int) * 150000000).toNat = 1800000000 := by
    have : ((12 : Nat) : Int) * 150000000 = ((1800000000 : Nat) : Int) := by norm_num
    rw [this, Int.toNat_ofNat]
  rw [h4]

theorem Ray.Ray_plbufflines (P : Nat) (object : Arr Ray.Object MAXOBJECTSIZE) (st : Statics)
    (pending : Nat) :
    (Ray.Ray P object st pending).plbufflines
      = (Ray.Ray P object st pending).plbuff.length % 2 ^ 32 / P := rfl

theorem sample.huge_plbufflines (st : Statics) (pending : Nat) :
    (Ray.Ray 12 sample.huge st pending).plbufflines = 92086058 := by
  rw [Ray.Ray_plbufflines, sample.huge_plbuff_length]
  norm_num

theorem sample.huge_plsizeSum (st : Statics) (pending : Nat) :
    (Ray.Ray 12 sample.huge st pending).table.plsizeSum = 450000000 := by
  rw [Ray.Ray_plsizeSum]
  have h1 : Ray.objectcount sample.huge = 1 := by decide
  have h2 : Ray.unitcount (Arr.get sample.huge 0) = 3 := by decide
  have h3 : ∀ m, m < 3 → Ray.linesizeAt sample.huge 0 m = 150000000 := by decide
  rw [h1, Finset.sum_range_one, h2]
  simp only [Finset.sum_range_succ, Finset.range_zero, Finset.sum_empty, zero_add]
  rw [h3 0 (by omega), h3 1 (by omega), h3 2 (by omega)]
  norm_num

theorem Ray.Ray_unitstart (P : Nat) (object : Arr Ray.Object MAXOBJECTSIZE) (st : Statics)
    (pending : Nat) (n : Nat) (h : n < Ray.objectcount object) :
    (Arr.get (Ray.Ray P object st pending).table.object n).unitstart =
      st.unitbuffindex + ∑ j in Finset.range n, (Ray.unitcount (Arr.get object j) : Int) := by
  rw [Ray.Ray_object_of_lt P object st pending n h]
  rfl

theorem Ray.Ray_unitsize (P : Nat) (object : Arr Ray.Object MAXOBJECTSIZE) (st : Statics)
    (pending : Nat) (n : Nat) (h : n < Ray.objectcount object) :
    (Arr.get (Ray.Ray P object st pending).table.object n).unitsize
      = Ray.unitcount (Arr.get object n) := by
  rw [Ray.Ray_object_of_lt P object st pending n h]
  rfl

theorem Ray.Ray_liveobject_iff (P : Nat) (object : Arr Ray.Object MAXOBJECTSIZE) (st : Statics)
    (pending : Nat) (n : Nat) :
    (n : Int) < (Ray.Ray P object st pending).table.objectsize ↔ n < Ray.objectcount object := by
  rw [Ray.Ray_objectsize]
  exact Nat.cast_lt

theorem Ray.nobjects_unique (object : Arr Ray.Object MAXOBJECTSIZE) (k n c : Nat) (hc : c ≤ k)
    (hne : ∀ j, j < c → Ray.linesizeAt object (n + j) 0 ≠ 0)
    (hstop : c < k → Ray.linesizeAt object (n + c) 0 = 0) :
    Ray.nobjects object k n = c := by
  induction k generalizing n c with
  | zero =>
    have : c = 0 := by omega
    simp [Ray.nobjects, this]
  | succ k ih =>
    simp only [Ray.nobjects]
    cases c with
    | zero =>
      have h0 := hstop (by omega)
      simp only [Ray.linesizeAt, add_zero] at h0
      rw [if_pos h0]
    | succ c =>
      have h0 := hne 0 (by omega)
      simp only [Ray.linesizeAt, add_zero] at h0
      rw [if_neg h0]
      congr 1
      apply ih (n + 1) c (by omega)
      · intro j hj
        have := hne (j + 1) (by omega)
        rwa [show n + (j + 1) = n + 1 + j by omega] at this
      · intro hlt
        have := hstop (by omega)
        rwa [show n + (c + 1) = n + 1 + c by omega] at this

theorem flatMap_range_congr {α : Type} (f g : Nat → List α) (c : Nat)
    (h : ∀ j, j < c → f j = g j) : (List.range c).flatMap f = (List.range c).flatMap g := by
  induction c with
  | zero => rfl
  | succ c ih =>
    simp only [List.range_succ, List.flatMap_append, List.flatMap_cons, List.flatMap_nil,
      List.append_nil]
    rw [ih (fun j hj => h j (by omega)), h c (by omega)]

theorem Ray.objectsAfter_congr (object object' : Arr Ray.Object MAXOBJECTSIZE) (c : Nat)
    (p u : Int) (old : Arr ray.Object MAXOBJECTSIZE)
    (h : ∀ j, j < c → Arr.get object' j = Arr.get object j) :
    Ray.objectsAfter object' 0 c p u old = Ray.objectsAfter object 0 c p u old := by
  funext i
  simp only [Ray.objectsAfter, Nat.zero_le, true_and, zero_add, Nat.sub_zero]
  split
  · next hi =>
    rw [h i.val hi]
    congr 2
    · apply Finset.sum_congr rfl
      intro j hj
      rw [h j (by have := Finset.mem_range.mp hj; omega)]
    · apply Finset.sum_congr rfl
      intro j hj
      rw [h j (by have := Finset.mem_range.mp hj; omega)]
  · rfl

/-- The constructor reads the descriptor array only through the accepted slots. -/
theorem Ray.Ray_congr (P : Nat) (object object' : Arr Ray.Object MAXOBJECTSIZE) (st : Statics)
    (pending : Nat) (hc : Ray.objectcount object' = Ray.objectcount object)
    (h : ∀ j, j < Ray.objectcount object → Arr.get object' j = Arr.get object j) :
    Ray.Ray P object' st pending = Ray.Ray P object st pending := by
  have key : Ray.objectLoop P object' MAXOBJECTSIZE 0
        { table := {}, st := st, objectsize := 0, plbuff := [], unitbuff := [] }
      = Ray.objectLoop P object MAXOBJECTSIZE 0
        { table := {}, st := st, objectsize := 0, plbuff := [], unitbuff := [] } := by
    rw [Ray.objectLoop_eq, Ray.objectLoop_eq]
    have hc' : Ray.nobjects object' MAXOBJECTSIZE 0 = Ray.nobjects object MAXOBJECTSIZE 0 := hc
    have h' : ∀ j, j < Ray.nobjects object MAXOBJECTSIZE 0 → Arr.get object' j = Arr.get object j := h
    simp only [hc', zero_add]
    congr 1
    · rw [Ray.objectsAfter_congr object object' _ _ _ _ h']
    · congr 1
      · apply Finset.sum_congr rfl
        intro j hj
        rw [h' j (Finset.mem_range.mp hj)]
      · apply Finset.sum_congr rfl
        intro j hj
        rw [h' j (Finset.mem_range.mp hj)]
    · congr 1
      exact flatMap_range_congr _ _ _ (fun j hj => by rw [h' j hj])
    · congr 1
      exact flatMap_range_congr _ _ _ (fun j hj => by rw [h' j hj])
  simp only [Ray.Ray, key]

/-- C5. The `objectsize` of the constructed table is the index of the first
descriptor slot whose unit 0 has line count 0, or `MAXOBJECTSIZE` when there is
none; two valid objects followed by an empty slot give 2; and a descriptor array
that agrees with this one before that index and has its sentinel at the same
index gives the same table, the same assembled arrays, the same counters, the
same output and the same OpenGL calls, whatever its later slots hold. -/
theorem C5_objectsize_first_sentinel (P : Nat) (object : Arr Ray.Object MAXOBJECTSIZE)
    (st : Statics) (pending : Nat) :
    (∃ c : Nat, (Ray.Ray P object st pending).table.objectsize = c
        ∧ c ≤ MAXOBJECTSIZE
        ∧ (∀ n : Nat, n < c → Ray.linesizeAt object n 0 ≠ 0)
        ∧ (c < MAXOBJECTSIZE → Ray.linesizeAt object c 0 = 0))
    ∧ (Ray.linesizeAt object 0 0 ≠ 0 → Ray.linesizeAt object 1 0 ≠ 0 →
        Ray.linesizeAt object 2 0 = 0 → (Ray.Ray P object st pending).table.objectsize = 2)
    ∧ (∀ (object' : Arr Ray.Object MAXOBJECTSIZE) (c : Nat),
        (Ray.Ray P object st pending).table.objectsize = c →
        (∀ n : Nat, n < c → Arr.get object' n = Arr.get object n) →
        (c < MAXOBJECTSIZE → Ray.linesizeAt object' c 0 = 0) →
        Ray.Ray P object' st pending = Ray.Ray P object st pending) := by
  refine ⟨?_, ?_, ?_⟩
  · refine ⟨Ray.objectcount object, Ray.Ray_objectsize P object st pending,
      Ray.objectcount_le object, ?_, ?_⟩
    · intro n hn
      have := Ray.nobjects_ne object MAXOBJECTSIZE 0 n hn
      simpa [Ray.linesizeAt] using this
    · intro hc
      have := Ray.nobjects_stop object MAXOBJECTSIZE 0 hc
      simpa [Ray.linesizeAt, Ray.objectcount] using this
  · intro h0 h1 h2
    rw [Ray.Ray_objectsize]
    have : Ray.objectcount object = 2 := by
      apply Ray.nobjects_unique object MAXOBJECTSIZE 0 2 (by decide)
      · intro j hj
        interval_cases j
        · simpa using h0
        · simpa using h1
      · intro _
        simpa using h2
    rw [this]
    rfl
  · intro object' c hc hagree hstop
    rw [Ray.Ray_objectsize] at hc
    have hc0 : Ray.objectcount object = c := by exact_mod_cast hc
    have hle : c ≤ MAXOBJECTSIZE := hc0 ▸ Ray.objectcount_le object
    have hcount : Ray.objectcount object' = c := by
      apply Ray.nobjects_unique object' MAXOBJECTSIZE 0 c hle
      · intro j hj
        have := Ray.nobjects_ne object MAXOBJECTSIZE 0 j (by rw [← hc0] at hj; exact hj)
        simp only [zero_add] at this ⊢
        simp only [Ray.linesizeAt, hagree j hj]
        exact this
      · intro hlt
        simpa using hstop hlt
    apply Ray.Ray_congr P object object' st pending (by rw [hcount, hc0])
    intro j hj
    exact hagree j (by rw [← hc0]; exact hj)

/-- Witness of C5: the slots of `sample.objectsTail` from the sentinel on change nothing. -/
theorem C5_witness :
    (Ray.Ray 2 sample.objects {} 0).table.objectsize = 2
    ∧ Ray.Ray 2 sample.objectsTail {} 0 = Ray.Ray 2 sample.objects {} 0 :=
  ⟨by decide,
   (C5_objectsize_first_sentinel 2 sample.objects {} 0).2.2 sample.objectsTail 2 (by decide)
     (by intro n hn; interval_cases n <;> rfl) (by decide)⟩

/-- Element `i` of block `j` of a concatenation of blocks sits after the blocks before `j`. -/
theorem getElem?_flatMap_range {α : Type} (f : Nat → List α) (c j i : Nat) (hj : j < c)
    (hi : i < (f j).length) :
    ((List.range c).flatMap f)[(∑ q in Finset.range j, (f q).length) + i]? = (f j)[i]? := by
  induction c with
  | zero => omega
  | succ c ih =>
    simp only [List.range_succ, List.flatMap_append, List.flatMap_cons, List.flatMap_nil,
      List.append_nil]
    by_cases hjc : j < c
    · have hlen : (∑ q in Finset.range j, (f q).length) + i < ((List.range c).flatMap f).length := by
        rw [length_flatMap_range]
        have : ∑ q in Finset.range (j + 1), (f q).length ≤ ∑ q in Finset.range c, (f q).length := by
          apply Finset.sum_le_sum_of_subset
          intro q hq
          simp only [Finset.mem_range] at hq ⊢
          omega
        rw [Finset.sum_range_succ] at this
        omega
      rw [List.getElem?_append_left hlen]
      exact ih hjc
    · have hjc' : j = c := by omega
      subst hjc'
      have hlen : ((List.range j).flatMap f).length ≤ (∑ q in Finset.range j, (f q).length) + i := by
        rw [length_flatMap_range]; omega
      rw [List.getElem?_append_right hlen, length_flatMap_range]
      simp

theorem Ray.objatts_length (o : Ray.Object) : (Ray.objatts o).length = Ray.unitcount o := by
  simp [Ray.objatts]

/-- C7. When the constructor starts with the unit counter at 0, record
`unitstart + m` of the assembled unit-attribute array is the attribute record
that the descriptor declares for unit `m` of object `n`, for every live object
`n` and every `m < unitsize`. -/
theorem C7_unitbuff_records (P : Nat) (object : Arr Ray.Object MAXOBJECTSIZE)
    (st : Statics) (pending : Nat) (h0 : getunitbuffindex st = 0) (n m : Nat)
    (hn : (n : Int) < (Ray.Ray P object st pending).table.objectsize)
    (hm : (m : Int) < (Arr.get (Ray.Ray P object st pending).table.object n).unitsize) :
    (Ray.Ray P object st pending).unitbuff[
        ((Arr.get (Ray.Ray P object st pending).table.object n).unitstart + m).toNat]?
      = some (Arr.get (Arr.get object n).unit m).att := by
  obtain ⟨hn', hm'⟩ := (Ray.Ray_live_iff P object st pending n m).mp ⟨hn, hm⟩
  have h0' : st.unitbuffindex = 0 := h0
  rw [Ray.Ray_unitstart P object st pending n hn', h0', Ray.Ray_unitbuff]
  have hidx : ((0 : Int) + ∑ j in Finset.range n, (Ray.unitcount (Arr.get object j) : Int)
        + (m : Int)).toNat
      = (∑ q in Finset.range n, (Ray.objatts (Arr.get object q)).length) + m := by
    have : (0 : Int) + ∑ j in Finset.range n, (Ray.unitcount (Arr.get object j) : Int) + (m : Int)
        = (((∑ q in Finset.range n, (Ray.objatts (Arr.get object q)).length) + m : Nat) : Int) := by
      push_cast
      simp only [Ray.objatts_length]
      ring
    rw [this, Int.toNat_ofNat]
  rw [hidx, getElem?_flatMap_range _ _ n m hn' (by rw [Ray.objatts_length]; exact hm')]
  simp [Ray.objatts, hm']

/-- Witness of C7 on the sample descriptor array: record 3 is the record of
unit 1 of object 1. -/
theorem C7_witness :
    getunitbuffindex {} = 0
    ∧ ((1 : Nat) : Int) < (Ray.Ray 2 sample.objects {} 0).table.objectsize
    ∧ ((1 : Nat) : Int) < (Arr.get (Ray.Ray 2 sample.objects {} 0).table.object 1).unitsize
    ∧ (Arr.get (Ray.Ray 2 sample.objects {} 0).table.object 1).unitstart + (1 : Nat) = 3
    ∧ (Ray.Ray 2 sample.objects {} 0).unitbuff[
          ((Arr.get (Ray.Ray 2 sample.objects {} 0).table.object 1).unitstart + (1 : Nat)).toNat]?
        = some (Arr.get (Arr.get sample.objects 1).unit 1).att :=
  ⟨rfl, by decide, by decide, by decide,
   C7_unitbuff_records 2 sample.objects {} 0 rfl 1 1 (by decide) (by decide)⟩

theorem toNat_natCast_mul (P : Nat) (z : Int) : ((P : Int) * z).toNat = P * z.toNat := by
  rcases le_or_lt 0 z with h | h
  · obtain ⟨k, rfl⟩ := Int.eq_ofNat_of_zero_le h
    rw [← Int.natCast_mul, Int.toNat_ofNat, Int.toNat_ofNat]
  · have h1 : z.toNat = 0 := Int.toNat_eq_zero.mpr (le_of_lt h)
    have h2 : ((P : Int) * z).toNat = 0 :=
      Int.toNat_eq_zero.mpr (mul_nonpos_of_nonneg_of_nonpos (Int.ofNat_nonneg P) (le_of_lt h))
    rw [h1, h2, Nat.mul_zero]

theorem Ray.plane_length_mul (P : Nat) (u : Ray.Unit) :
    (Ray.plane P u).length = P * u.linesize.toNat := by
  rw [Ray.plane_length, toNat_natCast_mul]

theorem Ray.objplane_length (P : Nat) (o : Ray.Object) :
    (Ray.objplane P o).length
      = P * ∑ q in Finset.range (Ray.unitcount o), (Arr.get o.unit q).linesize.toNat := by
  rw [Ray.objplane, length_flatMap_range, Finset.mul_sum]
  apply Finset.sum_congr rfl
  intro q _
  exact Ray.plane_length_mul P _

theorem Ray.plane_getElem? (P : Nat) (u : Ray.Unit) (i : Nat) (h : i < P * u.linesize.toNat) :
    (Ray.plane P u)[i]? = some (u.buff i) := by
  have h' : i < ((P : Int) * u.linesize).toNat := by rw [toNat_natCast_mul]; exact h
  simp [Ray.plane, h']

/-- Float `k` of line `i` of accepted unit `m` of accepted object `n`, located in `plbuff`. -/
theorem Ray.Ray_plbuff_getElem? (P : Nat) (object : Arr Ray.Object MAXOBJECTSIZE) (st : Statics)
    (pending : Nat) (n m i k : Nat) (hn : n < Ray.objectcount object)
    (hm : m < Ray.unitcount (Arr.get object n))
    (hi : i < (Ray.linesizeAt object n m).toNat) (hk : k < P) :
    (Ray.Ray P object st pending).plbuff[
        P * ((∑ j in Finset.range n, ∑ q in Finset.range (Ray.unitcount (Arr.get object j)),
                (Ray.linesizeAt object j q).toNat)
              + (∑ q in Finset.range m, (Ray.linesizeAt object n q).toNat) + i) + k]?
      = some ((Arr.get (Arr.get object n).unit m).buff (P * i + k)) := by
  have hin : P * i + k < P * (Ray.linesizeAt object n m).toNat := by
    calc P * i + k < P * i + P := by omega
      _ = P * (i + 1) := by ring
      _ ≤ P * (Ray.linesizeAt object n m).toNat := Nat.mul_le_mul_left P hi
  have hinner : (Ray.objplane P (Arr.get object n))[
        (∑ q in Finset.range m, (Ray.plane P (Arr.get (Arr.get object n).unit q)).length)
          + (P * i + k)]?
      = some ((Arr.get (Arr.get object n).unit m).buff (P * i + k)) := by
    rw [Ray.objplane, getElem?_flatMap_range _ _ m (P * i + k) hm
      (by rw [Ray.plane_length_mul]; exact hin)]
    exact Ray.plane_getElem? P _ _ hin
  have hlt : (∑ q in Finset.range m, (Ray.plane P (Arr.get (Arr.get object n).unit q)).length)
      + (P * i + k) < (Ray.objplane P (Arr.get object n)).length := by
    rw [Ray.objplane, length_flatMap_range]
    have h1 : ∑ q in Finset.range (m + 1), (Ray.plane P (Arr.get (Arr.get object n).unit q)).length
        ≤ ∑ q in Finset.range (Ray.unitcount (Arr.get object n)),
            (Ray.plane P (Arr.get (Arr.get object n).unit q)).length := by
      apply Finset.sum_le_sum_of_subset
      intro q hq
      simp only [Finset.mem_range] at hq ⊢
      omega
    rw [Finset.sum_range_succ, Ray.plane_length_mul P (Arr.get (Arr.get object n).unit m)] at h1
    have hin' : P * i + k < P * (Arr.get (Arr.get object n).unit m).linesize.toNat := hin
    omega
  have houter := getElem?_flatMap_range (fun j => Ray.objplane P (Arr.get object j))
    (Ray.objectcount object) n _ hn hlt
  rw [Ray.Ray_plbuff]
  have hidx : P * ((∑ j in Finset.range n, ∑ q in Finset.range (Ray.unitcount (Arr.get object j)),
                (Ray.linesizeAt object j q).toNat)
              + (∑ q in Finset.range m, (Ray.linesizeAt object n q).toNat) + i) + k
      = (∑ q in Finset.range n, (Ray.objplane P (Arr.get object q)).length)
        + ((∑ q in Finset.range m, (Ray.plane P (Arr.get (Arr.get object n).unit q)).length)
          + (P * i + k)) := by
    simp only [Ray.objplane_length, Ray.plane_length_mul, ← Finset.mul_sum, Ray.linesizeAt]
    ring
  rw [hidx, houter, hinner]

/-- Over exact integers: with the plane counter at 0 and positive accepted line
counts, line `plstart + i` of the assembled plane array is line `i` of the
unit's plane data. -/
theorem Ray.Ray_plbuff_lines (P : Nat) (object : Arr Ray.Object MAXOBJECTSIZE)
    (st : Statics) (pending : Nat) (h0 : getplbuffindex st = 0)
    (hpos : ∀ n m : Nat, Ray.accepted object n m → 0 < Ray.linesizeAt object n m)
    (n m i k : Nat) (hl : (Ray.Ray P object st pending).table.live n m)
    (hi : (i : Int) < ((Ray.Ray P object st pending).table.unitAt n m).plsize) (hk : k < P) :
    (Ray.Ray P object st pending).plbuff[
        P * (((Ray.Ray P object st pending).table.unitAt n m).plstart + i).toNat + k]?
      = some ((Arr.get (Arr.get object n).unit m).buff (P * i + k)) := by
  obtain ⟨hn, hm⟩ := (Ray.Ray_live_iff P object st pending n m).mp hl
  have hcast : ∀ j q : Nat, j < Ray.objectcount object → q < Ray.unitcount (Arr.get object j) →
      Ray.linesizeAt object j q = (((Ray.linesizeAt object j q).toNat : Nat) : Int) := by
    intro j q hj hq
    have := hpos j q ((Ray.accepted_iff object j q).mpr ⟨hj, hq⟩)
    exact (Int.toNat_of_nonneg (le_of_lt this)).symm
  have h0' : st.plbuffindex = 0 := h0
  rw [Ray.Ray_unitAt P object st pending n m hn hm] at hi ⊢
  simp only at hi ⊢
  have hi' : i < (Ray.linesizeAt object n m).toNat := by
    rw [hcast n m hn hm] at hi
    exact_mod_cast hi
  have hS : st.plbuffindex + ∑ j in Finset.range n, Ray.linetotal (Arr.get object j)
        + ∑ j in Finset.range m, Ray.linesizeAt object n j + (i : Int)
      = ((((∑ j in Finset.range n, ∑ q in Finset.range (Ray.unitcount (Arr.get object j)),
                (Ray.linesizeAt object j q).toNat)
              + (∑ q in Finset.range m, (Ray.linesizeAt object n q).toNat) + i : Nat)) : Int) := by
    rw [h0']
    push_cast
    have e1 : ∑ j in Finset.range n, Ray.linetotal (Arr.get object j)
        = ∑ j in Finset.range n, ∑ q in Finset.range (Ray.unitcount (Arr.get object j)),
            (((Ray.linesizeAt object j q).toNat : Nat) : Int) := by
      apply Finset.sum_congr rfl
      intro j hj
      rw [Ray.linetotal_eq]
      apply Finset.sum_congr rfl
      intro q hq
      exact hcast j q (by have := Finset.mem_range.mp hj; omega) (Finset.mem_range.mp hq)
    have e2 : ∑ j in Finset.range m, Ray.linesizeAt object n j
        = ∑ q in Finset.range m, (((Ray.linesizeAt object n q).toNat : Nat) : Int) := by
      apply Finset.sum_congr rfl
      intro q hq
      exact hcast n q hn (by have := Finset.mem_range.mp hq; omega)
    rw [e1, e2]
    ring
  rw [hS, Int.toNat_ofNat]
  exact Ray.Ray_plbuff_getElem? P object st pending n m i k hn hm hi' hk

theorem uploads_append (a b : List GLCall) : uploads (a ++ b) = uploads a ++ uploads b := by
  simp [uploads, List.filterMap_append]

theorem uploads_emit (g : Gpu) (calls : List GLCall) :
    uploads (g.emit calls).gl = uploads g.gl ++ uploads calls := by
  simp [Gpu.emit, uploads_append]

theorem foldl_range_succ {β : Type} (f : β → Nat → β) (b : β) (k : Nat) :
    (List.range (k + 1)).foldl f b = f ((List.range k).foldl f b) k := by
  simp [List.range_succ, List.foldl_append]

theorem GL_UnitBuffer_Update_st (g : Gpu) :
    (GL_UnitBuffer_Update g).st = { g.st with ubooffset := g.st.ubooffset + 1 } := rfl

theorem GL_UnitBuffer_Update_uploads (g : Gpu) :
    uploads (GL_UnitBuffer_Update g).gl = uploads g.gl ++
      [((sizeof_data_Unit : Int) * (g.st.ubooffset + g.st.ubounitstartindex),
        (sizeof_modelmat4 : Int), Mat4.bytes g.st.ubomodelmat4)] := by
  simp [GL_UnitBuffer_Update, Gpu.emit, uploads]

/-- The inner loop of lines 117-121, run `k` times: the statics it leaves. -/
theorem GL_UnitBuffer_Update_iterate_st (g : Gpu) (k : Nat) :
    ((List.range k).foldl (fun g _ => GL_UnitBuffer_Update g) g).st
        = { g.st with ubooffset := g.st.ubooffset + (k : Int) } := by
  induction k with
  | zero => cases g with | mk st gl => cases st; simp
  | succ k ih =>
    rw [foldl_range_succ, GL_UnitBuffer_Update_st, ih]
    simp only [Nat.cast_add, Nat.cast_one, add_assoc]

/-- The inner loop of lines 117-121, run `k` times: the uploads it adds. -/
theorem GL_UnitBuffer_Update_iterate (g : Gpu) (k : Nat) :
    uploads ((List.range k).foldl (fun g _ => GL_UnitBuffer_Update g) g).gl
        = uploads g.gl ++ (List.range k).map (fun (m : Nat) =>
            ((sizeof_data_Unit : Int) * (g.st.ubooffset + (m : Int) + g.st.ubounitstartindex),
              (sizeof_modelmat4 : Int), Mat4.bytes g.st.ubomodelmat4)) := by
  induction k with
  | zero => simp
  | succ k ih =>
    rw [foldl_range_succ, GL_UnitBuffer_Update_uploads, ih, GL_UnitBuffer_Update_iterate_st,
      List.range_succ, List.map_append, List.append_assoc]
    rfl

/-- The upload loops of lines 113-123: the `glBufferSubData` calls they add. -/
theorem Ray.Update.upload_uploads (table : Table) (g : Gpu) :
    uploads (Ray.Update.upload table g).gl
      = uploads g.gl ++ (List.range table.objectsize.toNat).flatMap (fun n =>
          (List.range (Arr.get table.object n).unitsize.toNat).map (fun (m : Nat) =>
            ((sizeof_data_Unit : Int) * ((Arr.get table.object n).unitstart + (m : Int)),
              (sizeof_modelmat4 : Int), Mat4.bytes (Arr.get table.object n).modelmat4))) := by
  unfold Ray.Update.upload
  induction table.objectsize.toNat with
  | zero => simp
  | succ N ih =>
    rw [foldl_range_succ, GL_UnitBuffer_Update_iterate, List.range_succ,
      List.flatMap_append, ← List.append_assoc]
    have e : uploads (GL_UnitBuffer_Reset (Arr.get table.object N).unitstart
          (Arr.get table.object N).modelmat4
          ((List.range N).foldl (fun g n =>
            (List.range (Arr.get table.object n).unitsize.toNat).foldl
              (fun g _ => GL_UnitBuffer_Update g)
              (GL_UnitBuffer_Reset (Arr.get table.object n).unitstart
                (Arr.get table.object n).modelmat4 g)) g)).gl
        = uploads ((List.range N).foldl (fun g n =>
            (List.range (Arr.get table.object n).unitsize.toNat).foldl
              (fun g _ => GL_UnitBuffer_Update g)
              (GL_UnitBuffer_Reset (Arr.get table.object n).unitstart
                (Arr.get table.object n).modelmat4 g)) g).gl := rfl
    rw [e, ih]
    simp only [GL_UnitBuffer_Reset, copymat4_eq, List.flatMap_cons, List.flatMap_nil,
      List.append_nil, zero_add]
    congr 2
    funext m
    rw [add_comm]

theorem uploads_foldl_of_step {β : Type} (f : Gpu → β → Gpu) (l : List β) (g : Gpu)
    (h : ∀ g b, uploads (f g b).gl = uploads g.gl) :
    uploads (l.foldl f g).gl = uploads g.gl := by
  induction l generalizing g with
  | nil => rfl
  | cons x xs ih => rw [List.foldl_cons, ih, h]

theorem uploads_replicate_glGetError (k : Nat) :
    uploads (List.replicate k GLCall.glGetError) = [] := by
  induction k with
  | zero => rfl
  | succ k ih => simp [List.replicate_succ, uploads] at ih ⊢

theorem GL_SelectionBuffer_Reset_uploads (g : Gpu) :
    uploads (GL_SelectionBuffer_Reset g).gl = uploads g.gl := by
  simp [GL_SelectionBuffer_Reset, Gpu.emit, uploads]

theorem GL_SelectionBuffer_Update_uploads (g : Gpu) :
    uploads (GL_SelectionBuffer_Update g).gl = uploads g.gl := by
  simp [GL_SelectionBuffer_Update, Gpu.emit, uploads]

theorem GL_Ray2Buffer_Initialize_uploads (i : Int) (g : Gpu) :
    uploads (GL_Ray2Buffer_Initialize i g).gl = uploads g.gl := by
  simp [GL_Ray2Buffer_Initialize, Gpu.emit, uploads]

theorem GL_Ray2Buffer_Update_uploads (u : Unit) (g : Gpu) :
    uploads (GL_Ray2Buffer_Update u g).gl = uploads g.gl := by
  simp [GL_Ray2Buffer_Update, Gpu.emit, uploads]

theorem GL_Ray2Buffer_Release_uploads (g : Gpu) :
    uploads (GL_Ray2Buffer_Release g).gl = uploads g.gl := by
  simp [GL_Ray2Buffer_Release, Gpu.emit, uploads]

theorem GL_DrawBuffer_Update_uploads (g : Gpu) :
    uploads (GL_DrawBuffer_Update g).gl = uploads g.gl := by
  simp [GL_DrawBuffer_Update, Gpu.emit, uploads]

theorem Ray.Update.passes_uploads (table : Table) (g : Gpu) :
    uploads (Ray.Update.passes table g).gl = uploads g.gl := by
  unfold Ray.Update.passes
  apply uploads_foldl_of_step
  intro g n
  rw [GL_SelectionBuffer_Update_uploads, GL_Ray2Buffer_Release_uploads,
    uploads_foldl_of_step _ _ _ (fun g m => GL_Ray2Buffer_Update_uploads _ g),
    GL_Ray2Buffer_Initialize_uploads]

/-- The `glBufferSubData` calls of one `Ray::Update`. -/
theorem Ray.Update_uploads (F : FloatOps) (cam : Camera) (table : Table) (st : Statics)
    (pending : Nat) :
    uploads (Ray.Update F cam table st pending).gl
      = (List.range (Ray.Update F cam table st pending).table.objectsize.toNat).flatMap (fun n =>
          (List.range (Arr.get (Ray.Update F cam table st pending).table.object n).unitsize.toNat).map
            (fun (m : Nat) =>
              ((sizeof_data_Unit : Int)
                  * ((Arr.get (Ray.Update F cam table st pending).table.object n).unitstart + (m : Int)),
                (sizeof_modelmat4 : Int),
                Mat4.bytes (Arr.get (Ray.Update F cam table st pending).table.object n).modelmat4))) := by
  simp only [Ray.Update, uploads_emit, GL_DrawBuffer_Update_uploads, Ray.Update.passes_uploads,
    GL_SelectionBuffer_Reset_uploads, Ray.Update.upload_uploads, GL_CheckError,
    uploads_replicate_glGetError, List.append_nil]
  simp [uploads]

theorem Table.modifyObject_get_self (t : Table) (n : Nat) (f : Object → Object)
    (h : n < MAXOBJECTSIZE) :
    Arr.get (t.modifyObject n f).object n = f (Arr.get t.object n) := by
  simp only [Table.modifyObject, Arr.get_set_self _ _ _ h]

theorem Table.modifyObject_get_of_ne (t : Table) (n n' : Nat) (f : Object → Object)
    (h : n' ≠ n) : Arr.get (t.modifyObject n f).object n' = Arr.get t.object n' := by
  simp only [Table.modifyObject, Arr.get_set_of_ne _ _ _ _ h]

theorem Table.modifyObject_of_le (t : Table) (n : Nat) (f : Object → Object)
    (h : MAXOBJECTSIZE ≤ n) : t.modifyObject n f = t := by
  simp only [Table.modifyObject, Arr.set_of_le _ _ _ h]

/-- The object array after the first `N` iterations of the loop of lines 105-109. -/
theorem Ray.Update.movements_fold (F : FloatOps) (st : Statics) (table : Table) (N n : Nat) :
    ((List.range N).foldl
        (fun t n => t.modifyObject n
          (fun o => { o with modelmat4 := UpdateFn.call F st o.updatemat4 o.modelmat4 }))
        table).objectsize = table.objectsize
    ∧ Arr.get ((List.range N).foldl
        (fun t n => t.modifyObject n
          (fun o => { o with modelmat4 := UpdateFn.call F st o.updatemat4 o.modelmat4 }))
        table).object n
      = if n < N then
          { Arr.get table.object n with
            modelmat4 := UpdateFn.call F st (Arr.get table.object n).updatemat4
              (Arr.get table.object n).modelmat4 }
        else Arr.get table.object n := by
  induction N with
  | zero => simp
  | succ N ih =>
    rw [foldl_range_succ]
    generalize (List.range N).foldl
      (fun t n => t.modifyObject n
        (fun o => { o with modelmat4 := UpdateFn.call F st o.updatemat4 o.modelmat4 }))
      table = T at ih ⊢
    obtain ⟨ih1, ih2⟩ := ih
    refine ⟨ih1, ?_⟩
    by_cases hnN : n = N
    · subst hnN
      rw [if_neg (by omega)] at ih2
      rw [if_pos (by omega)]
      by_cases h5 : n < MAXOBJECTSIZE
      · rw [Table.modifyObject_get_self _ _ _ h5, ih2]
      · rw [Table.modifyObject_of_le _ _ _ (by omega), ih2]
        have hd : Arr.get table.object n = default := by simp [Arr.get, h5]
        rw [hd]
        rfl
    · rw [Table.modifyObject_get_of_ne _ _ _ _ hnN, ih2]
      by_cases hlt : n < N
      · rw [if_pos hlt, if_pos (by omega)]
      · rw [if_neg hlt, if_neg (by omega)]

theorem Ray.Update_table (F : FloatOps) (cam : Camera) (table : Table) (st : Statics)
    (pending : Nat) (n : Nat) :
    (Ray.Update F cam table st pending).table.objectsize = table.objectsize
    ∧ Arr.get (Ray.Update F cam table st pending).table.object n
      = if (n : Int) < table.objectsize then
          { Arr.get table.object n with
            modelmat4 := UpdateFn.call F (SetViewmat4 F cam (SetNewFrame st))
              (Arr.get table.object n).updatemat4 (Arr.get table.object n).modelmat4 }
        else Arr.get table.object n := by
  have h := Ray.Update.movements_fold F (SetViewmat4 F cam (SetNewFrame st)) table
    table.objectsize.toNat n
  refine ⟨h.1, ?_⟩
  have e : (n < table.objectsize.toNat) ↔ ((n : Int) < table.objectsize) := by omega
  simp only [Ray.Update, Ray.Update.movements]
  rw [h.2]
  by_cases hlt : (n : Int) < table.objectsize
  · rw [if_pos hlt, if_pos (e.mpr hlt)]
  · rw [if_neg hlt, if_neg (fun h' => hlt (e.mp h'))]

/-- The `glBufferSubData` calls of one `Ray::Update`, in terms of the table it
was given. -/
theorem Ray.Update_upload_sequence (F : FloatOps) (cam : Camera) (table : Table) (st : Statics)
    (pending : Nat) :
    uploads (Ray.Update F cam table st pending).gl
      = (List.range table.objectsize.toNat).flatMap (fun n =>
          (List.range (Arr.get table.object n).unitsize.toNat).map (fun (m : Nat) =>
            ((sizeof_data_Unit : Int) * ((Arr.get table.object n).unitstart + (m : Int)),
              (sizeof_modelmat4 : Int),
              Mat4.bytes (UpdateFn.call F (SetViewmat4 F cam (SetNewFrame st))
                (Arr.get table.object n).updatemat4 (Arr.get table.object n).modelmat4)))) := by
  rw [Ray.Update_uploads, (Ray.Update_table F cam table st pending 0).1]
  apply flatMap_range_congr
  intro n hn
  have hlt : (n : Int) < table.objectsize := by omega
  rw [(Ray.Update_table F cam table st pending n).2, if_pos hlt]

theorem GLBuffers.splice_length (buf : List byte) (offset size : Nat) (data : List byte)
    (h : offset + size ≤ buf.length) (hd : size ≤ data.length) :
    (GLBuffers.splice buf offset size data).length = buf.length := by
  simp only [GLBuffers.splice, List.length_append, List.length_take, List.length_drop]
  omega

theorem GLBuffers.splice_inside (buf : List byte) (offset size : Nat) (data : List byte)
    (h : offset + size ≤ buf.length) (hd : size ≤ data.length) (j : Nat) (hj : j < size) :
    (GLBuffers.splice buf offset size data)[offset + j]? = data[j]? := by
  have h1 : (buf.take offset).length = offset := by simp; omega
  have h2 : (data.take size).length = size := by simp; omega
  simp only [GLBuffers.splice, List.append_assoc]
  rw [List.getElem?_append_right (by omega), h1, Nat.add_sub_cancel_left,
    List.getElem?_append_left (by omega), List.getElem?_take_of_lt hj]

theorem GLBuffers.splice_outside (buf : List byte) (offset size : Nat) (data : List byte)
    (h : offset + size ≤ buf.length) (hd : size ≤ data.length) (i : Nat)
    (hi : ¬ (offset ≤ i ∧ i < offset + size)) :
    (GLBuffers.splice buf offset size data)[i]? = buf[i]? := by
  have h1 : (buf.take offset).length = offset := by simp; omega
  have h2 : (data.take size).length = size := by simp; omega
  simp only [GLBuffers.splice, List.append_assoc]
  by_cases hlt : i < offset
  · rw [List.getElem?_append_left (by omega), List.getElem?_take_of_lt hlt]
  · have hge : offset + size ≤ i := by omega
    rw [List.getElem?_append_right (by omega), h1, List.getElem?_append_right (by omega), h2,
      List.getElem?_drop]
    congr 1
    omega

theorem Mat4.bytes_length (m : Mat4) : (Mat4.bytes m).length = sizeof_modelmat4 := by
  simp only [Mat4.bytes, Mat4.floats, List.length_flatMap, List.map_map]
  have e : ((List.length ∘ float.bytes) ∘ fun i => Arr.get (Arr.get m (i / 4)) (i % 4))
      = fun _ => 4 := by
    funext i; rfl
  rw [e]
  rfl

/-- C9. The per-frame model-matrix upload to record `k` of the unit buffer
(`GL_UnitBuffer_Update` with `ubooffset + ubounitstartindex = k`), on a unit
buffer of the size `GL_LoadUbo` allocates, replaces bytes `[80 k, 80 k + 64)` by
the 64 bytes of the matrix and leaves every other byte of the unit buffer as it
was, in particular the texture-scale bytes `[80 k + 64, 80 k + 72)` of record
`k`; no other buffer changes. -/
theorem C9_matrix_upload_scope (st : Statics) (b : GLBuffers) (buf : List byte) (k : Nat)
    (hk : k < MAXUNITBUFFSIZE)
    (hslot : st.ubooffset + st.ubounitstartindex = (k : Int))
    (hname : st.ubounitbuff ≠ 0)
    (hstore : b.store st.ubounitbuff = some buf)
    (hlen : buf.length = GL_LoadUbo.unitdatasize) :
    ∃ buf' : List byte,
      ((GL_UnitBuffer_Update { st := st }).gl.foldl GLCall.exec b).store st.ubounitbuff
          = some buf'
      ∧ buf'.length = buf.length
      ∧ (∀ j : Nat, j < sizeof_modelmat4 →
          buf'[sizeof_data_Unit * k + j]? = (Mat4.bytes st.ubomodelmat4)[j]?)
      ∧ (∀ i : Nat, ¬ (sizeof_data_Unit * k ≤ i ∧ i < sizeof_data_Unit * k + sizeof_modelmat4) →
          buf'[i]? = buf[i]?)
      ∧ (∀ j : Nat, j < 8 →
          buf'[sizeof_data_Unit * k + sizeof_modelmat4 + j]?
            = buf[sizeof_data_Unit * k + sizeof_modelmat4 + j]?)
      ∧ (∀ name : Nat, name ≠ st.ubounitbuff →
          ((GL_UnitBuffer_Update { st := st }).gl.foldl GLCall.exec b).store name
            = b.store name) := by
  have hcalls : (GL_UnitBuffer_Update { st := st }).gl =
      [ GLCall.glBindBuffer GLenum.GL_UNIFORM_BUFFER st.ubounitbuff,
        GLCall.glBufferSubData GLenum.GL_UNIFORM_BUFFER ((sizeof_data_Unit : Int) * (k : Int))
          (sizeof_modelmat4 : Int) (Mat4.bytes st.ubomodelmat4),
        GLCall.glBindBuffer GLenum.GL_UNIFORM_BUFFER 0 ] := by
    simp [GL_UnitBuffer_Update, Gpu.emit, hslot]
  have hlen' : buf.length = 1600 := hlen
  have hk' : k < 20 := hk
  have hcond : st.ubounitbuff ≠ 0 ∧ (0 : Int) ≤ (sizeof_data_Unit : Int) * (k : Int)
      ∧ (0 : Int) ≤ (sizeof_modelmat4 : Int)
      ∧ (sizeof_data_Unit : Int) * (k : Int) + (sizeof_modelmat4 : Int) ≤ (buf.length : Int) := by
    refine ⟨hname, ?_, ?_, ?_⟩
    · positivity
    · positivity
    · simp only [sizeof_data_Unit, sizeof_modelmat4, hlen']
      push_cast
      omega
  have hoff : ((sizeof_data_Unit : Int) * (k : Int)).toNat = sizeof_data_Unit * k := by
    rw [← Int.natCast_mul, Int.toNat_ofNat]
  have hsz : ((sizeof_modelmat4 : Nat) : Int).toNat = sizeof_modelmat4 := Int.toNat_ofNat _
  have hfit : sizeof_data_Unit * k + sizeof_modelmat4 ≤ buf.length := by
    simp only [sizeof_data_Unit, sizeof_modelmat4, hlen']
    omega
  have hdata : sizeof_modelmat4 ≤ (Mat4.bytes st.ubomodelmat4).length := by
    rw [Mat4.bytes_length]
  have hres : (GL_UnitBuffer_Update { st := st }).gl.foldl GLCall.exec b =
      { binding := 0
        store := Function.update b.store st.ubounitbuff
          (some (GLBuffers.splice buf (sizeof_data_Unit * k) sizeof_modelmat4
            (Mat4.bytes st.ubomodelmat4))) } := by
    rw [hcalls]
    simp only [List.foldl_cons, List.foldl_nil, GLCall.exec, hstore]
    rw [if_pos hcond, hoff, hsz]
  rw [hres]
  refine ⟨_, by simp, GLBuffers.splice_length _ _ _ _ hfit hdata, ?_, ?_, ?_, ?_⟩
  · intro j hj
    exact GLBuffers.splice_inside _ _ _ _ hfit hdata j hj
  · intro i hi
    exact GLBuffers.splice_outside _ _ _ _ hfit hdata i hi
  · intro j _
    exact GLBuffers.splice_outside _ _ _ _ hfit hdata _ (by omega)
  · intro name hne
    simp [Function.update_noteq hne]

/-- Witness of C9: an upload to record 3 of a zeroed unit buffer named 5. -/
theorem C9_witness :
    3 < MAXUNITBUFFSIZE
    ∧ sample.statics.ubooffset + sample.statics.ubounitstartindex = 3
    ∧ sample.statics.ubounitbuff = 5
    ∧ ∃ buf' : List byte,
      ((GL_UnitBuffer_Update { st := sample.statics }).gl.foldl GLCall.exec sample.buffers).store
          sample.statics.ubounitbuff = some buf'
      ∧ buf'.length = GL_LoadUbo.unitdatasize := by
  have hstore : sample.buffers.store sample.statics.ubounitbuff
      = some (List.replicate GL_LoadUbo.unitdatasize 0) := by
    simp [sample.buffers, sample.statics]
  have hlen : (List.replicate GL_LoadUbo.unitdatasize (0 : byte)).length
      = GL_LoadUbo.unitdatasize := List.length_replicate _ _
  obtain ⟨buf', h1, h2, -⟩ := C9_matrix_upload_scope sample.statics sample.buffers
    (List.replicate GL_LoadUbo.unitdatasize 0) 3 (by decide) (by decide) (by decide) hstore hlen
  exact ⟨by decide, by decide, rfl, buf', h1, h2.trans hlen⟩

theorem Ray.Ray_unitrange_bound (P : Nat) (object : Arr Ray.Object MAXOBJECTSIZE) (st : Statics)
    (pending : Nat) (n : Nat) (hn : n < Ray.objectcount object) :
    st.unitbuffindex ≤ (Arr.get (Ray.Ray P object st pending).table.object n).unitstart
    ∧ (Arr.get (Ray.Ray P object st pending).table.object n).unitstart
        + (Arr.get (Ray.Ray P object st pending).table.object n).unitsize
      ≤ st.unitbuffindex + MAXUNITSIZE * MAXOBJECTSIZE := by
  rw [Ray.Ray_unitstart P object st pending n hn, Ray.Ray_unitsize P object st pending n hn]
  have h5 : n < MAXOBJECTSIZE := lt_of_lt_of_le hn (Ray.objectcount_le object)
  have a1 : (0 : Int) ≤ ∑ j in Finset.range n, (Ray.unitcount (Arr.get object j) : Int) :=
    Finset.sum_nonneg (fun j _ => Int.ofNat_nonneg _)
  have a2 : ∑ j in Finset.range (n + 1), (Ray.unitcount (Arr.get object j) : Int)
      ≤ ∑ _j in Finset.range (n + 1), (MAXUNITSIZE : Int) := by
    apply Finset.sum_le_sum
    intro j _
    exact_mod_cast Ray.unitcount_le (Arr.get object j)
  rw [Finset.sum_range_succ] at a2
  simp only [Finset.sum_const, Finset.card_range, nsmul_eq_mul] at a2
  have a3 : ((n + 1 : Nat) : Int) * (MAXUNITSIZE : Int) ≤ (MAXUNITSIZE : Int) * (MAXOBJECTSIZE : Int) := by
    have : ((n + 1 : Nat) : Int) ≤ (MAXOBJECTSIZE : Int) := by exact_mod_cast h5
    nlinarith
  constructor
  · linarith
  · push_cast at a2 a3 ⊢
    linarith

/-- C4. When the constructor starts with the unit counter at 0, every live
object of the table it builds has `0 ≤ unitstart` and
`unitstart + unitsize ≤ MAXUNITBUFFSIZE`; and so, in any frame (any table with
the same `objectsize`, `unitstart` and `unitsize` values, which `Update` never
changes), every `glBufferSubData` call of `Ray::Update` has its byte range
`[offset, offset + size)` inside the `80 * MAXUNITBUFFSIZE` bytes that
`GL_LoadUbo` allocates for the unit buffer. -/
theorem C4_unit_ranges_within_buffer (P : Nat) (object : Arr Ray.Object MAXOBJECTSIZE)
    (st : Statics) (pending : Nat) (h0 : getunitbuffindex st = 0) :
    (∀ n : Nat, (n : Int) < (Ray.Ray P object st pending).table.objectsize →
        0 ≤ (Arr.get (Ray.Ray P object st pending).table.object n).unitstart
        ∧ (Arr.get (Ray.Ray P object st pending).table.object n).unitstart
            + (Arr.get (Ray.Ray P object st pending).table.object n).unitsize
          ≤ MAXUNITBUFFSIZE)
    ∧ (∀ (table : Table) (F : FloatOps) (cam : Camera) (st' : Statics) (pending' : Nat),
        table.objectsize = (Ray.Ray P object st pending).table.objectsize →
        (∀ n : Nat, (Arr.get table.object n).unitstart
              = (Arr.get (Ray.Ray P object st pending).table.object n).unitstart
            ∧ (Arr.get table.object n).unitsize
              = (Arr.get (Ray.Ray P object st pending).table.object n).unitsize) →
        ∀ u ∈ uploads (Ray.Update F cam table st' pending').gl,
          0 ≤ u.1 ∧ u.1 + u.2.1 ≤ (GL_LoadUbo.unitdatasize : Int)
          ∧ (∃ n m : Nat, (n : Int) < table.objectsize ∧ (m : Int) < (Arr.get table.object n).unitsize
              ∧ u.1 = 80 * ((Arr.get table.object n).unitstart + m) ∧ u.2.1 = 64)) := by
  have h0' : st.unitbuffindex = 0 := h0
  have hfirst : ∀ n : Nat, (n : Int) < (Ray.Ray P object st pending).table.objectsize →
      0 ≤ (Arr.get (Ray.Ray P object st pending).table.object n).unitstart
      ∧ (Arr.get (Ray.Ray P object st pending).table.object n).unitstart
          + (Arr.get (Ray.Ray P object st pending).table.object n).unitsize
        ≤ MAXUNITBUFFSIZE := by
    intro n hl
    have hn := (Ray.Ray_liveobject_iff P object st pending n).mp hl
    have hb := Ray.Ray_unitrange_bound P object st pending n hn
    rw [h0'] at hb
    refine ⟨hb.1, le_trans hb.2 ?_⟩
    decide
  refine ⟨hfirst, ?_⟩
  intro table F cam st' pending' hsize hsame u hu
  rw [Ray.Update_upload_sequence F cam table st' pending'] at hu
  simp only [List.mem_flatMap, List.mem_map, List.mem_range] at hu
  obtain ⟨n, hn, m, hm, rfl⟩ := hu
  have hn' : (n : Int) < table.objectsize := by omega
  have hm' : (m : Int) < (Arr.get table.object n).unitsize := by omega
  obtain ⟨b1, b2⟩ := hfirst n (by rw [← hsize]; exact hn')
  rw [← (hsame n).1, ← (hsame n).2] at b2
  rw [← (hsame n).1] at b1
  refine ⟨?_, ?_, n, m, hn', hm', rfl, rfl⟩
  · simp only [sizeof_data_Unit]
    push_cast
    omega
  · simp only [sizeof_data_Unit, sizeof_modelmat4, GL_LoadUbo.unitdatasize, MAXUNITBUFFSIZE] at b2 ⊢
    push_cast
    omega

/-- Witness of C4 on the sample descriptor array: object 1 is live and ends at
record 4, inside the 20 records of the unit buffer. -/
theorem C4_witness :
    getunitbuffindex {} = 0
    ∧ ((1 : Nat) : Int) < (Ray.Ray 2 sample.objects {} 0).table.objectsize
    ∧ (Arr.get (Ray.Ray 2 sample.objects {} 0).table.object 1).unitstart
        + (Arr.get (Ray.Ray 2 sample.objects {} 0).table.object 1).unitsize = 4
    ∧ (Arr.get (Ray.Ray 2 sample.objects {} 0).table.object 1).unitstart
        + (Arr.get (Ray.Ray 2 sample.objects {} 0).table.object 1).unitsize ≤ MAXUNITBUFFSIZE :=
  ⟨rfl, by decide, by decide,
   ((C4_unit_ranges_within_buffer 2 sample.objects {} 0 rfl).1 1 (by decide)).2⟩

/-- C16. `Ray::Update` leaves `objectsize` as it was; for every object it leaves
`unitstart`, `unitsize`, the update function and the whole unit array (every
`plstart` and `plsize`) as they were; and an object at an index at or beyond
`objectsize` is left as it was, model matrix included. -/
theorem C16_update_changes_only_matrices (F : FloatOps) (cam : Camera) (table : Table)
    (st : Statics) (pending : Nat) :
    (Ray.Update F cam table st pending).table.objectsize = table.objectsize
    ∧ (∀ n : Nat,
        (Arr.get (Ray.Update F cam table st pending).table.object n).unitstart
            = (Arr.get table.object n).unitstart
        ∧ (Arr.get (Ray.Update F cam table st pending).table.object n).unitsize
            = (Arr.get table.object n).unitsize
        ∧ (Arr.get (Ray.Update F cam table st pending).table.object n).updatemat4
            = (Arr.get table.object n).updatemat4
        ∧ (Arr.get (Ray.Update F cam table st pending).table.object n).unit
            = (Arr.get table.object n).unit
        ∧ (∀ m : Nat,
            ((Ray.Update F cam table st pending).table.unitAt n m).plstart
                = (table.unitAt n m).plstart
            ∧ ((Ray.Update F cam table st pending).table.unitAt n m).plsize
                = (table.unitAt n m).plsize))
    ∧ (∀ n : Nat, table.objectsize ≤ (n : Int) →
        Arr.get (Ray.Update F cam table st pending).table.object n = Arr.get table.object n) := by
  refine ⟨(Ray.Update_table F cam table st pending 0).1, ?_, ?_⟩
  · intro n
    have h := (Ray.Update_table F cam table st pending n).2
    have hu : (Arr.get (Ray.Update F cam table st pending).table.object n).unit
        = (Arr.get table.object n).unit := by
      rw [h]; split <;> rfl
    refine ⟨by rw [h]; split <;> rfl, by rw [h]; split <;> rfl, by rw [h]; split <;> rfl, hu, ?_⟩
    intro m
    simp only [Table.unitAt, hu, and_self]
  · intro n hn
    rw [(Ray.Update_table F cam table st pending n).2, if_neg (by omega)]

/-- Witness of C16 on the table built from the sample descriptor array: the
second unit of object 1 keeps its plane range. -/
theorem C16_witness :
    ((Ray.Update sample.F {} (Ray.Ray 2 sample.objects {} 0).table {} 0).table.unitAt 1 1).plstart = 4
    ∧ ((Ray.Update sample.F {} (Ray.Ray 2 sample.objects {} 0).table {} 0).table.unitAt 1 1).plsize = 3 :=
  ⟨((((C16_update_changes_only_matrices sample.F {} (Ray.Ray 2 sample.objects {} 0).table
        {} 0).2.1 1).2.2.2.2 1).1).trans (by decide),
   ((((C16_update_changes_only_matrices sample.F {} (Ray.Ray 2 sample.objects {} 0).table
        {} 0).2.1 1).2.2.2.2 1).2).trans (by decide)⟩

theorem GLContext.after_append (c : GLContext) (a b : List GLCall) :
    c.after (a ++ b) = (c.after a).after b := by
  induction a generalizing c with
  | nil => rfl
  | cons x xs ih => exact ih (c.step x)

theorem renders_append (c : GLContext) (a b : List GLCall) :
    renders c (a ++ b) = renders c a ++ renders (c.after a) b := by
  induction a generalizing c with
  | nil => rfl
  | cons x xs ih =>
    show c.pass x ++ renders (c.step x) (xs ++ b) = _
    rw [ih (c.step x)]
    simp only [renders, GLContext.after, List.append_assoc]

theorem Gpu.emit_gl (g : Gpu) (calls : List GLCall) : (g.emit calls).gl = g.gl ++ calls := rfl

theorem Gpu.emit_st (g : Gpu) (calls : List GLCall) : (g.emit calls).st = g.st := rfl

theorem GL_Ray2Buffer_Update_st (u : Unit) (g : Gpu) :
    (GL_Ray2Buffer_Update u g).st = { g.st with ray2offset := g.st.ray2offset + 1 } := rfl

theorem GL_Ray2Buffer_Update_renders (u : Unit) (g : Gpu) (c0 : GLContext) :
    renders c0 (GL_Ray2Buffer_Update u g).gl = renders c0 g.gl ++
      [ Pass.draw (c0.after g.gl).framebuffer g.st.ray2initprgm GLenum.GL_ALWAYS 6
          [("unitsegment", g.st.ray2offset)] [],
        Pass.draw (c0.after g.gl).framebuffer g.st.ray2prgm GLenum.GL_GEQUAL (6 * u.plsize)
          [ ("plstart", u.plstart),
            ("unitindex", g.st.ray2offset + g.st.ray2unitstartindex),
            ("unitsegment", g.st.ray2offset) ]
          [ ("viewmat4", g.st.viewmat4.floats) ] ] := by
  simp [GL_Ray2Buffer_Update, Gpu.emit, renders_append, renders, GLContext.step,
    GLContext.pass, GLContext.after, GetViewmat4]

theorem GL_Ray2Buffer_Update_framebuffer (u : Unit) (g : Gpu) (c0 : GLContext) :
    (c0.after (GL_Ray2Buffer_Update u g).gl).framebuffer = (c0.after g.gl).framebuffer := by
  simp [GL_Ray2Buffer_Update, Gpu.emit, GLContext.after_append, GLContext.step, GLContext.after]

theorem GL_Ray2Buffer_Initialize_st (i : Int) (g : Gpu) :
    (GL_Ray2Buffer_Initialize i g).st
      = { g.st with ray2unitstartindex := i, ray2offset := 0 } := rfl

theorem GL_Ray2Buffer_Initialize_renders (i : Int) (g : Gpu) (c0 : GLContext) :
    renders c0 (GL_Ray2Buffer_Initialize i g).gl = renders c0 g.gl ++ [Pass.ray2Clear g.st] := by
  simp [GL_Ray2Buffer_Initialize, Gpu.emit, renders_append, renders, GLContext.step,
    GLContext.pass, GLContext.after, Pass.ray2Clear]

theorem GL_Ray2Buffer_Initialize_framebuffer (i : Int) (g : Gpu) (c0 : GLContext) :
    (c0.after (GL_Ray2Buffer_Initialize i g).gl).framebuffer = g.st.ray2fbo := by
  simp [GL_Ray2Buffer_Initialize, Gpu.emit, GLContext.after_append, GLContext.step,
    GLContext.after]

theorem GL_Ray2Buffer_Release_renders (g : Gpu) (c0 : GLContext) :
    renders c0 (GL_Ray2Buffer_Release g).gl = renders c0 g.gl := by
  simp [GL_Ray2Buffer_Release, Gpu.emit, renders_append, renders, GLContext.step,
    GLContext.pass, GLContext.after]

theorem GL_Ray2Buffer_Release_framebuffer (g : Gpu) (c0 : GLContext) :
    (c0.after (GL_Ray2Buffer_Release g).gl).framebuffer = 0 := by
  simp [GL_Ray2Buffer_Release, Gpu.emit, GLContext.after_append, GLContext.step,
    GLContext.after]

theorem GL_SelectionBuffer_Update_renders (g : Gpu) (c0 : GLContext) :
    renders c0 (GL_SelectionBuffer_Update g).gl = renders c0 g.gl ++ [Pass.selection g.st] := by
  simp [GL_SelectionBuffer_Update, Gpu.emit, renders_append, renders, GLContext.step,
    GLContext.pass, GLContext.after, Pass.selection]

theorem GL_SelectionBuffer_Update_framebuffer (g : Gpu) (c0 : GLContext) :
    (c0.after (GL_SelectionBuffer_Update g).gl).framebuffer = 0 := by
  simp [GL_SelectionBuffer_Update, Gpu.emit, GLContext.after_append, GLContext.step,
    GLContext.after]

theorem GL_SelectionBuffer_Reset_renders (g : Gpu) (c0 : GLContext) :
    renders c0 (GL_SelectionBuffer_Reset g).gl = renders c0 g.gl ++ [Pass.selectionReset g.st] := by
  simp [GL_SelectionBuffer_Reset, Gpu.emit, renders_append, renders, GLContext.step,
    GLContext.pass, GLContext.after, Pass.selectionReset]

theorem GL_SelectionBuffer_Reset_framebuffer (g : Gpu) (c0 : GLContext) :
    (c0.after (GL_SelectionBuffer_Reset g).gl).framebuffer = 0 := by
  simp [GL_SelectionBuffer_Reset, Gpu.emit, GLContext.after_append, GLContext.step,
    GLContext.after]

theorem GL_DrawBuffer_Update_renders (g : Gpu) (c0 : GLContext)
    (h : (c0.after g.gl).framebuffer = 0) :
    renders c0 (GL_DrawBuffer_Update g).gl
      = renders c0 g.gl ++ [Pass.finalClear, Pass.finalDraw g.st] := by
  simp [GL_DrawBuffer_Update, Gpu.emit, renders_append, renders, GLContext.step,
    GLContext.pass, GLContext.after, Pass.finalClear, Pass.finalDraw, GetViewmat4, h]

theorem GL_UnitBuffer_Update_renders (g : Gpu) (c0 : GLContext) :
    renders c0 (GL_UnitBuffer_Update g).gl = renders c0 g.gl := by
  simp [GL_UnitBuffer_Update, Gpu.emit, renders_append, renders, GLContext.step,
    GLContext.pass, GLContext.after]

theorem GL_UnitBuffer_Update_after (g : Gpu) (c0 : GLContext) :
    c0.after (GL_UnitBuffer_Update g).gl = c0.after g.gl := by
  simp [GL_UnitBuffer_Update, Gpu.emit, GLContext.after_append, GLContext.step,
    GLContext.after]

theorem GL_UnitBuffer_Update_scrub (g : Gpu) :
    (GL_UnitBuffer_Update g).st.scrub = g.st.scrub := rfl

theorem GL_UnitBuffer_Reset_scrub (i : Int) (m : Mat4) (g : Gpu) :
    (GL_UnitBuffer_Reset i m g).st.scrub = g.st.scrub := rfl

theorem GL_UnitBuffer_Reset_gl (i : Int) (m : Mat4) (g : Gpu) :
    (GL_UnitBuffer_Reset i m g).gl = g.gl := rfl

/-- The loop of lines 135-139 run `k` times from `g`. -/
theorem GL_Ray2Buffer_Update_iterate (o : Object) (g : Gpu) (c0 : GLContext) (k : Nat) :
    ((List.range k).foldl (fun g m => GL_Ray2Buffer_Update (Arr.get o.unit m) g) g).st
        = { g.st with ray2offset := g.st.ray2offset + (k : Int) }
    ∧ (c0.after ((List.range k).foldl
          (fun g m => GL_Ray2Buffer_Update (Arr.get o.unit m) g) g).gl).framebuffer
        = (c0.after g.gl).framebuffer
    ∧ renders c0 ((List.range k).foldl
          (fun g m => GL_Ray2Buffer_Update (Arr.get o.unit m) g) g).gl
        = renders c0 g.gl ++ (List.range k).flatMap (fun (m : Nat) =>
            [ Pass.draw (c0.after g.gl).framebuffer g.st.ray2initprgm GLenum.GL_ALWAYS 6
                [("unitsegment", g.st.ray2offset + (m : Int))] [],
              Pass.draw (c0.after g.gl).framebuffer g.st.ray2prgm GLenum.GL_GEQUAL
                (6 * (Arr.get o.unit m).plsize)
                [ ("plstart", (Arr.get o.unit m).plstart),
                  ("unitindex", g.st.ray2offset + (m : Int) + g.st.ray2unitstartindex),
                  ("unitsegment", g.st.ray2offset + (m : Int)) ]
                [ ("viewmat4", g.st.viewmat4.floats) ] ]) := by
  induction k with
  | zero =>
    refine ⟨?_, rfl, by simp⟩
    cases g with | mk st gl => cases st; simp
  | succ k ih =>
    obtain ⟨ih1, ih2, ih3⟩ := ih
    rw [foldl_range_succ]
    refine ⟨?_, ?_, ?_⟩
    · rw [GL_Ray2Buffer_Update_st, ih1]
      simp only [Nat.cast_add, Nat.cast_one, add_assoc]
    · rw [GL_Ray2Buffer_Update_framebuffer, ih2]
    · rw [GL_Ray2Buffer_Update_renders, ih3, ih2, ih1, List.range_succ, List.flatMap_append,
        List.append_assoc]
      rfl

theorem Pass.phaseA_scrub (st : Statics) (m : Nat) :
    Pass.phaseA st.scrub m = Pass.phaseA st m := rfl

theorem Pass.phaseB_scrub (st : Statics) (o : Object) (m : Nat) :
    Pass.phaseB st.scrub o m = Pass.phaseB st o m := rfl

theorem Pass.ray2Clear_scrub (st : Statics) : Pass.ray2Clear st.scrub = Pass.ray2Clear st := rfl

theorem Pass.selection_scrub (st : Statics) : Pass.selection st.scrub = Pass.selection st := rfl

theorem Pass.selectionReset_scrub (st : Statics) :
    Pass.selectionReset st.scrub = Pass.selectionReset st := rfl

theorem Pass.finalDraw_scrub (st : Statics) : Pass.finalDraw st.scrub = Pass.finalDraw st := rfl

theorem Pass.ofObject_scrub (st : Statics) (o : Object) :
    Pass.ofObject st.scrub o = Pass.ofObject st o := rfl

/-- One iteration of the loop of lines 131-145. -/
theorem Ray.Update.passes_step (o : ray.Object) (g : Gpu) (c0 : GLContext) :
    (GL_SelectionBuffer_Update (GL_Ray2Buffer_Release
        ((List.range o.unitsize.toNat).foldl
          (fun g m => GL_Ray2Buffer_Update (Arr.get o.unit m) g)
          (GL_Ray2Buffer_Initialize o.unitstart g)))).st.scrub = g.st.scrub
    ∧ (c0.after (GL_SelectionBuffer_Update (GL_Ray2Buffer_Release
        ((List.range o.unitsize.toNat).foldl
          (fun g m => GL_Ray2Buffer_Update (Arr.get o.unit m) g)
          (GL_Ray2Buffer_Initialize o.unitstart g)))).gl).framebuffer = 0
    ∧ renders c0 (GL_SelectionBuffer_Update (GL_Ray2Buffer_Release
        ((List.range o.unitsize.toNat).foldl
          (fun g m => GL_Ray2Buffer_Update (Arr.get o.unit m) g)
          (GL_Ray2Buffer_Initialize o.unitstart g)))).gl
      = renders c0 g.gl ++ Pass.ofObject g.st o := by
  obtain ⟨h1, h2, h3⟩ := GL_Ray2Buffer_Update_iterate o
    (GL_Ray2Buffer_Initialize o.unitstart g) c0 o.unitsize.toNat
  refine ⟨?_, GL_SelectionBuffer_Update_framebuffer _ _, ?_⟩
  · show ((List.range o.unitsize.toNat).foldl
        (fun g m => GL_Ray2Buffer_Update (Arr.get o.unit m) g)
        (GL_Ray2Buffer_Initialize o.unitstart g)).st.scrub = g.st.scrub
    rw [h1]
    rfl
  · rw [GL_SelectionBuffer_Update_renders, GL_Ray2Buffer_Release_renders, h3,
      GL_Ray2Buffer_Initialize_renders, GL_Ray2Buffer_Initialize_framebuffer]
    have e : (GL_Ray2Buffer_Release ((List.range o.unitsize.toNat).foldl
        (fun g m => GL_Ray2Buffer_Update (Arr.get o.unit m) g)
        (GL_Ray2Buffer_Initialize o.unitstart g))).st
        = { g.st with ray2unitstartindex := o.unitstart, ray2offset := 0 + (o.unitsize.toNat : Int) } := by
      show ((List.range o.unitsize.toNat).foldl
        (fun g m => GL_Ray2Buffer_Update (Arr.get o.unit m) g)
        (GL_Ray2Buffer_Initialize o.unitstart g)).st = _
      rw [h1]
      rfl
    rw [e]
    simp only [Pass.ofObject, List.append_assoc, GL_Ray2Buffer_Initialize_st, zero_add]
    rfl

/-- The loops of lines 131-145. -/
theorem Ray.Update.passes_renders (table : Table) (g : Gpu) (c0 : GLContext) :
    (Ray.Update.passes table g).st.scrub = g.st.scrub
    ∧ ((c0.after g.gl).framebuffer = 0 →
        (c0.after (Ray.Update.passes table g).gl).framebuffer = 0)
    ∧ renders c0 (Ray.Update.passes table g).gl
      = renders c0 g.gl ++ (List.range table.objectsize.toNat).flatMap
          (fun n => Pass.ofObject g.st (Arr.get table.object n)) := by
  unfold Ray.Update.passes
  induction table.objectsize.toNat with
  | zero => exact ⟨rfl, fun h => h, by simp⟩
  | succ N ih =>
    obtain ⟨ih1, _, ih3⟩ := ih
    rw [foldl_range_succ]
    obtain ⟨s1, s2, s3⟩ := Ray.Update.passes_step (Arr.get table.object N)
      ((List.range N).foldl (fun g n =>
        GL_SelectionBuffer_Update (GL_Ray2Buffer_Release
          ((List.range (Arr.get table.object n).unitsize.toNat).foldl
            (fun g m => GL_Ray2Buffer_Update (Arr.get (Arr.get table.object n).unit m) g)
            (GL_Ray2Buffer_Initialize (Arr.get table.object n).unitstart g)))) g) c0
    refine ⟨s1.trans ih1, fun _ => s2, ?_⟩
    rw [s3, ih3, List.range_succ, List.flatMap_append, List.append_assoc,
      ← Pass.ofObject_scrub, ih1, Pass.ofObject_scrub]
    simp

/-- The loops of lines 113-123 neither clear nor draw. -/
theorem Ray.Update.upload_renders (table : Table) (g : Gpu) (c0 : GLContext) :
    (Ray.Update.upload table g).st.scrub = g.st.scrub
    ∧ c0.after (Ray.Update.upload table g).gl = c0.after g.gl
    ∧ renders c0 (Ray.Update.upload table g).gl = renders c0 g.gl := by
  unfold Ray.Update.upload
  have inner : ∀ (k : Nat) (g : Gpu),
      ((List.range k).foldl (fun g _ => GL_UnitBuffer_Update g) g).st.scrub = g.st.scrub
      ∧ c0.after ((List.range k).foldl (fun g _ => GL_UnitBuffer_Update g) g).gl = c0.after g.gl
      ∧ renders c0 ((List.range k).foldl (fun g _ => GL_UnitBuffer_Update g) g).gl
          = renders c0 g.gl := by
    intro k g
    induction k with
    | zero => exact ⟨rfl, rfl, rfl⟩
    | succ k ih =>
      rw [foldl_range_succ]
      exact ⟨(GL_UnitBuffer_Update_scrub _).trans ih.1,
        (GL_UnitBuffer_Update_after _ _).trans ih.2.1,
        (GL_UnitBuffer_Update_renders _ _).trans ih.2.2⟩
  induction table.objectsize.toNat with
  | zero => exact ⟨rfl, rfl, rfl⟩
  | succ N ih =>
    rw [foldl_range_succ]
    obtain ⟨i1, i2, i3⟩ := inner (Arr.get table.object N).unitsize.toNat
      (GL_UnitBuffer_Reset (Arr.get table.object N).unitstart (Arr.get table.object N).modelmat4
        ((List.range N).foldl (fun g n =>
          (List.range (Arr.get table.object n).unitsize.toNat).foldl
            (fun g _ => GL_UnitBuffer_Update g)
            (GL_UnitBuffer_Reset (Arr.get table.object n).unitstart
              (Arr.get table.object n).modelmat4 g)) g))
    rw [GL_UnitBuffer_Reset_scrub] at i1
    rw [GL_UnitBuffer_Reset_gl] at i2 i3
    exact ⟨i1.trans ih.1, i2.trans ih.2.1, i3.trans ih.2.2⟩

theorem renders_replicate_glGetError (c : GLContext) (k : Nat) :
    renders c (List.replicate k GLCall.glGetError) = [] := by
  induction k with
  | zero => rfl
  | succ k ih => simpa [List.replicate_succ, renders, GLContext.pass, GLContext.step] using ih

theorem Pass.ofObject_congr (st : Statics) (o o' : Object) (h1 : o'.unitstart = o.unitstart)
    (h2 : o'.unitsize = o.unitsize) (h3 : o'.unit = o.unit) :
    Pass.ofObject st o' = Pass.ofObject st o := by
  simp only [Pass.ofObject, Pass.phaseB, h1, h2, h3]

theorem Ray.Update_object_fixed (F : FloatOps) (cam : Camera) (table : Table) (st : Statics)
    (pending : Nat) (n : Nat) :
    (Arr.get (Ray.Update F cam table st pending).table.object n).unitstart
        = (Arr.get table.object n).unitstart
    ∧ (Arr.get (Ray.Update F cam table st pending).table.object n).unitsize
        = (Arr.get table.object n).unitsize
    ∧ (Arr.get (Ray.Update F cam table st pending).table.object n).unit
        = (Arr.get table.object n).unit := by
  have h := (Ray.Update_table F cam table st pending n).2
  exact ⟨by rw [h]; split <;> rfl, by rw [h]; split <;> rfl, by rw [h]; split <;> rfl⟩

/-- The clears and draws of one `Ray::Update`, from any context. -/
theorem Ray.Update_renders (F : FloatOps) (cam : Camera) (table : Table) (st : Statics)
    (pending : Nat) (c0 : GLContext) :
    renders c0 (Ray.Update F cam table st pending).gl
      = [Pass.selectionReset (SetViewmat4 F cam (SetNewFrame st))]
        ++ (List.range table.objectsize.toNat).flatMap
            (fun n => Pass.ofObject (SetViewmat4 F cam (SetNewFrame st)) (Arr.get table.object n))
        ++ [Pass.finalClear, Pass.finalDraw (SetViewmat4 F cam (SetNewFrame st))] := by
  have hsize := (Ray.Update_table F cam table st pending 0).1
  have hobj : ∀ n, Pass.ofObject (SetViewmat4 F cam (SetNewFrame st))
        (Arr.get (Ray.Update F cam table st pending).table.object n)
      = Pass.ofObject (SetViewmat4 F cam (SetNewFrame st)) (Arr.get table.object n) := by
    intro n
    obtain ⟨h1, h2, h3⟩ := Ray.Update_object_fixed F cam table st pending n
    exact Pass.ofObject_congr _ _ _ h1 h2 h3
  rw [← hsize]
  simp only [← hobj]
  simp only [Ray.Update]
  generalize Ray.Update.movements F (SetViewmat4 F cam (SetNewFrame st)) table = table1
  generalize SetViewmat4 F cam (SetNewFrame st) = st1
  obtain ⟨u1, u2, u3⟩ := Ray.Update.upload_renders table1 { st := st1 } c0
  obtain ⟨p1, p2, p3⟩ := Ray.Update.passes_renders table1
    (GL_SelectionBuffer_Reset (Ray.Update.upload table1 { st := st1 })) c0
  have hfb := p2 (GL_SelectionBuffer_Reset_framebuffer _ _)
  have hs : (GL_SelectionBuffer_Reset (Ray.Update.upload table1 { st := st1 })).st.scrub
      = st1.scrub := u1
  have herr : (GL_CheckError pending).2 = List.replicate (pending + 1) GLCall.glGetError := rfl
  rw [Gpu.emit_gl, renders_append, herr, renders_replicate_glGetError, List.append_nil,
    GL_DrawBuffer_Update_renders _ _ hfb, p3, GL_SelectionBuffer_Reset_renders, u3]
  rw [← Pass.finalDraw_scrub, p1, hs, Pass.finalDraw_scrub]
  have e1 : Pass.selectionReset (Ray.Update.upload table1 { st := st1 }).st
      = Pass.selectionReset st1 := by
    rw [← Pass.selectionReset_scrub, u1, Pass.selectionReset_scrub]
  have e2 : ∀ o, Pass.ofObject (GL_SelectionBuffer_Reset
        (Ray.Update.upload table1 { st := st1 })).st o = Pass.ofObject st1 o := by
    intro o
    rw [← Pass.ofObject_scrub, hs, Pass.ofObject_scrub]
  simp only [e1, e2]
  rfl

theorem filterMap_flatMap {α β γ : Type} (l : List α) (f : α → List β) (g : β → Option γ) :
    (l.flatMap f).filterMap g = l.flatMap (fun x => (f x).filterMap g) := by
  induction l with
  | nil => rfl
  | cons x xs ih => simp [List.flatMap_cons, List.filterMap_append, ih]

theorem Call_eq (cam : Camera) (outpos outtheta : Arr float 3) :
    Call cam outpos outtheta = (cam.pos, cam.theta) := by
  simp only [Call, Prod.mk.injEq]
  constructor <;> (funext i; fin_cases i <;> rfl)

theorem SetViewmat4_viewmat4 (F : FloatOps) (cam : Camera) (st : Statics) :
    (SetViewmat4 F cam st).viewmat4 = makeviewmat4 F Mat4.zero cam.theta cam.pos := by
  simp only [SetViewmat4, copymat4_eq, Call_eq]

/-- The statics after one `Ray::Update`, the per-call scratch statics apart. -/
theorem Ray.Update_st_scrub (F : FloatOps) (cam : Camera) (table : Table) (st : Statics)
    (pending : Nat) :
    (Ray.Update F cam table st pending).st.scrub
      = { (SetViewmat4 F cam (SetNewFrame st)).scrub with
          firstupderror := if 0 < pending then false else st.firstupderror } := by
  simp only [Ray.Update]
  generalize Ray.Update.movements F (SetViewmat4 F cam (SetNewFrame st)) table = table1
  have hfu : st.firstupderror = (SetViewmat4 F cam (SetNewFrame st)).firstupderror := rfl
  rw [hfu]
  generalize SetViewmat4 F cam (SetNewFrame st) = st1
  obtain ⟨u1, -, -⟩ := Ray.Update.upload_renders table1 { st := st1 } {}
  obtain ⟨p1, -, -⟩ := Ray.Update.passes_renders table1
    (GL_SelectionBuffer_Reset (Ray.Update.upload table1 { st := st1 })) {}
  have hs : (GL_DrawBuffer_Update (Ray.Update.passes table1
      (GL_SelectionBuffer_Reset (Ray.Update.upload table1 { st := st1 })))).st.scrub
      = st1.scrub := p1.trans u1
  have hf : (GL_DrawBuffer_Update (Ray.Update.passes table1
      (GL_SelectionBuffer_Reset (Ray.Update.upload table1 { st := st1 })))).st.firstupderror
      = st1.firstupderror := by
    have h := congrArg Statics.firstupderror hs
    exact h
  by_cases hp : 0 < pending
  · simp only [GL_CheckError, hp, decide_True, if_true, IsFirstUpdError, Gpu.emit_st]
    show ({ (GL_DrawBuffer_Update _).st.scrub with firstupderror := false } : Statics) = _
    rw [hs]
  · simp only [GL_CheckError, hp, decide_False, if_false, Gpu.emit_st, Bool.false_eq_true]
    rw [hs]
    cases st1
    rfl

theorem Ray.Update_cout (F : FloatOps) (cam : Camera) (table : Table) (st : Statics)
    (pending : Nat) :
    (Ray.Update F cam table st pending).cout
      = if 0 < pending ∧ st.firstupderror = true
        then ["\rError: Error has been confirmed in update process.\n."] else [] := by
  simp only [Ray.Update]
  generalize Ray.Update.movements F (SetViewmat4 F cam (SetNewFrame st)) table = table1
  have hfu : st.firstupderror = (SetViewmat4 F cam (SetNewFrame st)).firstupderror := rfl
  rw [hfu]
  generalize SetViewmat4 F cam (SetNewFrame st) = st1
  obtain ⟨u1, -, -⟩ := Ray.Update.upload_renders table1 { st := st1 } {}
  obtain ⟨p1, -, -⟩ := Ray.Update.passes_renders table1
    (GL_SelectionBuffer_Reset (Ray.Update.upload table1 { st := st1 })) {}
  have hs : (GL_DrawBuffer_Update (Ray.Update.passes table1
      (GL_SelectionBuffer_Reset (Ray.Update.upload table1 { st := st1 })))).st.scrub
      = st1.scrub := p1.trans u1
  have hf : (GL_DrawBuffer_Update (Ray.Update.passes table1
      (GL_SelectionBuffer_Reset (Ray.Update.upload table1 { st := st1 })))).st.firstupderror
      = st1.firstupderror := by
    have h := congrArg Statics.firstupderror hs
    exact h
  by_cases hp : 0 < pending
  · simp only [GL_CheckError, hp, decide_True, if_true, IsFirstUpdError, Gpu.emit_st, hf,
      Bool.true_and, true_and]
  · simp only [GL_CheckError, hp, decide_False, if_false, Bool.false_and, false_and,
      Bool.false_eq_true]

theorem Ray.Update_drawArgs (F : FloatOps) (cam : Camera) (table : Table) (st : Statics)
    (pending : Nat) (c0 : GLContext) :
    (renders c0 (Ray.Update F cam table st pending).gl).filterMap Pass.drawArgs
      = (List.range table.objectsize.toNat).flatMap (fun n =>
          (List.range (Arr.get table.object n).unitsize.toNat).flatMap (fun m =>
            [((6 : Int), [("unitsegment", (m : Int))]),
             (6 * (table.unitAt n m).plsize,
              [("plstart", (table.unitAt n m).plstart),
               ("unitindex", (Arr.get table.object n).unitstart + (m : Int)),
               ("unitsegment", (m : Int))])])
          ++ [((6 : Int), [])])
        ++ [((6 : Int), [])] := by
  rw [Ray.Update_renders]
  simp only [List.filterMap_append, filterMap_flatMap, Pass.ofObject, Pass.selectionReset,
    Pass.ray2Clear, Pass.phaseA, Pass.phaseB, Pass.selection, Pass.finalClear, Pass.finalDraw,
    Pass.drawArgs, List.filterMap_cons, List.filterMap_nil, List.nil_append, Table.unitAt,
    add_comm]

theorem Ray.Update_drawDepthFunc (F : FloatOps) (cam : Camera) (table : Table) (st : Statics)
    (pending : Nat) (c0 : GLContext) :
    (renders c0 (Ray.Update F cam table st pending).gl).filterMap Pass.drawDepthFunc
      = (List.range table.objectsize.toNat).flatMap (fun n =>
          (List.range (Arr.get table.object n).unitsize.toNat).flatMap (fun _ =>
            [(st.ray2initprgm, GLenum.GL_ALWAYS), (st.ray2prgm, GLenum.GL_GEQUAL)])
          ++ [(st.selectprgm, GLenum.GL_LESS)])
        ++ [(st.drawprgm, GLenum.GL_ALWAYS)] := by
  rw [Ray.Update_renders]
  simp only [List.filterMap_append, filterMap_flatMap, Pass.ofObject, Pass.selectionReset,
    Pass.ray2Clear, Pass.phaseA, Pass.phaseB, Pass.selection, Pass.finalClear, Pass.finalDraw,
    Pass.drawDepthFunc, List.filterMap_cons, List.filterMap_nil, List.nil_append]
  rfl

theorem Ray.Update_drawMats (F : FloatOps) (cam : Camera) (table : Table) (st : Statics)
    (pending : Nat) (c0 : GLContext) :
    (renders c0 (Ray.Update F cam table st pending).gl).filterMap Pass.drawMats
      = (List.range table.objectsize.toNat).flatMap (fun n =>
          (List.range (Arr.get table.object n).unitsize.toNat).flatMap (fun _ =>
            [(st.ray2initprgm, []),
             (st.ray2prgm,
              [("viewmat4", (makeviewmat4 F Mat4.zero cam.theta cam.pos).floats)])])
          ++ [(st.selectprgm, [])])
        ++ [(st.drawprgm, [("viewmat4", (makeviewmat4 F Mat4.zero cam.theta cam.pos).floats)])] := by
  rw [Ray.Update_renders]
  simp only [List.filterMap_append, filterMap_flatMap, Pass.ofObject, Pass.selectionReset,
    Pass.ray2Clear, Pass.phaseA, Pass.phaseB, Pass.selection, Pass.finalClear, Pass.finalDraw,
    Pass.drawMats, List.filterMap_cons, List.filterMap_nil, List.nil_append,
    SetViewmat4_viewmat4]
  rfl

theorem Ray.Update_viewmat4 (F : FloatOps) (cam : Camera) (table : Table) (st : Statics)
    (pending : Nat) :
    (Ray.Update F cam table st pending).st.viewmat4
      = makeviewmat4 F Mat4.zero cam.theta cam.pos := by
  have h := congrArg Statics.viewmat4 (Ray.Update_st_scrub F cam table st pending)
  have h2 : (Ray.Update F cam table st pending).st.viewmat4
      = (SetViewmat4 F cam (SetNewFrame st)).viewmat4 := h
  rw [h2, SetViewmat4_viewmat4]

/-- Over exact integers: the counts and integer uniforms of the draws of one
`Ray::Update`, and the bound on `unitsegment` for a table built by the
constructor. -/
theorem Ray.Update_drawArgs_bound (F : FloatOps) (cam : Camera) (table : Table) (st : Statics)
    (pending : Nat) (c0 : GLContext) :
    (renders c0 (Ray.Update F cam table st pending).gl).filterMap Pass.drawArgs
      = (List.range table.objectsize.toNat).flatMap (fun n =>
          (List.range (Arr.get table.object n).unitsize.toNat).flatMap (fun m =>
            [((6 : Int), [("unitsegment", (m : Int))]),
             (6 * (table.unitAt n m).plsize,
              [("plstart", (table.unitAt n m).plstart),
               ("unitindex", (Arr.get table.object n).unitstart + (m : Int)),
               ("unitsegment", (m : Int))])])
          ++ [((6 : Int), [])])
        ++ [((6 : Int), [])]
    ∧ ∀ (P : Nat) (object : Arr Ray.Object MAXOBJECTSIZE) (st0 : Statics) (pending0 : Nat)
        (args : Int × List (String × Int)) (v : Int),
        args ∈ (renders c0 (Ray.Update F cam (Ray.Ray P object st0 pending0).table st
          pending).gl).filterMap Pass.drawArgs →
        ("unitsegment", v) ∈ args.2 → 0 ≤ v ∧ v < (MAXUNITSIZE : Int) := by
  refine ⟨Ray.Update_drawArgs F cam table st pending c0, ?_⟩
  intro P object st0 pending0 args v hargs hv
  rw [Ray.Update_drawArgs] at hargs
  simp only [List.mem_append, List.mem_flatMap, List.mem_range, List.mem_cons,
    List.mem_singleton, List.not_mem_nil, or_false] at hargs
  have key : ∀ n m : Nat, n < (Ray.Ray P object st0 pending0).table.objectsize.toNat →
      m < (Arr.get (Ray.Ray P object st0 pending0).table.object n).unitsize.toNat →
      0 ≤ (m : Int) ∧ (m : Int) < (MAXUNITSIZE : Int) := by
    intro n m hn hm
    rw [Ray.Ray_objectsize, Int.toNat_ofNat] at hn
    rw [Ray.Ray_unitsize P object st0 pending0 n hn, Int.toNat_ofNat] at hm
    have := Ray.unitcount_le (Arr.get object n)
    exact ⟨Int.ofNat_nonneg m, by exact_mod_cast lt_of_lt_of_le hm this⟩
  rcases hargs with ⟨n, hn, h | h⟩ | h
  · obtain ⟨m, hm, h | h⟩ := h
    · subst h
      simp only [List.mem_singleton, Prod.mk.injEq, true_and] at hv
      subst hv
      exact key n m hn hm
    · subst h
      simp only [List.mem_cons, List.mem_singleton, Prod.mk.injEq, List.not_mem_nil,
        or_false] at hv
      rcases hv with hv | hv | hv
      · exact absurd hv.1 (by decide)
      · exact absurd hv.1 (by decide)
      · rw [hv.2]
        exact key n m hn hm
  · subst h
    exact absurd hv (List.not_mem_nil _)
  · subst h
    exact absurd hv (List.not_mem_nil _)

/-- C19. For every table and whatever the OpenGL context (depth function
included) was before, the draws of one `Ray::Update` run, in order, under
these programs and depth functions: for each object `n < objectsize`, for each
unit `m < unitsize` the Phase A draw of `ray2initprgm` under `GL_ALWAYS` and
the Phase B draw of `ray2prgm` under `GL_GEQUAL`, then the Selection draw of
`selectprgm` under `GL_LESS`; last the final draw of `drawprgm` under
`GL_ALWAYS`. -/
theorem C19_depth_functions (F : FloatOps) (cam : Camera) (table : Table) (st : Statics)
    (pending : Nat) (c0 : GLContext) :
    (renders c0 (Ray.Update F cam table st pending).gl).filterMap Pass.drawDepthFunc
      = (List.range table.objectsize.toNat).flatMap (fun n =>
          (List.range (Arr.get table.object n).unitsize.toNat).flatMap (fun _ =>
            [(st.ray2initprgm, GLenum.GL_ALWAYS), (st.ray2prgm, GLenum.GL_GEQUAL)])
          ++ [(st.selectprgm, GLenum.GL_LESS)])
        ++ [(st.drawprgm, GLenum.GL_ALWAYS)] :=
  Ray.Update_drawDepthFunc F cam table st pending c0

/-- C20. In one `Ray::Update` the view matrix left in the statics is the one
made from the camera pose handed to that call, every Phase B draw and the final
draw receive exactly that matrix as their `viewmat4` uniform (Phase A and
Selection draws receive no matrix), and none of the steps that follow the
computation (matrix upload, Selection reset, the passes, the final draw)
changes the stored view matrix, from whatever state they start. -/
theorem C20_view_matrix_single_value (F : FloatOps) (cam : Camera) (table : Table)
    (st : Statics) (pending : Nat) (c0 : GLContext) :
    (Ray.Update F cam table st pending).st.viewmat4
      = makeviewmat4 F Mat4.zero cam.theta cam.pos
    ∧ (renders c0 (Ray.Update F cam table st pending).gl).filterMap Pass.drawMats
      = (List.range table.objectsize.toNat).flatMap (fun n =>
          (List.range (Arr.get table.object n).unitsize.toNat).flatMap (fun _ =>
            [(st.ray2initprgm, []),
             (st.ray2prgm,
              [("viewmat4", (makeviewmat4 F Mat4.zero cam.theta cam.pos).floats)])])
          ++ [(st.selectprgm, [])])
        ++ [(st.drawprgm, [("viewmat4", (makeviewmat4 F Mat4.zero cam.theta cam.pos).floats)])]
    ∧ ∀ (t : Table) (g : Gpu),
        (Ray.Update.upload t g).st.viewmat4 = g.st.viewmat4
        ∧ (GL_SelectionBuffer_Reset g).st.viewmat4 = g.st.viewmat4
        ∧ (Ray.Update.passes t g).st.viewmat4 = g.st.viewmat4
        ∧ (GL_DrawBuffer_Update g).st.viewmat4 = g.st.viewmat4 := by
  refine ⟨Ray.Update_viewmat4 F cam table st pending,
    Ray.Update_drawMats F cam table st pending c0, ?_⟩
  intro t g
  have h1 : (Ray.Update.upload t g).st.scrub.viewmat4 = g.st.scrub.viewmat4 :=
    congrArg Statics.viewmat4 (Ray.Update.upload_renders t g {}).1
  have h2 : (Ray.Update.passes t g).st.scrub.viewmat4 = g.st.scrub.viewmat4 :=
    congrArg Statics.viewmat4 (Ray.Update.passes_renders t g {}).1
  exact ⟨h1, rfl, h2, rfl⟩

/-- Witness of C19 on the table built from the sample descriptor array, from a
context whose depth function is `GL_GEQUAL`. -/
theorem C19_witness :
    (renders { depthFunc := GLenum.GL_GEQUAL }
      (Ray.Update sample.F {} (Ray.Ray 2 sample.objects {} 0).table sample.handles
        0).gl).filterMap Pass.drawDepthFunc
      = [(1, GLenum.GL_ALWAYS), (2, GLenum.GL_GEQUAL),
         (1, GLenum.GL_ALWAYS), (2, GLenum.GL_GEQUAL), (3, GLenum.GL_LESS),
         (1, GLenum.GL_ALWAYS), (2, GLenum.GL_GEQUAL),
         (1, GLenum.GL_ALWAYS), (2, GLenum.GL_GEQUAL), (3, GLenum.GL_LESS),
         (4, GLenum.GL_ALWAYS)] :=
  (C19_depth_functions sample.F {} (Ray.Ray 2 sample.objects {} 0).table sample.handles
    0 { depthFunc := GLenum.GL_GEQUAL }).trans (by decide)

/-- Witness of C20 on the table built from the sample descriptor array. -/
theorem C20_witness :
    (Ray.Update sample.F {} (Ray.Ray 2 sample.objects {} 0).table sample.handles 0).st.viewmat4
      = makeviewmat4 sample.F Mat4.zero (fun _ => float.zero) (fun _ => float.zero) :=
  (C20_view_matrix_single_value sample.F {} (Ray.Ray 2 sample.objects {} 0).table
    sample.handles 0 {}).1

theorem Ray.Update_firstupderror (F : FloatOps) (cam : Camera) (table : Table) (st : Statics)
    (pending : Nat) :
    (Ray.Update F cam table st pending).st.firstupderror
      = if 0 < pending then false else st.firstupderror :=
  congrArg Statics.firstupderror (Ray.Update_st_scrub F cam table st pending)

theorem Ray.run_length (F : FloatOps) (frames : List (Camera × Nat)) (table : Table)
    (st : Statics) : (Ray.run F frames table st).length = frames.length := by
  induction frames generalizing table st with
  | nil => rfl
  | cons f rest ih =>
    obtain ⟨cam, pending⟩ := f
    simp only [Ray.run, List.length_cons, ih]

theorem Ray.run_cout (F : FloatOps) (frames : List (Camera × Nat)) (table : Table)
    (st : Statics) :
    (Ray.run F frames table st).map Ray.Frame.cout
      = (List.range frames.length).map (fun i =>
          if st.firstupderror = true ∧ frames.findIdx (fun f => decide (0 < f.2)) = i
          then ["\rError: Error has been confirmed in update process.\n."] else []) := by
  induction frames generalizing table st with
  | nil => rfl
  | cons f rest ih =>
    obtain ⟨cam, pending⟩ := f
    simp only [Ray.run, List.map_cons, List.length_cons, List.range_succ_eq_map, ih,
      Ray.Update_firstupderror, Ray.Update_cout, List.map_map, List.findIdx_cons]
    by_cases hp : 0 < pending
    · simp [hp, Function.comp_def]
    · simp [hp, Function.comp_def]

theorem Ray.run_cout_length (F : FloatOps) (frames : List (Camera × Nat)) (table : Table)
    (st : Statics) :
    ((Ray.run F frames table st).flatMap Ray.Frame.cout).length
      ≤ if st.firstupderror = true then 1 else 0 := by
  induction frames generalizing table st with
  | nil => simp [Ray.run]
  | cons f rest ih =>
    obtain ⟨cam, pending⟩ := f
    simp only [Ray.run, List.flatMap_cons, List.length_append]
    have h := ih (Ray.Update F cam table st pending).table (Ray.Update F cam table st pending).st
    rw [Ray.Update_firstupderror] at h
    rw [Ray.Update_cout]
    by_cases hp : 0 < pending
    · simp only [hp, if_true, Bool.false_eq_true, if_false, Nat.le_zero] at h
      rw [h]
      by_cases hf : st.firstupderror = true <;> simp [hp, hf]
    · simp only [hp, if_false] at h
      simpa [hp] using h

/-- C15. Over any sequence of `Ray::Update` calls, from any table and statics
and with any number of error flags pending in each frame, the update-process
error message is printed at most once in the whole run; frame `i` prints it
exactly when the variable `firstupderror` was `true` at the start of the run
(its value at program start) and `i` is the first frame whose error check finds
an error, and every other frame prints nothing. -/
theorem C15_update_error_reported_once (F : FloatOps) (frames : List (Camera × Nat))
    (table : Table) (st : Statics) :
    (Ray.run F frames table st).map Ray.Frame.cout
      = (List.range frames.length).map (fun i =>
          if st.firstupderror = true ∧ frames.findIdx (fun f => decide (0 < f.2)) = i
          then ["\rError: Error has been confirmed in update process.\n."] else [])
    ∧ ((Ray.run F frames table st).flatMap Ray.Frame.cout).length ≤ 1 := by
  refine ⟨Ray.run_cout F frames table st, ?_⟩
  refine le_trans (Ray.run_cout_length F frames table st) ?_
  split <;> decide

/-- Witness of C15: four frames from the program-start statics, with errors
found in the second, third and fourth; only the second prints the message. -/
theorem C15_witness :
    (Ray.run sample.F [({}, 0), ({}, 2), ({}, 1), ({}, 3)]
      (Ray.Ray 2 sample.objects {} 0).table {}).map Ray.Frame.cout
      = [[], ["\rError: Error has been confirmed in update process.\n."], [], []] :=
  ((C15_update_error_reported_once sample.F [({}, 0), ({}, 2), ({}, 1), ({}, 3)]
    (Ray.Ray 2 sample.objects {} 0).table {}).1).trans (by decide)

theorem Pixel.step_other (D : DepthOps) (fbo : Nat) (frag : Nat → Option float)
    (passes : List Pass) (s : Pixel × Nat) (h : ∀ q ∈ passes, q.framebuffer ≠ fbo) :
    passes.foldl (Pixel.step D fbo frag) s = s := by
  induction passes generalizing s with
  | nil => rfl
  | cons q qs ih =>
    have hq : q.framebuffer ≠ fbo := h q (List.mem_cons_self _ _)
    have hs : Pixel.step D fbo frag s q = s := by
      cases q <;> simp only [Pass.framebuffer] at hq <;> simp [Pixel.step, hq]
    rw [List.foldl_cons, hs]
    exact ih s (fun q hq => h q (List.mem_cons_of_mem _ hq))

/-- The passes of one object act on the pixel of the Selection frame buffer
through its Selection draw only. -/
theorem Pixel.step_ofObject (D : DepthOps) (frag : Nat → Option float) (st : Statics)
    (o : Object) (s : Pixel × Nat) (h1 : st.selectfbo ≠ st.ray2fbo) :
    (Pass.ofObject st o).foldl (Pixel.step D st.selectfbo frag) s
      = Pixel.step D st.selectfbo frag s (Pass.selection st) := by
  unfold Pass.ofObject
  have hother : ([Pass.ray2Clear st] ++ (List.range o.unitsize.toNat).flatMap
      (fun (m : Nat) => [Pass.phaseA st m, Pass.phaseB st o m])).foldl
      (Pixel.step D st.selectfbo frag) s = s := by
    apply Pixel.step_other
    intro q hq
    simp only [List.singleton_append, List.mem_cons, List.mem_flatMap, List.mem_range,
      List.mem_singleton, List.not_mem_nil, or_false] at hq
    rcases hq with hq | ⟨m, -, hq | hq⟩ <;> subst hq <;> exact Ne.symm h1
  rw [List.foldl_append, hother]
  rfl

/-- The pixel of the Selection frame buffer after one `Ray::Update` on a table
of two objects. -/
theorem Ray.Update_selection_pixel (D : DepthOps) (F : FloatOps) (cam : Camera) (table : Table)
    (st : Statics) (pending : Nat) (c0 : GLContext) (p0 : Pixel) (frag : Nat → Option float)
    (dA dB : float) (hsize : table.objectsize = 2) (h0 : st.selectfbo ≠ 0)
    (h1 : st.selectfbo ≠ st.ray2fbo) (hA : frag 0 = some dA) (hB : frag 1 = some dB)
    (hAfar : D.lt dA float.one = true) :
    Pixel.run D st.selectfbo frag (renders c0 (Ray.Update F cam table st pending).gl) p0
      = if D.lt dB dA = true then { depth := dB, owner := some 1 }
        else { depth := dA, owner := some 0 } := by
  rw [Ray.Update_renders, hsize]
  have hfb : (SetViewmat4 F cam (SetNewFrame st)).selectfbo = st.selectfbo := rfl
  have hrb : (SetViewmat4 F cam (SetNewFrame st)).ray2fbo = st.ray2fbo := rfl
  rw [← hfb]
  rw [← hfb, ← hrb] at h1
  rw [← hfb] at h0
  generalize SetViewmat4 F cam (SetNewFrame st) = st1 at h0 h1 ⊢
  have h2 : (List.range (2 : Int).toNat) = [0, 1] := rfl
  simp only [Pixel.run, h2, List.flatMap_cons, List.flatMap_nil, List.append_nil,
    List.foldl_append, Pixel.step_ofObject D frag st1 _ _ h1]
  simp only [List.foldl_cons, List.foldl_nil, Pixel.step, Pass.selectionReset, Pass.selection,
    Pass.finalClear, Pass.finalDraw, if_true, hA, hB, depthTest, hAfar, List.mem_cons,
    List.mem_singleton, true_or, or_true, Ne.symm h0, if_false, zero_add]
  by_cases h : D.lt dB dA = true <;> simp [h, hB]

/-- C14. Selection monotonicity. Take a table of two objects, A processed first
and B second, a Selection frame buffer whose name is neither 0 nor the name of
the Ray2 frame buffer, and a pixel at which the Selection draw of A makes a
fragment of depth `dA` and that of B one of depth `dB`, with `dA` nearer than
the cleared far value `1.0`; let the comparison of depths be irreflexive and
asymmetric. Then, whatever the pixel and the OpenGL context were before the
frame, the pixel of the Selection frame buffer after one `Ray::Update` is
`(dB, B)` if `dB < dA` and `(dA, A)` otherwise; so it is A's whenever
`dA < dB` and whenever `dA = dB`, and it is B's exactly when `dB < dA`. -/
theorem C14_selection_monotonicity (D : DepthOps) (F : FloatOps) (cam : Camera) (table : Table)
    (st : Statics) (pending : Nat) (c0 : GLContext) (p0 : Pixel) (frag : Nat → Option float)
    (dA dB : float) (hsize : table.objectsize = 2) (h0 : st.selectfbo ≠ 0)
    (h1 : st.selectfbo ≠ st.ray2fbo) (hA : frag 0 = some dA) (hB : frag 1 = some dB)
    (hAfar : D.lt dA float.one = true) (hirr : ∀ x, D.lt x x = false)
    (hasym : ∀ x y, D.lt x y = true → D.lt y x = false) :
    Pixel.run D st.selectfbo frag (renders c0 (Ray.Update F cam table st pending).gl) p0
      = (if D.lt dB dA = true then { depth := dB, owner := some 1 }
         else { depth := dA, owner := some 0 })
    ∧ (D.lt dA dB = true →
        (Pixel.run D st.selectfbo frag (renders c0 (Ray.Update F cam table st pending).gl)
          p0).owner = some 0)
    ∧ (dA = dB →
        (Pixel.run D st.selectfbo frag (renders c0 (Ray.Update F cam table st pending).gl)
          p0).owner = some 0)
    ∧ ((Pixel.run D st.selectfbo frag (renders c0 (Ray.Update F cam table st pending).gl)
          p0).owner = some 1 ↔ D.lt dB dA = true) := by
  have key := Ray.Update_selection_pixel D F cam table st pending c0 p0 frag dA dB hsize h0 h1
    hA hB hAfar
  refine ⟨key, ?_, ?_, ?_⟩
  · intro h
    rw [key, hasym dA dB h]
    rfl
  · intro h
    rw [key, h, hirr dB]
    rfl
  · rw [key]
    by_cases h : D.lt dB dA = true
    · simp [h]
    · simp [h]

/-- Witness of C14 on the table built from the sample descriptor array, with
the Selection frame buffer named 2 and the Ray2 frame buffer named 1: at equal
depths the pixel is A's, and with B strictly nearer it is B's. -/
theorem C14_witness :
    (Pixel.run sample.D sample.handles.selectfbo (fun _ => some float.zero)
      (renders {} (Ray.Update sample.F {} (Ray.Ray 2 sample.objects {} 0).table sample.handles
        0).gl) ⟨float.zero, none⟩).owner = some 0
    ∧ (Pixel.run sample.D sample.handles.selectfbo
      (fun k => if k = 0 then some ⟨0, 0, 0, 0x3E⟩ else some float.zero)
      (renders {} (Ray.Update sample.F {} (Ray.Ray 2 sample.objects {} 0).table sample.handles
        0).gl) ⟨float.zero, none⟩).owner = some 1 :=
  ⟨(C14_selection_monotonicity sample.D sample.F {} (Ray.Ray 2 sample.objects {} 0).table
      sample.handles 0 {} ⟨float.zero, none⟩ (fun _ => some float.zero) float.zero float.zero
      (by decide) (by decide) (by decide) rfl rfl (by decide)
      (fun x => decide_eq_false (lt_irrefl x.b3))
      (fun x y h => decide_eq_false (lt_asymm (of_decide_eq_true h)))).2.2.1 rfl,
   (C14_selection_monotonicity sample.D sample.F {} (Ray.Ray 2 sample.objects {} 0).table
      sample.handles 0 {} ⟨float.zero, none⟩
      (fun k => if k = 0 then some ⟨0, 0, 0, 0x3E⟩ else some float.zero) ⟨0, 0, 0, 0x3E⟩
      float.zero (by decide) (by decide) (by decide) rfl rfl (by decide)
      (fun x => decide_eq_false (lt_irrefl x.b3))
      (fun x y h => decide_eq_false (lt_asymm (of_decide_eq_true h)))).2.2.2.mpr (by decide)⟩

theorem Host.call_st (B : Backend) (h : Host) (c : GLCall) : (h.call B c).st = h.st := rfl

theorem Host.call_cout (B : Backend) (h : Host) (c : GLCall) : (h.call B c).cout = h.cout := rfl

theorem Host.call_dev (B : Backend) (h : Host) (c : GLCall) :
    (h.call B c).dev = h.dev.exec B c := rfl

theorem Host.call_gl (B : Backend) (h : Host) (c : GLCall) : (h.call B c).gl = h.gl ++ [c] := rfl

theorem Host.print_st (h : Host) (s : List String) : (h.print s).st = h.st := rfl

theorem Host.print_dev (h : Host) (s : List String) : (h.print s).dev = h.dev := rfl

theorem Host.print_gl (h : Host) (s : List String) : (h.print s).gl = h.gl := rfl

theorem Host.foldl_call_st {α : Type} (B : Backend) (f : α → GLCall) (l : List α) (h : Host) :
    (l.foldl (fun h x => h.call B (f x)) h).st = h.st := by
  induction l generalizing h with
  | nil => rfl
  | cons x xs ih => exact ih (h.call B (f x))

theorem Host.check_st (B : Backend) (pending : Nat) (message : String) (h : Host) :
    (h.check B pending message).st = h.st := by
  unfold Host.check
  have key : ∀ (l : List GLCall) (h : Host), (l.foldl (Host.call B) h).st = h.st := by
    intro l
    induction l with
    | nil => intro h; rfl
    | cons x xs ih => intro h; exact ih (h.call B x)
  split
  · rw [Host.print_st, key]
  · rw [key]

theorem Host.check_dev (B : Backend) (pending : Nat) (message : String) (h : Host) :
    (h.check B pending message).dev = h.dev := by
  unfold Host.check
  have key : (GL_CheckError pending).2.foldl (Host.call B) h
      = { h with gl := h.gl ++ (GL_CheckError pending).2 } := by
    simp only [GL_CheckError]
    generalize pending + 1 = k
    induction k generalizing h with
    | zero => simp
    | succ k ih =>
      rw [List.replicate_succ, List.foldl_cons, ih]
      simp [Host.call, Mock.exec, List.replicate_succ]
  rw [key]
  split <;> rfl

theorem GL_UnLoadShader_body_st (B : Backend) (h : Host) (prgm : Handle) :
    (GL_UnLoadShader.body B h prgm).st = h.st.assign prgm 0 := by
  simp only [GL_UnLoadShader.body, Host.call_st]
  rw [Host.foldl_call_st B (fun shader => GLCall.glDeleteShader shader)]
  rfl

theorem GL_UnLoadShader_st (B : Backend) (h : Host) :
    (GL_UnLoadShader B h).st
      = (((h.st.assign Handle.ray2initprgm 0).assign Handle.ray2prgm 0).assign
          Handle.selectprgm 0).assign Handle.drawprgm 0 := by
  simp only [GL_UnLoadShader, List.foldl_cons, List.foldl_nil, GL_UnLoadShader_body_st]

theorem Ray.Release_st (B : Backend) (pending : Nat) (h : Host) :
    (ray.Ray.Release B pending h).st
      = (((((((GL_UnLoadFbo B (GL_UnLoadCamRay B (GL_UnLoadImgData B
          (GL_UnLoadScreenRender B h)))).st.assign Handle.ubounitbuff 0).assign
          Handle.uboplbuff 0).assign Handle.ray2initprgm 0).assign Handle.ray2prgm 0).assign
          Handle.selectprgm 0).assign Handle.drawprgm 0) := by
  unfold ray.Ray.Release
  simp only [Host.check_st, GL_UnLoadShader_st]
  rfl

theorem Ray.Release_deref (B : Backend) (pending : Nat) (h : Host) (k : Handle) :
    (ray.Ray.Release B pending h).st.deref k = 0 := by
  rw [Ray.Release_st]
  cases k <;> rfl

theorem Backend.names_succ (B : Backend) (live : List Nat) (k : Nat) :
    B.names live (k + 1) = B.name live k :: B.names live k := rfl

theorem Backend.names_zero (B : Backend) (live : List Nat) : B.names live 0 = live := rfl

theorem Backend.names_names (B : Backend) (live : List Nat) (j k : Nat) :
    B.names (B.names live j) k = B.names live (j + k) := by
  induction k with
  | zero => rfl
  | succ k ih => rw [← Nat.add_assoc, Backend.names_succ, Backend.names_succ, Backend.name,
      Backend.name, ih]

theorem Backend.name_names (B : Backend) (live : List Nat) (j k : Nat) :
    B.name (B.names live j) k = B.name live (j + k) := by
  rw [Backend.name, Backend.name, Backend.names_names]

theorem Backend.gen_names (B : Backend) (live : List Nat) (k : Nat) :
    B.gen (B.names live k) = B.name live k := rfl

theorem Backend.gen_eq_name (B : Backend) (live : List Nat) : B.gen live = B.name live 0 := rfl

theorem Backend.cons_name (B : Backend) (live : List Nat) (k : Nat) :
    B.name live k :: B.names live k = B.names live (k + 1) := rfl

theorem Backend.mem_names_of_mem (B : Backend) (live : List Nat) (k : Nat) (x : Nat)
    (h : x ∈ live) : x ∈ B.names live k := by
  induction k with
  | zero => exact h
  | succ k ih => exact List.mem_cons_of_mem _ ih

theorem Backend.name_mem_names (B : Backend) (live : List Nat) (j k : Nat) (h : j < k) :
    B.name live j ∈ B.names live k := by
  induction k with
  | zero => exact absurd h (Nat.not_lt_zero _)
  | succ k ih =>
    rw [Backend.names_succ]
    rcases Nat.lt_succ_iff_lt_or_eq.1 h with h1 | h1
    · exact List.mem_cons_of_mem _ (ih h1)
    · rw [h1]; exact List.mem_cons_self _ _

theorem Backend.mem_names (B : Backend) (live : List Nat) (k : Nat) (x : Nat) :
    x ∈ B.names live k ↔ x ∈ live ∨ ∃ j, j < k ∧ x = B.name live j := by
  induction k with
  | zero => simp [Backend.names]
  | succ k ih =>
    rw [Backend.names_succ, List.mem_cons, ih]
    constructor
    · rintro (h | h | ⟨j, hj, h⟩)
      · exact Or.inr ⟨k, Nat.lt_succ_self k, h⟩
      · exact Or.inl h
      · exact Or.inr ⟨j, Nat.lt_succ_of_lt hj, h⟩
    · rintro (h | ⟨j, hj, h⟩)
      · exact Or.inr (Or.inl h)
      · rcases Nat.lt_succ_iff_lt_or_eq.1 hj with h1 | h1
        · exact Or.inr (Or.inr ⟨j, h1, h⟩)
        · exact Or.inl (h1 ▸ h)

theorem Backend.fresh.name_ne_zero {B : Backend} (hB : B.fresh) (live : List Nat) (k : Nat) :
    B.name live k ≠ 0 := (hB _).2

theorem Backend.fresh.name_eq_zero {B : Backend} (hB : B.fresh) (live : List Nat) (k : Nat) :
    (B.name live k = 0) ↔ False := iff_false_intro (hB _).2

theorem Backend.fresh.zero_eq_name {B : Backend} (hB : B.fresh) (live : List Nat) (k : Nat) :
    (0 = B.name live k) ↔ False := iff_false_intro (fun h => (hB _).2 h.symm)

theorem Backend.fresh.name_not_mem {B : Backend} (hB : B.fresh) (live : List Nat) (k : Nat) :
    B.name live k ∉ live :=
  fun h => (hB (B.names live k)).1 (B.mem_names_of_mem live k _ h)

theorem Backend.fresh.name_mem {B : Backend} (hB : B.fresh) (live : List Nat) (k : Nat) :
    (B.name live k ∈ live) ↔ False := iff_false_intro (hB.name_not_mem live k)

theorem Backend.fresh.name_inj {B : Backend} (hB : B.fresh) (live : List Nat) (j k : Nat) :
    B.name live j = B.name live k ↔ j = k := by
  constructor
  · intro h
    by_contra hne
    rcases Nat.lt_or_gt_of_ne hne with hlt | hlt
    · have hm := B.name_mem_names live j k hlt
      rw [h] at hm
      exact (hB (B.names live k)).1 hm
    · have hm := B.name_mem_names live k j hlt
      rw [← h] at hm
      exact (hB (B.names live j)).1 hm
  · intro h
    rw [h]

theorem Backend.fresh.ne_name_of_mem {B : Backend} (hB : B.fresh) (live : List Nat) (k : Nat)
    (x : Nat) (h : x ∈ live) : x ≠ B.name live k :=
  fun e => hB.name_not_mem live k (e ▸ h)

theorem Mock.delete_nil (names : List Nat) : Mock.delete [] names = [] := rfl

theorem Mock.delete_cons (x : Nat) (l names : List Nat) :
    Mock.delete (x :: l) names
      = if x = 0 ∨ x ∉ names then x :: Mock.delete l names else Mock.delete l names := by
  simp only [Mock.delete, List.filter_cons, decide_eq_true_eq]

theorem Mock.delete_eq_self (l names : List Nat) (h : ∀ x ∈ names, x ∉ l) :
    Mock.delete l names = l := by
  simp only [Mock.delete, List.filter_eq_self, decide_eq_true_eq]
  intro a ha
  exact Or.inr (fun hn => h a hn ha)

theorem Mock.delete_zero (l : List Nat) : Mock.delete l [0] = l := by
  simp only [Mock.delete, List.filter_eq_self, decide_eq_true_eq, List.mem_singleton]
  intro a _
  exact em _

theorem Mock.delete_name {B : Backend} (hB : B.fresh) (live : List Nat) (k : Nat) :
    Mock.delete live [B.name live k] = live :=
  Mock.delete_eq_self _ _ (fun x hx => by
    rw [List.mem_singleton] at hx
    rw [hx]
    exact hB.name_not_mem live k)

theorem Mock.mem_delete (l names : List Nat) (x : Nat) :
    x ∈ Mock.delete l names ↔ x ∈ l ∧ (x = 0 ∨ x ∉ names) := by
  simp only [Mock.delete, List.mem_filter, decide_eq_true_eq]

theorem Host.store_st (h : Host) (st : Statics) : (h.store st).st = st := rfl

theorem Host.store_dev (h : Host) (st : Statics) : (h.store st).dev = h.dev := rfl

theorem Host.store_gl (h : Host) (st : Statics) : (h.store st).gl = h.gl := rfl

theorem Host.store_cout (h : Host) (st : Statics) : (h.store st).cout = h.cout := rfl

theorem GL_LoadShader.read_fold (files : String → Option String) (l : List String)
    (acc : List String × Host) :
    (l.foldl (GL_LoadShader.read files) acc).2.dev = acc.2.dev
    ∧ (l.foldl (GL_LoadShader.read files) acc).2.st = acc.2.st
    ∧ (l.foldl (GL_LoadShader.read files) acc).2.gl = acc.2.gl := by
  induction l generalizing acc with
  | nil => exact ⟨rfl, rfl, rfl⟩
  | cons x xs ih => rw [List.foldl_cons]; exact ih _

theorem GL_LoadShader.compile_fold (B : Backend) (shidlist : List Nat) (frlist : List String)
    (l : List Nat) (h : Host) :
    (l.foldl (GL_LoadShader.compile B shidlist frlist) h).dev = h.dev
    ∧ (l.foldl (GL_LoadShader.compile B shidlist frlist) h).st = h.st := by
  induction l generalizing h with
  | nil => exact ⟨rfl, rfl⟩
  | cons x xs ih => rw [List.foldl_cons]; exact ih _

theorem GL_LoadShader.report_dev (B : Backend) (prgmid : Nat) (file : List String) (h : Host) :
    (GL_LoadShader.report B prgmid file h).dev = h.dev
    ∧ (GL_LoadShader.report B prgmid file h).st = h.st := by
  simp only [GL_LoadShader.report]
  split <;> exact ⟨rfl, rfl⟩

theorem Mock.exec_glAttachShader (B : Backend) (m : Mock) (program shader : Nat)
    (h1 : program ∈ m.programs) (h2 : shader ∈ m.shaders) (h3 : shader ∉ m.attached program) :
    m.exec B (GLCall.glAttachShader program shader)
      = { m with attached := (Function.update m.attached program
            (m.attached program ++ [shader])) } := by
  simp only [Mock.exec, h1, h2, h3, not_false_eq_true, and_self, if_true]

theorem GL_LoadShader_body_dev (B : Backend) (hB : B.fresh) (files : String → Option String)
    (h : Host) (prgm : GL_LoadShader.Shader) :
    (GL_LoadShader.body B files h prgm).dev
      = { h.dev with
          programs := B.names h.dev.programs 1
          shaders := B.names h.dev.shaders 3
          attached := Function.update h.dev.attached (B.name h.dev.programs 0)
            [B.name h.dev.shaders 0, B.name h.dev.shaders 1, B.name h.dev.shaders 2] } := by
  unfold GL_LoadShader.body
  simp only [(GL_LoadShader.report_dev _ _ _ _).1, Host.call_dev,
    (GL_LoadShader.compile_fold _ _ _ _ _).1, (GL_LoadShader.read_fold _ _ _).1,
    GL_LoadShader.shadertype, List.foldl_cons, List.foldl_nil, GL_LoadShader.create,
    Host.glCreateShader, Host.glCreateProgram, Host.store_dev]
  obtain ⟨st, m, gl, cout⟩ := h
  simp only
  have e0 : m.exec B GLCall.glCreateProgram
      = { m with programs := B.names m.programs 1
                 attached := Function.update m.attached (B.name m.programs 0) [] } := rfl
  have c : ∀ (m : Mock) (t : GLenum), m.exec B (GLCall.glCreateShader t)
      = { m with shaders := B.names m.shaders 1 } := fun _ _ => rfl
  have l : ∀ (m : Mock) (p : Nat), m.exec B (GLCall.glLinkProgram p) = m := fun _ _ => rfl
  simp (disch := simp [Backend.names_succ, Backend.names_zero, hB.name_inj, hB.name_mem,
      Function.update_same]) only [e0, c, l, Backend.gen_eq_name, Backend.names_names,
    Backend.name_names, Mock.exec_glAttachShader, Function.update_same, Function.update_idem,
    List.nil_append, List.cons_append, List.singleton_append]

theorem GL_LoadShader_body_st (B : Backend) (files : String → Option String) (h : Host)
    (prgm : GL_LoadShader.Shader) :
    (GL_LoadShader.body B files h prgm).st = h.st.assign prgm.id (B.name h.dev.programs 0) := by
  unfold GL_LoadShader.body
  simp only [(GL_LoadShader.report_dev _ _ _ _).2, Host.call_st,
    (GL_LoadShader.compile_fold _ _ _ _ _).2, (GL_LoadShader.read_fold _ _ _).2.1,
    GL_LoadShader.shadertype, List.foldl_cons, List.foldl_nil, GL_LoadShader.create,
    Host.glCreateShader, Host.glCreateProgram, Host.store_st, Backend.gen_eq_name]

theorem GL_LoadShader_dev (B : Backend) (hB : B.fresh) (files : String → Option String)
    (h : Host) :
    (GL_LoadShader B files h).dev
      = { h.dev with
          programs := B.names h.dev.programs 4
          shaders := B.names h.dev.shaders 12
          attached :=
            (Function.update (Function.update (Function.update (Function.update h.dev.attached
              (B.name h.dev.programs 0)
                [B.name h.dev.shaders 0, B.name h.dev.shaders 1, B.name h.dev.shaders 2])
              (B.name h.dev.programs 1)
                [B.name h.dev.shaders 3, B.name h.dev.shaders 4, B.name h.dev.shaders 5])
              (B.name h.dev.programs 2)
                [B.name h.dev.shaders 6, B.name h.dev.shaders 7, B.name h.dev.shaders 8])
              (B.name h.dev.programs 3)
                [B.name h.dev.shaders 9, B.name h.dev.shaders 10, B.name h.dev.shaders 11]) } := by
  simp only [GL_LoadShader, GL_LoadShader.prgmlist, List.foldl_cons, List.foldl_nil,
    GL_LoadShader_body_dev B hB, Backend.names_names, Backend.name_names]

theorem GL_LoadShader_st (B : Backend) (hB : B.fresh) (files : String → Option String)
    (h : Host) :
    (GL_LoadShader B files h).st
      = { h.st with
          ray2initprgm := B.name h.dev.programs 0
          ray2prgm := B.name h.dev.programs 1
          selectprgm := B.name h.dev.programs 2
          drawprgm := B.name h.dev.programs 3 } := by
  simp only [GL_LoadShader, GL_LoadShader.prgmlist, List.foldl_cons, List.foldl_nil,
    GL_LoadShader_body_dev B hB, GL_LoadShader_body_st, Backend.names_names, Backend.name_names]
  rfl

theorem Mock.exec_glBindBuffer (B : Backend) (m : Mock) (t : GLenum) (b : Nat) :
    m.exec B (GLCall.glBindBuffer t b) = m := rfl

theorem Mock.exec_glBindBufferBase (B : Backend) (m : Mock) (t : GLenum) (i : Int) (b : Nat) :
    m.exec B (GLCall.glBindBufferBase t i b) = m := rfl

theorem Mock.exec_glBufferData (B : Backend) (m : Mock) (t : GLenum) (i : Int) (u : GLenum) :
    m.exec B (GLCall.glBufferData t i u) = m := rfl

theorem Mock.exec_glUniformBlockBinding (B : Backend) (m : Mock) (p : Nat) (n : String)
    (i : Int) : m.exec B (GLCall.glUniformBlockBinding p n i) = m := rfl

theorem Mock.exec_glDrawBuffers (B : Backend) (m : Mock) (n : Int) (l : List GLenum) :
    m.exec B (GLCall.glDrawBuffers n l) = m := rfl

theorem Mock.exec_glActiveTexture (B : Backend) (m : Mock) (i : Int) :
    m.exec B (GLCall.glActiveTexture i) = m := rfl

theorem Mock.exec_glBindTexture (B : Backend) (m : Mock) (t : GLenum) (x : Nat) :
    m.exec B (GLCall.glBindTexture t x) = m := rfl

theorem Mock.exec_glTexImage3D (B : Backend) (m : Mock) (t : GLenum) (l : Int) (f : GLenum)
    (w h d b : Int) (g y : GLenum) :
    m.exec B (GLCall.glTexImage3D t l f w h d b g y) = m := rfl

theorem Mock.exec_glTexImage2D (B : Backend) (m : Mock) (t : GLenum) (l : Int) (f : GLenum)
    (w h b : Int) (g y : GLenum) (px : List byte) :
    m.exec B (GLCall.glTexImage2D t l f w h b g y px) = m := rfl

theorem Mock.exec_glTexParameteri (B : Backend) (m : Mock) (t p : GLenum) (v : Int) :
    m.exec B (GLCall.glTexParameteri t p v) = m := rfl

theorem Mock.exec_glUseProgram (B : Backend) (m : Mock) (p : Nat) :
    m.exec B (GLCall.glUseProgram p) = m := rfl

theorem Mock.exec_glUniform1i (B : Backend) (m : Mock) (p : Nat) (n : String) (v : Int) :
    m.exec B (GLCall.glUniform1i p n v) = m := rfl

theorem Mock.exec_glUniform1iv (B : Backend) (m : Mock) (p : Nat) (n : String) (c : Int)
    (v : List Int) : m.exec B (GLCall.glUniform1iv p n c v) = m := rfl

theorem Mock.exec_glCheckFramebufferStatus (B : Backend) (m : Mock) (t : GLenum) :
    m.exec B (GLCall.glCheckFramebufferStatus t) = m := rfl

theorem Mock.exec_glClearColor (B : Backend) (m : Mock) (r g b a : float) :
    m.exec B (GLCall.glClearColor r g b a) = m := rfl

theorem Mock.exec_glEnable (B : Backend) (m : Mock) (c : GLenum) :
    m.exec B (GLCall.glEnable c) = m := rfl

theorem Mock.exec_glGetAttachedShaders (B : Backend) (m : Mock) (p : Nat) (c : Int) :
    m.exec B (GLCall.glGetAttachedShaders p c) = m := rfl

theorem Mock.exec_glGetFramebufferAttachmentParameteriv (B : Backend) (m : Mock)
    (t a p : GLenum) : m.exec B (GLCall.glGetFramebufferAttachmentParameteriv t a p) = m := rfl

theorem Mock.exec_glGenBuffers (B : Backend) (m : Mock) :
    m.exec B (GLCall.glGenBuffers 1) = { m with buffers := B.names m.buffers 1 } := rfl

theorem Mock.exec_glGenTextures (B : Backend) (m : Mock) :
    m.exec B (GLCall.glGenTextures 1) = { m with textures := B.names m.textures 1 } := rfl

theorem Mock.exec_glGenVertexArrays (B : Backend) (m : Mock) :
    m.exec B (GLCall.glGenVertexArrays 1)
      = { m with vertexArrays := B.names m.vertexArrays 1 } := rfl

theorem Mock.exec_glGenFramebuffers (B : Backend) (m : Mock) :
    m.exec B (GLCall.glGenFramebuffers 1)
      = { m with
          framebuffers := B.names m.framebuffers 1
          attachment := Function.update m.attachment (B.name m.framebuffers 0) (fun _ => 0) } :=
  rfl

theorem Backend.mem_names_succ (B : Backend) (live : List Nat) (k : Nat) (x : Nat) :
    x ∈ B.names live (k + 1) ↔ x = B.name live k ∨ x ∈ B.names live k := by
  rw [Backend.names_succ, List.mem_cons]

theorem Backend.mem_names_zero (B : Backend) (live : List Nat) (x : Nat) :
    x ∈ B.names live 0 ↔ x ∈ live := Iff.rfl

theorem Mock.exec_glBindFramebuffer (B : Backend) (m : Mock) (f : Nat) :
    m.exec B (GLCall.glBindFramebuffer GLenum.GL_FRAMEBUFFER f)
      = if f = 0 ∨ f ∈ m.framebuffers then { m with framebuffer := f } else m := rfl

theorem Mock.exec_glFramebufferTexture (B : Backend) (m : Mock) (a : GLenum) (t : Nat) (l : Int) :
    m.exec B (GLCall.glFramebufferTexture GLenum.GL_FRAMEBUFFER a t l)
      = if m.framebuffer ≠ 0 ∧ (t = 0 ∨ t ∈ m.textures) then
          { m with attachment := (Function.update m.attachment m.framebuffer
            (Function.update (m.attachment m.framebuffer) a t)) }
        else m := rfl

theorem GL_LoadUbo_body_dev (B : Backend) (h : Host) (ubo : GL_LoadUbo.Ubo) :
    (GL_LoadUbo.body B h ubo).dev = { h.dev with buffers := B.names h.dev.buffers 1 } := by
  unfold GL_LoadUbo.body
  simp only [Host.call_dev, Host.store_dev, Host.glGenBuffers, List.foldl_cons, List.foldl_nil,
    Mock.exec_glBindBuffer, Mock.exec_glBindBufferBase, Mock.exec_glBufferData,
    Mock.exec_glUniformBlockBinding, Mock.exec_glGenBuffers]

theorem GL_LoadUbo_body_st (B : Backend) (h : Host) (ubo : GL_LoadUbo.Ubo) :
    (GL_LoadUbo.body B h ubo).st
      = setnewuboindex (h.st.assign ubo.id (B.name h.dev.buffers 0)) := by
  unfold GL_LoadUbo.body
  simp only [Host.call_st, Host.store_st, Host.glGenBuffers, List.foldl_cons, List.foldl_nil,
    Backend.gen_eq_name]

theorem GL_LoadUbo_dev (B : Backend) (P : Nat) (h : Host) :
    (GL_LoadUbo B P h).dev = { h.dev with buffers := B.names h.dev.buffers 2 } := by
  simp only [GL_LoadUbo, GL_LoadUbo.ubolist, List.foldl_cons, List.foldl_nil,
    GL_LoadUbo_body_dev, Backend.names_names]

theorem GL_LoadUbo_st (B : Backend) (P : Nat) (h : Host) :
    (GL_LoadUbo B P h).st
      = { h.st with
          ubounitbuff := B.name h.dev.buffers 0
          uboplbuff := B.name h.dev.buffers 1
          uboindex := h.st.uboindex + 1 + 1 } := by
  simp only [GL_LoadUbo, GL_LoadUbo.ubolist, List.foldl_cons, List.foldl_nil,
    GL_LoadUbo_body_dev, GL_LoadUbo_body_st, Backend.names_names, Backend.name_names]
  rfl

theorem GL_LoadFbo_texture_st (B : Backend) (W H : Nat) (p : Nat) (l : Int) (h : Host)
    (tex : GL_LoadFbo.Texture) :
    (GL_LoadFbo.texture B W H p l h tex).st = setnewtextindex h.st := by
  unfold GL_LoadFbo.texture
  simp only [Host.call_st, Host.store_st, Host.glGenTextures]

theorem GL_LoadFbo_texture_dev (B : Backend) (W H : Nat) (p : Nat) (l : Int)
    (h : Host) (tex : GL_LoadFbo.Texture) :
    (GL_LoadFbo.texture B W H p l h tex).dev
      = if h.dev.framebuffer = 0 then { h.dev with textures := B.names h.dev.textures 1 }
        else { h.dev with
          textures := B.names h.dev.textures 1
          attachment := (Function.update h.dev.attachment h.dev.framebuffer
            (Function.update (h.dev.attachment h.dev.framebuffer) tex.attachment
              (B.name h.dev.textures 0))) } := by
  unfold GL_LoadFbo.texture
  simp only [Host.call_dev, Host.store_dev, Host.glGenTextures, Mock.exec_glActiveTexture,
    Mock.exec_glGenTextures, Mock.exec_glBindTexture, Mock.exec_glFramebufferTexture,
    Mock.exec_glTexImage3D, Mock.exec_glTexParameteri, Mock.exec_glUseProgram,
    Mock.exec_glUniform1i, Backend.gen_eq_name]
  by_cases hf : h.dev.framebuffer = 0
  · simp only [hf, ne_eq, not_true_eq_false, false_and, if_false, if_true]
  · simp only [hf, ne_eq, not_false_eq_true, true_and, if_false, Backend.mem_names_succ,
      true_or, or_true, if_true]

theorem Host.ite_print_dev (c : Prop) [Decidable c] (h : Host) (s : List String) :
    (if c then h else h.print s).dev = h.dev := by
  split <;> rfl

theorem Host.ite_print_st (c : Prop) [Decidable c] (h : Host) (s : List String) :
    (if c then h else h.print s).st = h.st := by
  split <;> rfl

theorem Host.ite_print_gl (c : Prop) [Decidable c] (h : Host) (s : List String) :
    (if c then h else h.print s).gl = h.gl := by
  split <;> rfl

theorem GL_LoadFbo_body_st (B : Backend) (W H : Nat) (h : Host) (fbo : GL_LoadFbo.Fbo) :
    (GL_LoadFbo.body B W H h fbo).st
      = setnewtextindex (setnewtextindex (h.st.assign fbo.id (B.name h.dev.framebuffers 0))) := by
  unfold GL_LoadFbo.body
  simp only [Host.call_st, Host.store_st, Host.glGenFramebuffers, GL_LoadFbo.texdeflist,
    List.foldl_cons, List.foldl_nil, GL_LoadFbo_texture_st, Backend.gen_eq_name,
    Host.ite_print_st]

theorem GL_LoadFbo_body_dev (B : Backend) (hB : B.fresh) (W H : Nat) (h : Host)
    (fbo : GL_LoadFbo.Fbo) :
    (GL_LoadFbo.body B W H h fbo).dev
      = { h.dev with
          framebuffers := B.names h.dev.framebuffers 1
          framebuffer := 0
          textures := B.names h.dev.textures 2
          attachment := (Function.update h.dev.attachment (B.name h.dev.framebuffers 0)
            (Function.update (Function.update (fun _ => 0) GLenum.GL_DEPTH_ATTACHMENT
              (B.name h.dev.textures 0)) GLenum.GL_COLOR_ATTACHMENT0
              (B.name h.dev.textures 1))) } := by
  unfold GL_LoadFbo.body
  simp only [Host.call_dev, Host.store_dev, Host.glGenFramebuffers, GL_LoadFbo.texdeflist,
    List.foldl_cons, List.foldl_nil, GL_LoadFbo_texture_dev B, Backend.gen_eq_name,
    Host.ite_print_dev, Mock.exec_glGenFramebuffers, Mock.exec_glBindFramebuffer,
    Mock.exec_glDrawBuffers, Mock.exec_glCheckFramebufferStatus, Backend.names_names,
    Backend.name_names, Function.update_same, Function.update_idem, Backend.mem_names_succ,
    true_or, or_true, if_true, hB.name_eq_zero, if_false]

theorem GL_LoadFbo_dev (B : Backend) (hB : B.fresh) (W H : Nat) (h : Host) :
    (GL_LoadFbo B W H h).dev
      = { h.dev with
          framebuffers := B.names h.dev.framebuffers 2
          framebuffer := 0
          textures := B.names h.dev.textures 4
          attachment :=
            (Function.update (Function.update h.dev.attachment (B.name h.dev.framebuffers 0)
              (Function.update (Function.update (fun _ => 0) GLenum.GL_DEPTH_ATTACHMENT
                (B.name h.dev.textures 0)) GLenum.GL_COLOR_ATTACHMENT0 (B.name h.dev.textures 1)))
              (B.name h.dev.framebuffers 1)
              (Function.update (Function.update (fun _ => 0) GLenum.GL_DEPTH_ATTACHMENT
                (B.name h.dev.textures 2)) GLenum.GL_COLOR_ATTACHMENT0
                (B.name h.dev.textures 3))) } := by
  simp only [GL_LoadFbo, GL_LoadFbo.fbolist, List.foldl_cons, List.foldl_nil,
    GL_LoadFbo_body_dev B hB, Backend.names_names, Backend.name_names]

theorem GL_LoadFbo_st (B : Backend) (hB : B.fresh) (W H : Nat) (h : Host) :
    (GL_LoadFbo B W H h).st
      = { h.st with
          ray2fbo := B.name h.dev.framebuffers 0
          selectfbo := B.name h.dev.framebuffers 1
          textindex := h.st.textindex + 1 + 1 + 1 + 1 } := by
  simp only [GL_LoadFbo, GL_LoadFbo.fbolist, List.foldl_cons, List.foldl_nil,
    GL_LoadFbo_body_dev B hB, GL_LoadFbo_body_st, Backend.names_names, Backend.name_names]
  rfl

theorem GL_LoadCamRay_texture_dev (B : Backend) (W H : Nat) (acc : List Int × Host)
    (tex : Handle × List float) :
    (GL_LoadCamRay.texture B W H acc tex).2.dev
      = { acc.2.dev with textures := B.names acc.2.dev.textures 1 } := by
  unfold GL_LoadCamRay.texture
  simp only [Host.call_dev, Host.store_dev, Host.glGenTextures, Mock.exec_glActiveTexture,
    Mock.exec_glGenTextures, Mock.exec_glBindTexture, Mock.exec_glTexImage2D,
    Mock.exec_glTexParameteri]

theorem GL_LoadCamRay_texture_st (B : Backend) (W H : Nat) (acc : List Int × Host)
    (tex : Handle × List float) :
    (GL_LoadCamRay.texture B W H acc tex).2.st
      = ({ setnewtextindex acc.2.st with
            texindex := some ((setnewtextindex acc.2.st).texindex.getD
              (gettextindex (setnewtextindex acc.2.st))) } : Statics).assign tex.1
          (B.name acc.2.dev.textures 0) := by
  unfold GL_LoadCamRay.texture
  simp only [Host.call_st, Host.store_st, Host.glGenTextures, Backend.gen_eq_name, Host.call_dev,
    Host.store_dev, Mock.exec_glActiveTexture]

theorem GL_LoadCamRay_texture_fst (B : Backend) (W H : Nat) (acc : List Int × Host)
    (tex : Handle × List float) :
    (GL_LoadCamRay.texture B W H acc tex).1
      = acc.1 ++ [(setnewtextindex acc.2.st).texindex.getD
          (gettextindex (setnewtextindex acc.2.st))] := by
  unfold GL_LoadCamRay.texture
  simp only [Host.store_st]

theorem GL_LoadCamRay_dev (B : Backend) (W H : Nat) (pos dir : List float) (h : Host) :
    (GL_LoadCamRay B W H pos dir h).dev
      = { h.dev with textures := B.names h.dev.textures 2 } := by
  unfold GL_LoadCamRay
  simp only [List.foldl_cons, List.foldl_nil, Host.call_dev, Mock.exec_glUseProgram,
    Mock.exec_glUniform1iv, List.range_succ, List.range_zero, List.nil_append, List.cons_append,
    GL_LoadCamRay_texture_dev, Backend.names_names]

theorem GL_LoadCamRay_st (B : Backend) (W H : Nat) (pos dir : List float) (h : Host) :
    (GL_LoadCamRay B W H pos dir h).st
      = { h.st with
          camraypostex := B.name h.dev.textures 0
          camraydirtex := B.name h.dev.textures 1
          textindex := h.st.textindex + 1 + 1
          texindex := some (h.st.texindex.getD (h.st.textindex + 1)) } := by
  unfold GL_LoadCamRay
  simp only [List.foldl_cons, List.foldl_nil, Host.call_st, List.range_succ, List.range_zero,
    List.nil_append, List.cons_append, GL_LoadCamRay_texture_st, GL_LoadCamRay_texture_dev,
    Backend.name_names]
  rfl

theorem GL_LoadImgData_dev (B : Backend) (images : String → Option Image) (h : Host) :
    (GL_LoadImgData B images h).dev = { h.dev with textures := B.names h.dev.textures 1 } := by
  unfold GL_LoadImgData
  simp only [List.foldl_cons, List.foldl_nil, Host.call_dev, Host.store_dev, Host.print_dev,
    Host.glGenTextures, Mock.exec_glUseProgram, Mock.exec_glUniform1i, Mock.exec_glActiveTexture,
    Mock.exec_glGenTextures, Mock.exec_glBindTexture, Mock.exec_glTexImage2D,
    Mock.exec_glTexParameteri]

theorem GL_LoadImgData_st (B : Backend) (images : String → Option Image) (h : Host) :
    (GL_LoadImgData B images h).st
      = { h.st with imgtex := B.name h.dev.textures 0, textindex := h.st.textindex + 1 } := by
  unfold GL_LoadImgData
  simp only [List.foldl_cons, List.foldl_nil, Host.call_st, Host.store_st, Host.print_st,
    Host.glGenTextures, Host.call_dev, Host.store_dev, Mock.exec_glActiveTexture,
    Backend.gen_eq_name]
  rfl

theorem GL_LoadScreenRender_dev (B : Backend) (h : Host) :
    (GL_LoadScreenRender B h).dev
      = { h.dev with vertexArrays := B.names h.dev.vertexArrays 1 } := rfl

theorem GL_LoadScreenRender_st (B : Backend) (h : Host) :
    (GL_LoadScreenRender B h).st = { h.st with dummyvao := B.name h.dev.vertexArrays 0 } := rfl

theorem Ray.Initialize_dev (B : Backend) (hB : B.fresh) (I : Inputs) (pending : Nat) (h : Host) :
    (ray.Ray.Initialize B I pending h).dev
      = { h.dev with
          programs := B.names h.dev.programs 4
          shaders := B.names h.dev.shaders 12
          attached :=
            (Function.update (Function.update (Function.update (Function.update h.dev.attached
              (B.name h.dev.programs 0)
                [B.name h.dev.shaders 0, B.name h.dev.shaders 1, B.name h.dev.shaders 2])
              (B.name h.dev.programs 1)
                [B.name h.dev.shaders 3, B.name h.dev.shaders 4, B.name h.dev.shaders 5])
              (B.name h.dev.programs 2)
                [B.name h.dev.shaders 6, B.name h.dev.shaders 7, B.name h.dev.shaders 8])
              (B.name h.dev.programs 3)
                [B.name h.dev.shaders 9, B.name h.dev.shaders 10, B.name h.dev.shaders 11])
          buffers := B.names h.dev.buffers 2
          framebuffers := B.names h.dev.framebuffers 2
          framebuffer := 0
          textures := B.names h.dev.textures 7
          attachment :=
            (Function.update (Function.update h.dev.attachment (B.name h.dev.framebuffers 0)
              (Function.update (Function.update (fun _ => 0) GLenum.GL_DEPTH_ATTACHMENT
                (B.name h.dev.textures 0)) GLenum.GL_COLOR_ATTACHMENT0 (B.name h.dev.textures 1)))
              (B.name h.dev.framebuffers 1)
              (Function.update (Function.update (fun _ => 0) GLenum.GL_DEPTH_ATTACHMENT
                (B.name h.dev.textures 2)) GLenum.GL_COLOR_ATTACHMENT0
                (B.name h.dev.textures 3)))
          vertexArrays := B.names h.dev.vertexArrays 1 } := by
  unfold ray.Ray.Initialize
  simp only [Host.check_dev, GL_LoadScreenRender_dev, GL_LoadImgData_dev, GL_LoadCamRay_dev,
    GL_LoadFbo_dev B hB, GL_LoadUbo_dev, GL_LoadShader_dev B hB, Host.call_dev,
    Mock.exec_glEnable, Backend.names_names, Backend.name_names]

theorem Ray.Initialize_st (B : Backend) (hB : B.fresh) (I : Inputs) (pending : Nat) (h : Host) :
    (ray.Ray.Initialize B I pending h).st
      = { h.st with
          ray2initprgm := B.name h.dev.programs 0
          ray2prgm := B.name h.dev.programs 1
          selectprgm := B.name h.dev.programs 2
          drawprgm := B.name h.dev.programs 3
          ubounitbuff := B.name h.dev.buffers 0
          uboplbuff := B.name h.dev.buffers 1
          uboindex := h.st.uboindex + 1 + 1
          ray2fbo := B.name h.dev.framebuffers 0
          selectfbo := B.name h.dev.framebuffers 1
          camraypostex := B.name h.dev.textures 4
          camraydirtex := B.name h.dev.textures 5
          imgtex := B.name h.dev.textures 6
          textindex := h.st.textindex + 1 + 1 + 1 + 1 + 1 + 1 + 1
          texindex := some (h.st.texindex.getD (h.st.textindex + 1 + 1 + 1 + 1 + 1))
          dummyvao := B.name h.dev.vertexArrays 0 } := by
  unfold ray.Ray.Initialize
  simp only [Host.check_st, GL_LoadScreenRender_st, GL_LoadImgData_st, GL_LoadCamRay_st,
    GL_LoadFbo_st B hB, GL_LoadUbo_st, GL_LoadShader_st B hB, Host.call_st,
    GL_LoadScreenRender_dev, GL_LoadImgData_dev, GL_LoadCamRay_dev,
    GL_LoadFbo_dev B hB, GL_LoadUbo_dev, GL_LoadShader_dev B hB, Host.call_dev,
    Mock.exec_glEnable, Backend.names_names, Backend.name_names]

theorem Mock.exec_glDeleteVertexArrays (B : Backend) (m : Mock) (n : Int) (l : List Nat) :
    m.exec B (GLCall.glDeleteVertexArrays n l)
      = { m with vertexArrays := Mock.delete m.vertexArrays l } := rfl

theorem Mock.exec_glDeleteBuffers (B : Backend) (m : Mock) (n : Int) (l : List Nat) :
    m.exec B (GLCall.glDeleteBuffers n l) = { m with buffers := Mock.delete m.buffers l } := rfl

theorem Mock.exec_glDeleteTextures (B : Backend) (m : Mock) (n : Int) (l : List Nat) :
    m.exec B (GLCall.glDeleteTextures n l)
      = { m with
          textures := Mock.delete m.textures l
          attachment :=
            (if m.framebuffer = 0 then m.attachment
             else Function.update m.attachment m.framebuffer
              (fun a => if m.attachment m.framebuffer a ∈ l then 0
                else m.attachment m.framebuffer a)) } := rfl

theorem Mock.exec_glDeleteFramebuffers (B : Backend) (m : Mock) (n : Int) (l : List Nat) :
    m.exec B (GLCall.glDeleteFramebuffers n l)
      = { m with
          framebuffers := Mock.delete m.framebuffers l
          framebuffer := if m.framebuffer ∈ l then 0 else m.framebuffer } := rfl

theorem Mock.delete_names_succ {B : Backend} (hB : B.fresh) (live : List Nat) (k j : Nat) :
    Mock.delete (B.names live (k + 1)) [B.name live j]
      = if k = j then Mock.delete (B.names live k) [B.name live j]
        else B.name live k :: Mock.delete (B.names live k) [B.name live j] := by
  rw [Backend.names_succ, Mock.delete_cons]
  simp only [hB.name_eq_zero, List.mem_singleton, hB.name_inj, false_or, ite_not]

theorem Mock.delete_names_zero {B : Backend} (hB : B.fresh) (live : List Nat) (j : Nat) :
    Mock.delete (B.names live 0) [B.name live j] = live := Mock.delete_name hB live j

theorem Mock.delete_cons_name {B : Backend} (hB : B.fresh) (live : List Nat) (k j : Nat)
    (l : List Nat) :
    Mock.delete (B.name live k :: l) [B.name live j]
      = if k = j then Mock.delete l [B.name live j]
        else B.name live k :: Mock.delete l [B.name live j] := by
  rw [Mock.delete_cons]
  simp only [hB.name_eq_zero, List.mem_singleton, hB.name_inj, false_or, ite_not]

theorem Mock.delete_names_self {B : Backend} (hB : B.fresh) (live : List Nat) (k j : Nat)
    (hkj : k ≤ j) : Mock.delete (B.names live k) [B.name live j] = B.names live k := by
  apply Mock.delete_eq_self
  intro x hx
  rw [List.mem_singleton] at hx
  rw [hx, Backend.mem_names]
  rintro (hm | ⟨i, hi, he⟩)
  · exact hB.name_not_mem live j hm
  · rw [hB.name_inj] at he
    omega

theorem Mock.attachmentName_eq (m : Mock) (a : GLenum) :
    m.attachmentName a = if m.framebuffer = 0 then none else some (m.attachment m.framebuffer a) :=
  rfl

theorem GL_UnLoadScreenRender_dev (B : Backend) (h : Host) :
    (GL_UnLoadScreenRender B h).dev
      = { h.dev with vertexArrays := Mock.delete h.dev.vertexArrays [h.st.dummyvao] } := rfl

theorem GL_UnLoadScreenRender_st (B : Backend) (h : Host) :
    (GL_UnLoadScreenRender B h).st = { h.st with dummyvao := 0 } := rfl

theorem GL_UnLoadImgData_dev (B : Backend) (h : Host) (hf : h.dev.framebuffer = 0) :
    (GL_UnLoadImgData B h).dev
      = { h.dev with textures := Mock.delete h.dev.textures [h.st.imgtex] } := by
  simp only [GL_UnLoadImgData, Host.call_dev, Host.store_dev, Mock.exec_glDeleteTextures, hf,
    if_true]

theorem GL_UnLoadImgData_st (B : Backend) (h : Host) :
    (GL_UnLoadImgData B h).st = { h.st with imgtex := 0 } := rfl

theorem GL_UnLoadCamRay_dev (B : Backend) (h : Host) (hf : h.dev.framebuffer = 0) :
    (GL_UnLoadCamRay B h).dev
      = { h.dev with
          textures := Mock.delete (Mock.delete h.dev.textures [h.st.camraypostex])
            [h.st.camraydirtex] } := by
  simp only [GL_UnLoadCamRay, List.foldl_cons, List.foldl_nil, Host.call_dev, Host.store_dev,
    Host.call_st, Host.store_st, Mock.exec_glDeleteTextures, hf, if_true, Statics.deref,
    Statics.assign]

theorem GL_UnLoadCamRay_st (B : Backend) (h : Host) :
    (GL_UnLoadCamRay B h).st = { h.st with camraypostex := 0, camraydirtex := 0 } := rfl

theorem GL_UnLoadUbo_dev (B : Backend) (h : Host) :
    (GL_UnLoadUbo B h).dev
      = { h.dev with
          buffers := Mock.delete (Mock.delete h.dev.buffers [h.st.ubounitbuff])
            [h.st.uboplbuff] } := rfl

theorem GL_UnLoadUbo_st (B : Backend) (h : Host) :
    (GL_UnLoadUbo B h).st = { h.st with ubounitbuff := 0, uboplbuff := 0 } := rfl

theorem GL_UnLoadFbo_body_dev (B : Backend) (h : Host) (fbo : Handle) (t0 t1 : Nat)
    (hf0 : h.st.deref fbo ≠ 0) (hf : h.st.deref fbo ∈ h.dev.framebuffers)
    (h0 : h.dev.attachment (h.st.deref fbo) GLenum.GL_DEPTH_ATTACHMENT = t0)
    (h1 : h.dev.attachment (h.st.deref fbo) GLenum.GL_COLOR_ATTACHMENT0 = t1)
    (hne : t1 ≠ t0) :
    (GL_UnLoadFbo.body B h fbo).dev
      = { h.dev with
          framebuffers := Mock.delete h.dev.framebuffers [h.st.deref fbo]
          framebuffer := 0
          textures := Mock.delete (Mock.delete h.dev.textures [t0]) [t1]
          attachment := (GL_UnLoadFbo.body B h fbo).dev.attachment }
    ∧ ∀ f, f ≠ h.st.deref fbo →
        (GL_UnLoadFbo.body B h fbo).dev.attachment f = h.dev.attachment f := by
  simp only [GL_UnLoadFbo.body, GL_UnLoadFbo.texture, List.foldl_cons, List.foldl_nil,
    Host.call_dev, Host.store_dev, Host.call_st, Host.store_st, Mock.exec_glDeleteTextures,
    Mock.exec_glDeleteFramebuffers, Mock.exec_glBindFramebuffer,
    Mock.exec_glGetFramebufferAttachmentParameteriv, Mock.attachmentName_eq, hf, hf0, or_true,
    if_true, if_false, h0, h1, Option.getD_some, Function.update_same, List.mem_singleton, hne,
    or_self, true_or, Function.update_idem]
  refine ⟨by cases fbo <;> rfl, ?_⟩
  intro f hne2
  rw [Function.update_noteq hne2]

theorem GL_UnLoadFbo_body_st (B : Backend) (h : Host) (fbo : Handle) (t0 t1 : Nat)
    (hf0 : h.st.deref fbo ≠ 0) (hf : h.st.deref fbo ∈ h.dev.framebuffers)
    (h0 : h.dev.attachment (h.st.deref fbo) GLenum.GL_DEPTH_ATTACHMENT = t0)
    (h1 : h.dev.attachment (h.st.deref fbo) GLenum.GL_COLOR_ATTACHMENT0 = t1)
    (hne : t1 ≠ t0) :
    (GL_UnLoadFbo.body B h fbo).st = ({ h.st with id := t1 } : Statics).assign fbo 0 := by
  simp only [GL_UnLoadFbo.body, GL_UnLoadFbo.texture, List.foldl_cons, List.foldl_nil,
    Host.call_dev, Host.store_dev, Host.call_st, Host.store_st, Mock.exec_glDeleteTextures,
    Mock.exec_glDeleteFramebuffers, Mock.exec_glBindFramebuffer,
    Mock.exec_glGetFramebufferAttachmentParameteriv, Mock.attachmentName_eq, hf, hf0, or_true,
    if_true, if_false, h0, h1, Option.getD_some, Function.update_same, List.mem_singleton, hne,
    or_self, true_or, Function.update_idem]

theorem GL_UnLoadFbo_spec (B : Backend) (h : Host) (t0 t1 t2 t3 : Nat)
    (hf0 : h.st.ray2fbo ≠ 0) (hf1 : h.st.selectfbo ≠ 0) (hff : h.st.selectfbo ≠ h.st.ray2fbo)
    (hm0 : h.st.ray2fbo ∈ h.dev.framebuffers) (hm1 : h.st.selectfbo ∈ h.dev.framebuffers)
    (h0 : h.dev.attachment h.st.ray2fbo GLenum.GL_DEPTH_ATTACHMENT = t0)
    (h1 : h.dev.attachment h.st.ray2fbo GLenum.GL_COLOR_ATTACHMENT0 = t1)
    (h2 : h.dev.attachment h.st.selectfbo GLenum.GL_DEPTH_ATTACHMENT = t2)
    (h3 : h.dev.attachment h.st.selectfbo GLenum.GL_COLOR_ATTACHMENT0 = t3)
    (hne : t1 ≠ t0) (hne2 : t3 ≠ t2) :
    (GL_UnLoadFbo B h).dev
      = { h.dev with
          framebuffers :=
            Mock.delete (Mock.delete h.dev.framebuffers [h.st.ray2fbo]) [h.st.selectfbo]
          framebuffer := 0
          textures := Mock.delete (Mock.delete (Mock.delete (Mock.delete h.dev.textures
            [t0]) [t1]) [t2]) [t3]
          attachment := (GL_UnLoadFbo B h).dev.attachment }
    ∧ (GL_UnLoadFbo B h).st = { h.st with ray2fbo := 0, selectfbo := 0, id := t3 } := by
  obtain ⟨a1, a2⟩ := GL_UnLoadFbo_body_dev B h Handle.ray2fbo t0 t1 hf0 hm0 h0 h1 hne
  have a3 := GL_UnLoadFbo_body_st B h Handle.ray2fbo t0 t1 hf0 hm0 h0 h1 hne
  have s1 : (GL_UnLoadFbo.body B h Handle.ray2fbo).st.deref Handle.selectfbo = h.st.selectfbo := by
    rw [a3]; rfl
  have m1 : (GL_UnLoadFbo.body B h Handle.ray2fbo).dev.framebuffers
      = Mock.delete h.dev.framebuffers [h.st.ray2fbo] := by rw [a1]; rfl
  have t1' : (GL_UnLoadFbo.body B h Handle.ray2fbo).dev.textures
      = Mock.delete (Mock.delete h.dev.textures [t0]) [t1] := by rw [a1]
  have x1 : (GL_UnLoadFbo.body B h Handle.ray2fbo).dev.attachment h.st.selectfbo
      = h.dev.attachment h.st.selectfbo := a2 _ hff
  obtain ⟨b1, -⟩ := GL_UnLoadFbo_body_dev B (GL_UnLoadFbo.body B h Handle.ray2fbo)
    Handle.selectfbo t2 t3 (by rw [s1]; exact hf1)
    (by rw [s1, m1, Mock.mem_delete]; exact ⟨hm1, Or.inr (by simpa using hff)⟩)
    (by rw [s1, x1]; exact h2) (by rw [s1, x1]; exact h3) hne2
  have b3 := GL_UnLoadFbo_body_st B (GL_UnLoadFbo.body B h Handle.ray2fbo)
    Handle.selectfbo t2 t3 (by rw [s1]; exact hf1)
    (by rw [s1, m1, Mock.mem_delete]; exact ⟨hm1, Or.inr (by simpa using hff)⟩)
    (by rw [s1, x1]; exact h2) (by rw [s1, x1]; exact h3) hne2
  have e : GL_UnLoadFbo B h
      = GL_UnLoadFbo.body B (GL_UnLoadFbo.body B h Handle.ray2fbo) Handle.selectfbo := rfl
  constructor
  · rw [e]
    rw [b1, s1, m1, t1']
    conv_lhs => rw [a1]
  · rw [e, b3, a3]
    rfl

theorem Host.foldl_call_dev {α : Type} (B : Backend) (f : α → GLCall) (l : List α) (h : Host) :
    (l.foldl (fun h x => h.call B (f x)) h).dev = l.foldl (fun m x => m.exec B (f x)) h.dev := by
  induction l generalizing h with
  | nil => rfl
  | cons x xs ih => exact ih (h.call B (f x))

theorem Mock.flag_fold (B : Backend) (l : List Nat) (m : Mock)
    (hl : ∀ s ∈ l, s ≠ 0 ∧ s ∈ m.shaders ∧ ∃ q ∈ m.programs, s ∈ m.attached q) :
    l.foldl (fun m s => m.exec B (GLCall.glDeleteShader s)) m
      = { m with flagged := l.reverse ++ m.flagged } := by
  induction l generalizing m with
  | nil => rfl
  | cons x xs ih =>
    have hx := hl x (List.mem_cons_self _ _)
    have e : m.exec B (GLCall.glDeleteShader x) = { m with flagged := x :: m.flagged } := by
      simp only [Mock.exec, hx.1, hx.2.1, hx.2.2, ne_eq, not_false_eq_true, and_self, if_true]
    rw [List.foldl_cons, e, ih]
    · simp only [List.reverse_cons, List.append_assoc, List.singleton_append]
    · intro s hs
      exact hl s (List.mem_cons_of_mem _ hs)

theorem GL_UnLoadShader_body_spec (B : Backend) (h : Host) (k : Handle) (ho : h.owns k) :
    (GL_UnLoadShader.body B h k).dev
      = { h.dev with
          programs := Mock.delete h.dev.programs [h.st.deref k]
          shaders := (h.dev.shaders.filter
            (fun s => decide (s ∉ h.dev.attached (h.st.deref k))))
          attached := Function.update h.dev.attached (h.st.deref k) []
          flagged := (GL_UnLoadShader.body B h k).dev.flagged } := by
  obtain ⟨hp0, hp, hlen, hs⟩ := ho
  have hatt : (h.dev.attachedShaders (h.st.deref k) MAXSHADERTYPE).getD []
      = h.dev.attached (h.st.deref k) := by
    simp only [Mock.attachedShaders, hp, if_true, Option.getD_some]
    exact List.take_of_length_le hlen
  have hfold := Mock.flag_fold B (h.dev.attached (h.st.deref k)) h.dev
    (fun s hs' => ⟨(hs s hs').1, (hs s hs').2.1, h.st.deref k, hp, hs'⟩)
  have hfilter : h.dev.shaders.filter (fun s => decide (¬ (s ∈ h.dev.attached (h.st.deref k)
      ∧ s ∈ (h.dev.attached (h.st.deref k)).reverse ++ h.dev.flagged
      ∧ ¬ ∃ q ∈ Mock.delete h.dev.programs [h.st.deref k], s ∈ h.dev.attached q)))
      = h.dev.shaders.filter (fun s => decide (s ∉ h.dev.attached (h.st.deref k))) := by
    apply List.filter_congr
    intro s _
    by_cases hm : s ∈ h.dev.attached (h.st.deref k)
    · have h2 : ¬ ∃ q ∈ Mock.delete h.dev.programs [h.st.deref k], s ∈ h.dev.attached q := by
        rintro ⟨q, hq, hsq⟩
        rw [Mock.mem_delete, List.mem_singleton] at hq
        have hne : q ≠ h.st.deref k := by
          rcases hq.2 with h0 | h0
          · rw [h0]; exact Ne.symm hp0
          · exact h0
        exact (hs s hm).2.2 q hq.1 hne hsq
      simp [hm, h2]
    · simp [hm]
  simp only [GL_UnLoadShader.body, Host.call_dev, Host.store_dev, Host.call_st, Host.store_st,
    Host.foldl_call_dev B (fun shader => GLCall.glDeleteShader shader),
    Host.foldl_call_st B (fun shader => GLCall.glDeleteShader shader),
    Mock.exec_glGetAttachedShaders, hatt, hfold]
  simp only [Mock.exec, hp0, hp, ne_eq, not_false_eq_true, and_self, if_true, hfilter]

theorem GL_UnLoadShader_body_fields (B : Backend) (h : Host) (k : Handle) (ho : h.owns k) :
    (GL_UnLoadShader.body B h k).dev.programs = Mock.delete h.dev.programs [h.st.deref k]
    ∧ (GL_UnLoadShader.body B h k).dev.shaders
        = h.dev.shaders.filter (fun s => decide (s ∉ h.dev.attached (h.st.deref k)))
    ∧ (GL_UnLoadShader.body B h k).dev.buffers = h.dev.buffers
    ∧ (GL_UnLoadShader.body B h k).dev.framebuffers = h.dev.framebuffers
    ∧ (GL_UnLoadShader.body B h k).dev.textures = h.dev.textures
    ∧ (GL_UnLoadShader.body B h k).dev.vertexArrays = h.dev.vertexArrays := by
  have hd := GL_UnLoadShader_body_spec B h k ho
  refine ⟨?_, ?_, ?_, ?_, ?_, ?_⟩ <;> rw [hd]

theorem GL_UnLoadShader_body_owns (B : Backend) (h : Host) (k j : Handle) (ho : h.owns k)
    (hj : h.owns j) (hkj : j ≠ k) (hp : h.st.deref j ≠ h.st.deref k) :
    (GL_UnLoadShader.body B h k).owns j
    ∧ (GL_UnLoadShader.body B h k).st.deref j = h.st.deref j
    ∧ (GL_UnLoadShader.body B h k).dev.attached (h.st.deref j)
        = h.dev.attached (h.st.deref j) := by
  have hd := GL_UnLoadShader_body_spec B h k ho
  have hst : (GL_UnLoadShader.body B h k).st.deref j = h.st.deref j := by
    rw [GL_UnLoadShader_body_st]
    cases k <;> cases j <;> first | rfl | exact absurd rfl hkj
  have hat : (GL_UnLoadShader.body B h k).dev.attached (h.st.deref j)
      = h.dev.attached (h.st.deref j) := by
    rw [hd]
    exact Function.update_noteq hp _ _
  refine ⟨?_, hst, hat⟩
  obtain ⟨j0, j1, j2, j3⟩ := hj
  unfold Host.owns
  rw [hst, hat]
  refine ⟨j0, ?_, j2, ?_⟩
  · rw [hd]
    show h.st.deref j ∈ Mock.delete h.dev.programs [h.st.deref k]
    rw [Mock.mem_delete, List.mem_singleton]
    exact ⟨j1, Or.inr hp⟩
  · intro s hs
    obtain ⟨s0, s1, s2⟩ := j3 s hs
    refine ⟨s0, ?_, ?_⟩
    · rw [hd]
      show s ∈ h.dev.shaders.filter (fun s => decide (s ∉ h.dev.attached (h.st.deref k)))
      rw [List.mem_filter, decide_eq_true_eq]
      exact ⟨s1, s2 _ ho.2.1 (Ne.symm hp)⟩
    · intro q hq hqj
      rw [hd] at hq ⊢
      have hq' : q ∈ Mock.delete h.dev.programs [h.st.deref k] := hq
      rw [Mock.mem_delete] at hq'
      show s ∉ Function.update h.dev.attached (h.st.deref k) [] q
      by_cases hqk : q = h.st.deref k
      · rw [hqk, Function.update_same]
        exact List.not_mem_nil _
      · rw [Function.update_noteq hqk]
        exact s2 q hq'.1 hqj

theorem GL_UnLoadShader_spec (B : Backend) (h : Host)
    (o0 : h.owns Handle.ray2initprgm) (o1 : h.owns Handle.ray2prgm)
    (o2 : h.owns Handle.selectprgm) (o3 : h.owns Handle.drawprgm)
    (d01 : h.st.ray2prgm ≠ h.st.ray2initprgm) (d02 : h.st.selectprgm ≠ h.st.ray2initprgm)
    (d03 : h.st.drawprgm ≠ h.st.ray2initprgm) (d12 : h.st.selectprgm ≠ h.st.ray2prgm)
    (d13 : h.st.drawprgm ≠ h.st.ray2prgm) (d23 : h.st.drawprgm ≠ h.st.selectprgm) :
    (GL_UnLoadShader B h).dev.programs
      = Mock.delete (Mock.delete (Mock.delete (Mock.delete h.dev.programs [h.st.ray2initprgm])
          [h.st.ray2prgm]) [h.st.selectprgm]) [h.st.drawprgm]
    ∧ (GL_UnLoadShader B h).dev.shaders
      = (((h.dev.shaders.filter (fun s => decide (s ∉ h.dev.attached h.st.ray2initprgm))).filter
          (fun s => decide (s ∉ h.dev.attached h.st.ray2prgm))).filter
          (fun s => decide (s ∉ h.dev.attached h.st.selectprgm))).filter
          (fun s => decide (s ∉ h.dev.attached h.st.drawprgm))
    ∧ (GL_UnLoadShader B h).dev.buffers = h.dev.buffers
    ∧ (GL_UnLoadShader B h).dev.framebuffers = h.dev.framebuffers
    ∧ (GL_UnLoadShader B h).dev.textures = h.dev.textures
    ∧ (GL_UnLoadShader B h).dev.vertexArrays = h.dev.vertexArrays := by
  have e : GL_UnLoadShader B h = GL_UnLoadShader.body B (GL_UnLoadShader.body B
      (GL_UnLoadShader.body B (GL_UnLoadShader.body B h Handle.ray2initprgm) Handle.ray2prgm)
      Handle.selectprgm) Handle.drawprgm := rfl
  -- after the first program
  obtain ⟨a1, s1, t1⟩ := GL_UnLoadShader_body_owns B h Handle.ray2initprgm Handle.ray2prgm
    o0 o1 (by decide) d01
  obtain ⟨a2, s2, t2⟩ := GL_UnLoadShader_body_owns B h Handle.ray2initprgm Handle.selectprgm
    o0 o2 (by decide) d02
  obtain ⟨a3, s3, t3⟩ := GL_UnLoadShader_body_owns B h Handle.ray2initprgm Handle.drawprgm
    o0 o3 (by decide) d03
  obtain ⟨p0, q0, r0⟩ := GL_UnLoadShader_body_fields B h Handle.ray2initprgm o0
  generalize GL_UnLoadShader.body B h Handle.ray2initprgm = h1 at *
  -- after the second program
  obtain ⟨b2, u2, v2⟩ := GL_UnLoadShader_body_owns B h1 Handle.ray2prgm Handle.selectprgm
    a1 a2 (by decide) (by rw [s1, s2]; exact d12)
  obtain ⟨b3, u3, v3⟩ := GL_UnLoadShader_body_owns B h1 Handle.ray2prgm Handle.drawprgm
    a1 a3 (by decide) (by rw [s1, s3]; exact d13)
  obtain ⟨p1, q1, r1⟩ := GL_UnLoadShader_body_fields B h1 Handle.ray2prgm a1
  generalize GL_UnLoadShader.body B h1 Handle.ray2prgm = h2 at *
  -- after the third program
  obtain ⟨c3, w3, z3⟩ := GL_UnLoadShader_body_owns B h2 Handle.selectprgm Handle.drawprgm
    b2 b3 (by decide) (by rw [u2, u3, s2, s3]; exact d23)
  obtain ⟨p2, q2, r2⟩ := GL_UnLoadShader_body_fields B h2 Handle.selectprgm b2
  generalize GL_UnLoadShader.body B h2 Handle.selectprgm = h3 at *
  obtain ⟨p3, q3, r3⟩ := GL_UnLoadShader_body_fields B h3 Handle.drawprgm c3
  rw [e]
  have k1 : h1.st.deref Handle.ray2prgm = h.st.ray2prgm := s1
  have k2 : h2.st.deref Handle.selectprgm = h.st.selectprgm := u2.trans s2
  have k3 : h3.st.deref Handle.drawprgm = h.st.drawprgm := w3.trans (u3.trans s3)
  have k0 : h.st.deref Handle.ray2initprgm = h.st.ray2initprgm := rfl
  have l1 : h1.dev.attached h.st.ray2prgm = h.dev.attached h.st.ray2prgm := t1
  have l2 : h2.dev.attached h.st.selectprgm = h.dev.attached h.st.selectprgm := by
    have := v2
    rw [s2] at this
    exact this.trans t2
  have l3 : h3.dev.attached h.st.drawprgm = h.dev.attached h.st.drawprgm := by
    have e3 := z3
    rw [u3, s3] at e3
    have e2 := v3
    rw [s3] at e2
    exact e3.trans (e2.trans t3)
  refine ⟨?_, ?_, ?_, ?_, ?_, ?_⟩
  · rw [p3, p2, p1, p0, k3, k2, k1, k0]
  · rw [q3, q2, q1, q0, k3, k2, k1, k0, l3, l2, l1]
  · rw [r3.1, r2.1, r1.1, r0.1]
  · rw [r3.2.1, r2.2.1, r1.2.1, r0.2.1]
  · rw [r3.2.2.1, r2.2.2.1, r1.2.2.1, r0.2.2.1]
  · rw [r3.2.2.2, r2.2.2.2, r1.2.2.2, r0.2.2.2]

theorem Backend.filter_names {B : Backend} (live : List Nat) (k : Nat) (pred : Nat → Bool)
    (hlive : ∀ x ∈ live, pred x = true) (hname : ∀ j, j < k → pred (B.name live j) = false) :
    (B.names live k).filter pred = live := by
  induction k with
  | zero => exact List.filter_eq_self.2 hlive
  | succ k ih =>
    rw [Backend.names_succ, List.filter_cons, hname k (Nat.lt_succ_self k)]
    exact ih (fun j hj => hname j (Nat.lt_succ_of_lt hj))

theorem Ray.Release_Initialize_pre (B : Backend) (hB : B.fresh) (I : Inputs) (p1 : Nat)
    (h : Host) :
    (GL_UnLoadCamRay B (GL_UnLoadImgData B
      (GL_UnLoadScreenRender B (ray.Ray.Initialize B I p1 h)))).dev
        = { (ray.Ray.Initialize B I p1 h).dev with
            vertexArrays := h.dev.vertexArrays
            textures := B.names h.dev.textures 4 }
    ∧ (GL_UnLoadCamRay B (GL_UnLoadImgData B
      (GL_UnLoadScreenRender B (ray.Ray.Initialize B I p1 h)))).st
        = { (ray.Ray.Initialize B I p1 h).st with
            dummyvao := 0, imgtex := 0, camraypostex := 0, camraydirtex := 0 } := by
  refine ⟨?_, rfl⟩
  generalize hh : ray.Ray.Initialize B I p1 h = h1
  have hd := Ray.Initialize_dev B hB I p1 h
  have hs := Ray.Initialize_st B hB I p1 h
  rw [hh] at hd hs
  have f1 : (GL_UnLoadScreenRender B h1).dev.framebuffer = 0 := by
    rw [GL_UnLoadScreenRender_dev, hd]
  have d2 := GL_UnLoadImgData_dev B (GL_UnLoadScreenRender B h1) f1
  have f2 : (GL_UnLoadImgData B (GL_UnLoadScreenRender B h1)).dev.framebuffer = 0 := by
    rw [d2]; exact f1
  have d3 := GL_UnLoadCamRay_dev B (GL_UnLoadImgData B (GL_UnLoadScreenRender B h1)) f2
  rw [d3, d2, GL_UnLoadScreenRender_dev]
  have s2 : (GL_UnLoadImgData B (GL_UnLoadScreenRender B h1)).st
      = { h1.st with dummyvao := 0, imgtex := 0 } := rfl
  have s1 : (GL_UnLoadScreenRender B h1).st = { h1.st with dummyvao := 0 } := rfl
  rw [s2, s1]
  have v : Mock.delete h1.dev.vertexArrays [h1.st.dummyvao] = h.dev.vertexArrays := by
    rw [hd, hs]
    simp [Backend.names_succ, Backend.names_zero, Mock.delete_cons_name hB, Mock.delete_name hB]
  have t : Mock.delete (Mock.delete (Mock.delete h1.dev.textures [h1.st.imgtex])
      [h1.st.camraypostex]) [h1.st.camraydirtex] = B.names h.dev.textures 4 := by
    rw [hd, hs]
    simp [Backend.names_succ, Backend.names_zero, Mock.delete_cons_name hB, Mock.delete_name hB]
  rw [v, t]

theorem Ray.Release_Initialize_mid (B : Backend) (hB : B.fresh) (I : Inputs) (p1 : Nat)
    (h : Host) :
    (GL_UnLoadUbo B (GL_UnLoadFbo B (GL_UnLoadCamRay B (GL_UnLoadImgData B
      (GL_UnLoadScreenRender B (ray.Ray.Initialize B I p1 h)))))).dev
        = { (ray.Ray.Initialize B I p1 h).dev with
            vertexArrays := h.dev.vertexArrays
            textures := h.dev.textures
            framebuffers := h.dev.framebuffers
            buffers := h.dev.buffers
            attachment := (GL_UnLoadUbo B (GL_UnLoadFbo B (GL_UnLoadCamRay B (GL_UnLoadImgData B
              (GL_UnLoadScreenRender B (ray.Ray.Initialize B I p1 h)))))).dev.attachment }
    ∧ (GL_UnLoadUbo B (GL_UnLoadFbo B (GL_UnLoadCamRay B (GL_UnLoadImgData B
      (GL_UnLoadScreenRender B (ray.Ray.Initialize B I p1 h)))))).st
        = { (ray.Ray.Initialize B I p1 h).st with
            dummyvao := 0, imgtex := 0, camraypostex := 0, camraydirtex := 0, ray2fbo := 0,
            selectfbo := 0, ubounitbuff := 0, uboplbuff := 0, id := B.name h.dev.textures 3 } := by
  obtain ⟨d3, s3⟩ := Ray.Release_Initialize_pre B hB I p1 h
  have hd := Ray.Initialize_dev B hB I p1 h
  have hs := Ray.Initialize_st B hB I p1 h
  generalize ray.Ray.Initialize B I p1 h = h1 at *
  generalize GL_UnLoadCamRay B (GL_UnLoadImgData B (GL_UnLoadScreenRender B h1)) = h3 at *
  have r0 : h3.st.ray2fbo = B.name h.dev.framebuffers 0 := by rw [s3, hs]
  have r1 : h3.st.selectfbo = B.name h.dev.framebuffers 1 := by rw [s3, hs]
  have m3 : h3.dev.framebuffers = B.names h.dev.framebuffers 2 := by rw [d3, hd]
  have a3 : h3.dev.attachment = h1.dev.attachment := by rw [d3]
  have x3 : h3.dev.textures = B.names h.dev.textures 4 := by rw [d3]
  have b3 : h3.dev.buffers = B.names h.dev.buffers 2 := by rw [d3, hd]
  have u0 : h3.st.ubounitbuff = B.name h.dev.buffers 0 := by rw [s3, hs]
  have u1 : h3.st.uboplbuff = B.name h.dev.buffers 1 := by rw [s3, hs]
  obtain ⟨d4, s4⟩ := GL_UnLoadFbo_spec B h3 (B.name h.dev.textures 0) (B.name h.dev.textures 1)
    (B.name h.dev.textures 2) (B.name h.dev.textures 3)
    (by rw [r0]; exact hB.name_ne_zero _ _) (by rw [r1]; exact hB.name_ne_zero _ _)
    (by rw [r0, r1, Ne, hB.name_inj]; decide)
    (by rw [r0, m3]; exact B.name_mem_names _ 0 2 (by decide))
    (by rw [r1, m3]; exact B.name_mem_names _ 1 2 (by decide))
    (by rw [r0, a3, hd]; simp [Function.update_same, hB.name_inj])
    (by rw [r0, a3, hd]; simp [Function.update_same, hB.name_inj])
    (by rw [r1, a3, hd]; simp [Function.update_same, hB.name_inj])
    (by rw [r1, a3, hd]; simp [Function.update_same, hB.name_inj])
    (by rw [Ne, hB.name_inj]; decide) (by rw [Ne, hB.name_inj]; decide)
  have f4 : Mock.delete (Mock.delete h3.dev.framebuffers [h3.st.ray2fbo]) [h3.st.selectfbo]
      = h.dev.framebuffers := by
    rw [m3, r0, r1]
    simp [Backend.names_succ, Backend.names_zero, Mock.delete_cons_name hB, Mock.delete_name hB]
  have t4 : Mock.delete (Mock.delete (Mock.delete (Mock.delete h3.dev.textures
      [B.name h.dev.textures 0]) [B.name h.dev.textures 1]) [B.name h.dev.textures 2])
      [B.name h.dev.textures 3] = h.dev.textures := by
    rw [x3]
    simp [Backend.names_succ, Backend.names_zero, Mock.delete_cons_name hB, Mock.delete_name hB]
  rw [f4, t4] at d4
  have b5 : Mock.delete (Mock.delete h3.dev.buffers [h3.st.ubounitbuff]) [h3.st.uboplbuff]
      = h.dev.buffers := by
    rw [b3, u0, u1]
    simp [Backend.names_succ, Backend.names_zero, Mock.delete_cons_name hB, Mock.delete_name hB]
  constructor
  · rw [GL_UnLoadUbo_dev, s4]
    conv_lhs => rw [d4]
    simp only [b5]
    have fb : h1.dev.framebuffer = 0 := by rw [hd]
    rw [d3, fb]
  · rw [GL_UnLoadUbo_st, s4, s3]

theorem Mock.attachedAfter_name (B : Backend) (hB : B.fresh) (m : Mock) (i : Nat) (hi : i < 4) :
    m.attachedAfter B (B.name m.programs i)
      = [B.name m.shaders (3 * i), B.name m.shaders (3 * i + 1), B.name m.shaders (3 * i + 2)] := by
  unfold Mock.attachedAfter
  interval_cases i <;> simp [Function.update_apply, hB.name_inj]

theorem Mock.attachedAfter_live (B : Backend) (hB : B.fresh) (m : Mock) (q : Nat)
    (hq : q ∈ m.programs) : m.attachedAfter B q = m.attached q := by
  unfold Mock.attachedAfter
  simp [Function.update_apply, hB.ne_name_of_mem _ _ q hq]

theorem Mock.attachedAfter_owned (B : Backend) (hB : B.fresh) (m : Mock) (hwf : m.wf) (i : Nat)
    (hi : i < 4) (s : Nat) (hs : s ∈ m.attachedAfter B (B.name m.programs i)) :
    s ≠ 0 ∧ s ∈ B.names m.shaders 12
    ∧ ∀ q ∈ B.names m.programs 4, q ≠ B.name m.programs i → s ∉ m.attachedAfter B q := by
  rw [Mock.attachedAfter_name B hB m i hi] at hs
  simp only [List.mem_cons, List.mem_singleton, List.not_mem_nil, or_false] at hs
  obtain ⟨j, hj, hj3, rfl⟩ : ∃ j, j < 12 ∧ j / 3 = i ∧ s = B.name m.shaders j := by
    rcases hs with h | h | h
    · exact ⟨3 * i, by omega, by omega, h⟩
    · exact ⟨3 * i + 1, by omega, by omega, h⟩
    · exact ⟨3 * i + 2, by omega, by omega, h⟩
  refine ⟨hB.name_ne_zero _ _, B.name_mem_names _ j 12 hj, ?_⟩
  intro q hq hne
  rw [Backend.mem_names] at hq
  rcases hq with hq | ⟨k, hk, rfl⟩
  · rw [Mock.attachedAfter_live B hB m q hq]
    intro hmem
    exact hB.name_not_mem _ _ (hwf q hq _ hmem)
  · rw [Mock.attachedAfter_name B hB m k hk]
    have hki : k ≠ i := fun e => hne (by rw [e])
    simp only [List.mem_cons, List.mem_singleton, List.not_mem_nil, or_false, hB.name_inj]
    omega

theorem Ray.Release_Initialize_live (B : Backend) (hB : B.fresh) (I : Inputs) (p1 p2 : Nat)
    (h : Host) (hwf : h.dev.wf) :
    (ray.Ray.Release B p2 (ray.Ray.Initialize B I p1 h)).dev.programs = h.dev.programs
    ∧ (ray.Ray.Release B p2 (ray.Ray.Initialize B I p1 h)).dev.shaders = h.dev.shaders
    ∧ (ray.Ray.Release B p2 (ray.Ray.Initialize B I p1 h)).dev.buffers = h.dev.buffers
    ∧ (ray.Ray.Release B p2 (ray.Ray.Initialize B I p1 h)).dev.framebuffers
        = h.dev.framebuffers
    ∧ (ray.Ray.Release B p2 (ray.Ray.Initialize B I p1 h)).dev.textures = h.dev.textures
    ∧ (ray.Ray.Release B p2 (ray.Ray.Initialize B I p1 h)).dev.vertexArrays
        = h.dev.vertexArrays := by
  obtain ⟨d5, s5⟩ := Ray.Release_Initialize_mid B hB I p1 h
  have hd := Ray.Initialize_dev B hB I p1 h
  have hs := Ray.Initialize_st B hB I p1 h
  have e : (ray.Ray.Release B p2 (ray.Ray.Initialize B I p1 h)).dev
      = (GL_UnLoadShader B (GL_UnLoadUbo B (GL_UnLoadFbo B (GL_UnLoadCamRay B (GL_UnLoadImgData B
          (GL_UnLoadScreenRender B (ray.Ray.Initialize B I p1 h))))))).dev := by
    unfold ray.Ray.Release
    exact Host.check_dev _ _ _ _
  rw [e]
  generalize ray.Ray.Initialize B I p1 h = h1 at *
  generalize GL_UnLoadUbo B (GL_UnLoadFbo B (GL_UnLoadCamRay B (GL_UnLoadImgData B
    (GL_UnLoadScreenRender B h1)))) = h5 at *
  have k0 : h5.st.ray2initprgm = B.name h.dev.programs 0 := by rw [s5, hs]
  have k1 : h5.st.ray2prgm = B.name h.dev.programs 1 := by rw [s5, hs]
  have k2 : h5.st.selectprgm = B.name h.dev.programs 2 := by rw [s5, hs]
  have k3 : h5.st.drawprgm = B.name h.dev.programs 3 := by rw [s5, hs]
  have hp : h5.dev.programs = B.names h.dev.programs 4 := by rw [d5, hd]
  have hsh : h5.dev.shaders = B.names h.dev.shaders 12 := by rw [d5, hd]
  have hat : h5.dev.attached = h.dev.attachedAfter B := by rw [d5, hd]; rfl
  have hb : h5.dev.buffers = h.dev.buffers := by rw [d5]
  have hf : h5.dev.framebuffers = h.dev.framebuffers := by rw [d5]
  have ht : h5.dev.textures = h.dev.textures := by rw [d5]
  have hv : h5.dev.vertexArrays = h.dev.vertexArrays := by rw [d5]
  have own : ∀ (k : Handle) (i : Nat), i < 4 → h5.st.deref k = B.name h.dev.programs i →
      h5.owns k := by
    intro k i hi hk
    unfold Host.owns
    rw [hk, hp, hsh, hat]
    refine ⟨hB.name_ne_zero _ _, B.name_mem_names _ i 4 hi, ?_,
      Mock.attachedAfter_owned B hB h.dev hwf i hi⟩
    rw [Mock.attachedAfter_name B hB h.dev i hi]
    exact Nat.le_refl 3
  obtain ⟨r1, r2, r3, r4, r5, r6⟩ := GL_UnLoadShader_spec B h5
    (own Handle.ray2initprgm 0 (by decide) k0) (own Handle.ray2prgm 1 (by decide) k1)
    (own Handle.selectprgm 2 (by decide) k2) (own Handle.drawprgm 3 (by decide) k3)
    (by rw [k0, k1, Ne, hB.name_inj]; decide) (by rw [k0, k2, Ne, hB.name_inj]; decide)
    (by rw [k0, k3, Ne, hB.name_inj]; decide) (by rw [k1, k2, Ne, hB.name_inj]; decide)
    (by rw [k1, k3, Ne, hB.name_inj]; decide) (by rw [k2, k3, Ne, hB.name_inj]; decide)
  refine ⟨?_, ?_, r3.trans hb, r4.trans hf, r5.trans ht, r6.trans hv⟩
  · rw [r1, hp, k0, k1, k2, k3]
    simp [Backend.names_succ, Backend.names_zero, Mock.delete_cons_name hB, Mock.delete_name hB]
  · rw [r2, hsh, hat, k0, k1, k2, k3, Mock.attachedAfter_name B hB _ 0 (by decide),
      Mock.attachedAfter_name B hB _ 1 (by decide), Mock.attachedAfter_name B hB _ 2 (by decide),
      Mock.attachedAfter_name B hB _ 3 (by decide)]
    simp only [List.filter_filter]
    apply Backend.filter_names
    · intro x hx
      have hne := fun k => hB.ne_name_of_mem h.dev.shaders k x hx
      simp [hne]
    · intro j hj
      interval_cases j <;> simp [hB.name_inj]

theorem Mock.exec_wf (B : Backend) (m : Mock) (c : GLCall) (hwf : m.wf) : (m.exec B c).wf := by
  unfold Mock.exec
  split
  · -- glCreateProgram
    intro q hq s hs
    simp only [List.mem_cons] at hq
    by_cases hqe : q = B.gen m.programs
    · rw [hqe] at hs
      simp only [Function.update_same] at hs
      exact absurd hs (List.not_mem_nil _)
    · simp only [Function.update_noteq hqe] at hs
      rcases hq with hq | hq
      · exact absurd hq hqe
      · exact hwf q hq s hs
  · -- glCreateShader
    intro q hq s hs
    exact List.mem_cons_of_mem _ (hwf q hq s hs)
  · -- glAttachShader
    split
    · rename_i program shader hc
      intro q hq s hs
      by_cases hqe : q = program
      · rw [hqe] at hs
        simp only [Function.update_same, List.mem_append, List.mem_singleton] at hs
        rcases hs with hs | hs
        · exact hwf program hc.1 s hs
        · rw [hs]; exact hc.2.1
      · simp only [Function.update_noteq hqe] at hs
        exact hwf q hq s hs
    · exact hwf
  · -- glDeleteShader
    split
    · split
      · exact hwf
      · rename_i shader _ hn
        intro q hq s hs
        show s ∈ Mock.delete m.shaders [shader]
        rw [Mock.mem_delete, List.mem_singleton]
        refine ⟨hwf q hq s hs, Or.inr ?_⟩
        intro e
        exact hn ⟨q, hq, e ▸ hs⟩
    · exact hwf
  · -- glDeleteProgram
    split
    · rename_i program hc
      intro q hq s hs
      have hq' : q ∈ Mock.delete m.programs [program] := hq
      have hqm := (Mock.mem_delete _ _ _).1 hq'
      by_cases hqe : q = program
      · rw [hqe] at hs
        simp only [Function.update_same] at hs
        exact absurd hs (List.not_mem_nil _)
      · simp only [Function.update_noteq hqe] at hs
        show s ∈ m.shaders.filter _
        rw [List.mem_filter, decide_eq_true_eq]
        refine ⟨hwf q hqm.1 s hs, ?_⟩
        rintro ⟨-, -, hno⟩
        exact hno ⟨q, hq', hs⟩
    · exact hwf
  all_goals first
    | exact hwf
    | (split <;> exact hwf)

theorem Host.call_wf (B : Backend) (h : Host) (c : GLCall) (hwf : h.dev.wf) :
    (h.call B c).dev.wf := Mock.exec_wf B h.dev c hwf

theorem Host.foldl_call_wf {α : Type} (B : Backend) (f : α → GLCall) (l : List α) (h : Host)
    (hwf : h.dev.wf) : (l.foldl (fun h x => h.call B (f x)) h).dev.wf := by
  induction l generalizing h with
  | nil => exact hwf
  | cons x xs ih => exact ih (h.call B (f x)) (Host.call_wf B h _ hwf)

theorem GL_UnLoadShader_body_wf (B : Backend) (h : Host) (k : Handle) (hwf : h.dev.wf) :
    (GL_UnLoadShader.body B h k).dev.wf := by
  unfold GL_UnLoadShader.body
  exact Host.call_wf B _ _ (Host.foldl_call_wf B (fun shader => GLCall.glDeleteShader shader) _ _
    (Host.call_wf B _ _ hwf))

theorem GL_UnLoadFbo_body_wf (B : Backend) (h : Host) (k : Handle) (hwf : h.dev.wf) :
    (GL_UnLoadFbo.body B h k).dev.wf := by
  unfold GL_UnLoadFbo.body
  simp only [List.foldl_cons, List.foldl_nil, GL_UnLoadFbo.texture]
  exact Host.call_wf B _ _ (Host.call_wf B _ _ (Host.call_wf B _ _ (Host.call_wf B _ _
    (Host.call_wf B _ _ (Host.call_wf B _ _ (Host.call_wf B _ _ hwf))))))

theorem Ray.Release_wf (B : Backend) (pending : Nat) (h : Host) (hwf : h.dev.wf) :
    (ray.Ray.Release B pending h).dev.wf := by
  unfold ray.Ray.Release
  rw [Host.check_dev]
  have h1 : (GL_UnLoadScreenRender B h).dev.wf := Host.call_wf B _ _ hwf
  have h2 : (GL_UnLoadImgData B (GL_UnLoadScreenRender B h)).dev.wf := Host.call_wf B _ _ h1
  have h3 : (GL_UnLoadCamRay B (GL_UnLoadImgData B (GL_UnLoadScreenRender B h))).dev.wf :=
    Host.call_wf B _ _ (Host.call_wf B _ _ h2)
  generalize GL_UnLoadCamRay B (GL_UnLoadImgData B (GL_UnLoadScreenRender B h)) = x3 at *
  have h4 : (GL_UnLoadFbo B x3).dev.wf :=
    GL_UnLoadFbo_body_wf B _ _ (GL_UnLoadFbo_body_wf B _ _ h3)
  generalize GL_UnLoadFbo B x3 = x4 at *
  have h5 : (GL_UnLoadUbo B x4).dev.wf := Host.call_wf B _ _ (Host.call_wf B _ _ h4)
  generalize GL_UnLoadUbo B x4 = x5 at *
  exact GL_UnLoadShader_body_wf B _ _ (GL_UnLoadShader_body_wf B _ _
    (GL_UnLoadShader_body_wf B _ _ (GL_UnLoadShader_body_wf B _ _ h5)))

theorem sample.B_le (l : List Nat) (a : Nat) :
    a ≤ l.foldl max a ∧ ∀ x ∈ l, x ≤ l.foldl max a := by
  induction l generalizing a with
  | nil => exact ⟨le_refl a, fun x hx => absurd hx (List.not_mem_nil _)⟩
  | cons y ys ih =>
    obtain ⟨h1, h2⟩ := ih (max a y)
    refine ⟨le_trans (le_max_left a y) h1, ?_⟩
    intro x hx
    rcases List.mem_cons.1 hx with hx | hx
    · rw [hx]; exact le_trans (le_max_right a y) h1
    · exact h2 x hx

theorem sample.B_fresh : sample.B.fresh := by
  intro l
  refine ⟨?_, Nat.succ_ne_zero _⟩
  intro hm
  have := (sample.B_le l 0).2 _ hm
  simp only [sample.B] at this
  omega

theorem Mock.wf_empty : ({} : Mock).wf := fun _ hq => absurd hq (List.not_mem_nil _)

/-- C11. For every state of the statics (the twelve handle variables included),
of the mock device, and whatever the error check finds, each of the twelve
device-handle variables is 0 after `Ray::Release`. -/
theorem C11_release_zeroes_handles (B : Backend) (pending : Nat) (h : Host) :
    (Ray.Release B pending h).st.ray2initprgm = 0
    ∧ (Ray.Release B pending h).st.ray2prgm = 0
    ∧ (Ray.Release B pending h).st.selectprgm = 0
    ∧ (Ray.Release B pending h).st.drawprgm = 0
    ∧ (Ray.Release B pending h).st.ubounitbuff = 0
    ∧ (Ray.Release B pending h).st.uboplbuff = 0
    ∧ (Ray.Release B pending h).st.ray2fbo = 0
    ∧ (Ray.Release B pending h).st.selectfbo = 0
    ∧ (Ray.Release B pending h).st.camraypostex = 0
    ∧ (Ray.Release B pending h).st.camraydirtex = 0
    ∧ (Ray.Release B pending h).st.imgtex = 0
    ∧ (Ray.Release B pending h).st.dummyvao = 0 :=
  ⟨Ray.Release_deref B pending h Handle.ray2initprgm,
   Ray.Release_deref B pending h Handle.ray2prgm,
   Ray.Release_deref B pending h Handle.selectprgm,
   Ray.Release_deref B pending h Handle.drawprgm,
   Ray.Release_deref B pending h Handle.ubounitbuff,
   Ray.Release_deref B pending h Handle.uboplbuff,
   Ray.Release_deref B pending h Handle.ray2fbo,
   Ray.Release_deref B pending h Handle.selectfbo,
   Ray.Release_deref B pending h Handle.camraypostex,
   Ray.Release_deref B pending h Handle.camraydirtex,
   Ray.Release_deref B pending h Handle.imgtex,
   Ray.Release_deref B pending h Handle.dummyvao⟩

/-- Witness of C11 from statics whose handles are not 0. -/
theorem C11_witness :
    (Ray.Release sample.B 1 { st := sample.handles }).st.drawprgm = 0 :=
  (C11_release_zeroes_handles sample.B 1 { st := sample.handles }).2.2.2.1

/-- C12. Over a mock device that names new objects with names not in use and
not 0, and on which the shaders attached to the programs in use are in use:
from any statics, let `Ray::Release`, `Ray::Initialize` and `Ray::Release` run
in turn.  `Ray::Initialize` creates 4 programs, 12 shaders, 2 buffers, 2 frame
buffers, 7 textures (the four attachments, the two camera-ray textures and the
mapping texture) and 1 vertex array.  After the second `Ray::Release` the names
in use of each kind are exactly those in use before `Ray::Initialize`, so no
object that `Ray::Initialize` created is alive, and every handle variable is 0. -/
theorem C12_release_initialize_release (B : Backend) (hB : B.fresh) (I : Inputs)
    (p0 p1 p2 : Nat) (h : Host) (hwf : h.dev.wf) :
    ((Ray.Initialize B I p1 (Ray.Release B p0 h)).dev.programs
        = B.names (Ray.Release B p0 h).dev.programs 4
      ∧ (Ray.Initialize B I p1 (Ray.Release B p0 h)).dev.shaders
        = B.names (Ray.Release B p0 h).dev.shaders 12
      ∧ (Ray.Initialize B I p1 (Ray.Release B p0 h)).dev.buffers
        = B.names (Ray.Release B p0 h).dev.buffers 2
      ∧ (Ray.Initialize B I p1 (Ray.Release B p0 h)).dev.framebuffers
        = B.names (Ray.Release B p0 h).dev.framebuffers 2
      ∧ (Ray.Initialize B I p1 (Ray.Release B p0 h)).dev.textures
        = B.names (Ray.Release B p0 h).dev.textures 7
      ∧ (Ray.Initialize B I p1 (Ray.Release B p0 h)).dev.vertexArrays
        = B.names (Ray.Release B p0 h).dev.vertexArrays 1)
    ∧ ((Ray.Release B p2 (Ray.Initialize B I p1 (Ray.Release B p0 h))).dev.programs
        = (Ray.Release B p0 h).dev.programs
      ∧ (Ray.Release B p2 (Ray.Initialize B I p1 (Ray.Release B p0 h))).dev.shaders
        = (Ray.Release B p0 h).dev.shaders
      ∧ (Ray.Release B p2 (Ray.Initialize B I p1 (Ray.Release B p0 h))).dev.buffers
        = (Ray.Release B p0 h).dev.buffers
      ∧ (Ray.Release B p2 (Ray.Initialize B I p1 (Ray.Release B p0 h))).dev.framebuffers
        = (Ray.Release B p0 h).dev.framebuffers
      ∧ (Ray.Release B p2 (Ray.Initialize B I p1 (Ray.Release B p0 h))).dev.textures
        = (Ray.Release B p0 h).dev.textures
      ∧ (Ray.Release B p2 (Ray.Initialize B I p1 (Ray.Release B p0 h))).dev.vertexArrays
        = (Ray.Release B p0 h).dev.vertexArrays)
    ∧ (∀ j, B.name (Ray.Release B p0 h).dev.programs j
          ∉ (Ray.Release B p2 (Ray.Initialize B I p1 (Ray.Release B p0 h))).dev.programs)
    ∧ (∀ j, B.name (Ray.Release B p0 h).dev.shaders j
          ∉ (Ray.Release B p2 (Ray.Initialize B I p1 (Ray.Release B p0 h))).dev.shaders)
    ∧ (∀ j, B.name (Ray.Release B p0 h).dev.buffers j
          ∉ (Ray.Release B p2 (Ray.Initialize B I p1 (Ray.Release B p0 h))).dev.buffers)
    ∧ (∀ j, B.name (Ray.Release B p0 h).dev.framebuffers j
          ∉ (Ray.Release B p2 (Ray.Initialize B I p1 (Ray.Release B p0 h))).dev.framebuffers)
    ∧ (∀ j, B.name (Ray.Release B p0 h).dev.textures j
          ∉ (Ray.Release B p2 (Ray.Initialize B I p1 (Ray.Release B p0 h))).dev.textures)
    ∧ (∀ j, B.name (Ray.Release B p0 h).dev.vertexArrays j
          ∉ (Ray.Release B p2 (Ray.Initialize B I p1 (Ray.Release B p0 h))).dev.vertexArrays)
    ∧ ∀ k : Handle,
        (Ray.Release B p2 (Ray.Initialize B I p1 (Ray.Release B p0 h))).st.deref k = 0 := by
  have hwf1 := Ray.Release_wf B p0 h hwf
  have hd := Ray.Initialize_dev B hB I p1 (Ray.Release B p0 h)
  obtain ⟨l1, l2, l3, l4, l5, l6⟩ :=
    Ray.Release_Initialize_live B hB I p1 p2 (Ray.Release B p0 h) hwf1
  refine ⟨⟨?_, ?_, ?_, ?_, ?_, ?_⟩, ⟨l1, l2, l3, l4, l5, l6⟩, ?_, ?_, ?_, ?_, ?_, ?_,
    Ray.Release_deref B p2 _⟩
  · rw [hd]
  · rw [hd]
  · rw [hd]
  · rw [hd]
  · rw [hd]
  · rw [hd]
  · intro j; rw [l1]; exact hB.name_not_mem _ j
  · intro j; rw [l2]; exact hB.name_not_mem _ j
  · intro j; rw [l3]; exact hB.name_not_mem _ j
  · intro j; rw [l4]; exact hB.name_not_mem _ j
  · intro j; rw [l5]; exact hB.name_not_mem _ j
  · intro j; rw [l6]; exact hB.name_not_mem _ j

/-- Witness of C12 on the sample device, from an empty device and the statics
of program start: the seven textures that `Ray::Initialize` creates are not in
use after the second `Ray::Release`. -/
theorem C12_witness :
    (Ray.Release sample.B 0 (Ray.Initialize sample.B sample.I 0
      (Ray.Release sample.B 0 {}))).dev.textures = (Ray.Release sample.B 0 {}).dev.textures
    ∧ (Ray.Initialize sample.B sample.I 0 (Ray.Release sample.B 0 {})).dev.textures
      = sample.B.names (Ray.Release sample.B 0 {}).dev.textures 7 :=
  ⟨(C12_release_initialize_release sample.B sample.B_fresh sample.I 0 0 0 {}
      Mock.wf_empty).2.1.2.2.2.2.1,
   (C12_release_initialize_release sample.B sample.B_fresh sample.I 0 0 0 {}
      Mock.wf_empty).1.2.2.2.2.1⟩

theorem GL_LoadCamRay.raytexindex (B : Backend) (W H : Nat) (pos dir : List float) (h : Host) :
    ([(Handle.camraypostex, pos), (Handle.camraydirtex, dir)].foldl
      (GL_LoadCamRay.texture B W H) ([], h)).1
      = [h.st.texindex.getD (h.st.textindex + 1), h.st.texindex.getD (h.st.textindex + 1)] := by
  simp only [List.foldl_cons, List.foldl_nil, GL_LoadCamRay_texture_fst,
    GL_LoadCamRay_texture_st, List.nil_append, List.singleton_append]
  obtain ⟨st, m, gl, cout⟩ := h
  cases st
  simp [setnewtextindex, gettextindex, Statics.assign]

set_option maxRecDepth 200000 in
/-- C13, evaluated. In every state the array `raytexindex` of `GL_LoadCamRay`
holds the same texture-unit index twice, the value of the static `texindex`,
which is initialised once: the value it already has, or `textindex + 1` on the
first call.  From the statics of program start, on the sample device,
`Ray::Initialize` binds its seven textures while the units 1, 2, 3, 4, 5, 5, 7
are active, so both camera-ray textures are bound to unit 5, and it sets the
sampler uniforms `raybuffer[0]` and `raybuffer[1]` of both programs to 5. -/
theorem C13_camera_ray_textures_share_unit :
    (∀ (B : Backend) (W H : Nat) (pos dir : List float) (h : Host),
      ([(Handle.camraypostex, pos), (Handle.camraydirtex, dir)].foldl
        (GL_LoadCamRay.texture B W H) ([], h)).1
        = [h.st.texindex.getD (h.st.textindex + 1), h.st.texindex.getD (h.st.textindex + 1)])
    ∧ textureBindings 0 (Ray.Initialize sample.B sample.I 0 {}).gl
      = [(1, GLenum.GL_TEXTURE_2D_ARRAY, 1), (2, GLenum.GL_TEXTURE_2D_ARRAY, 2),
         (3, GLenum.GL_TEXTURE_2D_ARRAY, 3), (4, GLenum.GL_TEXTURE_2D_ARRAY, 4),
         (5, GLenum.GL_TEXTURE_2D, 5), (5, GLenum.GL_TEXTURE_2D, 6),
         (7, GLenum.GL_TEXTURE_2D, 7)]
    ∧ intUniforms (Ray.Initialize sample.B sample.I 0 {}).gl
      = [(3, "depthbuffer", 1), (3, "indexbuffer", 2), (4, "depthbuffer", 3),
         (4, "indexbuffer", 4), (2, "raybuffer[0]", 5), (2, "raybuffer[1]", 5),
         (4, "raybuffer[0]", 5), (4, "raybuffer[1]", 5), (4, "img", 7)] :=
  ⟨GL_LoadCamRay.raytexindex, by decide, by decide⟩

theorem updatemat4_entries (F : FloatOps) (st : Statics) (M : Mat4) :
    updatemat4 F st M
      = ![![F.cos (updatemat4.angle F st.frame), F.neg (F.sin (updatemat4.angle F st.frame)),
            M 0 2, M 0 3],
          ![F.sin (updatemat4.angle F st.frame), F.cos (updatemat4.angle F st.frame),
            M 1 2, M 1 3],
          ![M 2 0, M 2 1, M 2 2, M 2 3],
          ![M 3 0, M 3 1, M 3 2, M 3 3]] := by
  funext i j
  fin_cases i <;> fin_cases j <;> rfl

theorem makeviewmat4_entries (F : FloatOps) (out : Mat4) (theta pos : Arr float 3) :
    makeviewmat4 F out theta pos
      = ![![F.cos (theta 2), F.sin (theta 2), float.zero,
            F.neg (dot3 F pos ![F.cos (theta 2), F.sin (theta 2), float.zero])],
          ![F.mul (F.neg (F.cos (F.add (theta 0) F.theta_start))) (F.sin (theta 2)),
            F.mul (F.cos (F.add (theta 0) F.theta_start)) (F.cos (theta 2)),
            F.sin (F.add (theta 0) F.theta_start),
            F.neg (dot3 F pos
              ![F.mul (F.neg (F.cos (F.add (theta 0) F.theta_start))) (F.sin (theta 2)),
                F.mul (F.cos (F.add (theta 0) F.theta_start)) (F.cos (theta 2)),
                F.sin (F.add (theta 0) F.theta_start)])],
          ![F.mul (F.sin (F.add (theta 0) F.theta_start)) (F.sin (theta 2)),
            F.mul (F.neg (F.sin (F.add (theta 0) F.theta_start))) (F.cos (theta 2)),
            F.cos (F.add (theta 0) F.theta_start),
            F.neg (dot3 F pos
              ![F.mul (F.sin (F.add (theta 0) F.theta_start)) (F.sin (theta 2)),
                F.mul (F.neg (F.sin (F.add (theta 0) F.theta_start))) (F.cos (theta 2)),
                F.cos (F.add (theta 0) F.theta_start)])],
          ![float.zero, float.zero, float.zero, float.zero]] := by
  funext i j
  fin_cases i <;> fin_cases j <;> rfl

/-- The four entries that `updatemat4` writes. -/
theorem updatemat4_block (F : FloatOps) (st : Statics) (M : Mat4) :
    updatemat4 F st M 0 0 = F.cos (updatemat4.angle F st.frame)
    ∧ updatemat4 F st M 0 1 = F.neg (F.sin (updatemat4.angle F st.frame))
    ∧ updatemat4 F st M 1 0 = F.sin (updatemat4.angle F st.frame)
    ∧ updatemat4 F st M 1 1 = F.cos (updatemat4.angle F st.frame) := by
  rw [updatemat4_entries]
  exact ⟨rfl, rfl, rfl, rfl⟩

/-- C23. For every float arithmetic, every 4x4 matrix and every value of the
frame counter, the rotate variant `updatemat4` leaves the twelve entries outside
the upper-left 2x2 block exactly as they were and sets the four entries of that
block to values made from the frame counter alone (`cos a`, `-sin a`, `sin a`,
`cos a` with `a = -(frame * 16.6667f) / 800.0f`), so that calls with the same
frame counter give the same block whatever the matrices held, and applying the
variant twice in a frame gives the same matrix as applying it once.  The
identity variant `updatemat4_default` leaves all sixteen entries unchanged.
The same holds for the calls through the function pointer. -/
theorem C23_update_variants (F : FloatOps) (st : Statics) (M : Mat4) :
    (∀ i j : Fin 4, ¬ (i.val < 2 ∧ j.val < 2) → updatemat4 F st M i j = M i j)
    ∧ (updatemat4 F st M 0 0 = F.cos (updatemat4.angle F st.frame)
      ∧ updatemat4 F st M 0 1 = F.neg (F.sin (updatemat4.angle F st.frame))
      ∧ updatemat4 F st M 1 0 = F.sin (updatemat4.angle F st.frame)
      ∧ updatemat4 F st M 1 1 = F.cos (updatemat4.angle F st.frame))
    ∧ (∀ (st' : Statics) (M' : Mat4), st'.frame = st.frame →
        ∀ i j : Fin 4, i.val < 2 → j.val < 2 → updatemat4 F st' M' i j = updatemat4 F st M i j)
    ∧ updatemat4 F st (updatemat4 F st M) = updatemat4 F st M
    ∧ (∀ i j : Fin 4, updatemat4_default M i j = M i j)
    ∧ UpdateFn.call F st UpdateFn.updatemat4 M = updatemat4 F st M
    ∧ UpdateFn.call F st UpdateFn.updatemat4_default M = M := by
  refine ⟨?_, updatemat4_block F st M, ?_, ?_, fun _ _ => rfl, rfl, rfl⟩
  · intro i j h
    rw [updatemat4_entries]
    fin_cases i <;> fin_cases j <;>
      first | exact absurd (And.intro (by decide) (by decide)) h | rfl
  · intro st' M' hfr i j hi hj
    have key : ∀ i : Fin 4, i.val < 2 → i = 0 ∨ i = 1 := by decide
    obtain ⟨a, b, c, d⟩ := updatemat4_block F st M
    obtain ⟨a', b', c', d'⟩ := updatemat4_block F st' M'
    rw [hfr] at a' b' c' d'
    rcases key i hi with rfl | rfl <;> rcases key j hj with rfl | rfl
    · exact a'.trans a.symm
    · exact b'.trans b.symm
    · exact c'.trans c.symm
    · exact d'.trans d.symm
  · rw [updatemat4_entries F st (updatemat4 F st M), updatemat4_entries F st M]
    funext i j
    fin_cases i <;> fin_cases j <;> rfl

/-- Witness of C23 at frame 7 with the sample arithmetic: entry `[2][3]` keeps
its value and entry `[1][0]` is the sine of the sample arithmetic. -/
theorem C23_witness :
    updatemat4 sample.F { frame := 7 } (fun _ _ => sample.fl 9) 2 3
      = (fun (_ _ : Fin 4) => sample.fl 9) 2 3
    ∧ updatemat4 sample.F { frame := 7 } (fun _ _ => sample.fl 9) 1 0
      = sample.F.sin (updatemat4.angle sample.F ({ frame := 7 } : Statics).frame) :=
  ⟨(C23_update_variants sample.F { frame := 7 } (fun _ _ => sample.fl 9)).1 2 3 (by decide),
   (C23_update_variants sample.F { frame := 7 } (fun _ _ => sample.fl 9)).2.1.2.2.1⟩

/-- C24. For every float arithmetic, every camera position and orientation and
whatever the output matrix held before, the matrix that `makeviewmat4` produces
has the fourth row `(0, 0, 0, 0)`, so its `[3][3]` entry is 0, has its `[0][2]`
entry equal to 0, and is the same for two orientations that agree in `theta[0]`
and `theta[2]`: `theta[1]` is not read.  The view matrix that `SetViewmat4`
stores has the same three properties. -/
theorem C24_view_matrix_shape (F : FloatOps) (out : Mat4) (theta pos : Arr float 3) :
    (∀ j : Fin 4, makeviewmat4 F out theta pos 3 j = float.zero)
    ∧ makeviewmat4 F out theta pos 0 2 = float.zero
    ∧ (∀ theta' : Arr float 3, theta' 0 = theta 0 → theta' 2 = theta 2 →
        makeviewmat4 F out theta' pos = makeviewmat4 F out theta pos)
    ∧ (∀ (cam : Camera) (st : Statics),
        (∀ j : Fin 4, (SetViewmat4 F cam st).viewmat4 3 j = float.zero)
        ∧ (SetViewmat4 F cam st).viewmat4 0 2 = float.zero
        ∧ ∀ cam' : Camera, cam'.pos = cam.pos → cam'.theta 0 = cam.theta 0 →
            cam'.theta 2 = cam.theta 2 →
            (SetViewmat4 F cam' st).viewmat4 = (SetViewmat4 F cam st).viewmat4) := by
  have row : ∀ (out : Mat4) (theta pos : Arr float 3) (j : Fin 4),
      makeviewmat4 F out theta pos 3 j = float.zero := by
    intro out theta pos j
    rw [makeviewmat4_entries]
    fin_cases j <;> rfl
  have e02 : ∀ (out : Mat4) (theta pos : Arr float 3),
      makeviewmat4 F out theta pos 0 2 = float.zero := by
    intro out theta pos
    rw [makeviewmat4_entries]
    rfl
  have indep : ∀ (out : Mat4) (theta theta' pos : Arr float 3), theta' 0 = theta 0 →
      theta' 2 = theta 2 → makeviewmat4 F out theta' pos = makeviewmat4 F out theta pos := by
    intro out theta theta' pos h0 h2
    rw [makeviewmat4_entries, makeviewmat4_entries, h0, h2]
  refine ⟨row out theta pos, e02 out theta pos, fun theta' => indep out theta theta' pos, ?_⟩
  intro cam st
  refine ⟨?_, ?_, ?_⟩
  · intro j
    rw [SetViewmat4_viewmat4]
    exact row _ _ _ j
  · rw [SetViewmat4_viewmat4]
    exact e02 _ _ _
  · intro cam' hp h0 h2
    rw [SetViewmat4_viewmat4, SetViewmat4_viewmat4, hp]
    exact indep _ _ _ _ h0 h2

/-- Witness of C24: two orientations that differ in `theta[1]` only give the
same matrix. -/
theorem C24_witness :
    makeviewmat4 sample.F Mat4.zero ![sample.fl 1, sample.fl 5, sample.fl 3]
        ![sample.fl 4, sample.fl 5, sample.fl 6]
      = makeviewmat4 sample.F Mat4.zero ![sample.fl 1, sample.fl 2, sample.fl 3]
        ![sample.fl 4, sample.fl 5, sample.fl 6] :=
  (C24_view_matrix_shape sample.F Mat4.zero ![sample.fl 1, sample.fl 2, sample.fl 3]
    ![sample.fl 4, sample.fl 5, sample.fl 6]).2.2.1
    ![sample.fl 1, sample.fl 5, sample.fl 3] rfl rfl

theorem Ray.nunits_unique (o : Ray.Object) (k m c : Nat) (hc : c ≤ k)
    (hne : ∀ j, j < c → (Arr.get o.unit (m + j)).linesize ≠ 0)
    (hstop : c < k → (Arr.get o.unit (m + c)).linesize = 0) :
    Ray.nunits o k m = c := by
  induction k generalizing m c with
  | zero =>
    have : c = 0 := by omega
    simp [Ray.nunits, this]
  | succ k ih =>
    simp only [Ray.nunits]
    cases c with
    | zero =>
      have h0 := hstop (by omega)
      simp only [add_zero] at h0
      rw [if_pos h0]
    | succ c =>
      have h0 := hne 0 (by omega)
      simp only [add_zero] at h0
      rw [if_neg h0]
      congr 1
      apply ih (m + 1) c (by omega)
      · intro j hj
        have := hne (j + 1) (by omega)
        rwa [show m + (j + 1) = m + 1 + j by omega] at this
      · intro hlt
        have := hstop (by omega)
        rwa [show m + (c + 1) = m + 1 + c by omega] at this

/-- Two descriptor objects that agree in every unit up to and including the
first one with line count 0 have the same accepted units. -/
theorem Ray.unitcount_congr (o o' : Ray.Object)
    (hu : ∀ m : Nat, (∀ q : Nat, q < m → (Arr.get o.unit q).linesize ≠ 0) →
      Arr.get o'.unit m = Arr.get o.unit m) :
    Ray.unitcount o' = Ray.unitcount o
    ∧ ∀ j : Nat, j < Ray.unitcount o → Arr.get o'.unit j = Arr.get o.unit j := by
  have hne : ∀ j : Nat, j < Ray.unitcount o → (Arr.get o.unit j).linesize ≠ 0 := by
    intro j hj
    have := Ray.nunits_ne o MAXUNITSIZE 0 j hj
    simpa using this
  have hq : ∀ m : Nat, m ≤ Ray.unitcount o → Arr.get o'.unit m = Arr.get o.unit m :=
    fun m hm => hu m (fun q hq => hne q (by omega))
  refine ⟨?_, fun j hj => hq j (by omega)⟩
  apply Ray.nunits_unique o' MAXUNITSIZE 0 (Ray.unitcount o) (Ray.unitcount_le o)
  · intro j hj
    simp only [zero_add]
    rw [hq j (by omega)]
    exact hne j hj
  · intro hlt
    simp only [zero_add]
    rw [hq _ (le_refl _)]
    have := Ray.nunits_stop o MAXUNITSIZE 0 hlt
    simpa [Ray.unitcount] using this

/-- What the constructor takes from a descriptor object is the same for two
objects that agree in the matrix, the update function and every unit up to and
including the first one with line count 0. -/
theorem Ray.objectAfter_congr (o o' : Ray.Object) (hmod : o'.modelmat = o.modelmat)
    (hupd : o'.updatemat4 = o.updatemat4)
    (hu : ∀ m : Nat, (∀ q : Nat, q < m → (Arr.get o.unit q).linesize ≠ 0) →
      Arr.get o'.unit m = Arr.get o.unit m) :
    Ray.unitcount o' = Ray.unitcount o
    ∧ Ray.linetotal o' = Ray.linetotal o
    ∧ (∀ P : Nat, Ray.objplane P o' = Ray.objplane P o)
    ∧ Ray.objatts o' = Ray.objatts o
    ∧ ∀ (p u : Int) (old : ray.Object), Ray.objectAfter o' p u old = Ray.objectAfter o p u old := by
  obtain ⟨hc, hj⟩ := Ray.unitcount_congr o o' hu
  refine ⟨hc, ?_, ?_, ?_, ?_⟩
  · simp only [Ray.linetotal, hc]
    apply Finset.sum_congr rfl
    intro j hjr
    rw [hj j (Finset.mem_range.mp hjr)]
  · intro P
    simp only [Ray.objplane, hc]
    exact flatMap_range_congr _ _ _ (fun j hjr => by rw [hj j hjr])
  · simp only [Ray.objatts, hc]
    apply List.map_congr_left
    intro j hjr
    rw [hj j (List.mem_range.mp hjr)]
  · intro p u old
    simp only [Ray.objectAfter, hc, hmod, hupd]
    congr 1
    funext i
    simp only [Ray.unitsAfter, Nat.zero_le, true_and, zero_add, Nat.sub_zero]
    split
    · next hi =>
      rw [hj i.val hi]
      congr 2
      apply Finset.sum_congr rfl
      intro j hjr
      rw [hj j (by have := Finset.mem_range.mp hjr; omega)]
    · rfl

/-- The constructor reads the units of a descriptor object only up to the first
one with line count 0. -/
theorem Ray.Ray_congr_units (P : Nat) (object object' : Arr Ray.Object MAXOBJECTSIZE)
    (st : Statics) (pending : Nat)
    (hmod : ∀ n : Nat, (Arr.get object' n).modelmat = (Arr.get object n).modelmat)
    (hupd : ∀ n : Nat, (Arr.get object' n).updatemat4 = (Arr.get object n).updatemat4)
    (hu : ∀ n m : Nat, (∀ q : Nat, q < m → Ray.linesizeAt object n q ≠ 0) →
      Arr.get (Arr.get object' n).unit m = Arr.get (Arr.get object n).unit m) :
    Ray.Ray P object' st pending = Ray.Ray P object st pending := by
  have hobj := fun n : Nat =>
    Ray.objectAfter_congr (Arr.get object n) (Arr.get object' n) (hmod n) (hupd n) (hu n)
  have hc' : Ray.nobjects object' MAXOBJECTSIZE 0 = Ray.nobjects object MAXOBJECTSIZE 0 := by
    apply Ray.nobjects_unique object' MAXOBJECTSIZE 0 _ (Ray.nobjects_le object _ _)
    · intro j hj
      have := Ray.nobjects_ne object MAXOBJECTSIZE 0 j hj
      simp only [zero_add] at this ⊢
      simp only [Ray.linesizeAt, hu j 0 (fun q hq => absurd hq (by omega))]
      exact this
    · intro hlt
      have := Ray.nobjects_stop object MAXOBJECTSIZE 0 hlt
      simp only [zero_add] at this ⊢
      simp only [Ray.linesizeAt, hu _ 0 (fun q hq => absurd hq (by omega))]
      exact this
  have key : Ray.objectLoop P object' MAXOBJECTSIZE 0
        { table := {}, st := st, objectsize := 0, plbuff := [], unitbuff := [] }
      = Ray.objectLoop P object MAXOBJECTSIZE 0
        { table := {}, st := st, objectsize := 0, plbuff := [], unitbuff := [] } := by
    rw [Ray.objectLoop_eq, Ray.objectLoop_eq]
    simp only [hc', zero_add]
    congr 1
    · congr 1
      funext i
      simp only [Ray.objectsAfter, (hobj _).1, (hobj _).2.1, (hobj _).2.2.2.2]
    · simp only [(hobj _).1, (hobj _).2.1]
    · congr 1
      exact flatMap_range_congr _ _ _ (fun j _ => (hobj j).2.2.1 P)
    · congr 1
      exact flatMap_range_congr _ _ _ (fun j _ => by rw [(hobj j).2.2.2.1])
  simp only [Ray.Ray, key]

theorem Arr.get_of_le {α : Type} [Inhabited α] {N : Nat} (a : Arr α N) (i : Nat) (h : N ≤ i) :
    Arr.get a i = default := by
  simp only [Arr.get, dif_neg (by omega : ¬ i < N)]

/-- C21. For every descriptor array, the table built by the constructor has
`0 <= objectsize <= MAXOBJECTSIZE`, and every live object `n` has
`1 <= unitsize <= MAXUNITSIZE` with `unitsize` the index of the first unit of
descriptor object `n` whose line count is 0, or `MAXUNITSIZE` when no unit has
line count 0.  The units after that index are ignored: a descriptor array with
the same matrices and update functions that agrees with this one in every unit
up to and including the first zero-line unit of each object gives the same
table, the same assembled arrays, the same counters, the same output and the
same OpenGL calls. -/
theorem C21_table_bounds (P : Nat) (object : Arr Ray.Object MAXOBJECTSIZE) (st : Statics)
    (pending : Nat) :
    (0 ≤ (Ray.Ray P object st pending).table.objectsize
      ∧ (Ray.Ray P object st pending).table.objectsize ≤ MAXOBJECTSIZE)
    ∧ (∀ n : Nat, (n : Int) < (Ray.Ray P object st pending).table.objectsize →
        1 ≤ (Arr.get (Ray.Ray P object st pending).table.object n).unitsize
        ∧ (Arr.get (Ray.Ray P object st pending).table.object n).unitsize ≤ MAXUNITSIZE
        ∧ ∃ c : Nat, (Arr.get (Ray.Ray P object st pending).table.object n).unitsize = c
            ∧ (∀ m : Nat, m < c → Ray.linesizeAt object n m ≠ 0)
            ∧ (c < MAXUNITSIZE → Ray.linesizeAt object n c = 0))
    ∧ (∀ object' : Arr Ray.Object MAXOBJECTSIZE,
        (∀ n : Nat, n < MAXOBJECTSIZE →
          (Arr.get object' n).modelmat = (Arr.get object n).modelmat
          ∧ (Arr.get object' n).updatemat4 = (Arr.get object n).updatemat4) →
        (∀ n m : Nat, n < MAXOBJECTSIZE → m < MAXUNITSIZE →
          (∀ q : Nat, q < m → Ray.linesizeAt object n q ≠ 0) →
          Arr.get (Arr.get object' n).unit m = Arr.get (Arr.get object n).unit m) →
        Ray.Ray P object' st pending = Ray.Ray P object st pending) := by
  refine ⟨⟨?_, ?_⟩, ?_, ?_⟩
  · rw [Ray.Ray_objectsize]
    exact Int.natCast_nonneg _
  · rw [Ray.Ray_objectsize]
    exact_mod_cast Ray.objectcount_le object
  · intro n hn
    have hn' : n < Ray.objectcount object := (Ray.Ray_liveobject_iff P object st pending n).mp hn
    have h0 : (Arr.get (Arr.get object n).unit 0).linesize ≠ 0 := by
      have := Ray.nobjects_ne object MAXOBJECTSIZE 0 n hn'
      simpa using this
    rw [Ray.Ray_unitsize P object st pending n hn']
    refine ⟨?_, ?_, Ray.unitcount (Arr.get object n), rfl, ?_, ?_⟩
    · exact_mod_cast Ray.unitcount_pos _ h0
    · exact_mod_cast Ray.unitcount_le _
    · intro m hm
      have := Ray.nunits_ne (Arr.get object n) MAXUNITSIZE 0 m hm
      simpa [Ray.linesizeAt] using this
    · intro hc
      have := Ray.nunits_stop (Arr.get object n) MAXUNITSIZE 0 hc
      simpa [Ray.linesizeAt, Ray.unitcount] using this
  · intro object' hmm hu
    have hobj : ∀ n : Nat, MAXOBJECTSIZE ≤ n → Arr.get object' n = Arr.get object n := by
      intro n hn
      rw [Arr.get_of_le _ _ hn, Arr.get_of_le _ _ hn]
    apply Ray.Ray_congr_units
    · intro n
      by_cases hn : n < MAXOBJECTSIZE
      · exact (hmm n hn).1
      · rw [hobj n (by omega)]
    · intro n
      by_cases hn : n < MAXOBJECTSIZE
      · exact (hmm n hn).2
      · rw [hobj n (by omega)]
    · intro n m h
      by_cases hn : n < MAXOBJECTSIZE
      · by_cases hm : m < MAXUNITSIZE
        · exact hu n m hn hm h
        · rw [Arr.get_of_le _ _ (by omega), Arr.get_of_le _ _ (by omega)]
      · rw [hobj n (by omega)]

/-- Witness of C21: the table of `sample.unitsTail` has two live objects, the
first of one unit, and the unit of four lines that follows the zero-line unit
of the first object changes nothing. -/
theorem C21_witness :
    ((1 : Int) ≤ (Arr.get (Ray.Ray 2 sample.unitsTail {} 0).table.object 0).unitsize
      ∧ (Arr.get (Ray.Ray 2 sample.unitsTail {} 0).table.object 0).unitsize ≤ MAXUNITSIZE
      ∧ ∃ c : Nat, (Arr.get (Ray.Ray 2 sample.unitsTail {} 0).table.object 0).unitsize = c
          ∧ (∀ m : Nat, m < c → Ray.linesizeAt sample.unitsTail 0 m ≠ 0)
          ∧ (c < MAXUNITSIZE → Ray.linesizeAt sample.unitsTail 0 c = 0))
    ∧ Ray.Ray 2 sample.unitsCut {} 0 = Ray.Ray 2 sample.unitsTail {} 0 :=
  ⟨(C21_table_bounds 2 sample.unitsTail {} 0).2.1 0 (by decide),
   (C21_table_bounds 2 sample.unitsTail {} 0).2.2 sample.unitsCut
     (by intro n hn; interval_cases n <;> exact ⟨rfl, rfl⟩)
     (by
      intro n m hn hm h
      interval_cases n <;> interval_cases m <;>
        first | rfl | exact absurd rfl (h 1 (by decide)))⟩

theorem Statics.assign_counters (st : Statics) (k : Handle) (v : Nat) :
    (st.assign k v).counters = st.counters := by
  cases k <;> rfl

theorem GL_UnLoadFbo_texture_counters (B : Backend) (h : Host) (att : GLenum) :
    (GL_UnLoadFbo.texture B h att).st.counters = h.st.counters := rfl

theorem GL_UnLoadFbo_body_counters (B : Backend) (h : Host) (fbo : Handle) :
    (GL_UnLoadFbo.body B h fbo).st.counters = h.st.counters := by
  simp only [GL_UnLoadFbo.body, List.foldl_cons, List.foldl_nil, Host.call_st, Host.store_st,
    Statics.assign_counters, GL_UnLoadFbo_texture_counters]

theorem GL_UnLoadFbo_counters (B : Backend) (h : Host) :
    (GL_UnLoadFbo B h).st.counters = h.st.counters := by
  simp only [GL_UnLoadFbo, List.foldl_cons, List.foldl_nil, GL_UnLoadFbo_body_counters]

theorem Ray.Release_counters (B : Backend) (pending : Nat) (h : Host) :
    (ray.Ray.Release B pending h).st.counters = h.st.counters := by
  rw [Ray.Release_st]
  simp only [Statics.assign_counters, GL_UnLoadFbo_counters]
  rfl

theorem GL_LoadShader_counters (B : Backend) (files : String → Option String) (h : Host) :
    (GL_LoadShader B files h).st.counters = h.st.counters := by
  simp only [GL_LoadShader, GL_LoadShader.prgmlist, List.foldl_cons, List.foldl_nil,
    GL_LoadShader_body_st, Statics.assign_counters]

theorem GL_LoadUbo_counters (B : Backend) (P : Nat) (h : Host) :
    (GL_LoadUbo B P h).st.counters = h.st.counters := by
  rw [GL_LoadUbo_st]
  rfl

theorem GL_LoadFbo_counters (B : Backend) (W H : Nat) (h : Host) :
    (GL_LoadFbo B W H h).st.counters = h.st.counters := by
  have s : ∀ st : Statics, (setnewtextindex st).counters = st.counters := fun _ => rfl
  simp only [GL_LoadFbo, GL_LoadFbo.fbolist, List.foldl_cons, List.foldl_nil,
    GL_LoadFbo_body_st, Statics.assign_counters, s]

theorem GL_LoadCamRay_counters (B : Backend) (W H : Nat) (pos dir : List float) (h : Host) :
    (GL_LoadCamRay B W H pos dir h).st.counters = h.st.counters := by
  rw [GL_LoadCamRay_st]
  rfl

theorem GL_LoadImgData_counters (B : Backend) (images : String → Option Image) (h : Host) :
    (GL_LoadImgData B images h).st.counters = h.st.counters := by
  rw [GL_LoadImgData_st]
  rfl

theorem GL_LoadScreenRender_counters (B : Backend) (h : Host) :
    (GL_LoadScreenRender B h).st.counters = h.st.counters := rfl

theorem Ray.Initialize_counters (B : Backend) (I : Inputs) (pending : Nat) (h : Host) :
    (ray.Ray.Initialize B I pending h).st.counters = h.st.counters := by
  unfold ray.Ray.Initialize
  simp only [Host.check_st, GL_LoadScreenRender_counters, GL_LoadImgData_counters,
    GL_LoadCamRay_counters, GL_LoadFbo_counters, GL_LoadUbo_counters, GL_LoadShader_counters,
    Host.call_st]

theorem Ray.Update_counters (F : FloatOps) (cam : Camera) (table : Table) (st : Statics)
    (pending : Nat) : (Ray.Update F cam table st pending).st.counters = st.counters := by
  have h := congrArg Statics.counters (Ray.Update_st_scrub F cam table st pending)
  exact h

theorem Ray.Ray_counters (P : Nat) (object : Arr Ray.Object MAXOBJECTSIZE) (st : Statics)
    (pending : Nat) :
    (Ray.Ray P object st pending).st.counters
      = (st.plbuffindex + ∑ n in Finset.range (Ray.objectcount object),
            ∑ m in Finset.range (Ray.unitcount (Arr.get object n)), Ray.linesizeAt object n m,
         st.unitbuffindex + ∑ n in Finset.range (Ray.objectcount object),
            (Ray.unitcount (Arr.get object n) : Int)) := by
  rw [Ray.Ray_st]
  rfl

theorem Ray.Ray_upload_offsets (P : Nat) (object : Arr Ray.Object MAXOBJECTSIZE) (st : Statics)
    (pending : Nat) :
    (uploads (Ray.Ray P object st pending).gl).map (fun u => u.1) = [0, 0] := by
  simp [Ray.Ray, uploads_append, GL_PlaneBuffer_Reset, GL_UnitBuffer_Reset_unitbuff,
    GL_CheckError, uploads_replicate_glGetError, uploads]

theorem Ray.Ray_unitsizeSum (P : Nat) (object : Arr Ray.Object MAXOBJECTSIZE) (st : Statics)
    (pending : Nat) :
    (Ray.Ray P object st pending).table.unitsizeSum =
      ∑ n in Finset.range (Ray.objectcount object), (Ray.unitcount (Arr.get object n) : Int) := by
  unfold Table.unitsizeSum
  rw [sum_map_range, Ray.Ray_objectsize, Int.toNat_ofNat]
  apply Finset.sum_congr rfl
  intro n hn
  rw [Ray.Ray_unitsize P object st pending n (Finset.mem_range.mp hn)]

theorem int32_of_inRange {x : Int} (h : int32.inRange x) : int32 x = x := by
  unfold int32.inRange at h
  unfold int32
  have : (x + 2 ^ 31) % 2 ^ 32 = x + 2 ^ 31 :=
    Int.emod_eq_of_lt (by omega) (by omega)
  omega

theorem machine_unitBody_eq (P : Nat) (u : Ray.Unit) (n m : Nat) (s : Ray.Inner)
    (h1 : int32.inRange (s.st.plbuffindex + u.linesize))
    (h2 : int32.inRange ((P : Int) * u.linesize)) :
    machine.Ray.unitBody P u n m s = Ray.unitBody P u n m s := by
  simp only [machine.Ray.unitBody, Ray.unitBody, machine.setnewplbuffindex, setnewplbuffindex,
    machine.Ray.pushplane, Ray.pushplane, int32_of_inRange h1, int32_of_inRange h2]

theorem machine_unitLoop_eq (P : Nat) (o : Ray.Object) (n k m : Nat) (s : Ray.Inner)
    (h : ∀ j : Nat, j < Ray.nunits o k m →
      int32.inRange (s.st.plbuffindex
        + ∑ i in Finset.range (j + 1), (Arr.get o.unit (m + i)).linesize)
      ∧ int32.inRange ((P : Int) * (Arr.get o.unit (m + j)).linesize)) :
    machine.Ray.unitLoop P o n k m s = Ray.unitLoop P o n k m s := by
  induction k generalizing m s with
  | zero => rfl
  | succ k ih =>
    simp only [machine.Ray.unitLoop, Ray.unitLoop]
    by_cases h0 : (Arr.get o.unit m).linesize = 0
    · rw [if_pos h0, if_pos h0]
    · rw [if_neg h0, if_neg h0]
      have hn : Ray.nunits o (k + 1) m = Ray.nunits o k (m + 1) + 1 := by
        simp only [Ray.nunits, if_neg h0]
      have h00 := h 0 (by omega)
      simp only [zero_add, Finset.sum_range_one, add_zero] at h00
      rw [machine_unitBody_eq P _ n m s h00.1 h00.2]
      apply ih
      intro j hj
      have hj1 := h (j + 1) (by omega)
      have hs : ∑ i in Finset.range (j + 1), (Arr.get o.unit (m + (i + 1))).linesize
          = ∑ i in Finset.range (j + 1), (Arr.get o.unit (m + 1 + i)).linesize :=
        Finset.sum_congr rfl (fun i _ => by rw [show m + (i + 1) = m + 1 + i by omega])
      rw [Finset.sum_range_succ', hs, show m + (j + 1) = m + 1 + j by omega, add_zero] at hj1
      have e : (Ray.unitBody P (Arr.get o.unit m) n m s).st.plbuffindex
          = s.st.plbuffindex + (Arr.get o.unit m).linesize := rfl
      rw [e]
      refine ⟨?_, hj1.2⟩
      have := hj1.1
      rwa [add_assoc, add_comm ((Arr.get o.unit m).linesize)]

theorem machine_objectBody_eq (P : Nat) (o : Ray.Object) (n : Nat) (s : Ray.Outer)
    (hu : int32.inRange (s.st.unitbuffindex + (Ray.unitcount o : Int)))
    (h : ∀ j : Nat, j < Ray.unitcount o →
      int32.inRange (s.st.plbuffindex
        + ∑ i in Finset.range (j + 1), (Arr.get o.unit i).linesize)
      ∧ int32.inRange ((P : Int) * (Arr.get o.unit j).linesize)) :
    machine.Ray.objectBody P o n s = Ray.objectBody P o n s := by
  have hl : machine.Ray.unitLoop P o n MAXUNITSIZE 0
        { table := s.table, st := s.st, unitsize := 0, tmpunitbuff := [], tmpplbuff := [] }
      = Ray.unitLoop P o n MAXUNITSIZE 0
        { table := s.table, st := s.st, unitsize := 0, tmpunitbuff := [], tmpplbuff := [] } := by
    apply machine_unitLoop_eq
    intro j hj
    simpa using h j hj
  simp only [machine.Ray.objectBody, Ray.objectBody, hl]
  congr 1
  simp only [machine.setunitbuffindex, setunitbuffindex, Ray.unitLoop_unitsize, Ray.unitLoop_st,
    setnewplbuffindex, zero_add]
  have hu' : int32.inRange (s.st.unitbuffindex + (Ray.nunits o MAXUNITSIZE 0 : Int)) := hu
  rw [int32_of_inRange hu']

theorem machine_objectLoop_eq (P : Nat) (object : Arr Ray.Object MAXOBJECTSIZE) (k n : Nat)
    (s : Ray.Outer)
    (h : ∀ j : Nat, j < Ray.nobjects object k n →
      int32.inRange (s.st.unitbuffindex
        + ∑ i in Finset.range (j + 1), (Ray.unitcount (Arr.get object (n + i)) : Int))
      ∧ ∀ m : Nat, m < Ray.unitcount (Arr.get object (n + j)) →
          int32.inRange (s.st.plbuffindex
            + ∑ i in Finset.range j, Ray.linetotal (Arr.get object (n + i))
            + ∑ q in Finset.range (m + 1), Ray.linesizeAt object (n + j) q)
          ∧ int32.inRange ((P : Int) * Ray.linesizeAt object (n + j) m)) :
    machine.Ray.objectLoop P object k n s = Ray.objectLoop P object k n s := by
  induction k generalizing n s with
  | zero => rfl
  | succ k ih =>
    simp only [machine.Ray.objectLoop, Ray.objectLoop]
    by_cases h0 : (Arr.get (Arr.get object n).unit 0).linesize = 0
    · rw [if_pos h0, if_pos h0]
    · rw [if_neg h0, if_neg h0]
      have hn : Ray.nobjects object (k + 1) n = Ray.nobjects object k (n + 1) + 1 := by
        simp only [Ray.nobjects, if_neg h0]
      have h00 := h 0 (by omega)
      simp only [zero_add, Finset.sum_range_one, add_zero, Finset.range_zero,
        Finset.sum_empty] at h00
      rw [machine_objectBody_eq P (Arr.get object n) n s h00.1 h00.2]
      apply ih
      intro j hj
      have hj1 := h (j + 1) (by omega)
      rw [Ray.objectBody_eq]
      simp only [Statics.advance]
      have e1 : ∑ i in Finset.range (j + 1 + 1), (Ray.unitcount (Arr.get object (n + i)) : Int)
          = (Ray.unitcount (Arr.get object n) : Int)
            + ∑ i in Finset.range (j + 1), (Ray.unitcount (Arr.get object (n + 1 + i)) : Int) := by
        rw [Finset.sum_range_succ', add_zero, add_comm]
        congr 1
        exact Finset.sum_congr rfl (fun i _ => by rw [show n + (i + 1) = n + 1 + i by omega])
      have e2 : ∑ i in Finset.range (j + 1), Ray.linetotal (Arr.get object (n + i))
          = Ray.linetotal (Arr.get object n)
            + ∑ i in Finset.range j, Ray.linetotal (Arr.get object (n + 1 + i)) := by
        rw [Finset.sum_range_succ', add_zero, add_comm]
        congr 1
        exact Finset.sum_congr rfl (fun i _ => by rw [show n + (i + 1) = n + 1 + i by omega])
      rw [e1, e2, show n + (j + 1) = n + 1 + j by omega] at hj1
      refine ⟨?_, ?_⟩
      · have := hj1.1
        rwa [← add_assoc] at this
      · intro m hm
        have := hj1.2 m hm
        refine ⟨?_, this.2⟩
        have t := this.1
        rwa [← add_assoc s.st.plbuffindex] at t

/-- Where no `int` computation of the constructor leaves the range of `int`,
the machine run and the run over exact integers are the same. -/
theorem machine_Ray_eq (P : Nat) (object : Arr Ray.Object MAXOBJECTSIZE) (st : Statics)
    (pending : Nat) (h : Ray.inRange P object st) :
    machine.Ray.Ray P object st pending = Ray.Ray P object st pending := by
  have key : machine.Ray.objectLoop P object MAXOBJECTSIZE 0
        { table := {}, st := st, objectsize := 0, plbuff := [], unitbuff := [] }
      = Ray.objectLoop P object MAXOBJECTSIZE 0
        { table := {}, st := st, objectsize := 0, plbuff := [], unitbuff := [] } := by
    apply machine_objectLoop_eq
    intro j hj
    simpa using h j hj
  simp only [machine.Ray.Ray, Ray.Ray, key]

theorem machine_call_of_ne (F : FloatOps) (st : Statics) (fn : UpdateFn) (M : Mat4)
    (h : fn ≠ UpdateFn.nullptr) :
    machine.UpdateFn.call F st fn M = some (UpdateFn.call F st fn M) := by
  cases fn
  · exact absurd rfl h
  · rfl
  · rfl

theorem machine_movements_fold (F : FloatOps) (st : Statics) (table : Table) (N : Nat)
    (h : ∀ n : Nat, n < N → (Arr.get table.object n).updatemat4 ≠ UpdateFn.nullptr) :
    (List.range N).foldl
        (fun t n => t.bind (fun t =>
          (machine.UpdateFn.call F st (Arr.get t.object n).updatemat4
              (Arr.get t.object n).modelmat4).map
            (fun M => t.modifyObject n (fun o => { o with modelmat4 := M }))))
        (some table)
      = some ((List.range N).foldl
        (fun t n => t.modifyObject n
          (fun o => { o with modelmat4 := UpdateFn.call F st o.updatemat4 o.modelmat4 }))
        table) := by
  induction N with
  | zero => rfl
  | succ N ih =>
    rw [foldl_range_succ, foldl_range_succ, ih (fun n hn => h n (by omega))]
    have hN := (Ray.Update.movements_fold F st table N N).2
    rw [if_neg (lt_irrefl N)] at hN
    rw [Option.some_bind, machine_call_of_ne F st _ _ (by rw [hN]; exact h N (by omega))]
    rfl

theorem machine_movements_none (F : FloatOps) (st : Statics) (table : Table) (N : Nat)
    (h : ∃ n : Nat, n < N ∧ (Arr.get table.object n).updatemat4 = UpdateFn.nullptr) :
    (List.range N).foldl
        (fun t n => t.bind (fun t =>
          (machine.UpdateFn.call F st (Arr.get t.object n).updatemat4
              (Arr.get t.object n).modelmat4).map
            (fun M => t.modifyObject n (fun o => { o with modelmat4 := M }))))
        (some table)
      = none := by
  induction N with
  | zero => obtain ⟨n, hn, -⟩ := h; omega
  | succ N ih =>
    rw [foldl_range_succ]
    by_cases hex : ∃ n : Nat, n < N ∧ (Arr.get table.object n).updatemat4 = UpdateFn.nullptr
    · rw [ih hex]
      rfl
    · have hall : ∀ n : Nat, n < N → (Arr.get table.object n).updatemat4 ≠ UpdateFn.nullptr :=
        fun n hn hnull => hex ⟨n, hn, hnull⟩
      obtain ⟨n, hn, hnull⟩ := h
      have hnN : n = N := by
        by_contra hne
        exact hex ⟨n, by omega, hnull⟩
      subst hnN
      rw [machine_movements_fold F st table n hall]
      have hN := (Ray.Update.movements_fold F st table n n).2
      rw [if_neg (lt_irrefl n)] at hN
      rw [Option.some_bind, hN, hnull]
      rfl

/-- Two loops over `0..k-1` whose bodies agree on the states that the second
one runs through give the same result. -/
theorem foldl_range_eq_of_inv {β : Type} (fM fI : β → Nat → β) (I : Nat → β → Prop) (k : Nat)
    (b : β) (h0 : I 0 b)
    (hstep : ∀ i : Nat, i < k → ∀ x : β, I i x → fM x i = fI x i ∧ I (i + 1) (fI x i)) :
    (List.range k).foldl fM b = (List.range k).foldl fI b ∧ I k ((List.range k).foldl fI b) := by
  induction k with
  | zero => exact ⟨rfl, h0⟩
  | succ k ih =>
    obtain ⟨e, hI⟩ := ih (fun i hi => hstep i (by omega))
    rw [foldl_range_succ, foldl_range_succ, e]
    exact hstep k (by omega) _ hI

theorem machine_upload_inner (start : Int) (k : Nat) (g : Gpu)
    (h : ∀ i : Nat, i < k → int32.inRange ((i : Int) + start) ∧ int32.inRange ((i : Int) + 1))
    (h0 : g.st.ubooffset = 0) (h1 : g.st.ubounitstartindex = start) :
    (List.range k).foldl (fun g _ => machine.GL_UnitBuffer_Update g) g
      = (List.range k).foldl (fun g _ => GL_UnitBuffer_Update g) g := by
  refine (foldl_range_eq_of_inv (fun g _ => machine.GL_UnitBuffer_Update g)
    (fun g _ => GL_UnitBuffer_Update g)
    (fun i x => x.st.ubooffset = (i : Int) ∧ x.st.ubounitstartindex = start) k g
    ⟨by simpa using h0, h1⟩ ?_).1
  intro i hi x hx
  obtain ⟨a, b⟩ := h i hi
  refine ⟨?_, ?_, ?_⟩
  · simp only [machine.GL_UnitBuffer_Update, GL_UnitBuffer_Update, Gpu.emit, hx.1, hx.2,
      int32_of_inRange a, int32_of_inRange b]
  · show x.st.ubooffset + 1 = ((i + 1 : Nat) : Int)
    rw [hx.1]; push_cast; rfl
  · exact hx.2

theorem machine_passes_inner (o : Object) (k : Nat) (g : Gpu)
    (h : ∀ i : Nat, i < k → int32.inRange ((i : Int) + o.unitstart)
      ∧ int32.inRange ((i : Int) + 1) ∧ int32.inRange (6 * (Arr.get o.unit i).plsize))
    (h0 : g.st.ray2offset = 0) (h1 : g.st.ray2unitstartindex = o.unitstart) :
    (List.range k).foldl (fun g m => machine.GL_Ray2Buffer_Update (Arr.get o.unit m) g) g
      = (List.range k).foldl (fun g m => GL_Ray2Buffer_Update (Arr.get o.unit m) g) g := by
  refine (foldl_range_eq_of_inv
    (fun g m => machine.GL_Ray2Buffer_Update (Arr.get o.unit m) g)
    (fun g m => GL_Ray2Buffer_Update (Arr.get o.unit m) g)
    (fun i x => x.st.ray2offset = (i : Int) ∧ x.st.ray2unitstartindex = o.unitstart) k g
    ⟨by simpa using h0, h1⟩ ?_).1
  intro i hi x hx
  obtain ⟨a, b, c⟩ := h i hi
  refine ⟨?_, ?_, ?_⟩
  · simp only [machine.GL_Ray2Buffer_Update, GL_Ray2Buffer_Update, Gpu.emit, hx.1, hx.2,
      int32_of_inRange a, int32_of_inRange b, int32_of_inRange c]
  · show x.st.ray2offset + 1 = ((i + 1 : Nat) : Int)
    rw [hx.1]; push_cast; rfl
  · exact hx.2

/-- A loop over `0..k-1` whose body is replaced by one that agrees with it on
every index of the range. -/
theorem foldl_range_congr_body {β : Type} (fM fI : β → Nat → β) (k : Nat) (b : β)
    (h : ∀ i : Nat, i < k → ∀ x : β, fM x i = fI x i) :
    (List.range k).foldl fM b = (List.range k).foldl fI b :=
  (foldl_range_eq_of_inv fM fI (fun _ _ => True) k b trivial
    (fun i hi x _ => ⟨h i hi x, trivial⟩)).1

theorem machine_upload_eq (table : Table) (g : Gpu) (h : Ray.Update.inRange table) :
    machine.Ray.Update.upload table g = Ray.Update.upload table g := by
  unfold machine.Ray.Update.upload Ray.Update.upload
  apply foldl_range_congr_body
  intro n hn x
  apply machine_upload_inner (Arr.get table.object n).unitstart
  · intro i hi
    exact ⟨(h n hn i hi).1, (h n hn i hi).2.1⟩
  · rfl
  · rfl

theorem machine_passes_eq (table : Table) (g : Gpu) (h : Ray.Update.inRange table) :
    machine.Ray.Update.passes table g = Ray.Update.passes table g := by
  unfold machine.Ray.Update.passes Ray.Update.passes
  apply foldl_range_congr_body
  intro n hn x
  rw [machine_passes_inner (Arr.get table.object n)]
  · intro i hi
    exact h n hn i hi
  · rfl
  · rfl

/-- The loop of lines 105-109 leaves `Ray.Update.inRange` as it was. -/
theorem Ray.Update.inRange_movements (F : FloatOps) (st : Statics) (table : Table)
    (h : ray.Ray.Update.inRange table) :
    ray.Ray.Update.inRange (ray.Ray.Update.movements F st table) := by
  have hf := fun n => ray.Ray.Update.movements_fold F st table table.objectsize.toNat n
  have hobj : ∀ n : Nat, n < table.objectsize.toNat →
      (Arr.get (ray.Ray.Update.movements F st table).object n).unitsize
          = (Arr.get table.object n).unitsize
        ∧ (Arr.get (ray.Ray.Update.movements F st table).object n).unitstart
          = (Arr.get table.object n).unitstart
        ∧ (Arr.get (ray.Ray.Update.movements F st table).object n).unit
          = (Arr.get table.object n).unit := by
    intro n hn
    have := (hf n).2
    rw [if_pos hn] at this
    unfold ray.Ray.Update.movements
    rw [this]
    exact ⟨rfl, rfl, rfl⟩
  have hsize : (ray.Ray.Update.movements F st table).objectsize = table.objectsize := (hf 0).1
  intro n hn m hm
  rw [hsize] at hn
  obtain ⟨a, b, c⟩ := hobj n hn
  rw [a] at hm
  simp only [Table.unitAt, a, b, c]
  exact h n hn m hm

/-- Where every object has an update function and no `int` computation leaves
the range of `int`, `Ray::Update` on the machine returns, with the result of the
run over exact integers. -/
theorem machine_Update_eq (F : FloatOps) (cam : Camera) (table : Table) (st : Statics)
    (pending : Nat) (hfn : table.hasUpdateFns) (hr : Ray.Update.inRange table) :
    machine.Ray.Update F cam table st pending = some (Ray.Update F cam table st pending) := by
  have hm : machine.Ray.Update.movements F (SetViewmat4 F cam (SetNewFrame st)) table
      = some (Ray.Update.movements F (SetViewmat4 F cam (SetNewFrame st)) table) :=
    machine_movements_fold F _ table table.objectsize.toNat hfn
  have hr1 := Ray.Update.inRange_movements F (SetViewmat4 F cam (SetNewFrame st)) table hr
  simp only [machine.Ray.Update, hm, Option.map_some', ray.Ray.Update,
    machine_upload_eq _ _ hr1, machine_passes_eq _ _ hr1]

/-- Where an object `n < objectsize` has no update function, `Ray::Update` on
the machine does not return and issues no OpenGL call. -/
theorem machine_Update_none (F : FloatOps) (cam : Camera) (table : Table) (st : Statics)
    (pending : Nat) (h : ¬ table.hasUpdateFns) :
    machine.Ray.Update F cam table st pending = none
    ∧ machine.Ray.Update.issued F cam table st pending = [] := by
  have hex : ∃ n : Nat, n < table.objectsize.toNat
      ∧ (Arr.get table.object n).updatemat4 = UpdateFn.nullptr := by
    unfold Table.hasUpdateFns at h
    push_neg at h
    exact h
  have hm : machine.Ray.Update.movements F (SetViewmat4 F cam (SetNewFrame st)) table = none :=
    machine_movements_none F _ table table.objectsize.toNat hex
  have h1 : machine.Ray.Update F cam table st pending = none := by
    simp only [machine.Ray.Update, hm, Option.map_none']
  exact ⟨h1, by simp only [machine.Ray.Update.issued, h1]⟩

/-- C1 fails as stated.  The accepted units of `sample.objects` all have
positive line counts.  Constructed on the machine with the plane counter at
2147483645, unit 1 of object 0 is the last unit of object 0, starts at
2147483647 and has one line; `plbuffindex += 1` then wraps, and unit 0 of
object 1 starts at -2147483648, which is not where the unit before it ends. -/
theorem C1_counterexample :
    (∀ n m : Nat, Ray.accepted sample.objects n m → 0 < Ray.linesizeAt sample.objects n m)
    ∧ (machine.Ray.Ray 2 sample.objects { plbuffindex := 2147483645 } 0).table.live 0 1
    ∧ (machine.Ray.Ray 2 sample.objects { plbuffindex := 2147483645 } 0).table.live 1 0
    ∧ (Arr.get (machine.Ray.Ray 2 sample.objects { plbuffindex := 2147483645 } 0).table.object
        0).unitsize = 2
    ∧ ((machine.Ray.Ray 2 sample.objects { plbuffindex := 2147483645 } 0).table.unitAt 0 1).plstart
        = 2147483647
    ∧ ((machine.Ray.Ray 2 sample.objects { plbuffindex := 2147483645 } 0).table.unitAt 0 1).plsize
        = 1
    ∧ ((machine.Ray.Ray 2 sample.objects { plbuffindex := 2147483645 } 0).table.unitAt 1 0).plstart
        = -2147483648
    ∧ ((machine.Ray.Ray 2 sample.objects { plbuffindex := 2147483645 } 0).table.unitAt 1 0).plstart
        ≠ ((machine.Ray.Ray 2 sample.objects { plbuffindex := 2147483645 } 0).table.unitAt 0
            1).plstart
          + ((machine.Ray.Ray 2 sample.objects { plbuffindex := 2147483645 } 0).table.unitAt 0
            1).plsize :=
  ⟨sample.objects_pos, by decide, by decide, by decide, by decide, by decide, by decide,
    by decide⟩

/-- C1, amended. For a descriptor array whose accepted units all have a positive
line count, constructed on the machine from counters with which no `int`
computation of the constructor leaves the range of `int`: the live units of the
table are exactly the accepted units, each with its descriptor line count as
`plsize`, and their plane ranges `[plstart, plstart + plsize)` are contiguous
in descriptor order: unit 0 of object 0 starts at the value the plane counter
had when the constructor began; inside an object each further unit starts where
the one before it ends; unit 0 of the next object starts where the last unit of
the object before it ends; and so no plane index lies in the ranges of two
different live units. -/
theorem C1_plane_ranges_contiguous (P : Nat) (object : Arr Ray.Object MAXOBJECTSIZE)
    (st : Statics) (pending : Nat)
    (hpos : ∀ n m : Nat, Ray.accepted object n m → 0 < Ray.linesizeAt object n m)
    (hr : Ray.inRange P object st) :
    (∀ n m : Nat, (machine.Ray.Ray P object st pending).table.live n m ↔ Ray.accepted object n m)
    ∧ (∀ n m : Nat, (machine.Ray.Ray P object st pending).table.live n m →
        ((machine.Ray.Ray P object st pending).table.unitAt n m).plsize
          = Ray.linesizeAt object n m)
    ∧ ((machine.Ray.Ray P object st pending).table.live 0 0 →
        ((machine.Ray.Ray P object st pending).table.unitAt 0 0).plstart = getplbuffindex st)
    ∧ (∀ n m : Nat, (machine.Ray.Ray P object st pending).table.live n (m + 1) →
        ((machine.Ray.Ray P object st pending).table.unitAt n (m + 1)).plstart
          = ((machine.Ray.Ray P object st pending).table.unitAt n m).plstart
            + ((machine.Ray.Ray P object st pending).table.unitAt n m).plsize)
    ∧ (∀ n m : Nat, (machine.Ray.Ray P object st pending).table.live (n + 1) 0 →
        (m : Int) + 1 = (Arr.get (machine.Ray.Ray P object st pending).table.object n).unitsize →
        ((machine.Ray.Ray P object st pending).table.unitAt (n + 1) 0).plstart
          = ((machine.Ray.Ray P object st pending).table.unitAt n m).plstart
            + ((machine.Ray.Ray P object st pending).table.unitAt n m).plsize)
    ∧ (∀ n m n' m' : Nat, (machine.Ray.Ray P object st pending).table.live n m →
        (machine.Ray.Ray P object st pending).table.live n' m' → (n ≠ n' ∨ m ≠ m') →
        ∀ x : Int,
          ¬ ((((machine.Ray.Ray P object st pending).table.unitAt n m).plstart ≤ x
              ∧ x < ((machine.Ray.Ray P object st pending).table.unitAt n m).plstart
                    + ((machine.Ray.Ray P object st pending).table.unitAt n m).plsize)
            ∧ (((machine.Ray.Ray P object st pending).table.unitAt n' m').plstart ≤ x
              ∧ x < ((machine.Ray.Ray P object st pending).table.unitAt n' m').plstart
                    + ((machine.Ray.Ray P object st pending).table.unitAt n' m').plsize))) := by
  rw [machine_Ray_eq P object st pending hr]
  refine ⟨Ray.Ray_live_iff_accepted P object st pending, ?_,
    Ray.Ray_plane_ranges P object st pending hpos⟩
  intro n m hl
  obtain ⟨hn, hm⟩ := (Ray.Ray_live_iff P object st pending n m).mp hl
  rw [Ray.Ray_unitAt P object st pending n m hn hm]

/-- Witness of C1 (amended) on the sample descriptor array, constructed with
the plane counter at 5: unit 0 of object 1 is accepted and live, and starts at
8, where unit 1 of object 0 (start 7, one line) ends. -/
theorem C1_witness :
    (∀ n m : Nat, Ray.accepted sample.objects n m → 0 < Ray.linesizeAt sample.objects n m)
    ∧ Ray.inRange 2 sample.objects { plbuffindex := 5 }
    ∧ Ray.accepted sample.objects 1 0
    ∧ (machine.Ray.Ray 2 sample.objects { plbuffindex := 5 } 0).table.live 1 0
    ∧ ((machine.Ray.Ray 2 sample.objects { plbuffindex := 5 } 0).table.unitAt 0 1).plstart = 7
    ∧ ((machine.Ray.Ray 2 sample.objects { plbuffindex := 5 } 0).table.unitAt 0 1).plsize = 1
    ∧ ((machine.Ray.Ray 2 sample.objects { plbuffindex := 5 } 0).table.unitAt 1 0).plstart = 8
    ∧ ((machine.Ray.Ray 2 sample.objects { plbuffindex := 5 } 0).table.unitAt 1 0).plstart
        = ((machine.Ray.Ray 2 sample.objects { plbuffindex := 5 } 0).table.unitAt 0 1).plstart
          + ((machine.Ray.Ray 2 sample.objects { plbuffindex := 5 } 0).table.unitAt 0 1).plsize :=
  ⟨sample.objects_pos, by decide, by decide,
   ((C1_plane_ranges_contiguous 2 sample.objects { plbuffindex := 5 } 0 sample.objects_pos
      (by decide)).1 1 0).mpr (by decide),
   by decide, by decide, by decide,
   (C1_plane_ranges_contiguous 2 sample.objects { plbuffindex := 5 } 0 sample.objects_pos
      (by decide)).2.2.2.2.1 0 1 (by decide) (by decide)⟩

/-- C2, amended. For a descriptor array whose accepted units all have a positive
line count, constructed on the machine with `POINTS_PER_UNIT > 0` from counters
with which no `int` computation of the constructor leaves the range of `int`,
and whose assembled plane array holds fewer than `2 ^ 32` floats: the only
OpenGL calls of the constructor are the two uploads and the error poll, and the
line count that the constructor passes to `GL_PlaneBuffer_Reset` is the sum of
`plsize` over the live units of the table. -/
theorem C2_upload_lines_eq_plsize_sum (P : Nat) (object : Arr Ray.Object MAXOBJECTSIZE)
    (st : Statics) (pending : Nat) (hP : 0 < P)
    (hpos : ∀ n m : Nat, Ray.accepted object n m → 0 < Ray.linesizeAt object n m)
    (hr : Ray.inRange P object st)
    (hsmall : (machine.Ray.Ray P object st pending).plbuff.length < 2 ^ 32) :
    (machine.Ray.Ray P object st pending).gl =
        GL_PlaneBuffer_Reset P (machine.Ray.Ray P object st pending).st
          (machine.Ray.Ray P object st pending).plbuff
          (machine.Ray.Ray P object st pending).plbufflines
        ++ GL_UnitBuffer_Reset_unitbuff (machine.Ray.Ray P object st pending).st
          (machine.Ray.Ray P object st pending).unitbuff
          (machine.Ray.Ray P object st pending).unitbuffsize
        ++ (GL_CheckError pending).2
    ∧ ((machine.Ray.Ray P object st pending).plbufflines : Int)
      = (machine.Ray.Ray P object st pending).table.plsizeSum := by
  rw [machine_Ray_eq P object st pending hr] at hsmall ⊢
  exact Ray.Ray_upload_lines P object st pending hP hpos hsmall

/-- Witness of C2 (amended) on the sample descriptor array with two floats per
line: seven lines are uploaded. -/
theorem C2_witness :
    0 < 2
    ∧ (∀ n m : Nat, Ray.accepted sample.objects n m →
        0 < Ray.linesizeAt sample.objects n m)
    ∧ Ray.inRange 2 sample.objects {}
    ∧ (machine.Ray.Ray 2 sample.objects {} 0).plbuff.length < 2 ^ 32
    ∧ (machine.Ray.Ray 2 sample.objects {} 0).plbufflines = 7
    ∧ ((machine.Ray.Ray 2 sample.objects {} 0).plbufflines : Int)
        = (machine.Ray.Ray 2 sample.objects {} 0).table.plsizeSum :=
  ⟨by decide, sample.objects_pos, by decide, by decide, by decide,
    (C2_upload_lines_eq_plsize_sum 2 sample.objects {} 0 (by decide)
      (sample.objects_pos) (by decide) (by decide)).2⟩

/-- C6, amended. When the constructor runs on the machine with the plane
counter at 0, every accepted unit has a positive line count and no `int`
computation of the constructor leaves the range of `int`, then for every live
unit and every `i < plsize`, each of the `POINTS_PER_UNIT` floats of line
`plstart + i` of the assembled plane array is the same float of line `i` of
that unit's descriptor plane data. -/
theorem C6_plbuff_lines (P : Nat) (object : Arr Ray.Object MAXOBJECTSIZE)
    (st : Statics) (pending : Nat) (h0 : getplbuffindex st = 0)
    (hpos : ∀ n m : Nat, Ray.accepted object n m → 0 < Ray.linesizeAt object n m)
    (hr : Ray.inRange P object st)
    (n m i k : Nat) (hl : (machine.Ray.Ray P object st pending).table.live n m)
    (hi : (i : Int) < ((machine.Ray.Ray P object st pending).table.unitAt n m).plsize)
    (hk : k < P) :
    (machine.Ray.Ray P object st pending).plbuff[
        P * (((machine.Ray.Ray P object st pending).table.unitAt n m).plstart + i).toNat + k]?
      = some ((Arr.get (Arr.get object n).unit m).buff (P * i + k)) := by
  rw [machine_Ray_eq P object st pending hr] at hl hi ⊢
  exact Ray.Ray_plbuff_lines P object st pending h0 hpos n m i k hl hi hk

/-- Witness of C6 (amended) on the sample descriptor array: float 1 of line 2
of unit 1 of object 1 is float 1 of line `plstart + 2 = 6` of the assembled array. -/
theorem C6_witness :
    getplbuffindex {} = 0
    ∧ (∀ n m : Nat, Ray.accepted sample.objects n m →
        0 < Ray.linesizeAt sample.objects n m)
    ∧ Ray.inRange 2 sample.objects {}
    ∧ (machine.Ray.Ray 2 sample.objects {} 0).table.live 1 1
    ∧ ((2 : Nat) : Int) < ((machine.Ray.Ray 2 sample.objects {} 0).table.unitAt 1 1).plsize
    ∧ ((machine.Ray.Ray 2 sample.objects {} 0).table.unitAt 1 1).plstart + (2 : Nat) = 6
    ∧ (machine.Ray.Ray 2 sample.objects {} 0).plbuff[
          2 * (((machine.Ray.Ray 2 sample.objects {} 0).table.unitAt 1 1).plstart
            + (2 : Nat)).toNat + 1]?
        = some ((Arr.get (Arr.get sample.objects 1).unit 1).buff (2 * 2 + 1)) :=
  ⟨rfl, sample.objects_pos, by decide, by decide, by decide, by decide,
   C6_plbuff_lines 2 sample.objects {} 0 rfl (sample.objects_pos) (by decide) 1 1 2 1
     (by decide) (by decide) (by decide)⟩

/-- A loop over `0..k-1` whose body keeps a quantity keeps it. -/
theorem foldl_range_preserves {β γ : Type} (f : β → Nat → β) (p : β → γ) (k : Nat) (b : β)
    (h : ∀ (x : β) (i : Nat), p (f x i) = p x) : p ((List.range k).foldl f b) = p b := by
  induction k with
  | zero => rfl
  | succ k ih => rw [foldl_range_succ, h, ih]

theorem machine_upload_counters (table : Table) (g : Gpu) :
    (machine.Ray.Update.upload table g).st.counters = g.st.counters := by
  unfold machine.Ray.Update.upload
  apply foldl_range_preserves _ (fun g : Gpu => g.st.counters)
  intro x n
  exact (foldl_range_preserves (fun g _ => machine.GL_UnitBuffer_Update g)
    (fun g : Gpu => g.st.counters) _ _ (fun _ _ => rfl)).trans rfl

theorem machine_passes_counters (table : Table) (g : Gpu) :
    (machine.Ray.Update.passes table g).st.counters = g.st.counters := by
  unfold machine.Ray.Update.passes
  apply foldl_range_preserves _ (fun g : Gpu => g.st.counters)
  intro x n
  exact (foldl_range_preserves
    (fun g m => machine.GL_Ray2Buffer_Update (Arr.get (Arr.get table.object n).unit m) g)
    (fun g : Gpu => g.st.counters) _ _ (fun _ _ => rfl)).trans rfl

/-- A call of `Ray::Update` on the machine that returns leaves both allocator
counters as they were. -/
theorem machine_Update_counters (F : FloatOps) (cam : Camera) (table : Table) (st : Statics)
    (pending : Nat) (frame : Ray.Frame)
    (h : machine.Ray.Update F cam table st pending = some frame) :
    frame.st.counters = st.counters := by
  simp only [machine.Ray.Update] at h
  cases hm : machine.Ray.Update.movements F (SetViewmat4 F cam (SetNewFrame st)) table with
  | none => rw [hm] at h; exact absurd h (by simp)
  | some table1 =>
    rw [hm] at h
    simp only [Option.map_some', Option.some.injEq] at h
    subst h
    have e : ∀ g : Gpu, (if (GL_CheckError pending).1 = true then IsFirstUpdError g.st
        else (false, g.st)).2.counters = g.st.counters := by
      intro g
      split <;> rfl
    show (if (GL_CheckError pending).1 = true then IsFirstUpdError _ else (false, _)).2.counters = _
    rw [e ((GL_DrawBuffer_Update (machine.Ray.Update.passes table1 (GL_SelectionBuffer_Reset
      (machine.Ray.Update.upload table1 { st := SetViewmat4 F cam (SetNewFrame st) })))).emit
      (GL_CheckError pending).2)]
    show (machine.Ray.Update.passes table1 _).st.counters = _
    rw [machine_passes_counters]
    show (machine.Ray.Update.upload table1 _).st.counters = _
    rw [machine_upload_counters]
    rfl

/-- C22 fails as stated.  The accepted units of `sample.objects` have positive
line counts, 7 lines in all.  Constructed on the machine with the plane counter
at 2147483647, the counter is -2147483642 afterwards: it is not `p0 + 7` and it
has decreased.  One `plbuffindex += 1` from 2147483647 leaves -2147483648. -/
theorem C22_counterexample :
    (∀ n m : Nat, Ray.accepted sample.objects n m → 0 < Ray.linesizeAt sample.objects n m)
    ∧ (machine.Ray.Ray 2 sample.objects { plbuffindex := 2147483647 } 0).table.plsizeSum = 7
    ∧ (machine.Ray.Ray 2 sample.objects { plbuffindex := 2147483647 } 0).st.plbuffindex
        = -2147483642
    ∧ (machine.Ray.Ray 2 sample.objects { plbuffindex := 2147483647 } 0).st.plbuffindex
        ≠ 2147483647 + 7
    ∧ (machine.Ray.Ray 2 sample.objects { plbuffindex := 2147483647 } 0).st.plbuffindex
        < 2147483647
    ∧ (machine.setnewplbuffindex { plbuffindex := 2147483647 } 1).plbuffindex = -2147483648 :=
  ⟨sample.objects_pos, by decide, by decide, by decide, by decide, by decide⟩

theorem machine_Ray_upload_offsets (P : Nat) (object : Arr Ray.Object MAXOBJECTSIZE)
    (st : Statics) (pending : Nat) :
    (uploads (machine.Ray.Ray P object st pending).gl).map (fun u => u.1) = [0, 0] := by
  simp [machine.Ray.Ray, uploads_append, GL_PlaneBuffer_Reset, GL_UnitBuffer_Reset_unitbuff,
    GL_CheckError, uploads_replicate_glGetError, uploads]

/-- C22, amended. When no `int` computation of the constructor leaves the range
of `int`, the constructor on the machine, started with the plane and unit
counters at `p0` and `u0`, leaves them at `p0 + P` and `u0 + U`, where `P` is
the sum of `plsize` over the live units of the new table and `U` the sum of
`unitsize` over its live objects; with non-negative accepted line counts
neither counter has decreased; and when object 0 is live its first unit has
`plstart = p0` and the object has `unitstart = u0`.  In every run the two
uploads of the constructor are made at offset 0; advancing one counter leaves
the other unchanged, and gives the exact sum when that fits an `int`; and the
destructor, a `Ray::Update` that returns, `Ray::Initialize` and `Ray::Release`
leave both counters unchanged. -/
theorem C22_counters_only_advance (P : Nat) (object : Arr Ray.Object MAXOBJECTSIZE)
    (st : Statics) (pending : Nat) :
    (Ray.inRange P object st →
      (machine.Ray.Ray P object st pending).st.counters
          = (st.plbuffindex + (machine.Ray.Ray P object st pending).table.plsizeSum,
             st.unitbuffindex + (machine.Ray.Ray P object st pending).table.unitsizeSum)
      ∧ ((∀ n m : Nat, Ray.accepted object n m → 0 ≤ Ray.linesizeAt object n m) →
          st.plbuffindex ≤ (machine.Ray.Ray P object st pending).st.plbuffindex
          ∧ st.unitbuffindex ≤ (machine.Ray.Ray P object st pending).st.unitbuffindex)
      ∧ ((0 : Int) < (machine.Ray.Ray P object st pending).table.objectsize →
          ((machine.Ray.Ray P object st pending).table.unitAt 0 0).plstart = st.plbuffindex
          ∧ (Arr.get (machine.Ray.Ray P object st pending).table.object 0).unitstart
              = st.unitbuffindex))
    ∧ (uploads (machine.Ray.Ray P object st pending).gl).map (fun u => u.1) = [0, 0]
    ∧ (∀ k : Int,
        (machine.setnewplbuffindex st k).unitbuffindex = st.unitbuffindex
        ∧ (int32.inRange (st.plbuffindex + k) →
            (machine.setnewplbuffindex st k).plbuffindex = st.plbuffindex + k)
        ∧ (machine.setunitbuffindex st k).plbuffindex = st.plbuffindex
        ∧ (int32.inRange (st.unitbuffindex + k) →
            (machine.setunitbuffindex st k).unitbuffindex = st.unitbuffindex + k))
    ∧ (∀ table : Option Table, (Ray.destructor table st).2.counters = st.counters)
    ∧ (∀ (F : FloatOps) (cam : Camera) (table : Table) (k : Nat) (frame : Ray.Frame),
        machine.Ray.Update F cam table st k = some frame → frame.st.counters = st.counters)
    ∧ (∀ (B : Backend) (I : Inputs) (k : Nat) (h : Host), h.st = st →
        (Ray.Initialize B I k h).st.counters = st.counters)
    ∧ (∀ (B : Backend) (k : Nat) (h : Host), h.st = st →
        (Ray.Release B k h).st.counters = st.counters) := by
  refine ⟨?_, machine_Ray_upload_offsets P object st pending, ?_, fun _ => rfl, ?_, ?_, ?_⟩
  · intro hr
    rw [machine_Ray_eq P object st pending hr]
    refine ⟨?_, ?_, ?_⟩
    · rw [Ray.Ray_counters, Ray.Ray_plsizeSum, Ray.Ray_unitsizeSum]
    · intro h0
      have hc := Ray.Ray_counters P object st pending
      have h1 : (Ray.Ray P object st pending).st.plbuffindex
          = st.plbuffindex + ∑ n in Finset.range (Ray.objectcount object),
              ∑ m in Finset.range (Ray.unitcount (Arr.get object n)), Ray.linesizeAt object n m :=
        congrArg Prod.fst hc
      have h2 : (Ray.Ray P object st pending).st.unitbuffindex
          = st.unitbuffindex + ∑ n in Finset.range (Ray.objectcount object),
              (Ray.unitcount (Arr.get object n) : Int) := congrArg Prod.snd hc
      have hnn : ∀ n m : Nat, n < Ray.objectcount object →
          m < Ray.unitcount (Arr.get object n) → 0 ≤ Ray.linesizeAt object n m := by
        intro n m hn hm
        exact h0 n m ((Ray.Ray_live_iff_accepted P object st pending n m).mp
          ((Ray.Ray_live_iff P object st pending n m).mpr ⟨hn, hm⟩))
      constructor
      · rw [h1]
        have : 0 ≤ ∑ n in Finset.range (Ray.objectcount object),
            ∑ m in Finset.range (Ray.unitcount (Arr.get object n)), Ray.linesizeAt object n m :=
          Finset.sum_nonneg (fun n hn => Finset.sum_nonneg (fun m hm =>
            hnn n m (Finset.mem_range.mp hn) (Finset.mem_range.mp hm)))
        omega
      · rw [h2]
        have : 0 ≤ ∑ n in Finset.range (Ray.objectcount object),
            (Ray.unitcount (Arr.get object n) : Int) :=
          Finset.sum_nonneg (fun n _ => Int.natCast_nonneg _)
        omega
    · intro hl
      have hn : 0 < Ray.objectcount object :=
        (Ray.Ray_liveobject_iff P object st pending 0).mp (by exact_mod_cast hl)
      have h0 : (Arr.get (Arr.get object 0).unit 0).linesize ≠ 0 := by
        have := Ray.nobjects_ne object MAXOBJECTSIZE 0 0 hn
        simpa using this
      constructor
      · rw [Ray.Ray_unitAt P object st pending 0 0 hn (Ray.unitcount_pos _ h0)]
        simp
      · rw [Ray.Ray_unitstart P object st pending 0 hn]
        simp
  · intro k
    refine ⟨rfl, fun h => ?_, rfl, fun h => ?_⟩
    · exact int32_of_inRange h
    · exact int32_of_inRange h
  · intro F cam table k frame h
    exact machine_Update_counters F cam table st k frame h
  · intro B I k h hst
    rw [← hst]
    exact Ray.Initialize_counters B I k h
  · intro B k h hst
    rw [← hst]
    exact Ray.Release_counters B k h

/-- Witness of C22 (amended): the sample descriptor array constructed on the
machine with the counters at 5 and 3 leaves them at 12 and 7, its first unit
starts at 5 and its first object at 3. -/
theorem C22_witness :
    Ray.inRange 2 sample.objects { plbuffindex := 5, unitbuffindex := 3 }
    ∧ (machine.Ray.Ray 2 sample.objects { plbuffindex := 5, unitbuffindex := 3 } 0).st.counters
        = (12, 7)
    ∧ ((5 : Int) ≤ (machine.Ray.Ray 2 sample.objects { plbuffindex := 5, unitbuffindex := 3 }
          0).st.plbuffindex
      ∧ (3 : Int) ≤ (machine.Ray.Ray 2 sample.objects { plbuffindex := 5, unitbuffindex := 3 }
          0).st.unitbuffindex)
    ∧ (((machine.Ray.Ray 2 sample.objects { plbuffindex := 5, unitbuffindex := 3 } 0).table.unitAt
          0 0).plstart = 5
      ∧ (Arr.get (machine.Ray.Ray 2 sample.objects { plbuffindex := 5, unitbuffindex := 3 }
          0).table.object 0).unitstart = 3) :=
  ⟨by decide,
   ((C22_counters_only_advance 2 sample.objects { plbuffindex := 5, unitbuffindex := 3 } 0).1
      (by decide)).1.trans (by decide),
   ((C22_counters_only_advance 2 sample.objects { plbuffindex := 5, unitbuffindex := 3 } 0).1
      (by decide)).2.1 (fun n m h => le_of_lt (sample.objects_pos n m h)),
   ((C22_counters_only_advance 2 sample.objects { plbuffindex := 5, unitbuffindex := 3 } 0).1
      (by decide)).2.2 (by decide)⟩

/-- C10 fails as stated.  The table that the constructor builds from
`sample.noUpdate` has one live unit, and its object 0 has no update function.
`Ray::Update` on the machine then ends at line 107: it does not return and it
issues no upload, where the claim lists one. -/
theorem C10_counterexample :
    (machine.Ray.Ray 2 sample.noUpdate {} 0).table.live 0 0
    ∧ ((List.range (machine.Ray.Ray 2 sample.noUpdate {} 0).table.objectsize.toNat).map
        (fun n => (Arr.get (machine.Ray.Ray 2 sample.noUpdate {} 0).table.object
          n).unitsize.toNat)).sum = 1
    ∧ (Arr.get (machine.Ray.Ray 2 sample.noUpdate {} 0).table.object 0).updatemat4
        = UpdateFn.nullptr
    ∧ machine.Ray.Update sample.F {} (machine.Ray.Ray 2 sample.noUpdate {} 0).table {} 0 = none
    ∧ uploads (machine.Ray.Update.issued sample.F {}
        (machine.Ray.Ray 2 sample.noUpdate {} 0).table {} 0) = [] := by
  have h := machine_Update_none sample.F {} (machine.Ray.Ray 2 sample.noUpdate {} 0).table {} 0
    (by decide)
  refine ⟨by decide, by decide, by decide, h.1, ?_⟩
  rw [h.2]
  rfl

/-- C10, amended. For a table whose objects `n < objectsize` all have an update
function and on which no `int` computation of `Ray::Update` leaves the range of
`int`, one `Ray::Update` on the machine returns, and its `glBufferSubData` calls
are exactly, for each live object `n` in ascending order and each `m` from 0 to
`unitsize - 1` in ascending order, one write of the 64 matrix bytes at record
`unitstart + m`; the matrix written is the model matrix that the table holds for
object `n` afterwards, which is what this frame's update function (run with the
frame counter already advanced) returned on the matrix the table held before;
so the number of uploads is the number of live units. -/
theorem C10_upload_sequence (F : FloatOps) (cam : Camera) (table : Table) (st : Statics)
    (pending : Nat) (hfn : table.hasUpdateFns) (hr : Ray.Update.inRange table) :
    ∃ frame : Ray.Frame,
      machine.Ray.Update F cam table st pending = some frame
      ∧ machine.Ray.Update.issued F cam table st pending = frame.gl
      ∧ uploads frame.gl
        = (List.range table.objectsize.toNat).flatMap (fun n =>
            (List.range (Arr.get table.object n).unitsize.toNat).map (fun (m : Nat) =>
              ((sizeof_data_Unit : Int) * ((Arr.get table.object n).unitstart + (m : Int)),
                (sizeof_modelmat4 : Int),
                Mat4.bytes (Arr.get frame.table.object n).modelmat4)))
      ∧ (∀ n : Nat, (n : Int) < table.objectsize →
          machine.UpdateFn.call F (SetViewmat4 F cam (SetNewFrame st))
              (Arr.get table.object n).updatemat4 (Arr.get table.object n).modelmat4
            = some (Arr.get frame.table.object n).modelmat4)
      ∧ (uploads frame.gl).length
        = ((List.range table.objectsize.toNat).map
            (fun n => (Arr.get table.object n).unitsize.toNat)).sum := by
  have he := machine_Update_eq F cam table st pending hfn hr
  have hmat : ∀ n : Nat, n < table.objectsize.toNat →
      (Arr.get (Ray.Update F cam table st pending).table.object n).modelmat4
        = UpdateFn.call F (SetViewmat4 F cam (SetNewFrame st))
            (Arr.get table.object n).updatemat4 (Arr.get table.object n).modelmat4 := by
    intro n hn
    rw [(Ray.Update_table F cam table st pending n).2, if_pos (by omega)]
  have hseq : uploads (Ray.Update F cam table st pending).gl
      = (List.range table.objectsize.toNat).flatMap (fun n =>
          (List.range (Arr.get table.object n).unitsize.toNat).map (fun (m : Nat) =>
            ((sizeof_data_Unit : Int) * ((Arr.get table.object n).unitstart + (m : Int)),
              (sizeof_modelmat4 : Int),
              Mat4.bytes (Arr.get (Ray.Update F cam table st pending).table.object
                n).modelmat4))) := by
    rw [Ray.Update_upload_sequence]
    apply flatMap_range_congr
    intro n hn
    rw [hmat n hn]
  refine ⟨Ray.Update F cam table st pending, he, ?_, hseq, ?_, ?_⟩
  · simp only [machine.Ray.Update.issued, he]
  · intro n hlt
    rw [machine_call_of_ne F _ _ _ (hfn n (by omega)), hmat n (by omega)]
  · rw [hseq, List.length_flatMap]
    congr 1
    apply List.map_congr_left
    intro n _
    simp

/-- Witness of C10 (amended) on the table built from the sample descriptor
array: four live units, written at records 0, 1, 2, 3 in that order. -/
theorem C10_witness :
    (machine.Ray.Ray 2 sample.objects {} 0).table.hasUpdateFns
    ∧ Ray.Update.inRange (machine.Ray.Ray 2 sample.objects {} 0).table
    ∧ ∃ frame : Ray.Frame,
        machine.Ray.Update sample.F {} (machine.Ray.Ray 2 sample.objects {} 0).table {} 0
          = some frame
        ∧ (uploads frame.gl).map (fun u => (u.1, u.2.1))
          = [(0, 64), (80, 64), (160, 64), (240, 64)] := by
  refine ⟨by decide, by decide, ?_⟩
  obtain ⟨frame, h1, -, h2, -, -⟩ := C10_upload_sequence sample.F {}
    (machine.Ray.Ray 2 sample.objects {} 0).table {} 0 (by decide) (by decide)
  refine ⟨frame, h1, ?_⟩
  rw [h2]
  simp only [List.map_flatMap, List.map_map, Function.comp_def]
  decide

/-- C17 fails as stated.  The table that the constructor builds from
`sample.noUpdate` has a live unit, and its object 0 has no update function.
`Ray::Update` on the machine then ends at line 107, before the Selection reset:
it does not return and no render pass is issued. -/
theorem C17_counterexample :
    (machine.Ray.Ray 2 sample.noUpdate {} 0).table.live 0 0
    ∧ (Arr.get (machine.Ray.Ray 2 sample.noUpdate {} 0).table.object 0).updatemat4
        = UpdateFn.nullptr
    ∧ machine.Ray.Update sample.F {} (machine.Ray.Ray 2 sample.noUpdate {} 0).table
        sample.handles 0 = none
    ∧ renders {} (machine.Ray.Update.issued sample.F {}
        (machine.Ray.Ray 2 sample.noUpdate {} 0).table sample.handles 0) = [] := by
  have h := machine_Update_none sample.F {} (machine.Ray.Ray 2 sample.noUpdate {} 0).table
    sample.handles 0 (by decide)
  refine ⟨by decide, by decide, h.1, ?_⟩
  rw [h.2]
  rfl

/-- C17, amended. For every table whose objects `n < objectsize` all have an
update function and on which no `int` computation of `Ray::Update` leaves the
range of `int`, for every statics, camera and error count, and whatever the
OpenGL context was before, one `Ray::Update` on the machine returns, and the
render passes it issued (clears and draws, each with the frame buffer, program,
depth function and uniforms in effect) are exactly: the Selection reset; then
for each object `n < objectsize` in ascending order the Ray2 clear, for each
unit `m < unitsize` in ascending order the Phase A draw followed by the Phase B
draw, and the Selection draw of that object; then the clear and the draw of
the final pass on the default frame buffer. -/
theorem C17_pass_sequence (F : FloatOps) (cam : Camera) (table : Table) (st : Statics)
    (pending : Nat) (c0 : GLContext) (hfn : table.hasUpdateFns)
    (hr : Ray.Update.inRange table) :
    ∃ frame : Ray.Frame,
      machine.Ray.Update F cam table st pending = some frame
      ∧ machine.Ray.Update.issued F cam table st pending = frame.gl
      ∧ renders c0 frame.gl
        = [Pass.selectionReset (SetViewmat4 F cam (SetNewFrame st))]
          ++ (List.range table.objectsize.toNat).flatMap (fun n =>
              [Pass.ray2Clear (SetViewmat4 F cam (SetNewFrame st))]
              ++ (List.range (Arr.get table.object n).unitsize.toNat).flatMap (fun m =>
                  [Pass.phaseA (SetViewmat4 F cam (SetNewFrame st)) m,
                   Pass.phaseB (SetViewmat4 F cam (SetNewFrame st)) (Arr.get table.object n) m])
              ++ [Pass.selection (SetViewmat4 F cam (SetNewFrame st))])
          ++ [Pass.finalClear, Pass.finalDraw (SetViewmat4 F cam (SetNewFrame st))] := by
  have he := machine_Update_eq F cam table st pending hfn hr
  refine ⟨Ray.Update F cam table st pending, he, ?_, ?_⟩
  · simp only [machine.Ray.Update.issued, he]
  · rw [Ray.Update_renders]
    rfl

/-- Witness of C17 (amended) on the table built from the sample descriptor
array: one frame issues 15 passes, the first of them the Selection reset. -/
theorem C17_witness :
    (machine.Ray.Ray 2 sample.objects {} 0).table.hasUpdateFns
    ∧ Ray.Update.inRange (machine.Ray.Ray 2 sample.objects {} 0).table
    ∧ ∃ frame : Ray.Frame,
        machine.Ray.Update sample.F {} (machine.Ray.Ray 2 sample.objects {} 0).table
          sample.handles 0 = some frame
        ∧ (renders {} frame.gl).length = 15
        ∧ (renders {} frame.gl).head?
          = some (Pass.clear 2 [GLenum.GL_DEPTH_BUFFER_BIT, GLenum.GL_COLOR_BUFFER_BIT]
              float.one) := by
  refine ⟨by decide, by decide, ?_⟩
  obtain ⟨frame, h1, -, h2⟩ := C17_pass_sequence sample.F {}
    (machine.Ray.Ray 2 sample.objects {} 0).table sample.handles 0 {} (by decide) (by decide)
  refine ⟨frame, h1, ?_, ?_⟩
  · rw [h2]
    decide
  · rw [h2]
    rfl

/-- C18 fails as stated.  In `sample.wide` unit 0 of object 0 is live with
`plsize = 400000000` and the object has an update function.  One `Ray::Update`
on the machine returns, and its Phase B draw for that unit is issued with the
count -1894967296, the `int` product `6 * plsize` wrapped, not with
`6 * plsize = 2400000000` vertices. -/
theorem C18_counterexample :
    sample.wide.live 0 0
    ∧ (sample.wide.unitAt 0 0).plsize = 400000000
    ∧ (machine.Ray.Update sample.F {} sample.wide sample.handles 0).map
        (fun frame => (renders {} frame.gl).filterMap Pass.drawArgs)
      = some [ (6, [("unitsegment", 0)]),
               (-1894967296, [("plstart", 0), ("unitindex", 0), ("unitsegment", 0)]),
               (6, []),
               (6, []) ]
    ∧ (-1894967296 : Int) ≠ 6 * (sample.wide.unitAt 0 0).plsize := by
  refine ⟨by decide, by decide, ?_, by decide⟩
  decide

/-- C18, amended. For every table whose objects `n < objectsize` all have an
update function and on which no `int` computation of `Ray::Update` leaves the
range of `int` (in particular `6 * plsize` of every live unit), one
`Ray::Update` on the machine returns, and its draws take these counts and
integer uniforms, in order: for each object `n < objectsize` and each unit
`m < unitsize`, Phase A draws 6 vertices with `unitsegment = m`, and Phase B
draws `6 * plsize` vertices with `plstart` the plane start of the unit,
`unitindex = unitstart + m` and `unitsegment = m`; the Selection draw and the
final draw take 6 vertices and no integer uniform. When the table was built by
the constructor on the machine, with no `int` computation of the constructor
leaving the range of `int`, every `unitsegment` so passed is at least 0 and less
than `MAXUNITSIZE`. -/
theorem C18_ray2_pass_arguments (F : FloatOps) (cam : Camera) (table : Table) (st : Statics)
    (pending : Nat) (c0 : GLContext) (hfn : table.hasUpdateFns)
    (hr : Ray.Update.inRange table) :
    ∃ frame : Ray.Frame,
      machine.Ray.Update F cam table st pending = some frame
      ∧ (renders c0 frame.gl).filterMap Pass.drawArgs
        = (List.range table.objectsize.toNat).flatMap (fun n =>
            (List.range (Arr.get table.object n).unitsize.toNat).flatMap (fun m =>
              [((6 : Int), [("unitsegment", (m : Int))]),
               (6 * (table.unitAt n m).plsize,
                [("plstart", (table.unitAt n m).plstart),
                 ("unitindex", (Arr.get table.object n).unitstart + (m : Int)),
                 ("unitsegment", (m : Int))])])
            ++ [((6 : Int), [])])
          ++ [((6 : Int), [])]
      ∧ ∀ (P : Nat) (object : Arr Ray.Object MAXOBJECTSIZE) (st0 : Statics) (pending0 : Nat),
          Ray.inRange P object st0 → table = (machine.Ray.Ray P object st0 pending0).table →
          ∀ (args : Int × List (String × Int)) (v : Int),
            args ∈ (renders c0 frame.gl).filterMap Pass.drawArgs →
            ("unitsegment", v) ∈ args.2 → 0 ≤ v ∧ v < (MAXUNITSIZE : Int) := by
  have he := machine_Update_eq F cam table st pending hfn hr
  refine ⟨Ray.Update F cam table st pending, he,
    (Ray.Update_drawArgs_bound F cam table st pending c0).1, ?_⟩
  intro P object st0 pending0 hr0 htable args v hargs hv
  rw [machine_Ray_eq P object st0 pending0 hr0] at htable
  subst htable
  exact (Ray.Update_drawArgs_bound F cam (Ray.Ray P object st0 pending0).table st pending c0).2
    P object st0 pending0 args v hargs hv

/-- Witness of C18 (amended) on the table built from the sample descriptor
array. -/
theorem C18_witness :
    (machine.Ray.Ray 2 sample.objects {} 0).table.hasUpdateFns
    ∧ Ray.Update.inRange (machine.Ray.Ray 2 sample.objects {} 0).table
    ∧ ∃ frame : Ray.Frame,
        machine.Ray.Update sample.F {} (machine.Ray.Ray 2 sample.objects {} 0).table
          sample.handles 0 = some frame
        ∧ (renders {} frame.gl).filterMap Pass.drawArgs
          = [(6, [("unitsegment", 0)]),
             (12, [("plstart", 0), ("unitindex", 0), ("unitsegment", 0)]),
             (6, [("unitsegment", 1)]),
             (6, [("plstart", 2), ("unitindex", 1), ("unitsegment", 1)]),
             (6, []),
             (6, [("unitsegment", 0)]),
             (6, [("plstart", 3), ("unitindex", 2), ("unitsegment", 0)]),
             (6, [("unitsegment", 1)]),
             (18, [("plstart", 4), ("unitindex", 3), ("unitsegment", 1)]),
             (6, []),
             (6, [])] := by
  refine ⟨by decide, by decide, ?_⟩
  obtain ⟨frame, h1, h2, -⟩ := C18_ray2_pass_arguments sample.F {}
    (machine.Ray.Ray 2 sample.objects {} 0).table sample.handles 0 {} (by decide) (by decide)
  exact ⟨frame, h1, h2.trans (by decide)⟩

theorem sample.huge_inRange : Ray.inRange 12 sample.huge {} := by decide

/-- C2 fails as stated.  With an accepted unit of line count -1 the upload gets
4 lines while the live `plsize` values sum to 3; with 5400000000 assembled
floats the `(unsigned int)` narrowing leaves 92086058 lines while the live
`plsize` values sum to 450000000.  No `int` leaves its range in either run, and
the run on the machine gives the same. -/
theorem C2_counterexample :
    ((Ray.Ray 2 sample.negative {} 0).plbufflines : Int)
        ≠ (Ray.Ray 2 sample.negative {} 0).table.plsizeSum
    ∧ ((Ray.Ray 12 sample.huge {} 0).plbufflines : Int)
        ≠ (Ray.Ray 12 sample.huge {} 0).table.plsizeSum
    ∧ ((machine.Ray.Ray 2 sample.negative {} 0).plbufflines : Int)
        ≠ (machine.Ray.Ray 2 sample.negative {} 0).table.plsizeSum
    ∧ ((machine.Ray.Ray 12 sample.huge {} 0).plbufflines : Int)
        ≠ (machine.Ray.Ray 12 sample.huge {} 0).table.plsizeSum := by
  have h : ((Ray.Ray 12 sample.huge {} 0).plbufflines : Int)
      ≠ (Ray.Ray 12 sample.huge {} 0).table.plsizeSum := by
    rw [sample.huge_plbufflines, sample.huge_plsizeSum]
    norm_num
  refine ⟨by decide, h, by decide, ?_⟩
  rw [machine_Ray_eq 12 sample.huge {} 0 sample.huge_inRange]
  exact h

/-- C6 fails as stated.  In `sample.negative`, built with the plane counter at 0
and two floats per line, unit 2 of object 0 is live with `plstart = 1` and
`plsize = 2`, and float 0 of line `plstart + 0` of the assembled array is not
float 0 of line 0 of that unit's plane data.  The run on the machine gives the
same. -/
theorem C6_counterexample :
    getplbuffindex {} = 0
    ∧ (Ray.Ray 2 sample.negative {} 0).table.live 0 2
    ∧ ((0 : Nat) : Int) < ((Ray.Ray 2 sample.negative {} 0).table.unitAt 0 2).plsize
    ∧ (Ray.Ray 2 sample.negative {} 0).plbuff[
          2 * (((Ray.Ray 2 sample.negative {} 0).table.unitAt 0 2).plstart + (0 : Nat)).toNat + 0]?
        ≠ some ((Arr.get (Arr.get sample.negative 0).unit 2).buff (2 * 0 + 0))
    ∧ (machine.Ray.Ray 2 sample.negative {} 0).table.live 0 2
    ∧ ((0 : Nat) : Int) < ((machine.Ray.Ray 2 sample.negative {} 0).table.unitAt 0 2).plsize
    ∧ (machine.Ray.Ray 2 sample.negative {} 0).plbuff[
          2 * (((machine.Ray.Ray 2 sample.negative {} 0).table.unitAt 0 2).plstart
            + (0 : Nat)).toNat + 0]?
        ≠ some ((Arr.get (Arr.get sample.negative 0).unit 2).buff (2 * 0 + 0)) := by
  decide

end ray
